import Mathlib

/-!
# Loading-screen controllers of the page scripts

A shallow embedding of the loading-screen class that every page script
(`about-us-loading.js`, `index-loading.js`, ...) defines, together with the
browser facilities it touches: the overlay element, the body scroll lock, the
timer queue, the `load` event and the navigation-timing observer.

Time is the millisecond clock that `Date.now()` reads.  Timers are idealised:
a callback runs exactly when its delay has elapsed.
-/

namespace LoadingScreen

/-! ## JavaScript numbers -/

/-- JavaScript number values the controller computes with: an integral
millisecond count, or NaN. -/
inductive JSNum where
  | num (v : Int)
  | nan
deriving DecidableEq, Repr

/-- ToNumber applied to the result of a property read: a property that was
never assigned reads as `undefined` (here `none`), which converts to NaN. -/
def toNumber : Option Int → JSNum
  | some v => JSNum.num v
  | none => JSNum.nan

/-- The binary `-` operator on numbers. -/
def JSNum.sub : JSNum → JSNum → JSNum
  | JSNum.num a, JSNum.num b => JSNum.num (a - b)
  | _, _ => JSNum.nan

/-- Function `Math.max(a, b)`: NaN as soon as one argument is NaN. -/
def mathMax : JSNum → JSNum → JSNum
  | JSNum.num a, JSNum.num b => JSNum.num (max a b)
  | _, _ => JSNum.nan

/-- The delay `setTimeout` really waits for a given delay argument: NaN and
negative values count as 0.  (Delays stay far below 2^31 in every script, the
range in which the platform takes the argument as it is.) -/
def timerDelay : JSNum → Nat
  | JSNum.num v => v.toNat
  | JSNum.nan => 0

/-! ## Page, controller and event-loop state -/

/-- The `#loading-screen` element: the inline style properties the scripts
write, and its class list. -/
structure Element where
  display : String
  opacity : String
  visibility : String
  classList : List String
deriving DecidableEq, Repr

/-- Method `classList.add(c)`: the token is appended unless already present. -/
def classAdd (c : String) (l : List String) : List String :=
  if c ∈ l then l else l ++ [c]

/-- Method `classList.remove(c)`. -/
def classRemove (c : String) (l : List String) : List String :=
  l.filter (fun x => x ≠ c)

/-- The per-class constants: the three durations set by the constructor and
the `criticalElements` selector list of `checkCriticalElements`. -/
structure Config where
  minLoadingTime : Nat
  maxLoadingTime : Nat
  fadeOutDuration : Nat
  criticalElements : List String
deriving DecidableEq, Repr

/-- The controller object (`this`).  `loadingScreen` tells whether
`this.loadingScreen` holds the overlay element (`true`) or `null` (`false`).
`startTime` is what reading `this.startTime` yields: `none` is `undefined`. -/
structure Controller where
  loadingScreen : Bool
  minLoadingTime : Nat
  maxLoadingTime : Nat
  fadeOutDuration : Nat
  startTime : Option Int
  criticalElements : List String
deriving DecidableEq, Repr

/-- The callbacks the controller hands to `setTimeout`. -/
inductive Callback where
  /-- The arrow function `() => this.scheduleHideLoadingScreen()` of the timeout fallback. -/
  | timeoutFallback
  /-- The function `checkElements` of the structural poll. -/
  | checkElements
  /-- The arrow function `() => this.hideLoadingScreen()` of `scheduleHideLoadingScreen`. -/
  | hide
  /-- The fade callback of `hideLoadingScreen`. -/
  | detach
deriving DecidableEq, Repr

/-- A pending timer: the clock reading at which it is due and its callback. -/
structure Timer where
  due : Nat
  cb : Callback
deriving DecidableEq, Repr

/-- What the instrumented controller records in the trace. -/
inductive Action where
  /-- Method `scheduleHideLoadingScreen` ran and passed this delay to `setTimeout`. -/
  | scheduled (remainingTime : JSNum)
  /-- The body of `hideLoadingScreen` ran (past its guard). -/
  | fadeOut
  /-- The fade callback ran to its end. -/
  | detached
  /-- Call `console.warn('Loading screen element not found')`. -/
  | warnMissing
  /-- Call `console.warn('Performance Observer not supported:', error)`. -/
  | warnObserver
  /-- Call `console.log('... loading screen initialized')`. -/
  | initialized
  /-- A callback threw and the exception reached the event loop. -/
  | uncaught
  /-- The structural poll `checkElements` ran and computed this `allLoaded`. -/
  | polled (allLoaded : Bool)
deriving DecidableEq, Repr

/-- One trace entry: when the action happened and what the page looked like
right after it. -/
structure Entry where
  time : Nat
  act : Action
  overlay : Option Element
  bodyOverflow : String
deriving DecidableEq, Repr

/-- Whether the page offers `PerformanceObserver`, and whether creating or
registering a navigation observer works. -/
inductive ObserverSupport where
  | absent
  | throws
  | available
deriving DecidableEq, Repr

/-- The page together with the controller and the event loop. -/
structure World where
  /-- The clock: what `Date.now()` returns. -/
  now : Nat
  /-- The element `document.getElementById('loading-screen')` returns. -/
  overlay : Option Element
  /-- The inline `document.body.style.overflow`. -/
  bodyOverflow : String
  /-- The selectors for which `document.querySelector` returns an element. -/
  resolved : List String
  perfObserver : ObserverSupport
  ctl : Controller
  /-- Pending timers, in registration order. -/
  timers : List Timer
  /-- Registered `load` listeners of the controller. -/
  loadListeners : Nat
  /-- Registered `DOMContentLoaded` listeners of the controller. -/
  domListeners : Nat
  /-- Registered navigation observers of the controller. -/
  observers : Nat
  trace : List Entry
deriving DecidableEq, Repr

/-- Append a trace entry carrying the current clock and page state. -/
def record (a : Action) (w : World) : World :=
  { w with trace := w.trace ++ [⟨w.now, a, w.overlay, w.bodyOverflow⟩] }

/-- Function `setTimeout(cb, delay)`. -/
def setTimeout (cb : Callback) (delay : JSNum) (w : World) : World :=
  { w with timers := w.timers ++ [⟨w.now + timerDelay delay, cb⟩] }

/-! ## The methods of the class -/

/-- Method `showLoadingScreen()`. -/
def showLoadingScreen (w : World) : World :=
  if w.ctl.loadingScreen = false then w
  else
    { w with
      overlay := w.overlay.map fun e =>
        { e with
          display := "flex"
          classList := classRemove "hidden" e.classList
          opacity := "1"
          visibility := "visible" }
      bodyOverflow := "hidden" }

/-- Method `hideLoadingScreen()`: adds `fade-out` and arms the fade callback. -/
def hideLoadingScreen (w : World) : World :=
  if w.ctl.loadingScreen = false then w
  else
    let w1 : World :=
      { w with overlay := w.overlay.map fun e =>
          { e with classList := classAdd "fade-out" e.classList } }
    record Action.fadeOut
      (setTimeout Callback.detach (JSNum.num w1.ctl.fadeOutDuration) w1)

/-- The callback `hideLoadingScreen` passes to `setTimeout`.  It has no guard
of its own: with `this.loadingScreen` null its first statement throws. -/
def fadeCallback (w : World) : Except String World :=
  if w.ctl.loadingScreen = false then
    Except.error "TypeError: this.loadingScreen is null"
  else
    Except.ok <| record Action.detached
      { w with
        overlay := w.overlay.map fun e =>
          { e with display := "none", classList := classAdd "hidden" e.classList }
        bodyOverflow := "" }

/-- The delay `scheduleHideLoadingScreen` computes:
`Math.max(0, this.minLoadingTime - (Date.now() - this.startTime))`. -/
def remainingTime (c : Controller) (now : Nat) : JSNum :=
  let elapsedTime := (JSNum.num now).sub (toNumber c.startTime)
  mathMax (JSNum.num 0) ((JSNum.num c.minLoadingTime).sub elapsedTime)

/-- Method `scheduleHideLoadingScreen()`. -/
def scheduleHideLoadingScreen (w : World) : World :=
  let r := remainingTime w.ctl w.now
  record (Action.scheduled r) (setTimeout Callback.hide r w)

/-- Function `checkElements` of `checkCriticalElements`: one structural poll. -/
def checkElements (w : World) : World :=
  let allLoaded := w.ctl.criticalElements.all fun selector => decide (selector ∈ w.resolved)
  let w1 := record (Action.polled allLoaded) w
  if allLoaded then scheduleHideLoadingScreen w1
  else setTimeout Callback.checkElements (JSNum.num 100) w1

/-- Method `checkCriticalElements()`: the first poll is armed 500 ms ahead. -/
def checkCriticalElements (w : World) : World :=
  setTimeout Callback.checkElements (JSNum.num 500) w

/-- Method `setupLoadingCompletion()`. -/
def setupLoadingCompletion (w : World) : World :=
  let w1 : World := { w with loadListeners := w.loadListeners + 1 }
  let w2 := setTimeout Callback.timeoutFallback (JSNum.num w1.ctl.maxLoadingTime) w1
  checkCriticalElements w2

/-- Method `setupPerformanceObserver()`. -/
def setupPerformanceObserver (w : World) : World :=
  match w.perfObserver with
  | ObserverSupport.absent => w
  | ObserverSupport.throws => record Action.warnObserver w
  | ObserverSupport.available => { w with observers := w.observers + 1 }

/-- The navigation observer callback; an entry is given by its
`loadEventEnd`. -/
def observerCallback (entries : List Nat) (w : World) : World :=
  match entries.getLast? with
  | some loadEventEnd => if loadEventEnd ≠ 0 then scheduleHideLoadingScreen w else w
  | none => w

/-- Method `setupLoadingScreen()`. -/
def setupLoadingScreen (w : World) : World :=
  let w1 : World := { w with ctl := { w.ctl with loadingScreen := w.overlay.isSome } }
  if w1.ctl.loadingScreen = false then record Action.warnMissing w1
  else
    record Action.initialized
      (setupPerformanceObserver (setupLoadingCompletion (showLoadingScreen w1)))

/-- Method `init()`; `loading` tells whether `document.readyState` is `'loading'`. -/
def init (loading : Bool) (w : World) : World :=
  if loading then { w with domListeners := w.domListeners + 1 }
  else setupLoadingScreen w

/-- Method `forceHide()`. -/
def forceHide (w : World) : World := hideLoadingScreen w

/-- Method `forceShow()`. -/
def forceShow (w : World) : World := showLoadingScreen w

/-- The fields the constructor assigns; it assigns no `startTime`. -/
def Controller.new (cfg : Config) : Controller :=
  { loadingScreen := false
    minLoadingTime := cfg.minLoadingTime
    maxLoadingTime := cfg.maxLoadingTime
    fadeOutDuration := cfg.fadeOutDuration
    startTime := none
    criticalElements := cfg.criticalElements }

/-- A page at the moment a script constructs its controller. -/
structure Page where
  overlay : Option Element
  bodyOverflow : String
  resolved : List String
  perfObserver : ObserverSupport
  /-- Whether `document.readyState` is `'loading'`. -/
  loading : Bool
deriving DecidableEq, Repr

/-- The page `p` at clock reading `t0` with a controller whose constructor
has assigned its fields and is about to call `init()`: nothing is registered,
pending or recorded yet. -/
def initialWorld (cfg : Config) (p : Page) (t0 : Nat) : World :=
  { now := t0
    overlay := p.overlay
    bodyOverflow := p.bodyOverflow
    resolved := p.resolved
    perfObserver := p.perfObserver
    ctl := Controller.new cfg
    timers := []
    loadListeners := 0
    domListeners := 0
    observers := 0
    trace := [] }

/-- Expression `new XLoadingScreen()` at clock reading `t0`. -/
def construct (cfg : Config) (p : Page) (t0 : Nat) : World :=
  init p.loading (initialWorld cfg p t0)

/-! ## The event loop -/

/-- What the host page and the browser do to the controller from outside. -/
inductive Event where
  /-- The window `load` event is dispatched. -/
  | load
  /-- The document `DOMContentLoaded` event is dispatched. -/
  | domContentLoaded
  /-- The navigation observer is called back with these entries, each given
  by its `loadEventEnd`. -/
  | navigationEntries (entries : List Nat)
  /-- The host page calls `forceHide()`. -/
  | forceHide
  /-- The host page calls `forceShow()`. -/
  | forceShow
  /-- The document changes: from now on exactly these selectors resolve. -/
  | domChange (resolved : List String)
deriving DecidableEq, Repr

/-- One turn of the event loop: either the next due timer runs, or an outside
event arrives at clock reading `t`. -/
inductive Step where
  | timer
  | event (t : Nat) (e : Event)
deriving DecidableEq, Repr

/-- The pending timer that runs next: the earliest due one, and among equally
due ones the one registered first. -/
def earliest : List Timer → Option Timer
  | [] => none
  | t :: ts =>
    match earliest ts with
    | none => some t
    | some u => if t.due ≤ u.due then some t else some u

/-- Run a timer callback. -/
def runCallback : Callback → World → Except String World
  | Callback.timeoutFallback, w => Except.ok (scheduleHideLoadingScreen w)
  | Callback.checkElements, w => Except.ok (checkElements w)
  | Callback.hide, w => Except.ok (hideLoadingScreen w)
  | Callback.detach, w => fadeCallback w

/-- Deliver an outside event to the listeners the controller registered. -/
def deliver : Event → World → World
  | Event.load, w => Nat.iterate scheduleHideLoadingScreen w.loadListeners w
  | Event.domContentLoaded, w =>
    Nat.iterate setupLoadingScreen w.domListeners { w with domListeners := 0 }
  | Event.navigationEntries entries, w => Nat.iterate (observerCallback entries) w.observers w
  | Event.forceHide, w => forceHide w
  | Event.forceShow, w => forceShow w
  | Event.domChange resolved, w => { w with resolved := resolved }

/-- One turn of the event loop.  A timer turn moves the clock to the due time
of the timer it runs; it is impossible when no timer is pending.  An event at
`t` is possible when the clock has not passed `t` and no pending timer is due
before `t`. -/
def step : Step → World → Option World
  | Step.timer, w =>
    match earliest w.timers with
    | none => none
    | some tm =>
      let w1 : World := { w with now := max w.now tm.due, timers := w.timers.erase tm }
      match runCallback tm.cb w1 with
      | Except.ok w2 => some w2
      | Except.error _ => some (record Action.uncaught w1)
  | Step.event t e, w =>
    if w.now ≤ t ∧ ∀ tm ∈ w.timers, t ≤ tm.due then
      some (deliver e { w with now := t })
    else none

/-- A run of the event loop: the turns are taken one after the other. -/
def run : List Step → World → Option World
  | [], w => some w
  | s :: ss, w => (step s w).bind (run ss)

/-- The clock readings at which the body of `hideLoadingScreen` ran. -/
def hideTimes (w : World) : List Nat :=
  (w.trace.filter fun e => e.act = Action.fadeOut).map Entry.time

/-- The world `w2` extends `w1`: same clock, every pending timer and every
trace entry of `w1` is still there, the constants of the controller are the
same, and a controller that holds its overlay still holds it. -/
structure Ext (w1 w2 : World) : Prop where
  now_eq : w2.now = w1.now
  timers : ∀ tm ∈ w1.timers, tm ∈ w2.timers
  trace : ∀ en ∈ w1.trace, en ∈ w2.trace
  consts : w2.ctl = { w1.ctl with loadingScreen := w2.ctl.loadingScreen }
  alive : w1.ctl.loadingScreen = true → w1.overlay.isSome = true →
    w2.ctl.loadingScreen = true ∧ w2.overlay.isSome = true
  present : w1.overlay.isSome = true → w2.overlay.isSome = true
  fadeOut : ∀ e, w1.overlay = some e → "fade-out" ∈ e.classList →
    ∃ e2, w2.overlay = some e2 ∧ "fade-out" ∈ e2.classList

/-- The body of `hideLoadingScreen` has run at some clock reading up to `T`. -/
def hideDone (T : Nat) (w : World) : Prop :=
  ∃ en ∈ w.trace, en.act = Action.fadeOut ∧ en.time ≤ T

/-- The clock has not passed `T` and a timer that leads to `hideLoadingScreen`
(the timeout fallback, or the zero-delay timer of a schedule call) is due by
`T`. -/
def hidePending (T : Nat) (w : World) : Prop :=
  w.now ≤ T ∧ ∃ tm ∈ w.timers,
    (tm.cb = Callback.timeoutFallback ∨ tm.cb = Callback.hide) ∧ tm.due ≤ T

/-- The clock has not passed `T` and a fade callback is due by `T`. -/
def fadePending (T : Nat) (w : World) : Prop :=
  w.now ≤ T ∧ ∃ tm ∈ w.timers, tm.cb = Callback.detach ∧ tm.due ≤ T

/-- A trace entry right after which the overlay is detached: display `none`,
class `hidden` set, body scroll restored. -/
def Entry.isDetached (en : Entry) : Prop :=
  en.bodyOverflow = "" ∧ ∃ e, en.overlay = some e ∧ e.display = "none" ∧ "hidden" ∈ e.classList

/-- A fade callback has run to its end at some clock reading up to `T`, and
left the overlay detached. -/
def detachDone (T : Nat) (w : World) : Prop :=
  ∃ en ∈ w.trace, en.act = Action.detached ∧ en.time ≤ T ∧ en.isDetached

/-- The invariant behind the forced timeout: the controller holds its overlay
and never got a `startTime`; the hide has run by `T` or is still due by `T`;
the detach has run by `T + F` or is still due by then. -/
structure TimeoutInv (T F : Nat) (w : World) : Prop where
  holds : w.ctl.loadingScreen = true
  present : w.overlay.isSome = true
  noStart : w.ctl.startTime = none
  fade : w.ctl.fadeOutDuration = F
  hide : hideDone T w ∨ hidePending T w
  detach : detachDone (T + F) w ∨ fadePending (T + F) w ∨ hidePending T w

/-! ## The page classes -/

/-- The constants of `AboutUsLoadingScreen`. -/
def aboutUsConfig : Config :=
  { minLoadingTime := 1500
    maxLoadingTime := 5000
    fadeOutDuration := 500
    criticalElements :=
      [".about-hero", ".about-intro", ".vision-mission", ".team-section", "nav", ".footer"] }

/-- The constants of `IndexLoadingScreen`. -/
def indexConfig : Config :=
  { minLoadingTime := 2000
    maxLoadingTime := 6000
    fadeOutDuration := 500
    criticalElements :=
      [".hero", ".about", ".trending-styles", ".services", "nav", ".footer"] }

/-- An overlay as the markup delivers it: shown, with no class set by the
controller yet. -/
def freshOverlay : Element :=
  { display := "flex", opacity := "1", visibility := "visible", classList := [] }

/-- A page that carries the overlay, on which no critical selector resolves
yet, without `PerformanceObserver`, and whose document is parsed. -/
def plainPage : Page :=
  { overlay := some freshOverlay
    bodyOverflow := ""
    resolved := []
    perfObserver := ObserverSupport.absent
    loading := false }

/-- The configuration of the scenario with the two selectors `a` and `b`. -/
def scenarioConfig : Config :=
  { minLoadingTime := 1500
    maxLoadingTime := 5000
    fadeOutDuration := 500
    criticalElements := ["a", "b"] }

/-- The page of the scenario at its start: `a` resolves, `b` does not. -/
def scenarioPage : Page := { plainPage with resolved := ["a"] }

/-- The scenario, with the controller constructed at clock reading 0: three
failing polls (500, 600, 700), `b` is added at 800, the poll at 800 finds both
selectors, the zero-delay timer and the fade callback run, the `load` event
arrives at 2000 with its two timers, and the timeout fallback runs at 5000,
again with its two timers. -/
def scenarioSteps : List Step :=
  [Step.timer, Step.timer, Step.timer,
   Step.event 800 (Event.domChange ["a", "b"]),
   Step.timer, Step.timer, Step.timer,
   Step.event 2000 Event.load,
   Step.timer, Step.timer,
   Step.timer, Step.timer, Step.timer]

/-- The about-us page at clock reading 0, right before `setupLoadingScreen`:
the overlay is there, no critical selector resolves, no `PerformanceObserver`. -/
def timeoutOnlyStart : World := initialWorld aboutUsConfig plainPage 0

/-- The world after the setup and 55 timer turns on `timeoutOnlyStart`, where
nothing but the timeout fallback ever fires; the clock then reads 5600. -/
def timeoutOnlyEnd : World :=
  (run (List.replicate 55 Step.timer) (setupLoadingScreen timeoutOnlyStart)).getD
    timeoutOnlyStart

/-- The delay the specification states for a call of
`scheduleHideLoadingScreen` at clock reading `now` by a controller constructed
at clock reading `start`: `max(0, minLoadingTime - (now - start))`. -/
def delayAsSpecified (c : Controller) (start now : Nat) : JSNum :=
  mathMax (JSNum.num 0) ((JSNum.num c.minLoadingTime).sub ((JSNum.num now).sub (JSNum.num start)))

/-- The about-us controller, constructed at clock reading 1000 on a page on
which no critical selector resolves, after eleven failing polls: the clock
reads 2500, which is 1500 ms after the construction. -/
def lateWorld : World :=
  (run (List.replicate 11 Step.timer) (construct aboutUsConfig plainPage 1000)).getD
    (construct aboutUsConfig plainPage 1000)

/-- The index page right after the `load` event, 400 ms after the
construction of its controller at clock reading 0. -/
def indexLoadedWorld : World :=
  (run [Step.event 400 Event.load] (construct indexConfig plainPage 0)).getD
    (construct indexConfig plainPage 0)

/-- The overlay is showing: displayed, and no `fade-out` class. -/
def isShowing (e : Element) : Prop := "fade-out" ∉ e.classList ∧ e.display ≠ "none"

/-- The overlay is fading out: class `fade-out` set, still displayed. -/
def isFadingOut (e : Element) : Prop := "fade-out" ∈ e.classList ∧ e.display ≠ "none"

/-- The overlay is hidden: display `none` and class `hidden` set. -/
def isHidden (e : Element) : Prop := e.display = "none" ∧ "hidden" ∈ e.classList

/-- Run `hideLoadingScreen()` and let the fade callback it armed run
`fadeOutDuration` later. -/
def hideThenFade (w : World) : Except String World :=
  fadeCallback { hideLoadingScreen w with now := w.now + w.ctl.fadeOutDuration }

/-- An overlay in its terminal state: display `none`, classes `fade-out` and
`hidden`. -/
def hiddenOverlay : Element :=
  { display := "none", opacity := "1", visibility := "visible",
    classList := ["fade-out", "hidden"] }

/-- A page whose overlay has been hidden and on which the body scroll is
locked again (`document.body.style.overflow = 'hidden'`, as `openLightbox` of
`script.js` sets it while the lightbox is open); the timeout fallback of the
controller is still to come. -/
def lightboxOpenWorld : World :=
  { now := 3000
    overlay := some hiddenOverlay
    bodyOverflow := "hidden"
    resolved := []
    perfObserver := ObserverSupport.absent
    ctl := { Controller.new aboutUsConfig with loadingScreen := true }
    timers := [⟨5000, Callback.timeoutFallback⟩]
    loadListeners := 1
    domListeners := 0
    observers := 0
    trace := [] }

/-- The same page with the body scroll not locked. -/
def hiddenWorld : World := { lightboxOpenWorld with bodyOverflow := "" }

/-- The about-us page right after a `forceHide()` at clock reading 200: the
overlay is fading out and the fade callback is pending. -/
def fadingWorld : World :=
  forceHide { construct aboutUsConfig plainPage 0 with now := 200 }

/-- The invariant of a page without the overlay element: the controller holds
no element, nothing is registered or pending, the body overflow is `b`, and
no callback has thrown. -/
structure MissingInv (b : String) (w : World) : Prop where
  overlay : w.overlay = none
  ctl : w.ctl.loadingScreen = false
  timers : w.timers = []
  loadListeners : w.loadListeners = 0
  observers : w.observers = 0
  bodyOverflow : w.bodyOverflow = b
  noThrow : ∀ en ∈ w.trace, en.act ≠ Action.uncaught

/-- A page without the `#loading-screen` element whose document is still
being parsed when the script constructs its controller. -/
def bareLoadingPage : Page :=
  { overlay := none
    bodyOverflow := "auto"
    resolved := ["nav"]
    perfObserver := ObserverSupport.available
    loading := true }

/-- The step from `w1` to `w2` is quiet: it extends `w1`, every timer it adds
is due ahead of the clock, every fade callback it adds is due `fadeOutDuration`
after a run of the hide body that it records, it records no detach, the hide
bodies it records leave `fade-out` set, and it does not set display `none`. -/
structure Quiet (w1 w2 : World) : Prop where
  ext : Ext w1 w2
  ahead : ∀ tm ∈ w2.timers, tm ∈ w1.timers ∨ w1.now ≤ tm.due
  newDetach : ∀ tm ∈ w2.timers, tm.cb = Callback.detach → tm ∈ w1.timers ∨
    ∃ en ∈ w2.trace, en.act = Action.fadeOut ∧ en.time + w1.ctl.fadeOutDuration = tm.due
  newEntries : ∀ en ∈ w2.trace, en ∈ w1.trace ∨
    (en.act ≠ Action.detached ∧ en.time = w1.now ∧
      (en.act = Action.fadeOut → ∀ e, en.overlay = some e → "fade-out" ∈ e.classList))
  shown : w2.ctl.loadingScreen = true → ∀ e2, w2.overlay = some e2 → e2.display = "none" →
    w1.ctl.loadingScreen = true ∧ ∃ e1, w1.overlay = some e1 ∧ e1.display = "none"

/-- The invariant behind the hide-and-fade sequence: pending timers are due
ahead of the clock; every pending fade callback is due exactly `F` after a
recorded run of the hide body; every recorded detach happened exactly `F`
after a recorded run of the hide body; every recorded run of the hide body
left `fade-out` set; and an overlay the controller holds has display `none`
only after a recorded detach. -/
structure FadeInv (F : Nat) (w : World) : Prop where
  fade : w.ctl.fadeOutDuration = F
  ahead : ∀ tm ∈ w.timers, w.now ≤ tm.due
  timers : ∀ tm ∈ w.timers, tm.cb = Callback.detach →
    ∃ en ∈ w.trace, en.act = Action.fadeOut ∧ en.time + F = tm.due
  entries : ∀ en ∈ w.trace, en.act = Action.detached →
    ∃ en2 ∈ w.trace, en2.act = Action.fadeOut ∧ en2.time + F = en.time
  fading : ∀ en ∈ w.trace, en.act = Action.fadeOut →
    ∀ e, en.overlay = some e → "fade-out" ∈ e.classList
  hidden : w.ctl.loadingScreen = true → ∀ e, w.overlay = some e → e.display = "none" →
    ∃ en ∈ w.trace, en.act = Action.detached

/-- Whether a turn of the event loop is a call of `forceHide()`. -/
def Step.isForceHide : Step → Bool
  | Step.event _ Event.forceHide => true
  | _ => false

/-- Whether a trace entry records a call of `scheduleHideLoadingScreen`. -/
def Action.isScheduled : Action → Bool
  | Action.scheduled _ => true
  | _ => false

/-- How often a readiness watcher has fired: the recorded calls of
`scheduleHideLoadingScreen`. -/
def scheduleCalls (w : World) : Nat :=
  w.trace.countP fun en => en.act.isScheduled

/-- The pending zero-delay timers that `scheduleHideLoadingScreen` armed. -/
def pendingHides (w : World) : Nat :=
  w.timers.countP fun tm => decide (tm.cb = Callback.hide)

/-- How often the body of `hideLoadingScreen` has run. -/
def hideRuns (w : World) : Nat :=
  w.trace.countP fun en => decide (en.act = Action.fadeOut)

/-- The step from `w1` to `w2` keeps the balance between runs of the hide
body, pending hide timers and watcher firings. -/
def Balanced (w1 w2 : World) : Prop :=
  hideRuns w2 + pendingHides w2 + scheduleCalls w1
    = hideRuns w1 + pendingHides w1 + scheduleCalls w2

/-- The about-us page on which every critical selector resolves. -/
def readyPage : Page :=
  { plainPage with
    resolved := [".about-hero", ".about-intro", ".vision-mission", ".team-section", "nav",
      ".footer"] }

/-- On `readyPage`: the `load` event at 100 with its hide, the successful poll
at 500 with its hide, the two fade callbacks, the timeout fallback at 5000
with its hide and fade callback, and a last event at 6000. -/
def threeWatcherSteps : List Step :=
  [Step.event 100 Event.load, Step.timer,
   Step.timer, Step.timer,
   Step.timer, Step.timer,
   Step.timer, Step.timer, Step.timer,
   Step.event 6000 (Event.domChange [])]

/-- The world at the end of `threeWatcherSteps`. -/
def threeWatcherEnd : World :=
  (run threeWatcherSteps (construct aboutUsConfig readyPage 0)).getD
    (construct aboutUsConfig readyPage 0)

/-- On a page with the overlay, when no `forceHide()` is called, every run of
the hide body and every pending hide timer answers one watcher firing. -/
structure CountInv (w : World) : Prop where
  holds : w.ctl.loadingScreen = true
  present : w.overlay.isSome = true
  balance : hideRuns w + pendingHides w = scheduleCalls w

/-- The fade callback armed for clock reading `D` is still pending and the
clock has not passed `D`, or a fade callback has run exactly at `D` and left
the overlay detached. -/
def detachAt (D : Nat) (w : World) : Prop :=
  (w.now ≤ D ∧ (⟨D, Callback.detach⟩ : Timer) ∈ w.timers) ∨
    ∃ en ∈ w.trace, en.act = Action.detached ∧ en.time = D ∧ en.isDetached

/-- The invariant behind a forced hide: the controller holds its overlay, and
the fade callback armed for `D` is pending or has run at `D`. -/
structure ForcedInv (D : Nat) (w : World) : Prop where
  holds : w.ctl.loadingScreen = true
  present : w.overlay.isSome = true
  detach : detachAt D w

/-- The about-us page right after `forceHide()` at the very clock reading of
the construction of its controller (0 ms elapsed). -/
def forcedAtStart : World :=
  (step (Step.event 0 Event.forceHide) (construct aboutUsConfig plainPage 0)).getD
    (construct aboutUsConfig plainPage 0)

/-- The world three timer turns after `forcedAtStart`: the poll at 500, the
fade callback at 500 and the poll at 600. -/
def forcedAtStartEnd : World :=
  (run [Step.timer, Step.timer, Step.timer] forcedAtStart).getD forcedAtStart

/-- The element as `showLoadingScreen` styles it, with the given classes:
display `flex`, opacity `1`, visibility `visible`. -/
def shownElement (classes : List String) : Element :=
  { display := "flex", opacity := "1", visibility := "visible", classList := classes }

/-- An overlay that the markup hides: display `none`, class `hidden`, no
inline opacity or visibility. -/
def markupHiddenOverlay : Element :=
  { display := "none", opacity := "", visibility := "",
    classList := ["loading-screen", "hidden"] }

/-- The about-us page at clock reading 0 with the overlay as the markup hides
it (display `none`, class `hidden`), right before `setupLoadingScreen`. -/
def markupHiddenStart : World :=
  initialWorld aboutUsConfig
    { plainPage with
      overlay := some markupHiddenOverlay
      perfObserver := ObserverSupport.available } 0

/-- The function `window.restartAboutUsLoading()`; the other nine scripts
define the same function under the name of their page. -/
def restartLoading (w : World) : World :=
  match w.overlay with
  | none => w
  | some e =>
    { w with
      overlay := some
        { e with
          display := "flex"
          opacity := "1"
          classList := classRemove "fade-out" (classRemove "hidden" e.classList) }
      bodyOverflow := "hidden" }

/-- Remove the class `fade-out` from the overlay. -/
def clearFadeOut (w : World) : World :=
  { w with overlay := w.overlay.map fun e =>
      { e with classList := classRemove "fade-out" e.classList } }

/-- The restart hook as the specification words it: `forceShow()` on the page
controller, then the class `fade-out` cleared. -/
def restartAsSpecified (w : World) : World := clearFadeOut (forceShow w)

/-- Whenever the controller holds the overlay, the inline visibility of the
overlay is `visible`. -/
def visInv (w : World) : Prop :=
  w.ctl.loadingScreen = true → ∀ e, w.overlay = some e → e.visibility = "visible"

/-- A page whose markup hides the overlay and whose document is still being
parsed. -/
def parsingPage : Page :=
  { plainPage with overlay := some markupHiddenOverlay, loading := true }

/-- The about-us page after the `load` event at 100, its hide, the failing
poll at 500, the fade callback and the failing poll at 600, and then a
`forceShow()` at 650. -/
def reshownWorld : World :=
  (run [Step.event 100 Event.load, Step.timer, Step.timer, Step.timer, Step.timer,
      Step.event 650 Event.forceShow]
    (construct aboutUsConfig plainPage 0)).getD (construct aboutUsConfig plainPage 0)

/-- The structural polls so far: for each run of `checkElements`, the clock
reading and the `allLoaded` it computed. -/
def pollLog (w : World) : List (Nat × Bool) :=
  w.trace.filterMap fun en =>
    match en.act with
    | Action.polled b => some (en.time, b)
    | _ => none

/-- The pending timers of the structural poll. -/
def pollTimers (w : World) : List Timer :=
  w.timers.filter fun tm => decide (tm.cb = Callback.checkElements)

/-- The log of `k` failing polls after a call of `checkCriticalElements` at
clock reading `c`: poll number `i` at `c + 500 + 100 * i`. -/
def failedPolls (c k : Nat) : List (Nat × Bool) :=
  (List.range k).map fun i => (c + 500 + 100 * i, false)

/-- The step from `w1` to `w2` leaves the structural poll alone: same polls
so far, same pending poll timers, same `DOMContentLoaded` listeners. -/
structure PollSame (w1 w2 : World) : Prop where
  log : pollLog w2 = pollLog w1
  timers : pollTimers w2 = pollTimers w1
  dom : w2.domListeners = w1.domListeners

/-- The invariant of the structural poll armed at clock reading `c`: either
all `k` polls so far failed, at `c + 500 + 100 * i`, and exactly one poll is
pending, due at `c + 500 + 100 * k`; or `k` polls failed, the next one
succeeded, and no poll is pending. -/
structure PollInv (c : Nat) (w : World) : Prop where
  dom : w.domListeners = 0
  state :
    (∃ k, pollLog w = failedPolls c k ∧
        pollTimers w = [⟨c + 500 + 100 * k, Callback.checkElements⟩]) ∨
      (∃ k, pollLog w = failedPolls c k ++ [(c + 500 + 100 * k, true)] ∧ pollTimers w = [])

/-- The structural poll has stopped with the log `L`. -/
structure PollDone (L : List (Nat × Bool)) (w : World) : Prop where
  dom : w.domListeners = 0
  log : pollLog w = L
  timers : pollTimers w = []

/-- The scenario after its first six turns: three failing polls (500, 600,
700), `b` added at 800, the successful poll at 800 and its hide. -/
def scenarioPolled : World :=
  (run (scenarioSteps.take 6) (construct scenarioConfig scenarioPage 0)).getD
    (construct scenarioConfig scenarioPage 0)

/-- The world at the end of the whole scenario. -/
def scenarioEnd : World :=
  (run (scenarioSteps.drop 6) scenarioPolled).getD scenarioPolled

/-- The about-us page on which no critical selector resolves, after the
`load` event at 100, its hide, the poll at 500, the fade callback at 600 and
the poll at 600: the overlay is hidden and the poll goes on. -/
def hiddenStillPolling : World :=
  (run [Step.event 100 Event.load, Step.timer, Step.timer, Step.timer, Step.timer]
    (construct aboutUsConfig plainPage 0)).getD (construct aboutUsConfig plainPage 0)

/-- Forget what no method ever reads: the trace, and which of the two ways
of having no working `PerformanceObserver` the page is in. -/
def forget (w : World) : World :=
  { w with
    trace := []
    perfObserver :=
      if w.perfObserver = ObserverSupport.available then ObserverSupport.available
      else ObserverSupport.absent }

/-- The about-us page at clock reading 0 on which registering the navigation
observer throws, right before `setupLoadingScreen`. -/
def throwingStart : World :=
  initialWorld aboutUsConfig { plainPage with perfObserver := ObserverSupport.throws } 0

/-- The world 55 timer turns after the setup on `throwingStart`. -/
def throwingEnd : World :=
  (run (List.replicate 55 Step.timer) (setupLoadingScreen throwingStart)).getD throwingStart

/-! ## The ten page classes, each from its own script -/

/-- The callbacks and public methods of one loading-screen class, as the
event loop needs them. -/
structure Methods where
  scheduleHideLoadingScreen : World → World
  checkElements : World → World
  hideLoadingScreen : World → World
  fadeCallback : World → Except String World
  setupLoadingScreen : World → World
  observerCallback : List Nat → World → World
  forceHide : World → World
  forceShow : World → World

/-- Run a timer callback of the class with the methods `m`. -/
def runCallbackWith (m : Methods) : Callback → World → Except String World
  | Callback.timeoutFallback, w => Except.ok (m.scheduleHideLoadingScreen w)
  | Callback.checkElements, w => Except.ok (m.checkElements w)
  | Callback.hide, w => Except.ok (m.hideLoadingScreen w)
  | Callback.detach, w => m.fadeCallback w

/-- Deliver an outside event to the listeners that the controller of the
class with the methods `m` registered. -/
def deliverWith (m : Methods) : Event → World → World
  | Event.load, w => Nat.iterate m.scheduleHideLoadingScreen w.loadListeners w
  | Event.domContentLoaded, w =>
    Nat.iterate m.setupLoadingScreen w.domListeners { w with domListeners := 0 }
  | Event.navigationEntries entries, w =>
    Nat.iterate (m.observerCallback entries) w.observers w
  | Event.forceHide, w => m.forceHide w
  | Event.forceShow, w => m.forceShow w
  | Event.domChange resolved, w => { w with resolved := resolved }

/-- One turn of the event loop for the class with the methods `m`. -/
def stepWith (m : Methods) : Step → World → Option World
  | Step.timer, w =>
    match earliest w.timers with
    | none => none
    | some tm =>
      let w1 : World := { w with now := max w.now tm.due, timers := w.timers.erase tm }
      match runCallbackWith m tm.cb w1 with
      | Except.ok w2 => some w2
      | Except.error _ => some (record Action.uncaught w1)
  | Step.event t e, w =>
    if w.now ≤ t ∧ ∀ tm ∈ w.timers, t ≤ tm.due then
      some (deliverWith m e { w with now := t })
    else none

/-- A run of the event loop for the class with the methods `m`. -/
def runWith (m : Methods) : List Step → World → Option World
  | [], w => some w
  | s :: ss, w => (stepWith m s w).bind (runWith m ss)

/-- The methods `m` do what the methods of the parameterised controller do,
on every world whose controller closes over the selector list `sel`. -/
structure Agrees (m : Methods) (sel : List String) : Prop where
  scheduleHideLoadingScreen : ∀ w, m.scheduleHideLoadingScreen w = scheduleHideLoadingScreen w
  checkElements : ∀ w, w.ctl.criticalElements = sel → m.checkElements w = checkElements w
  hideLoadingScreen : ∀ w, m.hideLoadingScreen w = hideLoadingScreen w
  fadeCallback : ∀ w, m.fadeCallback w = fadeCallback w
  setupLoadingScreen : ∀ w, m.setupLoadingScreen w = setupLoadingScreen w
  observerCallback : ∀ entries w, m.observerCallback entries w = observerCallback entries w
  forceHide : ∀ w, m.forceHide w = forceHide w
  forceShow : ∀ w, m.forceShow w = forceShow w

/-! ### The class `AboutUsLoadingScreen` of `about-us-loading.js` -/

/-- The selector list `criticalElements` of `AboutUsLoadingScreen.checkCriticalElements`. -/
def AboutUsLoadingScreen.criticalElements : List String :=
  [".about-hero", ".about-intro", ".vision-mission", ".team-section", "nav", ".footer"]

/-- The object the constructor of `AboutUsLoadingScreen` builds before it calls `init()`: the
fields it assigns (it assigns no `startTime`), together with the selector list
that `checkCriticalElements` closes over. -/
def AboutUsLoadingScreen.new : Controller :=
  { loadingScreen := false
    minLoadingTime := 1500
    maxLoadingTime := 5000
    fadeOutDuration := 500
    startTime := none
    criticalElements := AboutUsLoadingScreen.criticalElements }

/-- Method `showLoadingScreen()` of `AboutUsLoadingScreen`. -/
def AboutUsLoadingScreen.showLoadingScreen (w : World) : World :=
  if w.ctl.loadingScreen = false then w
  else
    { w with
      overlay := w.overlay.map fun e =>
        { e with
          display := "flex"
          classList := classRemove "hidden" e.classList
          opacity := "1"
          visibility := "visible" }
      bodyOverflow := "hidden" }

/-- The fade callback of `AboutUsLoadingScreen.hideLoadingScreen`; its `console.log` line
reads `About Us loading screen hidden`. -/
def AboutUsLoadingScreen.fadeCallback (w : World) : Except String World :=
  if w.ctl.loadingScreen = false then
    Except.error "TypeError: this.loadingScreen is null"
  else
    Except.ok <| record Action.detached
      { w with
        overlay := w.overlay.map fun e =>
          { e with display := "none", classList := classAdd "hidden" e.classList }
        bodyOverflow := "" }

/-- Method `hideLoadingScreen()` of `AboutUsLoadingScreen`. -/
def AboutUsLoadingScreen.hideLoadingScreen (w : World) : World :=
  if w.ctl.loadingScreen = false then w
  else
    let w1 : World :=
      { w with overlay := w.overlay.map fun e =>
          { e with classList := classAdd "fade-out" e.classList } }
    record Action.fadeOut
      (setTimeout Callback.detach (JSNum.num w1.ctl.fadeOutDuration) w1)

/-- Method `scheduleHideLoadingScreen()` of `AboutUsLoadingScreen`. -/
def AboutUsLoadingScreen.scheduleHideLoadingScreen (w : World) : World :=
  let elapsedTime := (JSNum.num w.now).sub (toNumber w.ctl.startTime)
  let remainingTime := mathMax (JSNum.num 0) ((JSNum.num w.ctl.minLoadingTime).sub elapsedTime)
  record (Action.scheduled remainingTime) (setTimeout Callback.hide remainingTime w)

/-- Function `checkElements` of `AboutUsLoadingScreen.checkCriticalElements`. -/
def AboutUsLoadingScreen.checkElements (w : World) : World :=
  let allLoaded := AboutUsLoadingScreen.criticalElements.all fun selector => decide (selector ∈ w.resolved)
  let w1 := record (Action.polled allLoaded) w
  if allLoaded then AboutUsLoadingScreen.scheduleHideLoadingScreen w1
  else setTimeout Callback.checkElements (JSNum.num 100) w1

/-- Method `checkCriticalElements()` of `AboutUsLoadingScreen`. -/
def AboutUsLoadingScreen.checkCriticalElements (w : World) : World :=
  setTimeout Callback.checkElements (JSNum.num 500) w

/-- Method `setupLoadingCompletion()` of `AboutUsLoadingScreen`. -/
def AboutUsLoadingScreen.setupLoadingCompletion (w : World) : World :=
  let w1 : World := { w with loadListeners := w.loadListeners + 1 }
  let w2 := setTimeout Callback.timeoutFallback (JSNum.num w1.ctl.maxLoadingTime) w1
  AboutUsLoadingScreen.checkCriticalElements w2

/-- Method `setupPerformanceObserver()` of `AboutUsLoadingScreen`. -/
def AboutUsLoadingScreen.setupPerformanceObserver (w : World) : World :=
  match w.perfObserver with
  | ObserverSupport.absent => w
  | ObserverSupport.throws => record Action.warnObserver w
  | ObserverSupport.available => { w with observers := w.observers + 1 }

/-- The navigation observer callback of `AboutUsLoadingScreen.setupPerformanceObserver`. -/
def AboutUsLoadingScreen.observerCallback (entries : List Nat) (w : World) : World :=
  match entries.getLast? with
  | some loadEventEnd => if loadEventEnd ≠ 0 then AboutUsLoadingScreen.scheduleHideLoadingScreen w else w
  | none => w

/-- Method `setupLoadingScreen()` of `AboutUsLoadingScreen`; its `console.log` line reads
`About Us loading screen initialized`. -/
def AboutUsLoadingScreen.setupLoadingScreen (w : World) : World :=
  let w1 : World := { w with ctl := { w.ctl with loadingScreen := w.overlay.isSome } }
  if w1.ctl.loadingScreen = false then record Action.warnMissing w1
  else
    record Action.initialized
      (AboutUsLoadingScreen.setupPerformanceObserver
        (AboutUsLoadingScreen.setupLoadingCompletion (AboutUsLoadingScreen.showLoadingScreen w1)))

/-- Method `init()` of `AboutUsLoadingScreen`. -/
def AboutUsLoadingScreen.init (loading : Bool) (w : World) : World :=
  if loading then { w with domListeners := w.domListeners + 1 }
  else AboutUsLoadingScreen.setupLoadingScreen w

/-- Method `forceHide()` of `AboutUsLoadingScreen`. -/
def AboutUsLoadingScreen.forceHide (w : World) : World := AboutUsLoadingScreen.hideLoadingScreen w

/-- Method `forceShow()` of `AboutUsLoadingScreen`. -/
def AboutUsLoadingScreen.forceShow (w : World) : World := AboutUsLoadingScreen.showLoadingScreen w

/-- Expression `new AboutUsLoadingScreen()` on the page `p` at clock reading `t0`. -/
def AboutUsLoadingScreen.construct (p : Page) (t0 : Nat) : World :=
  AboutUsLoadingScreen.init p.loading
    { now := t0
      overlay := p.overlay
      bodyOverflow := p.bodyOverflow
      resolved := p.resolved
      perfObserver := p.perfObserver
      ctl := AboutUsLoadingScreen.new
      timers := []
      loadListeners := 0
      domListeners := 0
      observers := 0
      trace := [] }

/-- The callbacks and public methods of `AboutUsLoadingScreen` that the event loop runs. -/
def AboutUsLoadingScreen.methods : Methods :=
  { scheduleHideLoadingScreen := AboutUsLoadingScreen.scheduleHideLoadingScreen
    checkElements := AboutUsLoadingScreen.checkElements
    hideLoadingScreen := AboutUsLoadingScreen.hideLoadingScreen
    fadeCallback := AboutUsLoadingScreen.fadeCallback
    setupLoadingScreen := AboutUsLoadingScreen.setupLoadingScreen
    observerCallback := AboutUsLoadingScreen.observerCallback
    forceHide := AboutUsLoadingScreen.forceHide
    forceShow := AboutUsLoadingScreen.forceShow }


/-! ### The class `BlogLoadingScreen` of `blog-loading.js` -/

/-- The selector list `criticalElements` of `BlogLoadingScreen.checkCriticalElements`. -/
def BlogLoadingScreen.criticalElements : List String :=
  [".blog-hero", ".blog-section", ".blog-posts", "nav", ".footer"]

/-- The object the constructor of `BlogLoadingScreen` builds before it calls `init()`: the
fields it assigns (it assigns no `startTime`), together with the selector list
that `checkCriticalElements` closes over. -/
def BlogLoadingScreen.new : Controller :=
  { loadingScreen := false
    minLoadingTime := 1500
    maxLoadingTime := 5000
    fadeOutDuration := 500
    startTime := none
    criticalElements := BlogLoadingScreen.criticalElements }

/-- Method `showLoadingScreen()` of `BlogLoadingScreen`. -/
def BlogLoadingScreen.showLoadingScreen (w : World) : World :=
  if w.ctl.loadingScreen = false then w
  else
    { w with
      overlay := w.overlay.map fun e =>
        { e with
          display := "flex"
          classList := classRemove "hidden" e.classList
          opacity := "1"
          visibility := "visible" }
      bodyOverflow := "hidden" }

/-- The fade callback of `BlogLoadingScreen.hideLoadingScreen`; its `console.log` line
reads `Blog loading screen hidden`. -/
def BlogLoadingScreen.fadeCallback (w : World) : Except String World :=
  if w.ctl.loadingScreen = false then
    Except.error "TypeError: this.loadingScreen is null"
  else
    Except.ok <| record Action.detached
      { w with
        overlay := w.overlay.map fun e =>
          { e with display := "none", classList := classAdd "hidden" e.classList }
        bodyOverflow := "" }

/-- Method `hideLoadingScreen()` of `BlogLoadingScreen`. -/
def BlogLoadingScreen.hideLoadingScreen (w : World) : World :=
  if w.ctl.loadingScreen = false then w
  else
    let w1 : World :=
      { w with overlay := w.overlay.map fun e =>
          { e with classList := classAdd "fade-out" e.classList } }
    record Action.fadeOut
      (setTimeout Callback.detach (JSNum.num w1.ctl.fadeOutDuration) w1)

/-- Method `scheduleHideLoadingScreen()` of `BlogLoadingScreen`. -/
def BlogLoadingScreen.scheduleHideLoadingScreen (w : World) : World :=
  let elapsedTime := (JSNum.num w.now).sub (toNumber w.ctl.startTime)
  let remainingTime := mathMax (JSNum.num 0) ((JSNum.num w.ctl.minLoadingTime).sub elapsedTime)
  record (Action.scheduled remainingTime) (setTimeout Callback.hide remainingTime w)

/-- Function `checkElements` of `BlogLoadingScreen.checkCriticalElements`. -/
def BlogLoadingScreen.checkElements (w : World) : World :=
  let allLoaded := BlogLoadingScreen.criticalElements.all fun selector => decide (selector ∈ w.resolved)
  let w1 := record (Action.polled allLoaded) w
  if allLoaded then BlogLoadingScreen.scheduleHideLoadingScreen w1
  else setTimeout Callback.checkElements (JSNum.num 100) w1

/-- Method `checkCriticalElements()` of `BlogLoadingScreen`. -/
def BlogLoadingScreen.checkCriticalElements (w : World) : World :=
  setTimeout Callback.checkElements (JSNum.num 500) w

/-- Method `setupLoadingCompletion()` of `BlogLoadingScreen`. -/
def BlogLoadingScreen.setupLoadingCompletion (w : World) : World :=
  let w1 : World := { w with loadListeners := w.loadListeners + 1 }
  let w2 := setTimeout Callback.timeoutFallback (JSNum.num w1.ctl.maxLoadingTime) w1
  BlogLoadingScreen.checkCriticalElements w2

/-- Method `setupPerformanceObserver()` of `BlogLoadingScreen`. -/
def BlogLoadingScreen.setupPerformanceObserver (w : World) : World :=
  match w.perfObserver with
  | ObserverSupport.absent => w
  | ObserverSupport.throws => record Action.warnObserver w
  | ObserverSupport.available => { w with observers := w.observers + 1 }

/-- The navigation observer callback of `BlogLoadingScreen.setupPerformanceObserver`. -/
def BlogLoadingScreen.observerCallback (entries : List Nat) (w : World) : World :=
  match entries.getLast? with
  | some loadEventEnd => if loadEventEnd ≠ 0 then BlogLoadingScreen.scheduleHideLoadingScreen w else w
  | none => w

/-- Method `setupLoadingScreen()` of `BlogLoadingScreen`; its `console.log` line reads
`Blog loading screen initialized`. -/
def BlogLoadingScreen.setupLoadingScreen (w : World) : World :=
  let w1 : World := { w with ctl := { w.ctl with loadingScreen := w.overlay.isSome } }
  if w1.ctl.loadingScreen = false then record Action.warnMissing w1
  else
    record Action.initialized
      (BlogLoadingScreen.setupPerformanceObserver
        (BlogLoadingScreen.setupLoadingCompletion (BlogLoadingScreen.showLoadingScreen w1)))

/-- Method `init()` of `BlogLoadingScreen`. -/
def BlogLoadingScreen.init (loading : Bool) (w : World) : World :=
  if loading then { w with domListeners := w.domListeners + 1 }
  else BlogLoadingScreen.setupLoadingScreen w

/-- Method `forceHide()` of `BlogLoadingScreen`. -/
def BlogLoadingScreen.forceHide (w : World) : World := BlogLoadingScreen.hideLoadingScreen w

/-- Method `forceShow()` of `BlogLoadingScreen`. -/
def BlogLoadingScreen.forceShow (w : World) : World := BlogLoadingScreen.showLoadingScreen w

/-- Expression `new BlogLoadingScreen()` on the page `p` at clock reading `t0`. -/
def BlogLoadingScreen.construct (p : Page) (t0 : Nat) : World :=
  BlogLoadingScreen.init p.loading
    { now := t0
      overlay := p.overlay
      bodyOverflow := p.bodyOverflow
      resolved := p.resolved
      perfObserver := p.perfObserver
      ctl := BlogLoadingScreen.new
      timers := []
      loadListeners := 0
      domListeners := 0
      observers := 0
      trace := [] }

/-- The callbacks and public methods of `BlogLoadingScreen` that the event loop runs. -/
def BlogLoadingScreen.methods : Methods :=
  { scheduleHideLoadingScreen := BlogLoadingScreen.scheduleHideLoadingScreen
    checkElements := BlogLoadingScreen.checkElements
    hideLoadingScreen := BlogLoadingScreen.hideLoadingScreen
    fadeCallback := BlogLoadingScreen.fadeCallback
    setupLoadingScreen := BlogLoadingScreen.setupLoadingScreen
    observerCallback := BlogLoadingScreen.observerCallback
    forceHide := BlogLoadingScreen.forceHide
    forceShow := BlogLoadingScreen.forceShow }


/-! ### The class `BookNowLoadingScreen` of `booknow-loading.js` -/

/-- The selector list `criticalElements` of `BookNowLoadingScreen.checkCriticalElements`. -/
def BookNowLoadingScreen.criticalElements : List String :=
  [".gallery-hero", ".booking-services", ".booking-datetime", ".booking-form-section",
   "nav", ".footer"]

/-- The object the constructor of `BookNowLoadingScreen` builds before it calls `init()`: the
fields it assigns (it assigns no `startTime`), together with the selector list
that `checkCriticalElements` closes over. -/
def BookNowLoadingScreen.new : Controller :=
  { loadingScreen := false
    minLoadingTime := 1500
    maxLoadingTime := 5000
    fadeOutDuration := 500
    startTime := none
    criticalElements := BookNowLoadingScreen.criticalElements }

/-- Method `showLoadingScreen()` of `BookNowLoadingScreen`. -/
def BookNowLoadingScreen.showLoadingScreen (w : World) : World :=
  if w.ctl.loadingScreen = false then w
  else
    { w with
      overlay := w.overlay.map fun e =>
        { e with
          display := "flex"
          classList := classRemove "hidden" e.classList
          opacity := "1"
          visibility := "visible" }
      bodyOverflow := "hidden" }

/-- The fade callback of `BookNowLoadingScreen.hideLoadingScreen`; its `console.log` line
reads `Book Now loading screen hidden`. -/
def BookNowLoadingScreen.fadeCallback (w : World) : Except String World :=
  if w.ctl.loadingScreen = false then
    Except.error "TypeError: this.loadingScreen is null"
  else
    Except.ok <| record Action.detached
      { w with
        overlay := w.overlay.map fun e =>
          { e with display := "none", classList := classAdd "hidden" e.classList }
        bodyOverflow := "" }

/-- Method `hideLoadingScreen()` of `BookNowLoadingScreen`. -/
def BookNowLoadingScreen.hideLoadingScreen (w : World) : World :=
  if w.ctl.loadingScreen = false then w
  else
    let w1 : World :=
      { w with overlay := w.overlay.map fun e =>
          { e with classList := classAdd "fade-out" e.classList } }
    record Action.fadeOut
      (setTimeout Callback.detach (JSNum.num w1.ctl.fadeOutDuration) w1)

/-- Method `scheduleHideLoadingScreen()` of `BookNowLoadingScreen`. -/
def BookNowLoadingScreen.scheduleHideLoadingScreen (w : World) : World :=
  let elapsedTime := (JSNum.num w.now).sub (toNumber w.ctl.startTime)
  let remainingTime := mathMax (JSNum.num 0) ((JSNum.num w.ctl.minLoadingTime).sub elapsedTime)
  record (Action.scheduled remainingTime) (setTimeout Callback.hide remainingTime w)

/-- Function `checkElements` of `BookNowLoadingScreen.checkCriticalElements`. -/
def BookNowLoadingScreen.checkElements (w : World) : World :=
  let allLoaded := BookNowLoadingScreen.criticalElements.all fun selector => decide (selector ∈ w.resolved)
  let w1 := record (Action.polled allLoaded) w
  if allLoaded then BookNowLoadingScreen.scheduleHideLoadingScreen w1
  else setTimeout Callback.checkElements (JSNum.num 100) w1

/-- Method `checkCriticalElements()` of `BookNowLoadingScreen`. -/
def BookNowLoadingScreen.checkCriticalElements (w : World) : World :=
  setTimeout Callback.checkElements (JSNum.num 500) w

/-- Method `setupLoadingCompletion()` of `BookNowLoadingScreen`. -/
def BookNowLoadingScreen.setupLoadingCompletion (w : World) : World :=
  let w1 : World := { w with loadListeners := w.loadListeners + 1 }
  let w2 := setTimeout Callback.timeoutFallback (JSNum.num w1.ctl.maxLoadingTime) w1
  BookNowLoadingScreen.checkCriticalElements w2

/-- Method `setupPerformanceObserver()` of `BookNowLoadingScreen`. -/
def BookNowLoadingScreen.setupPerformanceObserver (w : World) : World :=
  match w.perfObserver with
  | ObserverSupport.absent => w
  | ObserverSupport.throws => record Action.warnObserver w
  | ObserverSupport.available => { w with observers := w.observers + 1 }

/-- The navigation observer callback of `BookNowLoadingScreen.setupPerformanceObserver`. -/
def BookNowLoadingScreen.observerCallback (entries : List Nat) (w : World) : World :=
  match entries.getLast? with
  | some loadEventEnd => if loadEventEnd ≠ 0 then BookNowLoadingScreen.scheduleHideLoadingScreen w else w
  | none => w

/-- Method `setupLoadingScreen()` of `BookNowLoadingScreen`; its `console.log` line reads
`Book Now loading screen initialized`. -/
def BookNowLoadingScreen.setupLoadingScreen (w : World) : World :=
  let w1 : World := { w with ctl := { w.ctl with loadingScreen := w.overlay.isSome } }
  if w1.ctl.loadingScreen = false then record Action.warnMissing w1
  else
    record Action.initialized
      (BookNowLoadingScreen.setupPerformanceObserver
        (BookNowLoadingScreen.setupLoadingCompletion (BookNowLoadingScreen.showLoadingScreen w1)))

/-- Method `init()` of `BookNowLoadingScreen`. -/
def BookNowLoadingScreen.init (loading : Bool) (w : World) : World :=
  if loading then { w with domListeners := w.domListeners + 1 }
  else BookNowLoadingScreen.setupLoadingScreen w

/-- Method `forceHide()` of `BookNowLoadingScreen`. -/
def BookNowLoadingScreen.forceHide (w : World) : World := BookNowLoadingScreen.hideLoadingScreen w

/-- Method `forceShow()` of `BookNowLoadingScreen`. -/
def BookNowLoadingScreen.forceShow (w : World) : World := BookNowLoadingScreen.showLoadingScreen w

/-- Expression `new BookNowLoadingScreen()` on the page `p` at clock reading `t0`. -/
def BookNowLoadingScreen.construct (p : Page) (t0 : Nat) : World :=
  BookNowLoadingScreen.init p.loading
    { now := t0
      overlay := p.overlay
      bodyOverflow := p.bodyOverflow
      resolved := p.resolved
      perfObserver := p.perfObserver
      ctl := BookNowLoadingScreen.new
      timers := []
      loadListeners := 0
      domListeners := 0
      observers := 0
      trace := [] }

/-- The callbacks and public methods of `BookNowLoadingScreen` that the event loop runs. -/
def BookNowLoadingScreen.methods : Methods :=
  { scheduleHideLoadingScreen := BookNowLoadingScreen.scheduleHideLoadingScreen
    checkElements := BookNowLoadingScreen.checkElements
    hideLoadingScreen := BookNowLoadingScreen.hideLoadingScreen
    fadeCallback := BookNowLoadingScreen.fadeCallback
    setupLoadingScreen := BookNowLoadingScreen.setupLoadingScreen
    observerCallback := BookNowLoadingScreen.observerCallback
    forceHide := BookNowLoadingScreen.forceHide
    forceShow := BookNowLoadingScreen.forceShow }


/-! ### The class `ContactLoadingScreen` of `contact-loading.js` -/

/-- The selector list `criticalElements` of `ContactLoadingScreen.checkCriticalElements`. -/
def ContactLoadingScreen.criticalElements : List String :=
  [".contact-hero", ".message-section", "nav", ".footer"]

/-- The object the constructor of `ContactLoadingScreen` builds before it calls `init()`: the
fields it assigns (it assigns no `startTime`), together with the selector list
that `checkCriticalElements` closes over. -/
def ContactLoadingScreen.new : Controller :=
  { loadingScreen := false
    minLoadingTime := 1500
    maxLoadingTime := 5000
    fadeOutDuration := 500
    startTime := none
    criticalElements := ContactLoadingScreen.criticalElements }

/-- Method `showLoadingScreen()` of `ContactLoadingScreen`. -/
def ContactLoadingScreen.showLoadingScreen (w : World) : World :=
  if w.ctl.loadingScreen = false then w
  else
    { w with
      overlay := w.overlay.map fun e =>
        { e with
          display := "flex"
          classList := classRemove "hidden" e.classList
          opacity := "1"
          visibility := "visible" }
      bodyOverflow := "hidden" }

/-- The fade callback of `ContactLoadingScreen.hideLoadingScreen`; its `console.log` line
reads `Loading screen hidden`. -/
def ContactLoadingScreen.fadeCallback (w : World) : Except String World :=
  if w.ctl.loadingScreen = false then
    Except.error "TypeError: this.loadingScreen is null"
  else
    Except.ok <| record Action.detached
      { w with
        overlay := w.overlay.map fun e =>
          { e with display := "none", classList := classAdd "hidden" e.classList }
        bodyOverflow := "" }

/-- Method `hideLoadingScreen()` of `ContactLoadingScreen`. -/
def ContactLoadingScreen.hideLoadingScreen (w : World) : World :=
  if w.ctl.loadingScreen = false then w
  else
    let w1 : World :=
      { w with overlay := w.overlay.map fun e =>
          { e with classList := classAdd "fade-out" e.classList } }
    record Action.fadeOut
      (setTimeout Callback.detach (JSNum.num w1.ctl.fadeOutDuration) w1)

/-- Method `scheduleHideLoadingScreen()` of `ContactLoadingScreen`. -/
def ContactLoadingScreen.scheduleHideLoadingScreen (w : World) : World :=
  let elapsedTime := (JSNum.num w.now).sub (toNumber w.ctl.startTime)
  let remainingTime := mathMax (JSNum.num 0) ((JSNum.num w.ctl.minLoadingTime).sub elapsedTime)
  record (Action.scheduled remainingTime) (setTimeout Callback.hide remainingTime w)

/-- Function `checkElements` of `ContactLoadingScreen.checkCriticalElements`. -/
def ContactLoadingScreen.checkElements (w : World) : World :=
  let allLoaded := ContactLoadingScreen.criticalElements.all fun selector => decide (selector ∈ w.resolved)
  let w1 := record (Action.polled allLoaded) w
  if allLoaded then ContactLoadingScreen.scheduleHideLoadingScreen w1
  else setTimeout Callback.checkElements (JSNum.num 100) w1

/-- Method `checkCriticalElements()` of `ContactLoadingScreen`. -/
def ContactLoadingScreen.checkCriticalElements (w : World) : World :=
  setTimeout Callback.checkElements (JSNum.num 500) w

/-- Method `setupLoadingCompletion()` of `ContactLoadingScreen`. -/
def ContactLoadingScreen.setupLoadingCompletion (w : World) : World :=
  let w1 : World := { w with loadListeners := w.loadListeners + 1 }
  let w2 := setTimeout Callback.timeoutFallback (JSNum.num w1.ctl.maxLoadingTime) w1
  ContactLoadingScreen.checkCriticalElements w2

/-- Method `setupPerformanceObserver()` of `ContactLoadingScreen`. -/
def ContactLoadingScreen.setupPerformanceObserver (w : World) : World :=
  match w.perfObserver with
  | ObserverSupport.absent => w
  | ObserverSupport.throws => record Action.warnObserver w
  | ObserverSupport.available => { w with observers := w.observers + 1 }

/-- The navigation observer callback of `ContactLoadingScreen.setupPerformanceObserver`. -/
def ContactLoadingScreen.observerCallback (entries : List Nat) (w : World) : World :=
  match entries.getLast? with
  | some loadEventEnd => if loadEventEnd ≠ 0 then ContactLoadingScreen.scheduleHideLoadingScreen w else w
  | none => w

/-- Method `setupLoadingScreen()` of `ContactLoadingScreen`; its `console.log` line reads
`Contact loading screen initialized`. -/
def ContactLoadingScreen.setupLoadingScreen (w : World) : World :=
  let w1 : World := { w with ctl := { w.ctl with loadingScreen := w.overlay.isSome } }
  if w1.ctl.loadingScreen = false then record Action.warnMissing w1
  else
    record Action.initialized
      (ContactLoadingScreen.setupPerformanceObserver
        (ContactLoadingScreen.setupLoadingCompletion (ContactLoadingScreen.showLoadingScreen w1)))

/-- Method `init()` of `ContactLoadingScreen`. -/
def ContactLoadingScreen.init (loading : Bool) (w : World) : World :=
  if loading then { w with domListeners := w.domListeners + 1 }
  else ContactLoadingScreen.setupLoadingScreen w

/-- Method `forceHide()` of `ContactLoadingScreen`. -/
def ContactLoadingScreen.forceHide (w : World) : World := ContactLoadingScreen.hideLoadingScreen w

/-- Method `forceShow()` of `ContactLoadingScreen`. -/
def ContactLoadingScreen.forceShow (w : World) : World := ContactLoadingScreen.showLoadingScreen w

/-- Expression `new ContactLoadingScreen()` on the page `p` at clock reading `t0`. -/
def ContactLoadingScreen.construct (p : Page) (t0 : Nat) : World :=
  ContactLoadingScreen.init p.loading
    { now := t0
      overlay := p.overlay
      bodyOverflow := p.bodyOverflow
      resolved := p.resolved
      perfObserver := p.perfObserver
      ctl := ContactLoadingScreen.new
      timers := []
      loadListeners := 0
      domListeners := 0
      observers := 0
      trace := [] }

/-- The callbacks and public methods of `ContactLoadingScreen` that the event loop runs. -/
def ContactLoadingScreen.methods : Methods :=
  { scheduleHideLoadingScreen := ContactLoadingScreen.scheduleHideLoadingScreen
    checkElements := ContactLoadingScreen.checkElements
    hideLoadingScreen := ContactLoadingScreen.hideLoadingScreen
    fadeCallback := ContactLoadingScreen.fadeCallback
    setupLoadingScreen := ContactLoadingScreen.setupLoadingScreen
    observerCallback := ContactLoadingScreen.observerCallback
    forceHide := ContactLoadingScreen.forceHide
    forceShow := ContactLoadingScreen.forceShow }


/-! ### The class `GalleryLoadingScreen` of `gallery-loading.js` -/

/-- The selector list `criticalElements` of `GalleryLoadingScreen.checkCriticalElements`. -/
def GalleryLoadingScreen.criticalElements : List String :=
  [".gallery-hero", ".gallery-section", ".gallery-grid", "nav", ".footer"]

/-- The object the constructor of `GalleryLoadingScreen` builds before it calls `init()`: the
fields it assigns (it assigns no `startTime`), together with the selector list
that `checkCriticalElements` closes over. -/
def GalleryLoadingScreen.new : Controller :=
  { loadingScreen := false
    minLoadingTime := 1500
    maxLoadingTime := 5000
    fadeOutDuration := 500
    startTime := none
    criticalElements := GalleryLoadingScreen.criticalElements }

/-- Method `showLoadingScreen()` of `GalleryLoadingScreen`. -/
def GalleryLoadingScreen.showLoadingScreen (w : World) : World :=
  if w.ctl.loadingScreen = false then w
  else
    { w with
      overlay := w.overlay.map fun e =>
        { e with
          display := "flex"
          classList := classRemove "hidden" e.classList
          opacity := "1"
          visibility := "visible" }
      bodyOverflow := "hidden" }

/-- The fade callback of `GalleryLoadingScreen.hideLoadingScreen`; its `console.log` line
reads `Gallery loading screen hidden`. -/
def GalleryLoadingScreen.fadeCallback (w : World) : Except String World :=
  if w.ctl.loadingScreen = false then
    Except.error "TypeError: this.loadingScreen is null"
  else
    Except.ok <| record Action.detached
      { w with
        overlay := w.overlay.map fun e =>
          { e with display := "none", classList := classAdd "hidden" e.classList }
        bodyOverflow := "" }

/-- Method `hideLoadingScreen()` of `GalleryLoadingScreen`. -/
def GalleryLoadingScreen.hideLoadingScreen (w : World) : World :=
  if w.ctl.loadingScreen = false then w
  else
    let w1 : World :=
      { w with overlay := w.overlay.map fun e =>
          { e with classList := classAdd "fade-out" e.classList } }
    record Action.fadeOut
      (setTimeout Callback.detach (JSNum.num w1.ctl.fadeOutDuration) w1)

/-- Method `scheduleHideLoadingScreen()` of `GalleryLoadingScreen`. -/
def GalleryLoadingScreen.scheduleHideLoadingScreen (w : World) : World :=
  let elapsedTime := (JSNum.num w.now).sub (toNumber w.ctl.startTime)
  let remainingTime := mathMax (JSNum.num 0) ((JSNum.num w.ctl.minLoadingTime).sub elapsedTime)
  record (Action.scheduled remainingTime) (setTimeout Callback.hide remainingTime w)

/-- Function `checkElements` of `GalleryLoadingScreen.checkCriticalElements`. -/
def GalleryLoadingScreen.checkElements (w : World) : World :=
  let allLoaded := GalleryLoadingScreen.criticalElements.all fun selector => decide (selector ∈ w.resolved)
  let w1 := record (Action.polled allLoaded) w
  if allLoaded then GalleryLoadingScreen.scheduleHideLoadingScreen w1
  else setTimeout Callback.checkElements (JSNum.num 100) w1

/-- Method `checkCriticalElements()` of `GalleryLoadingScreen`. -/
def GalleryLoadingScreen.checkCriticalElements (w : World) : World :=
  setTimeout Callback.checkElements (JSNum.num 500) w

/-- Method `setupLoadingCompletion()` of `GalleryLoadingScreen`. -/
def GalleryLoadingScreen.setupLoadingCompletion (w : World) : World :=
  let w1 : World := { w with loadListeners := w.loadListeners + 1 }
  let w2 := setTimeout Callback.timeoutFallback (JSNum.num w1.ctl.maxLoadingTime) w1
  GalleryLoadingScreen.checkCriticalElements w2

/-- Method `setupPerformanceObserver()` of `GalleryLoadingScreen`. -/
def GalleryLoadingScreen.setupPerformanceObserver (w : World) : World :=
  match w.perfObserver with
  | ObserverSupport.absent => w
  | ObserverSupport.throws => record Action.warnObserver w
  | ObserverSupport.available => { w with observers := w.observers + 1 }

/-- The navigation observer callback of `GalleryLoadingScreen.setupPerformanceObserver`. -/
def GalleryLoadingScreen.observerCallback (entries : List Nat) (w : World) : World :=
  match entries.getLast? with
  | some loadEventEnd => if loadEventEnd ≠ 0 then GalleryLoadingScreen.scheduleHideLoadingScreen w else w
  | none => w

/-- Method `setupLoadingScreen()` of `GalleryLoadingScreen`; its `console.log` line reads
`Gallery loading screen initialized`. -/
def GalleryLoadingScreen.setupLoadingScreen (w : World) : World :=
  let w1 : World := { w with ctl := { w.ctl with loadingScreen := w.overlay.isSome } }
  if w1.ctl.loadingScreen = false then record Action.warnMissing w1
  else
    record Action.initialized
      (GalleryLoadingScreen.setupPerformanceObserver
        (GalleryLoadingScreen.setupLoadingCompletion (GalleryLoadingScreen.showLoadingScreen w1)))

/-- Method `init()` of `GalleryLoadingScreen`. -/
def GalleryLoadingScreen.init (loading : Bool) (w : World) : World :=
  if loading then { w with domListeners := w.domListeners + 1 }
  else GalleryLoadingScreen.setupLoadingScreen w

/-- Method `forceHide()` of `GalleryLoadingScreen`. -/
def GalleryLoadingScreen.forceHide (w : World) : World := GalleryLoadingScreen.hideLoadingScreen w

/-- Method `forceShow()` of `GalleryLoadingScreen`. -/
def GalleryLoadingScreen.forceShow (w : World) : World := GalleryLoadingScreen.showLoadingScreen w

/-- Expression `new GalleryLoadingScreen()` on the page `p` at clock reading `t0`. -/
def GalleryLoadingScreen.construct (p : Page) (t0 : Nat) : World :=
  GalleryLoadingScreen.init p.loading
    { now := t0
      overlay := p.overlay
      bodyOverflow := p.bodyOverflow
      resolved := p.resolved
      perfObserver := p.perfObserver
      ctl := GalleryLoadingScreen.new
      timers := []
      loadListeners := 0
      domListeners := 0
      observers := 0
      trace := [] }

/-- The callbacks and public methods of `GalleryLoadingScreen` that the event loop runs. -/
def GalleryLoadingScreen.methods : Methods :=
  { scheduleHideLoadingScreen := GalleryLoadingScreen.scheduleHideLoadingScreen
    checkElements := GalleryLoadingScreen.checkElements
    hideLoadingScreen := GalleryLoadingScreen.hideLoadingScreen
    fadeCallback := GalleryLoadingScreen.fadeCallback
    setupLoadingScreen := GalleryLoadingScreen.setupLoadingScreen
    observerCallback := GalleryLoadingScreen.observerCallback
    forceHide := GalleryLoadingScreen.forceHide
    forceShow := GalleryLoadingScreen.forceShow }


/-! ### The class `HaircutLoadingScreen` of `haircut-loading.js` -/

/-- The selector list `criticalElements` of `HaircutLoadingScreen.checkCriticalElements`. -/
def HaircutLoadingScreen.criticalElements : List String :=
  [".blog-hero", ".haircut-content", ".perfect-haircut-section",
   ".modern-haircut-carousel-section", ".new-hero-section", "nav", ".footer"]

/-- The object the constructor of `HaircutLoadingScreen` builds before it calls `init()`: the
fields it assigns (it assigns no `startTime`), together with the selector list
that `checkCriticalElements` closes over. -/
def HaircutLoadingScreen.new : Controller :=
  { loadingScreen := false
    minLoadingTime := 1500
    maxLoadingTime := 5000
    fadeOutDuration := 500
    startTime := none
    criticalElements := HaircutLoadingScreen.criticalElements }

/-- Method `showLoadingScreen()` of `HaircutLoadingScreen`. -/
def HaircutLoadingScreen.showLoadingScreen (w : World) : World :=
  if w.ctl.loadingScreen = false then w
  else
    { w with
      overlay := w.overlay.map fun e =>
        { e with
          display := "flex"
          classList := classRemove "hidden" e.classList
          opacity := "1"
          visibility := "visible" }
      bodyOverflow := "hidden" }

/-- The fade callback of `HaircutLoadingScreen.hideLoadingScreen`; its `console.log` line
reads `Haircut loading screen hidden`. -/
def HaircutLoadingScreen.fadeCallback (w : World) : Except String World :=
  if w.ctl.loadingScreen = false then
    Except.error "TypeError: this.loadingScreen is null"
  else
    Except.ok <| record Action.detached
      { w with
        overlay := w.overlay.map fun e =>
          { e with display := "none", classList := classAdd "hidden" e.classList }
        bodyOverflow := "" }

/-- Method `hideLoadingScreen()` of `HaircutLoadingScreen`. -/
def HaircutLoadingScreen.hideLoadingScreen (w : World) : World :=
  if w.ctl.loadingScreen = false then w
  else
    let w1 : World :=
      { w with overlay := w.overlay.map fun e =>
          { e with classList := classAdd "fade-out" e.classList } }
    record Action.fadeOut
      (setTimeout Callback.detach (JSNum.num w1.ctl.fadeOutDuration) w1)

/-- Method `scheduleHideLoadingScreen()` of `HaircutLoadingScreen`. -/
def HaircutLoadingScreen.scheduleHideLoadingScreen (w : World) : World :=
  let elapsedTime := (JSNum.num w.now).sub (toNumber w.ctl.startTime)
  let remainingTime := mathMax (JSNum.num 0) ((JSNum.num w.ctl.minLoadingTime).sub elapsedTime)
  record (Action.scheduled remainingTime) (setTimeout Callback.hide remainingTime w)

/-- Function `checkElements` of `HaircutLoadingScreen.checkCriticalElements`. -/
def HaircutLoadingScreen.checkElements (w : World) : World :=
  let allLoaded := HaircutLoadingScreen.criticalElements.all fun selector => decide (selector ∈ w.resolved)
  let w1 := record (Action.polled allLoaded) w
  if allLoaded then HaircutLoadingScreen.scheduleHideLoadingScreen w1
  else setTimeout Callback.checkElements (JSNum.num 100) w1

/-- Method `checkCriticalElements()` of `HaircutLoadingScreen`. -/
def HaircutLoadingScreen.checkCriticalElements (w : World) : World :=
  setTimeout Callback.checkElements (JSNum.num 500) w

/-- Method `setupLoadingCompletion()` of `HaircutLoadingScreen`. -/
def HaircutLoadingScreen.setupLoadingCompletion (w : World) : World :=
  let w1 : World := { w with loadListeners := w.loadListeners + 1 }
  let w2 := setTimeout Callback.timeoutFallback (JSNum.num w1.ctl.maxLoadingTime) w1
  HaircutLoadingScreen.checkCriticalElements w2

/-- Method `setupPerformanceObserver()` of `HaircutLoadingScreen`. -/
def HaircutLoadingScreen.setupPerformanceObserver (w : World) : World :=
  match w.perfObserver with
  | ObserverSupport.absent => w
  | ObserverSupport.throws => record Action.warnObserver w
  | ObserverSupport.available => { w with observers := w.observers + 1 }

/-- The navigation observer callback of `HaircutLoadingScreen.setupPerformanceObserver`. -/
def HaircutLoadingScreen.observerCallback (entries : List Nat) (w : World) : World :=
  match entries.getLast? with
  | some loadEventEnd => if loadEventEnd ≠ 0 then HaircutLoadingScreen.scheduleHideLoadingScreen w else w
  | none => w

/-- Method `setupLoadingScreen()` of `HaircutLoadingScreen`; its `console.log` line reads
`Haircut loading screen initialized`. -/
def HaircutLoadingScreen.setupLoadingScreen (w : World) : World :=
  let w1 : World := { w with ctl := { w.ctl with loadingScreen := w.overlay.isSome } }
  if w1.ctl.loadingScreen = false then record Action.warnMissing w1
  else
    record Action.initialized
      (HaircutLoadingScreen.setupPerformanceObserver
        (HaircutLoadingScreen.setupLoadingCompletion (HaircutLoadingScreen.showLoadingScreen w1)))

/-- Method `init()` of `HaircutLoadingScreen`. -/
def HaircutLoadingScreen.init (loading : Bool) (w : World) : World :=
  if loading then { w with domListeners := w.domListeners + 1 }
  else HaircutLoadingScreen.setupLoadingScreen w

/-- Method `forceHide()` of `HaircutLoadingScreen`. -/
def HaircutLoadingScreen.forceHide (w : World) : World := HaircutLoadingScreen.hideLoadingScreen w

/-- Method `forceShow()` of `HaircutLoadingScreen`. -/
def HaircutLoadingScreen.forceShow (w : World) : World := HaircutLoadingScreen.showLoadingScreen w

/-- Expression `new HaircutLoadingScreen()` on the page `p` at clock reading `t0`. -/
def HaircutLoadingScreen.construct (p : Page) (t0 : Nat) : World :=
  HaircutLoadingScreen.init p.loading
    { now := t0
      overlay := p.overlay
      bodyOverflow := p.bodyOverflow
      resolved := p.resolved
      perfObserver := p.perfObserver
      ctl := HaircutLoadingScreen.new
      timers := []
      loadListeners := 0
      domListeners := 0
      observers := 0
      trace := [] }

/-- The callbacks and public methods of `HaircutLoadingScreen` that the event loop runs. -/
def HaircutLoadingScreen.methods : Methods :=
  { scheduleHideLoadingScreen := HaircutLoadingScreen.scheduleHideLoadingScreen
    checkElements := HaircutLoadingScreen.checkElements
    hideLoadingScreen := HaircutLoadingScreen.hideLoadingScreen
    fadeCallback := HaircutLoadingScreen.fadeCallback
    setupLoadingScreen := HaircutLoadingScreen.setupLoadingScreen
    observerCallback := HaircutLoadingScreen.observerCallback
    forceHide := HaircutLoadingScreen.forceHide
    forceShow := HaircutLoadingScreen.forceShow }


/-! ### The class `IndexLoadingScreen` of `index-loading.js` -/

/-- The selector list `criticalElements` of `IndexLoadingScreen.checkCriticalElements`. -/
def IndexLoadingScreen.criticalElements : List String :=
  [".hero", ".about", ".trending-styles", ".services", "nav", ".footer"]

/-- The object the constructor of `IndexLoadingScreen` builds before it calls `init()`: the
fields it assigns (it assigns no `startTime`), together with the selector list
that `checkCriticalElements` closes over. -/
def IndexLoadingScreen.new : Controller :=
  { loadingScreen := false
    minLoadingTime := 2000
    maxLoadingTime := 6000
    fadeOutDuration := 500
    startTime := none
    criticalElements := IndexLoadingScreen.criticalElements }

/-- Method `showLoadingScreen()` of `IndexLoadingScreen`. -/
def IndexLoadingScreen.showLoadingScreen (w : World) : World :=
  if w.ctl.loadingScreen = false then w
  else
    { w with
      overlay := w.overlay.map fun e =>
        { e with
          display := "flex"
          classList := classRemove "hidden" e.classList
          opacity := "1"
          visibility := "visible" }
      bodyOverflow := "hidden" }

/-- The fade callback of `IndexLoadingScreen.hideLoadingScreen`; its `console.log` line
reads `Index loading screen hidden`. -/
def IndexLoadingScreen.fadeCallback (w : World) : Except String World :=
  if w.ctl.loadingScreen = false then
    Except.error "TypeError: this.loadingScreen is null"
  else
    Except.ok <| record Action.detached
      { w with
        overlay := w.overlay.map fun e =>
          { e with display := "none", classList := classAdd "hidden" e.classList }
        bodyOverflow := "" }

/-- Method `hideLoadingScreen()` of `IndexLoadingScreen`. -/
def IndexLoadingScreen.hideLoadingScreen (w : World) : World :=
  if w.ctl.loadingScreen = false then w
  else
    let w1 : World :=
      { w with overlay := w.overlay.map fun e =>
          { e with classList := classAdd "fade-out" e.classList } }
    record Action.fadeOut
      (setTimeout Callback.detach (JSNum.num w1.ctl.fadeOutDuration) w1)

/-- Method `scheduleHideLoadingScreen()` of `IndexLoadingScreen`. -/
def IndexLoadingScreen.scheduleHideLoadingScreen (w : World) : World :=
  let elapsedTime := (JSNum.num w.now).sub (toNumber w.ctl.startTime)
  let remainingTime := mathMax (JSNum.num 0) ((JSNum.num w.ctl.minLoadingTime).sub elapsedTime)
  record (Action.scheduled remainingTime) (setTimeout Callback.hide remainingTime w)

/-- Function `checkElements` of `IndexLoadingScreen.checkCriticalElements`. -/
def IndexLoadingScreen.checkElements (w : World) : World :=
  let allLoaded := IndexLoadingScreen.criticalElements.all fun selector => decide (selector ∈ w.resolved)
  let w1 := record (Action.polled allLoaded) w
  if allLoaded then IndexLoadingScreen.scheduleHideLoadingScreen w1
  else setTimeout Callback.checkElements (JSNum.num 100) w1

/-- Method `checkCriticalElements()` of `IndexLoadingScreen`. -/
def IndexLoadingScreen.checkCriticalElements (w : World) : World :=
  setTimeout Callback.checkElements (JSNum.num 500) w

/-- Method `setupLoadingCompletion()` of `IndexLoadingScreen`. -/
def IndexLoadingScreen.setupLoadingCompletion (w : World) : World :=
  let w1 : World := { w with loadListeners := w.loadListeners + 1 }
  let w2 := setTimeout Callback.timeoutFallback (JSNum.num w1.ctl.maxLoadingTime) w1
  IndexLoadingScreen.checkCriticalElements w2

/-- Method `setupPerformanceObserver()` of `IndexLoadingScreen`. -/
def IndexLoadingScreen.setupPerformanceObserver (w : World) : World :=
  match w.perfObserver with
  | ObserverSupport.absent => w
  | ObserverSupport.throws => record Action.warnObserver w
  | ObserverSupport.available => { w with observers := w.observers + 1 }

/-- The navigation observer callback of `IndexLoadingScreen.setupPerformanceObserver`. -/
def IndexLoadingScreen.observerCallback (entries : List Nat) (w : World) : World :=
  match entries.getLast? with
  | some loadEventEnd => if loadEventEnd ≠ 0 then IndexLoadingScreen.scheduleHideLoadingScreen w else w
  | none => w

/-- Method `setupLoadingScreen()` of `IndexLoadingScreen`; its `console.log` line reads
`Index loading screen initialized`. -/
def IndexLoadingScreen.setupLoadingScreen (w : World) : World :=
  let w1 : World := { w with ctl := { w.ctl with loadingScreen := w.overlay.isSome } }
  if w1.ctl.loadingScreen = false then record Action.warnMissing w1
  else
    record Action.initialized
      (IndexLoadingScreen.setupPerformanceObserver
        (IndexLoadingScreen.setupLoadingCompletion (IndexLoadingScreen.showLoadingScreen w1)))

/-- Method `init()` of `IndexLoadingScreen`. -/
def IndexLoadingScreen.init (loading : Bool) (w : World) : World :=
  if loading then { w with domListeners := w.domListeners + 1 }
  else IndexLoadingScreen.setupLoadingScreen w

/-- Method `forceHide()` of `IndexLoadingScreen`. -/
def IndexLoadingScreen.forceHide (w : World) : World := IndexLoadingScreen.hideLoadingScreen w

/-- Method `forceShow()` of `IndexLoadingScreen`. -/
def IndexLoadingScreen.forceShow (w : World) : World := IndexLoadingScreen.showLoadingScreen w

/-- Expression `new IndexLoadingScreen()` on the page `p` at clock reading `t0`. -/
def IndexLoadingScreen.construct (p : Page) (t0 : Nat) : World :=
  IndexLoadingScreen.init p.loading
    { now := t0
      overlay := p.overlay
      bodyOverflow := p.bodyOverflow
      resolved := p.resolved
      perfObserver := p.perfObserver
      ctl := IndexLoadingScreen.new
      timers := []
      loadListeners := 0
      domListeners := 0
      observers := 0
      trace := [] }

/-- The callbacks and public methods of `IndexLoadingScreen` that the event loop runs. -/
def IndexLoadingScreen.methods : Methods :=
  { scheduleHideLoadingScreen := IndexLoadingScreen.scheduleHideLoadingScreen
    checkElements := IndexLoadingScreen.checkElements
    hideLoadingScreen := IndexLoadingScreen.hideLoadingScreen
    fadeCallback := IndexLoadingScreen.fadeCallback
    setupLoadingScreen := IndexLoadingScreen.setupLoadingScreen
    observerCallback := IndexLoadingScreen.observerCallback
    forceHide := IndexLoadingScreen.forceHide
    forceShow := IndexLoadingScreen.forceShow }


/-! ### The class `ServicesLoadingScreen` of `services-loading.js` -/

/-- The selector list `criticalElements` of `ServicesLoadingScreen.checkCriticalElements`. -/
def ServicesLoadingScreen.criticalElements : List String :=
  [".services-hero", ".services-content", ".services-pricing", ".service-cards", "nav",
   ".footer"]

/-- The object the constructor of `ServicesLoadingScreen` builds before it calls `init()`: the
fields it assigns (it assigns no `startTime`), together with the selector list
that `checkCriticalElements` closes over. -/
def ServicesLoadingScreen.new : Controller :=
  { loadingScreen := false
    minLoadingTime := 1500
    maxLoadingTime := 5000
    fadeOutDuration := 500
    startTime := none
    criticalElements := ServicesLoadingScreen.criticalElements }

/-- Method `showLoadingScreen()` of `ServicesLoadingScreen`. -/
def ServicesLoadingScreen.showLoadingScreen (w : World) : World :=
  if w.ctl.loadingScreen = false then w
  else
    { w with
      overlay := w.overlay.map fun e =>
        { e with
          display := "flex"
          classList := classRemove "hidden" e.classList
          opacity := "1"
          visibility := "visible" }
      bodyOverflow := "hidden" }

/-- The fade callback of `ServicesLoadingScreen.hideLoadingScreen`; its `console.log` line
reads `Services loading screen hidden`. -/
def ServicesLoadingScreen.fadeCallback (w : World) : Except String World :=
  if w.ctl.loadingScreen = false then
    Except.error "TypeError: this.loadingScreen is null"
  else
    Except.ok <| record Action.detached
      { w with
        overlay := w.overlay.map fun e =>
          { e with display := "none", classList := classAdd "hidden" e.classList }
        bodyOverflow := "" }

/-- Method `hideLoadingScreen()` of `ServicesLoadingScreen`. -/
def ServicesLoadingScreen.hideLoadingScreen (w : World) : World :=
  if w.ctl.loadingScreen = false then w
  else
    let w1 : World :=
      { w with overlay := w.overlay.map fun e =>
          { e with classList := classAdd "fade-out" e.classList } }
    record Action.fadeOut
      (setTimeout Callback.detach (JSNum.num w1.ctl.fadeOutDuration) w1)

/-- Method `scheduleHideLoadingScreen()` of `ServicesLoadingScreen`. -/
def ServicesLoadingScreen.scheduleHideLoadingScreen (w : World) : World :=
  let elapsedTime := (JSNum.num w.now).sub (toNumber w.ctl.startTime)
  let remainingTime := mathMax (JSNum.num 0) ((JSNum.num w.ctl.minLoadingTime).sub elapsedTime)
  record (Action.scheduled remainingTime) (setTimeout Callback.hide remainingTime w)

/-- Function `checkElements` of `ServicesLoadingScreen.checkCriticalElements`. -/
def ServicesLoadingScreen.checkElements (w : World) : World :=
  let allLoaded := ServicesLoadingScreen.criticalElements.all fun selector => decide (selector ∈ w.resolved)
  let w1 := record (Action.polled allLoaded) w
  if allLoaded then ServicesLoadingScreen.scheduleHideLoadingScreen w1
  else setTimeout Callback.checkElements (JSNum.num 100) w1

/-- Method `checkCriticalElements()` of `ServicesLoadingScreen`. -/
def ServicesLoadingScreen.checkCriticalElements (w : World) : World :=
  setTimeout Callback.checkElements (JSNum.num 500) w

/-- Method `setupLoadingCompletion()` of `ServicesLoadingScreen`. -/
def ServicesLoadingScreen.setupLoadingCompletion (w : World) : World :=
  let w1 : World := { w with loadListeners := w.loadListeners + 1 }
  let w2 := setTimeout Callback.timeoutFallback (JSNum.num w1.ctl.maxLoadingTime) w1
  ServicesLoadingScreen.checkCriticalElements w2

/-- Method `setupPerformanceObserver()` of `ServicesLoadingScreen`. -/
def ServicesLoadingScreen.setupPerformanceObserver (w : World) : World :=
  match w.perfObserver with
  | ObserverSupport.absent => w
  | ObserverSupport.throws => record Action.warnObserver w
  | ObserverSupport.available => { w with observers := w.observers + 1 }

/-- The navigation observer callback of `ServicesLoadingScreen.setupPerformanceObserver`. -/
def ServicesLoadingScreen.observerCallback (entries : List Nat) (w : World) : World :=
  match entries.getLast? with
  | some loadEventEnd => if loadEventEnd ≠ 0 then ServicesLoadingScreen.scheduleHideLoadingScreen w else w
  | none => w

/-- Method `setupLoadingScreen()` of `ServicesLoadingScreen`; its `console.log` line reads
`Services loading screen initialized`. -/
def ServicesLoadingScreen.setupLoadingScreen (w : World) : World :=
  let w1 : World := { w with ctl := { w.ctl with loadingScreen := w.overlay.isSome } }
  if w1.ctl.loadingScreen = false then record Action.warnMissing w1
  else
    record Action.initialized
      (ServicesLoadingScreen.setupPerformanceObserver
        (ServicesLoadingScreen.setupLoadingCompletion (ServicesLoadingScreen.showLoadingScreen w1)))

/-- Method `init()` of `ServicesLoadingScreen`. -/
def ServicesLoadingScreen.init (loading : Bool) (w : World) : World :=
  if loading then { w with domListeners := w.domListeners + 1 }
  else ServicesLoadingScreen.setupLoadingScreen w

/-- Method `forceHide()` of `ServicesLoadingScreen`. -/
def ServicesLoadingScreen.forceHide (w : World) : World := ServicesLoadingScreen.hideLoadingScreen w

/-- Method `forceShow()` of `ServicesLoadingScreen`. -/
def ServicesLoadingScreen.forceShow (w : World) : World := ServicesLoadingScreen.showLoadingScreen w

/-- Expression `new ServicesLoadingScreen()` on the page `p` at clock reading `t0`. -/
def ServicesLoadingScreen.construct (p : Page) (t0 : Nat) : World :=
  ServicesLoadingScreen.init p.loading
    { now := t0
      overlay := p.overlay
      bodyOverflow := p.bodyOverflow
      resolved := p.resolved
      perfObserver := p.perfObserver
      ctl := ServicesLoadingScreen.new
      timers := []
      loadListeners := 0
      domListeners := 0
      observers := 0
      trace := [] }

/-- The callbacks and public methods of `ServicesLoadingScreen` that the event loop runs. -/
def ServicesLoadingScreen.methods : Methods :=
  { scheduleHideLoadingScreen := ServicesLoadingScreen.scheduleHideLoadingScreen
    checkElements := ServicesLoadingScreen.checkElements
    hideLoadingScreen := ServicesLoadingScreen.hideLoadingScreen
    fadeCallback := ServicesLoadingScreen.fadeCallback
    setupLoadingScreen := ServicesLoadingScreen.setupLoadingScreen
    observerCallback := ServicesLoadingScreen.observerCallback
    forceHide := ServicesLoadingScreen.forceHide
    forceShow := ServicesLoadingScreen.forceShow }


/-! ### The class `StylingLoadingScreen` of `styling-loading.js` -/

/-- The selector list `criticalElements` of `StylingLoadingScreen.checkCriticalElements`. -/
def StylingLoadingScreen.criticalElements : List String :=
  [".gallery-hero", ".styling-content-section", ".hairstyles-section", "nav", ".footer"]

/-- The object the constructor of `StylingLoadingScreen` builds before it calls `init()`: the
fields it assigns (it assigns no `startTime`), together with the selector list
that `checkCriticalElements` closes over. -/
def StylingLoadingScreen.new : Controller :=
  { loadingScreen := false
    minLoadingTime := 1500
    maxLoadingTime := 5000
    fadeOutDuration := 500
    startTime := none
    criticalElements := StylingLoadingScreen.criticalElements }

/-- Method `showLoadingScreen()` of `StylingLoadingScreen`. -/
def StylingLoadingScreen.showLoadingScreen (w : World) : World :=
  if w.ctl.loadingScreen = false then w
  else
    { w with
      overlay := w.overlay.map fun e =>
        { e with
          display := "flex"
          classList := classRemove "hidden" e.classList
          opacity := "1"
          visibility := "visible" }
      bodyOverflow := "hidden" }

/-- The fade callback of `StylingLoadingScreen.hideLoadingScreen`; its `console.log` line
reads `Styling loading screen hidden`. -/
def StylingLoadingScreen.fadeCallback (w : World) : Except String World :=
  if w.ctl.loadingScreen = false then
    Except.error "TypeError: this.loadingScreen is null"
  else
    Except.ok <| record Action.detached
      { w with
        overlay := w.overlay.map fun e =>
          { e with display := "none", classList := classAdd "hidden" e.classList }
        bodyOverflow := "" }

/-- Method `hideLoadingScreen()` of `StylingLoadingScreen`. -/
def StylingLoadingScreen.hideLoadingScreen (w : World) : World :=
  if w.ctl.loadingScreen = false then w
  else
    let w1 : World :=
      { w with overlay := w.overlay.map fun e =>
          { e with classList := classAdd "fade-out" e.classList } }
    record Action.fadeOut
      (setTimeout Callback.detach (JSNum.num w1.ctl.fadeOutDuration) w1)

/-- Method `scheduleHideLoadingScreen()` of `StylingLoadingScreen`. -/
def StylingLoadingScreen.scheduleHideLoadingScreen (w : World) : World :=
  let elapsedTime := (JSNum.num w.now).sub (toNumber w.ctl.startTime)
  let remainingTime := mathMax (JSNum.num 0) ((JSNum.num w.ctl.minLoadingTime).sub elapsedTime)
  record (Action.scheduled remainingTime) (setTimeout Callback.hide remainingTime w)

/-- Function `checkElements` of `StylingLoadingScreen.checkCriticalElements`. -/
def StylingLoadingScreen.checkElements (w : World) : World :=
  let allLoaded := StylingLoadingScreen.criticalElements.all fun selector => decide (selector ∈ w.resolved)
  let w1 := record (Action.polled allLoaded) w
  if allLoaded then StylingLoadingScreen.scheduleHideLoadingScreen w1
  else setTimeout Callback.checkElements (JSNum.num 100) w1

/-- Method `checkCriticalElements()` of `StylingLoadingScreen`. -/
def StylingLoadingScreen.checkCriticalElements (w : World) : World :=
  setTimeout Callback.checkElements (JSNum.num 500) w

/-- Method `setupLoadingCompletion()` of `StylingLoadingScreen`. -/
def StylingLoadingScreen.setupLoadingCompletion (w : World) : World :=
  let w1 : World := { w with loadListeners := w.loadListeners + 1 }
  let w2 := setTimeout Callback.timeoutFallback (JSNum.num w1.ctl.maxLoadingTime) w1
  StylingLoadingScreen.checkCriticalElements w2

/-- Method `setupPerformanceObserver()` of `StylingLoadingScreen`. -/
def StylingLoadingScreen.setupPerformanceObserver (w : World) : World :=
  match w.perfObserver with
  | ObserverSupport.absent => w
  | ObserverSupport.throws => record Action.warnObserver w
  | ObserverSupport.available => { w with observers := w.observers + 1 }

/-- The navigation observer callback of `StylingLoadingScreen.setupPerformanceObserver`. -/
def StylingLoadingScreen.observerCallback (entries : List Nat) (w : World) : World :=
  match entries.getLast? with
  | some loadEventEnd => if loadEventEnd ≠ 0 then StylingLoadingScreen.scheduleHideLoadingScreen w else w
  | none => w

/-- Method `setupLoadingScreen()` of `StylingLoadingScreen`; its `console.log` line reads
`Styling loading screen initialized`. -/
def StylingLoadingScreen.setupLoadingScreen (w : World) : World :=
  let w1 : World := { w with ctl := { w.ctl with loadingScreen := w.overlay.isSome } }
  if w1.ctl.loadingScreen = false then record Action.warnMissing w1
  else
    record Action.initialized
      (StylingLoadingScreen.setupPerformanceObserver
        (StylingLoadingScreen.setupLoadingCompletion (StylingLoadingScreen.showLoadingScreen w1)))

/-- Method `init()` of `StylingLoadingScreen`. -/
def StylingLoadingScreen.init (loading : Bool) (w : World) : World :=
  if loading then { w with domListeners := w.domListeners + 1 }
  else StylingLoadingScreen.setupLoadingScreen w

/-- Method `forceHide()` of `StylingLoadingScreen`. -/
def StylingLoadingScreen.forceHide (w : World) : World := StylingLoadingScreen.hideLoadingScreen w

/-- Method `forceShow()` of `StylingLoadingScreen`. -/
def StylingLoadingScreen.forceShow (w : World) : World := StylingLoadingScreen.showLoadingScreen w

/-- Expression `new StylingLoadingScreen()` on the page `p` at clock reading `t0`. -/
def StylingLoadingScreen.construct (p : Page) (t0 : Nat) : World :=
  StylingLoadingScreen.init p.loading
    { now := t0
      overlay := p.overlay
      bodyOverflow := p.bodyOverflow
      resolved := p.resolved
      perfObserver := p.perfObserver
      ctl := StylingLoadingScreen.new
      timers := []
      loadListeners := 0
      domListeners := 0
      observers := 0
      trace := [] }

/-- The callbacks and public methods of `StylingLoadingScreen` that the event loop runs. -/
def StylingLoadingScreen.methods : Methods :=
  { scheduleHideLoadingScreen := StylingLoadingScreen.scheduleHideLoadingScreen
    checkElements := StylingLoadingScreen.checkElements
    hideLoadingScreen := StylingLoadingScreen.hideLoadingScreen
    fadeCallback := StylingLoadingScreen.fadeCallback
    setupLoadingScreen := StylingLoadingScreen.setupLoadingScreen
    observerCallback := StylingLoadingScreen.observerCallback
    forceHide := StylingLoadingScreen.forceHide
    forceShow := StylingLoadingScreen.forceShow }


/-! ### The class `TestimonialLoadingScreen` of `testimonial-loading.js` -/

/-- The selector list `criticalElements` of `TestimonialLoadingScreen.checkCriticalElements`. -/
def TestimonialLoadingScreen.criticalElements : List String :=
  [".testimonial-hero", ".testimonials-section", ".testimonials-grid", "nav", ".footer"]

/-- The object the constructor of `TestimonialLoadingScreen` builds before it calls `init()`: the
fields it assigns (it assigns no `startTime`), together with the selector list
that `checkCriticalElements` closes over. -/
def TestimonialLoadingScreen.new : Controller :=
  { loadingScreen := false
    minLoadingTime := 1500
    maxLoadingTime := 5000
    fadeOutDuration := 500
    startTime := none
    criticalElements := TestimonialLoadingScreen.criticalElements }

/-- Method `showLoadingScreen()` of `TestimonialLoadingScreen`. -/
def TestimonialLoadingScreen.showLoadingScreen (w : World) : World :=
  if w.ctl.loadingScreen = false then w
  else
    { w with
      overlay := w.overlay.map fun e =>
        { e with
          display := "flex"
          classList := classRemove "hidden" e.classList
          opacity := "1"
          visibility := "visible" }
      bodyOverflow := "hidden" }

/-- The fade callback of `TestimonialLoadingScreen.hideLoadingScreen`; its `console.log` line
reads `Testimonial loading screen hidden`. -/
def TestimonialLoadingScreen.fadeCallback (w : World) : Except String World :=
  if w.ctl.loadingScreen = false then
    Except.error "TypeError: this.loadingScreen is null"
  else
    Except.ok <| record Action.detached
      { w with
        overlay := w.overlay.map fun e =>
          { e with display := "none", classList := classAdd "hidden" e.classList }
        bodyOverflow := "" }

/-- Method `hideLoadingScreen()` of `TestimonialLoadingScreen`. -/
def TestimonialLoadingScreen.hideLoadingScreen (w : World) : World :=
  if w.ctl.loadingScreen = false then w
  else
    let w1 : World :=
      { w with overlay := w.overlay.map fun e =>
          { e with classList := classAdd "fade-out" e.classList } }
    record Action.fadeOut
      (setTimeout Callback.detach (JSNum.num w1.ctl.fadeOutDuration) w1)

/-- Method `scheduleHideLoadingScreen()` of `TestimonialLoadingScreen`. -/
def TestimonialLoadingScreen.scheduleHideLoadingScreen (w : World) : World :=
  let elapsedTime := (JSNum.num w.now).sub (toNumber w.ctl.startTime)
  let remainingTime := mathMax (JSNum.num 0) ((JSNum.num w.ctl.minLoadingTime).sub elapsedTime)
  record (Action.scheduled remainingTime) (setTimeout Callback.hide remainingTime w)

/-- Function `checkElements` of `TestimonialLoadingScreen.checkCriticalElements`. -/
def TestimonialLoadingScreen.checkElements (w : World) : World :=
  let allLoaded := TestimonialLoadingScreen.criticalElements.all fun selector => decide (selector ∈ w.resolved)
  let w1 := record (Action.polled allLoaded) w
  if allLoaded then TestimonialLoadingScreen.scheduleHideLoadingScreen w1
  else setTimeout Callback.checkElements (JSNum.num 100) w1

/-- Method `checkCriticalElements()` of `TestimonialLoadingScreen`. -/
def TestimonialLoadingScreen.checkCriticalElements (w : World) : World :=
  setTimeout Callback.checkElements (JSNum.num 500) w

/-- Method `setupLoadingCompletion()` of `TestimonialLoadingScreen`. -/
def TestimonialLoadingScreen.setupLoadingCompletion (w : World) : World :=
  let w1 : World := { w with loadListeners := w.loadListeners + 1 }
  let w2 := setTimeout Callback.timeoutFallback (JSNum.num w1.ctl.maxLoadingTime) w1
  TestimonialLoadingScreen.checkCriticalElements w2

/-- Method `setupPerformanceObserver()` of `TestimonialLoadingScreen`. -/
def TestimonialLoadingScreen.setupPerformanceObserver (w : World) : World :=
  match w.perfObserver with
  | ObserverSupport.absent => w
  | ObserverSupport.throws => record Action.warnObserver w
  | ObserverSupport.available => { w with observers := w.observers + 1 }

/-- The navigation observer callback of `TestimonialLoadingScreen.setupPerformanceObserver`. -/
def TestimonialLoadingScreen.observerCallback (entries : List Nat) (w : World) : World :=
  match entries.getLast? with
  | some loadEventEnd => if loadEventEnd ≠ 0 then TestimonialLoadingScreen.scheduleHideLoadingScreen w else w
  | none => w

/-- Method `setupLoadingScreen()` of `TestimonialLoadingScreen`; its `console.log` line reads
`Testimonial loading screen initialized`. -/
def TestimonialLoadingScreen.setupLoadingScreen (w : World) : World :=
  let w1 : World := { w with ctl := { w.ctl with loadingScreen := w.overlay.isSome } }
  if w1.ctl.loadingScreen = false then record Action.warnMissing w1
  else
    record Action.initialized
      (TestimonialLoadingScreen.setupPerformanceObserver
        (TestimonialLoadingScreen.setupLoadingCompletion (TestimonialLoadingScreen.showLoadingScreen w1)))

/-- Method `init()` of `TestimonialLoadingScreen`. -/
def TestimonialLoadingScreen.init (loading : Bool) (w : World) : World :=
  if loading then { w with domListeners := w.domListeners + 1 }
  else TestimonialLoadingScreen.setupLoadingScreen w

/-- Method `forceHide()` of `TestimonialLoadingScreen`. -/
def TestimonialLoadingScreen.forceHide (w : World) : World := TestimonialLoadingScreen.hideLoadingScreen w

/-- Method `forceShow()` of `TestimonialLoadingScreen`. -/
def TestimonialLoadingScreen.forceShow (w : World) : World := TestimonialLoadingScreen.showLoadingScreen w

/-- Expression `new TestimonialLoadingScreen()` on the page `p` at clock reading `t0`. -/
def TestimonialLoadingScreen.construct (p : Page) (t0 : Nat) : World :=
  TestimonialLoadingScreen.init p.loading
    { now := t0
      overlay := p.overlay
      bodyOverflow := p.bodyOverflow
      resolved := p.resolved
      perfObserver := p.perfObserver
      ctl := TestimonialLoadingScreen.new
      timers := []
      loadListeners := 0
      domListeners := 0
      observers := 0
      trace := [] }

/-- The callbacks and public methods of `TestimonialLoadingScreen` that the event loop runs. -/
def TestimonialLoadingScreen.methods : Methods :=
  { scheduleHideLoadingScreen := TestimonialLoadingScreen.scheduleHideLoadingScreen
    checkElements := TestimonialLoadingScreen.checkElements
    hideLoadingScreen := TestimonialLoadingScreen.hideLoadingScreen
    fadeCallback := TestimonialLoadingScreen.fadeCallback
    setupLoadingScreen := TestimonialLoadingScreen.setupLoadingScreen
    observerCallback := TestimonialLoadingScreen.observerCallback
    forceHide := TestimonialLoadingScreen.forceHide
    forceShow := TestimonialLoadingScreen.forceShow }

/-! ### The ten classes together -/

/-- The ten loading-screen classes. -/
inductive PageClass where
  | aboutUs
  | blog
  | bookNow
  | contact
  | gallery
  | haircut
  | index
  | services
  | styling
  | testimonial
deriving DecidableEq, Repr

/-- The object the constructor of a class builds. -/
def PageClass.new : PageClass → Controller
  | PageClass.aboutUs => AboutUsLoadingScreen.new
  | PageClass.blog => BlogLoadingScreen.new
  | PageClass.bookNow => BookNowLoadingScreen.new
  | PageClass.contact => ContactLoadingScreen.new
  | PageClass.gallery => GalleryLoadingScreen.new
  | PageClass.haircut => HaircutLoadingScreen.new
  | PageClass.index => IndexLoadingScreen.new
  | PageClass.services => ServicesLoadingScreen.new
  | PageClass.styling => StylingLoadingScreen.new
  | PageClass.testimonial => TestimonialLoadingScreen.new

/-- The methods of a class. -/
def PageClass.methods : PageClass → Methods
  | PageClass.aboutUs => AboutUsLoadingScreen.methods
  | PageClass.blog => BlogLoadingScreen.methods
  | PageClass.bookNow => BookNowLoadingScreen.methods
  | PageClass.contact => ContactLoadingScreen.methods
  | PageClass.gallery => GalleryLoadingScreen.methods
  | PageClass.haircut => HaircutLoadingScreen.methods
  | PageClass.index => IndexLoadingScreen.methods
  | PageClass.services => ServicesLoadingScreen.methods
  | PageClass.styling => StylingLoadingScreen.methods
  | PageClass.testimonial => TestimonialLoadingScreen.methods

/-- The construction of the controller of a class. -/
def PageClass.construct : PageClass → Page → Nat → World
  | PageClass.aboutUs => AboutUsLoadingScreen.construct
  | PageClass.blog => BlogLoadingScreen.construct
  | PageClass.bookNow => BookNowLoadingScreen.construct
  | PageClass.contact => ContactLoadingScreen.construct
  | PageClass.gallery => GalleryLoadingScreen.construct
  | PageClass.haircut => HaircutLoadingScreen.construct
  | PageClass.index => IndexLoadingScreen.construct
  | PageClass.services => ServicesLoadingScreen.construct
  | PageClass.styling => StylingLoadingScreen.construct
  | PageClass.testimonial => TestimonialLoadingScreen.construct

/-- The configuration values of a class: the three durations its constructor
assigns and the selector list of its `checkCriticalElements`. -/
def PageClass.config (c : PageClass) : Config :=
  { minLoadingTime := c.new.minLoadingTime
    maxLoadingTime := c.new.maxLoadingTime
    fadeOutDuration := c.new.fadeOutDuration
    criticalElements := c.new.criticalElements }

/-- The binary `+` operator on numbers. -/
def JSNum.add : JSNum → JSNum → JSNum
  | JSNum.num a, JSNum.num b => JSNum.num (a + b)
  | _, _ => JSNum.nan

/-! ## Runs with the restart hook -/

/-- A turn of the page: a turn of the event loop, or a call of the restart
hook `window.restartAboutUsLoading()` at clock reading `t`. -/
inductive Turn where
  | step (s : Step)
  | restart (t : Nat)
deriving DecidableEq, Repr

/-- One turn of the page.  Like an outside event, a call of the restart hook
at `t` is possible when the clock has not passed `t` and no pending timer is
due before `t`. -/
def turn : Turn → World → Option World
  | Turn.step s, w => step s w
  | Turn.restart t, w =>
    if w.now ≤ t ∧ ∀ tm ∈ w.timers, t ≤ tm.due then
      some (restartLoading { w with now := t })
    else none

/-- A run of the page: the turns are taken one after the other. -/
def runTurns : List Turn → World → Option World
  | [], w => some w
  | t :: ts, w => (turn t w).bind (runTurns ts)

/-- On `readyPage`: the `load` event at 100 with its hide, the successful poll
at 500 with its hide, the fade callback of the first hide at 600, a
`forceShow()` at 700, and the fade callback of the second hide at 1000. -/
def reshowSteps : List Step :=
  [Step.event 100 Event.load, Step.timer, Step.timer, Step.timer, Step.timer,
    Step.event 700 Event.forceShow, Step.timer]

/-- On `plainPage`: the `load` event at 100 with its hide, the restart hook at
300, the failing poll at 500, and the fade callback of the hide at 600. -/
def restartTurns : List Turn :=
  [Turn.step (Step.event 100 Event.load), Turn.step Step.timer, Turn.restart 300,
    Turn.step Step.timer, Turn.step Step.timer]

/-- The clock and the overlay of a world, if the run reached one. -/
def clockAndOverlay (w : Option World) : Option (Nat × Option Element) :=
  w.map fun x => (x.now, x.overlay)

/-- The world at the end of `restartTurns`. -/
def restartedWorld : World :=
  (runTurns restartTurns (construct aboutUsConfig plainPage 0)).getD
    (construct aboutUsConfig plainPage 0)

/-- The overlay at the end of `restartTurns`: hidden, without `fade-out`. -/
def restartedOverlay : Element :=
  { display := "none", opacity := "1", visibility := "visible", classList := ["hidden"] }

end LoadingScreen

/-!
# Blog pagination

The pagination that `initBlogPagination` of `blog-loading.js` sets up: the
posts, the page buttons and the current page, and `showPage`.
-/

namespace BlogPagination

/-- A `.pagination-number` button: what `parseInt(btn.dataset.page)` yields
(NaN when the attribute is missing or no number) and its class list. -/
structure PageButton where
  dataPage : LoadingScreen.JSNum
  classList : List String
deriving DecidableEq, Repr

/-- The state `initBlogPagination` closes over: the class lists of the
`.blog-post-row` elements, the page buttons and `currentPage`. -/
structure Pagination where
  posts : List (List String)
  buttons : List PageButton
  currentPage : Int
deriving DecidableEq, Repr

/-- The constant `postsPerPage`. -/
def postsPerPage : Nat := 4

/-- The constant `totalPages`: `Math.ceil(posts.length / postsPerPage)`. -/
def totalPages (s : Pagination) : Nat := (s.posts.length + (postsPerPage - 1)) / postsPerPage

/-- The comparison `parseInt(btn.dataset.page) === page`. -/
def strictEquals (a : LoadingScreen.JSNum) (page : Int) : Bool :=
  match a with
  | LoadingScreen.JSNum.num v => decide (v = page)
  | LoadingScreen.JSNum.nan => false

/-- Method `classList.toggle(c, force)`. -/
def toggle (c : String) (force : Bool) (l : List String) : List String :=
  if force then LoadingScreen.classAdd c l else LoadingScreen.classRemove c l

/-- The `for` loop of `showPage` from index `i` on: while `i < endIndex` and
`i < posts.length`, remove `hidden` from post `i`.  The loop starts at
`endIndex - postsPerPage`, so `postsPerPage` rounds of fuel are never used
up before its condition fails. -/
def showLoop (endIndex : Int) : Nat → Nat → List (List String) → List (List String)
  | 0, _, posts => posts
  | fuel + 1, i, posts =>
    if (i : Int) < endIndex ∧ i < posts.length then
      showLoop endIndex fuel (i + 1) (posts.modify (LoadingScreen.classRemove "hidden") i)
    else posts

/-- Function `showPage(page)`.  With `page` below 1 the loop starts at a
negative index, where `posts[i]` is undefined, and the function throws after
it has hidden all posts; the error carries the state at the throw. -/
def showPage (page : Int) (s : Pagination) : Except (String × Pagination) Pagination :=
  let posts1 := s.posts.map (LoadingScreen.classAdd "hidden")
  let startIndex : Int := (page - 1) * postsPerPage
  let endIndex : Int := startIndex + postsPerPage
  if startIndex < 0 then
    Except.error ("TypeError: posts[i] is undefined", { s with posts := posts1 })
  else
    Except.ok
      { posts := showLoop endIndex postsPerPage startIndex.toNat posts1
        buttons := s.buttons.map fun btn =>
          { btn with classList := toggle "active" (strictEquals btn.dataPage page) btn.classList }
        currentPage := page }

/-- Function `initBlogPagination()` on a page with the given posts and page
buttons; `hasPrev` and `hasNext` tell whether the previous and next buttons
exist.  It returns `none` when the guard at its start returns. -/
def initBlogPagination (posts : List (List String)) (hasPrev hasNext : Bool)
    (buttons : List PageButton) : Option (Except (String × Pagination) Pagination) :=
  if posts.length = 0 ∨ hasPrev = false ∨ hasNext = false then none
  else some (showPage 1 { posts := posts, buttons := buttons, currentPage := 1 })

/-- Post `i` is visible after `showPage(q)`: the call returns and the post
lacks the class `hidden`. -/
def visibleOn (s : Pagination) (q : Nat) (i : Nat) : Prop :=
  ∃ s2 c, showPage q s = Except.ok s2 ∧ s2.posts[i]? = some c ∧ "hidden" ∉ c

/-- A blog page with six posts, the second one hidden by a former page, and
three page buttons, the third without a usable `data-page`. -/
def sixPosts : Pagination :=
  { posts := [["blog-post-row"], ["blog-post-row", "hidden"], ["blog-post-row"],
      ["blog-post-row"], ["blog-post-row"], ["blog-post-row"]]
    buttons := [⟨LoadingScreen.JSNum.num 1, ["pagination-number", "active"]⟩,
      ⟨LoadingScreen.JSNum.num 2, ["pagination-number"]⟩,
      ⟨LoadingScreen.JSNum.nan, ["pagination-number"]⟩]
    currentPage := 1 }

end BlogPagination

/-!
# Phone formatting

The `input` handler that `initPhoneFormatting` of `contact-loading.js` puts on
the `#phone` field.  Strings are their lists of characters; every string the
handler measures or slices holds ASCII digits only, for which characters and
UTF-16 code units coincide.
-/

namespace PhoneFormatting

/-- The call `s.replace(/\D/g, '')`: every character outside `0`..`9` is
removed. -/
def removeNonDigits (s : List Char) : List Char :=
  s.filter Char.isDigit

/-- Method `s.slice(start, end)` for indices that are not negative: the
characters from `start` up to `end`, both clamped to the length. -/
def slice (s : List Char) (start stop : Nat) : List Char :=
  (s.take stop).drop start

/-- Method `s.slice(start)` for an index that is not negative. -/
def sliceFrom (s : List Char) (start : Nat) : List Char :=
  s.drop start

/-- The `input` handler: from the field value before to the field value
after. -/
def inputHandler (fieldValue : List Char) : List Char :=
  let value := removeNonDigits fieldValue
  if value.length ≤ 3 then value
  else if value.length ≤ 6 then
    "(".data ++ slice value 0 3 ++ ") ".data ++ sliceFrom value 3
  else
    "(".data ++ slice value 0 3 ++ ") ".data ++ slice value 3 6 ++ "-".data ++ slice value 6 10

end PhoneFormatting

/-!
# Booking form of `script.js`

The `submit` handler that `initializeBookingFunctionality` puts on
`#customer-booking-form`, with the variables of the enclosing function it
reads and writes, and the scopes in which its free names are looked up.
-/

namespace BookingForm

/-- The function bodies of `script.js` that matter for name lookup in the
submit handler. -/
inductive Scope where
  | global
  | domContentLoaded
  | initializeBookingFunctionality
  | submitHandler
deriving DecidableEq, Repr

/-- The scope a function body is nested in.  The `DOMContentLoaded` callback
and `initializeBookingFunctionality` both stand at the top level of the
script; the submit handler is a function expression inside
`initializeBookingFunctionality`. -/
def Scope.parent : Scope → Option Scope
  | Scope.global => none
  | Scope.domContentLoaded => some Scope.global
  | Scope.initializeBookingFunctionality => some Scope.global
  | Scope.submitHandler => some Scope.initializeBookingFunctionality

/-- The functions each body declares, and for the bodies the handler can see
also their variables.  (The `const` and `let` variables of the
`DOMContentLoaded` callback are left out; the global object of a browser has
no property `showNotification`, and no other script of the site declares one
at top level.) -/
def Scope.declared : Scope → List String
  | Scope.global =>
    ["scrollToTop", "paginationNumbers", "paginationPrev", "paginationNext", "blogPosts",
      "currentPage", "postsPerPage", "totalPages", "showPage", "scrollToSection",
      "additionalCSS", "initializeBookingFunctionality", "style"]
  | Scope.domContentLoaded =>
    ["updateStickyNavbar", "showNotification", "animateCounter", "openLightbox",
      "closeLightbox", "updateLightboxImage", "nextImage", "prevImage", "handleKeyboard",
      "toggleBackToTopButton"]
  | Scope.initializeBookingFunctionality =>
    ["serviceOptions", "timeSlots", "dateInput", "customerForm", "selectedServicesSpan",
      "selectedDatetimeSpan", "totalPriceSpan", "selectedServices", "selectedTime",
      "selectedDate", "updateBookingSummary", "updateDateTimeDisplay",
      "updateCustomerServiceDropdown", "resetBookingSelections", "getServiceDisplayName",
      "formatDate", "formatTime"]
  | Scope.submitHandler => ["e", "name", "phone", "email", "booking"]

/-- The chain of scopes a name used in a body is looked up in, innermost
first. -/
def Scope.chain : Scope → List Scope
  | Scope.global => [Scope.global]
  | Scope.domContentLoaded => [Scope.domContentLoaded, Scope.global]
  | Scope.initializeBookingFunctionality => [Scope.initializeBookingFunctionality, Scope.global]
  | Scope.submitHandler =>
    [Scope.submitHandler, Scope.initializeBookingFunctionality, Scope.global]

/-- Whether the name `x` used in body `s` resolves to a declaration. -/
def resolves (x : String) (s : Scope) : Bool :=
  s.chain.any fun sc => decide (x ∈ sc.declared)

/-- An entry of `selectedServices`. -/
structure Service where
  name : String
  price : LoadingScreen.JSNum
  displayName : String
deriving DecidableEq, Repr

/-- What `updateDateTimeDisplay` writes, before the locale formatting of
`formatDate` and `formatTime`. -/
inductive DateTimeDisplay where
  | dateAndTime (date time : String)
  | dateOnly (date : String)
  | notSelected
deriving DecidableEq, Repr

/-- The object the handler builds and logs. -/
structure Booking where
  customer : String × String × String
  services : List Service
  date : String
  time : String
  totalPrice : LoadingScreen.JSNum
  specialRequests : String
deriving DecidableEq, Repr

/-- The booking page as the handler sees it.  The four form fields hold the
value of the element, `none` when the element is missing; `dateInput` likewise.
The three summary spans hold what was written to them last, `none` when the
element is missing.  `shown` lists the calls of `showNotification` that ran and
`logged` the bookings written to the console. -/
structure Page where
  customerName : Option String
  customerPhone : Option String
  customerEmail : Option String
  specialRequests : Option String
  serviceChecked : List Bool
  slotSelected : List Bool
  dateInput : Option String
  selectedServicesSpan : Option String
  selectedDatetimeSpan : Option DateTimeDisplay
  totalPriceSpan : Option String
  selectedServices : List Service
  selectedTime : Option String
  selectedDate : Option String
  shown : List (String × String)
  logged : List Booking
deriving DecidableEq, Repr

/-- A call `showNotification(message, type)` written in body `s`: a name that
does not resolve throws a ReferenceError before anything is shown. -/
def callShowNotification (s : Scope) (message type : String) (p : Page) :
    Except (String × Page) Page :=
  if resolves "showNotification" s then Except.ok { p with shown := p.shown ++ [(message, type)] }
  else Except.error ("ReferenceError: showNotification is not defined", p)

/-- The read `document.getElementById(id).value`: a missing element throws. -/
def valueOf (id : String) (field : Option String) (p : Page) : Except (String × Page) String :=
  match field with
  | some v => Except.ok v
  | none => Except.error ("TypeError: document.getElementById('" ++ id ++ "') is null", p)

/-- JavaScript truthiness of a string that may be `null`. -/
def truthy : Option String → Bool
  | some v => v ≠ ""
  | none => false

/-- The text form of a number in a template literal. -/
def numberText : LoadingScreen.JSNum → String
  | LoadingScreen.JSNum.num v => toString v
  | LoadingScreen.JSNum.nan => "NaN"

/-- The expression `selectedServices.reduce((total, service) => total + service.price, 0)`. -/
def sumPrices (services : List Service) : LoadingScreen.JSNum :=
  services.foldl (fun total service => total.add service.price) (LoadingScreen.JSNum.num 0)

/-- Function `updateBookingSummary()`. -/
def updateBookingSummary (p : Page) : Except (String × Page) Page :=
  let serviceNames :=
    if p.selectedServices.length = 0 then "None"
    else ", ".intercalate (p.selectedServices.map Service.displayName)
  let totalPrice :=
    if p.selectedServices.length = 0 then "₵0"
    else "₵" ++ numberText (sumPrices p.selectedServices)
  match p.selectedServicesSpan, p.totalPriceSpan with
  | none, _ => Except.error ("TypeError: selectedServicesSpan is null", p)
  | some _, none =>
    Except.error ("TypeError: totalPriceSpan is null",
      { p with selectedServicesSpan := some serviceNames })
  | some _, some _ =>
    Except.ok { p with selectedServicesSpan := some serviceNames, totalPriceSpan := some totalPrice }

/-- Function `updateDateTimeDisplay()`. -/
def updateDateTimeDisplay (p : Page) : Except (String × Page) Page :=
  match p.selectedDatetimeSpan with
  | none => Except.error ("TypeError: selectedDatetimeSpan is null", p)
  | some _ =>
    let text :=
      if truthy p.selectedDate ∧ truthy p.selectedTime then
        DateTimeDisplay.dateAndTime (p.selectedDate.getD "") (p.selectedTime.getD "")
      else if truthy p.selectedDate then DateTimeDisplay.dateOnly (p.selectedDate.getD "")
      else DateTimeDisplay.notSelected
    Except.ok { p with selectedDatetimeSpan := some text }

/-- Function `resetBookingSelections()`; `today` is the date part of
`new Date().toISOString()`. -/
def resetBookingSelections (today : String) (p : Page) : Except (String × Page) Page :=
  let p1 := { p with
    selectedServices := [], selectedTime := none, selectedDate := none
    serviceChecked := p.serviceChecked.map fun _ => false
    slotSelected := p.slotSelected.map fun _ => false }
  let p2 := match p1.dateInput with
    | some _ => { p1 with dateInput := some today, selectedDate := some today }
    | none => p1
  updateBookingSummary p2 >>= updateDateTimeDisplay

/-- Method `this.reset()` of the form: its controls return to their default
values.  The markup is not part of the scripts; the four fields the handler
reads are taken to belong to the form, with an empty default. -/
def formReset (p : Page) : Page :=
  { p with
    customerName := p.customerName.map fun _ => ""
    customerPhone := p.customerPhone.map fun _ => ""
    customerEmail := p.customerEmail.map fun _ => ""
    specialRequests := p.specialRequests.map fun _ => "" }

/-- The `submit` handler of `#customer-booking-form`.  An error carries the
page as it is when the exception leaves the handler. -/
def submitHandler (today : String) (p : Page) : Except (String × Page) Page := do
  let name ← valueOf "customer-name" p.customerName p
  let phone ← valueOf "customer-phone" p.customerPhone p
  let email ← valueOf "customer-email" p.customerEmail p
  if name = "" ∨ phone = "" ∨ email = "" then
    callShowNotification Scope.submitHandler "Please fill in all required fields." "error" p
  else if p.selectedServices.length = 0 then
    callShowNotification Scope.submitHandler "Please select at least one service." "error" p
  else if ¬ truthy p.selectedDate ∨ ¬ truthy p.selectedTime then
    callShowNotification Scope.submitHandler "Please select date and time." "error" p
  else
    let requests ← valueOf "special-requests" p.specialRequests p
    let booking : Booking :=
      { customer := (name, phone, email)
        services := p.selectedServices
        date := p.selectedDate.getD ""
        time := p.selectedTime.getD ""
        totalPrice := sumPrices p.selectedServices
        specialRequests := requests }
    let p1 ← callShowNotification Scope.submitHandler
      "Booking confirmed! We'll contact you shortly to confirm your appointment." "success" p
    let p2 ← resetBookingSelections today (formReset p1)
    Except.ok { p2 with logged := p2.logged ++ [booking] }

/-- A filled booking form: all fields given, one service, date and time
chosen. -/
def filledForm : Page :=
  { customerName := some "Kofi", customerPhone := some "0241234567"
    customerEmail := some "kofi@example.com", specialRequests := some ""
    serviceChecked := [true, false], slotSelected := [false, true]
    dateInput := some "2026-03-02"
    selectedServicesSpan := some "Regular Haircut"
    selectedDatetimeSpan := some (DateTimeDisplay.dateAndTime "2026-03-02" "14:30")
    totalPriceSpan := some "₵50"
    selectedServices := [⟨"regular-haircut", LoadingScreen.JSNum.num 50, "Regular Haircut"⟩]
    selectedTime := some "14:30", selectedDate := some "2026-03-02"
    shown := [], logged := [] }

end BookingForm

/-!
# Haircut carousel

The auto-scroll that `initHaircutCarousel` of `haircut-loading.js` starts, and
the `mouseenter` handler it puts on `.modern-carousel-container`.
-/

namespace HaircutCarousel

/-- The values the script passes to `clearInterval`: a number or a function
object. -/
inductive Value where
  | num (v : LoadingScreen.JSNum)
  | func (name : String)
deriving DecidableEq, Repr

/-- ToNumber: a function object converts to NaN. -/
def toNumber : Value → LoadingScreen.JSNum
  | Value.num v => v
  | Value.func _ => LoadingScreen.JSNum.nan

/-- ToInt32, the conversion of a timer handle argument: NaN gives 0, other
numbers wrap into the signed 32-bit range. -/
def toInt32 : LoadingScreen.JSNum → Int
  | LoadingScreen.JSNum.num v => (v + 2 ^ 31) % 2 ^ 32 - 2 ^ 31
  | LoadingScreen.JSNum.nan => 0

/-- The haircut page as `initHaircutCarousel` sees it: whether
`.modern-carousel-track` and `.modern-carousel-container` exist, and the
number of `.modern-carousel-item` elements. -/
structure Page where
  hasTrack : Bool
  totalItems : Nat
  hasContainer : Bool
deriving DecidableEq, Repr

/-- The callbacks the script hands to `setInterval`. -/
inductive Callback where
  | autoScroll
deriving DecidableEq, Repr

/-- The carousel and the timers of the page: the variables `totalItems` and
`currentIndex`, the last `scrollTo` target, the active intervals with their
handles, the last handle the page has given out, the number of `mouseenter`
listeners on the container, and the number of calls of `autoScroll` so far. -/
structure Carousel where
  totalItems : Nat
  currentIndex : Nat
  scrollLeft : Option Nat
  intervals : List (Nat × Callback)
  lastHandle : Nat
  mouseenterListeners : Nat
  autoScrollCalls : Nat
deriving DecidableEq, Repr

/-- Function `setInterval(callback, 3000)`: the interval is entered under a
fresh handle, which is greater than zero, and the handle is returned. -/
def setInterval (callback : Callback) (c : Carousel) : Carousel × Nat :=
  ({ c with intervals := c.intervals ++ [(c.lastHandle + 1, callback)],
            lastHandle := c.lastHandle + 1 }, c.lastHandle + 1)

/-- Function `clearInterval(argument)`: the interval whose handle is the
argument, converted to a 32-bit integer, is removed if there is one. -/
def clearInterval (argument : Value) (c : Carousel) : Carousel :=
  { c with intervals := c.intervals.filter fun t => decide ((t.1 : Int) ≠ toInt32 (toNumber argument)) }

/-- Function `autoScroll()`: the index moves on and returns to 0 once it
reaches `totalItems / 2`; the track scrolls to 320 px per index. -/
def autoScroll (c : Carousel) : Carousel :=
  let currentIndex := c.currentIndex + 1
  let currentIndex := if 2 * currentIndex ≥ c.totalItems then 0 else currentIndex
  { c with currentIndex := currentIndex, scrollLeft := some (currentIndex * 320),
           autoScrollCalls := c.autoScrollCalls + 1 }

/-- Function `initHaircutCarousel()` on a page whose timers have given out the
handles up to `lastHandle`; `none` when it returns before setting anything
up.  The handle `setInterval` returns is dropped, as in the script. -/
def initHaircutCarousel (p : Page) (lastHandle : Nat) : Option Carousel :=
  if p.hasTrack = false then none
  else if p.totalItems = 0 then none
  else
    let c : Carousel :=
      { totalItems := p.totalItems, currentIndex := 0, scrollLeft := none, intervals := [],
        lastHandle := lastHandle, mouseenterListeners := 0, autoScrollCalls := 0 }
    let c1 := (setInterval Callback.autoScroll c).1
    if p.hasContainer then some { c1 with mouseenterListeners := c1.mouseenterListeners + 1 }
    else some c1

/-- The `mouseenter` handler: `clearInterval(autoScroll)`, with the function
`autoScroll` as the argument. -/
def mouseenterHandler (c : Carousel) : Carousel :=
  clearInterval (Value.func "autoScroll") c

/-- What happens on the page: the pointer enters the container, or 3000 ms
pass. -/
inductive Event where
  | mouseenter
  | elapse
deriving DecidableEq, Repr

/-- One event: `mouseenter` runs every listener on the container; when
3000 ms have passed every active interval runs its callback once. -/
def step (c : Carousel) : Event → Carousel
  | Event.mouseenter => Nat.iterate mouseenterHandler c.mouseenterListeners c
  | Event.elapse => c.intervals.foldl (fun acc t =>
      match t.2 with
      | Callback.autoScroll => autoScroll acc) c

/-- A sequence of events. -/
def run (events : List Event) (c : Carousel) : Carousel :=
  events.foldl step c

/-- The auto-scroll interval is the one active interval, under the positive
handle `h`, and the container has its one `mouseenter` listener. -/
structure Running (h : Nat) (c : Carousel) : Prop where
  handle : 0 < h
  intervals : c.intervals = [(h, Callback.autoScroll)]
  listeners : c.mouseenterListeners = 1

/-- A haircut page with track, container and six carousel items. -/
def sixItems : Page := { hasTrack := true, totalItems := 6, hasContainer := true }

/-- The carousel of `sixItems` right after `initHaircutCarousel`, the first
timer of the page. -/
def sixItemsStart : Carousel :=
  { totalItems := 6, currentIndex := 0, scrollLeft := none,
    intervals := [(1, Callback.autoScroll)], lastHandle := 1,
    mouseenterListeners := 1, autoScrollCalls := 0 }

end HaircutCarousel

namespace BlogPagination

/-! ## The previous and next buttons -/

/-- The `click` listener of `#pagination-next`. -/
def nextHandler (s : Pagination) : Except (String × Pagination) Pagination :=
  if s.currentPage < totalPages s then showPage (s.currentPage + 1) s else Except.ok s

/-- The `click` listener of `#pagination-prev`. -/
def prevHandler (s : Pagination) : Except (String × Pagination) Pagination :=
  if s.currentPage > 1 then showPage (s.currentPage - 1) s else Except.ok s

/-- A click on the previous or on the next button. -/
inductive Click where
  | prev
  | next
deriving DecidableEq, Repr

/-- The listener a click runs. -/
def handler : Click → Pagination → Except (String × Pagination) Pagination
  | Click.prev => prevHandler
  | Click.next => nextHandler

/-- The pagination a listener leaves behind, also when it threw. -/
def after : Except (String × Pagination) Pagination → Pagination
  | Except.ok s => s
  | Except.error (_, s) => s

/-- A sequence of clicks, one listener run after the other. -/
def clicks (cs : List Click) (s : Pagination) : Pagination :=
  cs.foldl (fun acc c => after (handler c acc)) s

/-- The pagination stands on a page between 1 and `totalPages`, over `n`
posts. -/
structure InRange (n : Nat) (s : Pagination) : Prop where
  posts : s.posts.length = n
  low : 1 ≤ s.currentPage
  high : s.currentPage ≤ ((n + 3) / 4 : Nat)

/-- Six unhidden posts, as the markup gives them. -/
def sixRows : List (List String) :=
  [["blog-post-row"], ["blog-post-row"], ["blog-post-row"], ["blog-post-row"],
    ["blog-post-row"], ["blog-post-row"]]

end BlogPagination

/-!
# Service selection of the booking page

The checkbox `change` handler that `initServiceSelection` of
`booknow-loading.js` puts on every `.service-option` checkbox, with the
variables `selectedServices` and `totalPrice` it keeps.
-/

namespace ServiceSelection

/-- A service checkbox: its `value`, what `parseInt(this.dataset.price)`
yields (an integral double, or NaN when the attribute is missing or no
number), and whether it is checked.  (`Infinity`, which `parseInt` gives for a
digit string beyond the range of doubles, is not represented.) -/
structure Checkbox where
  value : String
  dataPrice : LoadingScreen.JSNum
  checked : Bool
deriving DecidableEq, Repr

/-- An entry of `selectedServices`. -/
structure Entry where
  name : String
  price : LoadingScreen.JSNum
deriving DecidableEq, Repr

/-- The state of `initServiceSelection`: the checkboxes, the variables
`selectedServices`, `totalPrice` and `selectedDateTime`, and the text of the
three summary spans (`none` when the element is missing). -/
structure Selection where
  serviceOptions : List Checkbox
  selectedServices : List Entry
  totalPrice : LoadingScreen.JSNum
  selectedDateTime : Option String
  selectedServicesSpan : Option String
  selectedDateTimeSpan : Option String
  totalPriceSpan : Option String
deriving DecidableEq, Repr

/-- The text form of a number in a template literal. -/
def numberText : LoadingScreen.JSNum → String
  | LoadingScreen.JSNum.num v => toString v
  | LoadingScreen.JSNum.nan => "NaN"

/-- Function `updateBookingSummary()`: each span that exists gets its text. -/
def updateBookingSummary (s : Selection) : Selection :=
  let serviceNames :=
    if s.selectedServices.length > 0 then ", ".intercalate (s.selectedServices.map Entry.name)
    else "None"
  let dateTime := match s.selectedDateTime with
    | some v => if v = "" then "Not selected" else v
    | none => "Not selected"
  { s with
    selectedServicesSpan := s.selectedServicesSpan.map fun _ => serviceNames
    selectedDateTimeSpan := s.selectedDateTimeSpan.map fun _ => dateTime
    totalPriceSpan := s.totalPriceSpan.map fun _ => "â‚µ" ++ numberText s.totalPrice }

/-- Function `initServiceSelection()` on a page with the given checkboxes and
spans; `none` when there is no checkbox and the function returns at once. -/
def initServiceSelection (serviceOptions : List Checkbox)
    (selectedServicesSpan selectedDateTimeSpan totalPriceSpan : Option String) :
    Option Selection :=
  if serviceOptions.length = 0 then none
  else some
    { serviceOptions := serviceOptions, selectedServices := [],
      totalPrice := LoadingScreen.JSNum.num 0, selectedDateTime := none,
      selectedServicesSpan := selectedServicesSpan, selectedDateTimeSpan := selectedDateTimeSpan,
      totalPriceSpan := totalPriceSpan }

/-- How many low bits an integer of magnitude `a` has beyond the 53 bits of
a double's significand: the least `k` with `a / 2 ^ k < 2 ^ 53`.  The fuel
covers the whole range of doubles. -/
def excessBits : Nat → Nat → Nat
  | 0, _ => 0
  | fuel + 1, a => if a < 2 ^ 53 then 0 else excessBits fuel (a / 2) + 1

/-- The double nearest to the integer `x`, with ties going to the even
significand: what an operation on doubles returns when its exact result is
`x`.  Integers up to 2^53 in absolute value are doubles themselves.  (The
range of doubles ends near 2^1024; nothing that large occurs below.) -/
def roundToDouble (x : Int) : Int :=
  if x.natAbs ≤ 2 ^ 53 then x
  else
    let drop := excessBits 1100 x.natAbs
    let q := x.natAbs / 2 ^ drop
    let r := x.natAbs % 2 ^ drop
    let q1 := if 2 * r > 2 ^ drop ∨ (2 * r = 2 ^ drop ∧ q % 2 = 1) then q + 1 else q
    x.sign * ((q1 * 2 ^ drop : Nat) : Int)

/-- The binary `+` operator on doubles that hold integers. -/
def addDouble : LoadingScreen.JSNum → LoadingScreen.JSNum → LoadingScreen.JSNum
  | LoadingScreen.JSNum.num a, LoadingScreen.JSNum.num b =>
    LoadingScreen.JSNum.num (roundToDouble (a + b))
  | _, _ => LoadingScreen.JSNum.nan

/-- The binary `-` operator on doubles that hold integers. -/
def subDouble : LoadingScreen.JSNum → LoadingScreen.JSNum → LoadingScreen.JSNum
  | LoadingScreen.JSNum.num a, LoadingScreen.JSNum.num b =>
    LoadingScreen.JSNum.num (roundToDouble (a - b))
  | _, _ => LoadingScreen.JSNum.nan

/-- The `change` handler, run with the checkbox `option` as `this`. -/
def changeHandler (option : Checkbox) (s : Selection) : Selection :=
  let serviceName := option.value
  let servicePrice := option.dataPrice
  if option.checked then
    updateBookingSummary { s with
      selectedServices := s.selectedServices ++ [⟨serviceName, servicePrice⟩]
      totalPrice := addDouble s.totalPrice servicePrice }
  else
    updateBookingSummary { s with
      selectedServices := s.selectedServices.filter fun service => decide (service.name ≠ serviceName)
      totalPrice := subDouble s.totalPrice servicePrice }

/-- The user flips a checkbox. -/
def Checkbox.flip (o : Checkbox) : Checkbox := { o with checked := !o.checked }

/-- A `change` event: the user flips checkbox number `i`, then its handler
runs.  An index beyond the checkboxes is no event. -/
def change (s : Selection) (i : Nat) : Selection :=
  match s.serviceOptions[i]? with
  | none => s
  | some o => changeHandler o.flip { s with serviceOptions := s.serviceOptions.modify Checkbox.flip i }

/-- A sequence of `change` events. -/
def changes (events : List Nat) (s : Selection) : Selection :=
  events.foldl change s

/-- The sum of the `price` fields of a list of entries, as
`reduce((total, service) => total + service.price, 0)` adds them. -/
def sumPrices (l : List Entry) : LoadingScreen.JSNum :=
  l.foldl (fun total service => addDouble total service.price) (LoadingScreen.JSNum.num 0)

/-- The integer a price stands for (0 for NaN). -/
def priceValue : LoadingScreen.JSNum → Int
  | LoadingScreen.JSNum.num v => v
  | LoadingScreen.JSNum.nan => 0

/-- The integer sum of the prices of a list of entries. -/
def intSum (l : List Entry) : Int :=
  (l.map fun service => priceValue service.price).sum

/-- The sum of the absolute prices of a list of entries. -/
def absSum (l : List Entry) : Nat :=
  (l.map fun service => (priceValue service.price).natAbs).sum

/-- The sum of the absolute prices of the checked checkboxes. -/
def checkedAbs (l : List Checkbox) : Nat :=
  (l.map fun o => if o.checked then (priceValue o.dataPrice).natAbs else 0).sum

/-- The sum of the absolute prices of all checkboxes of the page. -/
def priceBound (l : List Checkbox) : Nat :=
  (l.map fun o => (priceValue o.dataPrice).natAbs).sum

/-- The invariant of a selection that started unchecked, with distinct
checkbox values and prices that are numbers whose absolute values sum to at
most 2^53, so that every total is a double that holds its integer exactly. -/
structure Consistent (s : Selection) : Prop where
  distinct : ∀ (j k : Nat) (a b : Checkbox), s.serviceOptions[j]? = some a →
    s.serviceOptions[k]? = some b → a.value = b.value → j = k
  numeric : ∀ (j : Nat) (a : Checkbox), s.serviceOptions[j]? = some a →
    a.dataPrice ≠ LoadingScreen.JSNum.nan
  checkedIn : ∀ (j : Nat) (a : Checkbox), s.serviceOptions[j]? = some a → a.checked = true →
    (⟨a.value, a.dataPrice⟩ : Entry) ∈ s.selectedServices
  inChecked : ∀ e ∈ s.selectedServices, ∃ (j : Nat) (a : Checkbox),
    s.serviceOptions[j]? = some a ∧ a.checked = true ∧ e = ⟨a.value, a.dataPrice⟩
  nodup : (s.selectedServices.map Entry.name).Nodup
  total : s.totalPrice = LoadingScreen.JSNum.num (intSum s.selectedServices)
  linkAbs : absSum s.selectedServices = checkedAbs s.serviceOptions
  bound : priceBound s.serviceOptions ≤ 2 ^ 53

/-- Two checkboxes with the same `value`. -/
def twinOptions : List Checkbox :=
  [⟨"regular-haircut", LoadingScreen.JSNum.num 50, false⟩,
    ⟨"regular-haircut", LoadingScreen.JSNum.num 70, false⟩]

/-- One checkbox that is checked when the script starts, as after the browser
has restored the form on a reload. -/
def restoredOptions : List Checkbox :=
  [⟨"regular-haircut", LoadingScreen.JSNum.num 50, true⟩]

/-- One checkbox without a usable `data-price`. -/
def unpricedOptions : List Checkbox :=
  [⟨"regular-haircut", LoadingScreen.JSNum.nan, false⟩]

/-- Two services, the first with the price 2^53. -/
def largeOptions : List Checkbox :=
  [⟨"regular-haircut", LoadingScreen.JSNum.num 9007199254740992, false⟩,
    ⟨"royal-shave", LoadingScreen.JSNum.num 1, false⟩]

/-- Three services with distinct values, all unchecked. -/
def threeOptions : List Checkbox :=
  [⟨"regular-haircut", LoadingScreen.JSNum.num 50, false⟩,
    ⟨"royal-shave", LoadingScreen.JSNum.num 40, false⟩,
    ⟨"kids-haircut", LoadingScreen.JSNum.num 30, false⟩]

end ServiceSelection

/-!
# Lightbox of `script.js`

The image index of the gallery lightbox and the functions `nextImage`,
`prevImage` and `updateLightboxImage` of the `DOMContentLoaded` callback.
-/

namespace Lightbox

/-- An entry of the `images` array. -/
structure Image where
  src : String
  alt : String
deriving DecidableEq, Repr

/-- The lightbox: the `images` array, the variable `currentImageIndex`, the
class lists of `.lightbox-loading` and `#lightbox-image`, the text of
`#current-number` and `#total-number` (`none` when the element is missing),
and the sources whose loading `updateLightboxImage` has started. -/
structure State where
  images : List Image
  currentImageIndex : LoadingScreen.JSNum
  lightboxLoading : Option (List String)
  lightboxImage : Option (List String)
  currentNumber : Option String
  totalNumber : Option String
  loading : List String
deriving DecidableEq, Repr

/-- The `%` operator on integral numbers: the remainder has the sign of the
dividend, and a zero divisor gives NaN. -/
def jsMod : LoadingScreen.JSNum → LoadingScreen.JSNum → LoadingScreen.JSNum
  | LoadingScreen.JSNum.num a, LoadingScreen.JSNum.num b =>
    if b = 0 then LoadingScreen.JSNum.nan else LoadingScreen.JSNum.num (Int.tmod a b)
  | _, _ => LoadingScreen.JSNum.nan

/-- The read `images[index]`: `undefined` unless the index is an integer
within the array. -/
def imageAt (images : List Image) : LoadingScreen.JSNum → Option Image
  | LoadingScreen.JSNum.num v => if v < 0 then none else images[v.toNat]?
  | LoadingScreen.JSNum.nan => none

/-- The text form of a number assigned to `textContent`. -/
def numberText : LoadingScreen.JSNum → String
  | LoadingScreen.JSNum.num v => toString v
  | LoadingScreen.JSNum.nan => "NaN"

/-- Function `updateLightboxImage()`.  A missing element throws at the
statement that touches it; the error carries the state at the throw. -/
def updateLightboxImage (s : State) : Except (String × State) State :=
  match imageAt s.images s.currentImageIndex with
  | none => Except.ok s
  | some image =>
    match s.lightboxLoading with
    | none => Except.error ("TypeError: lightboxLoading is null", s)
    | some loadingClasses =>
      let s1 := { s with lightboxLoading := some (LoadingScreen.classAdd "active" loadingClasses) }
      match s1.lightboxImage with
      | none => Except.error ("TypeError: lightboxImage is null", s1)
      | some imageClasses =>
        let s2 := { s1 with
          lightboxImage := some (LoadingScreen.classRemove "loaded" imageClasses)
          loading := s1.loading ++ [image.src] }
        match s2.currentNumber with
        | none => Except.error ("TypeError: currentNumber is null", s2)
        | some _ =>
          let number := numberText (s2.currentImageIndex.add (LoadingScreen.JSNum.num 1))
          let s3 := { s2 with currentNumber := some number }
          match s3.totalNumber with
          | none => Except.error ("TypeError: totalNumber is null", s3)
          | some _ => Except.ok { s3 with totalNumber := some (toString s3.images.length) }

/-- Function `nextImage()`. -/
def nextImage (s : State) : Except (String × State) State :=
  let index := jsMod (s.currentImageIndex.add (LoadingScreen.JSNum.num 1))
    (LoadingScreen.JSNum.num s.images.length)
  updateLightboxImage { s with currentImageIndex := index }

/-- Function `prevImage()`. -/
def prevImage (s : State) : Except (String × State) State :=
  let index := jsMod
    ((s.currentImageIndex.sub (LoadingScreen.JSNum.num 1)).add
      (LoadingScreen.JSNum.num s.images.length))
    (LoadingScreen.JSNum.num s.images.length)
  updateLightboxImage { s with currentImageIndex := index }

/-- The lightbox a call leaves behind, also when it threw. -/
def after : Except (String × State) State → State
  | Except.ok s => s
  | Except.error (_, s) => s

/-- A gallery of three images with the lightbox on the first. -/
def threeImages : State :=
  { images := [⟨"img/cut-1.jpg", "Fade"⟩, ⟨"img/cut-2.jpg", "Taper"⟩, ⟨"img/cut-3.jpg", "Crop"⟩]
    currentImageIndex := LoadingScreen.JSNum.num 0
    lightboxLoading := some ["lightbox-loading"], lightboxImage := some ["loaded"]
    currentNumber := some "1", totalNumber := some "3", loading := [] }

/-- The same gallery with the lightbox on the last image. -/
def onLastImage : State :=
  { threeImages with currentImageIndex := LoadingScreen.JSNum.num 2, currentNumber := some "3" }

end Lightbox

/-!
# Time formatting of the booking page

The function `formatTime` of `initializeBookingFunctionality` in `script.js`,
with the string functions it uses.  Strings are their lists of characters.
-/

namespace TimeFormat

/-- Method `s.split(sep)` for a separator of one character. -/
def split (sep : Char) : List Char → List (List Char)
  | [] => [[]]
  | c :: cs =>
    if c = sep then [] :: split sep cs
    else
      match split sep cs with
      | [] => [[c]]
      | part :: parts => (c :: part) :: parts

/-- The white space `parseInt` skips at the start of its argument. -/
def isWhiteSpace (c : Char) : Bool :=
  c.toNat ∈ [0x09, 0x0A, 0x0B, 0x0C, 0x0D, 0x20, 0xA0, 0x1680, 0x2028, 0x2029, 0x202F, 0x205F,
      0x3000, 0xFEFF] ∨ (0x2000 ≤ c.toNat ∧ c.toNat ≤ 0x200A)

/-- The value of a character as a digit, up to radix 36. -/
def digitValue (c : Char) : Option Nat :=
  if '0' ≤ c ∧ c ≤ '9' then some (c.toNat - '0'.toNat)
  else if 'a' ≤ c ∧ c ≤ 'z' then some (c.toNat - 'a'.toNat + 10)
  else if 'A' ≤ c ∧ c ≤ 'Z' then some (c.toNat - 'A'.toNat + 10)
  else none

/-- The longest prefix of digits of the radix, read as a number; `none` when
the prefix is empty. -/
def parseDigits (radix : Nat) : Option Nat → List Char → Option Nat
  | acc, [] => acc
  | acc, c :: cs =>
    match digitValue c with
    | some d => if d < radix then parseDigits radix (some (acc.getD 0 * radix + d)) cs else acc
    | none => acc

/-- Function `parseInt(s)` without a radix: white space is skipped, a sign is
read, `0x` or `0X` selects radix 16, and the longest prefix of digits gives
the number, NaN when there is none.  (Numbers beyond 2^53, which the platform
rounds, do not occur in times.) -/
def parseInt (s : List Char) : LoadingScreen.JSNum :=
  let s1 := s.dropWhile isWhiteSpace
  let negative := s1.head? = some '-'
  let s2 := if s1.head? = some '-' ∨ s1.head? = some '+' then s1.drop 1 else s1
  let hex := s2.take 2 = [ '0', 'x' ] ∨ s2.take 2 = [ '0', 'X' ]
  let digits := if hex then parseDigits 16 none (s2.drop 2) else parseDigits 10 none s2
  match digits with
  | none => LoadingScreen.JSNum.nan
  | some v => if negative then LoadingScreen.JSNum.num (-(v : Int)) else LoadingScreen.JSNum.num v

/-- The `%` operator on integral numbers: the remainder has the sign of the
dividend, and a zero divisor gives NaN. -/
def jsMod : LoadingScreen.JSNum → LoadingScreen.JSNum → LoadingScreen.JSNum
  | LoadingScreen.JSNum.num a, LoadingScreen.JSNum.num b =>
    if b = 0 then LoadingScreen.JSNum.nan else LoadingScreen.JSNum.num (Int.tmod a b)
  | _, _ => LoadingScreen.JSNum.nan

/-- The comparison `a >= b`: false as soon as one side is NaN. -/
def jsGe : LoadingScreen.JSNum → LoadingScreen.JSNum → Bool
  | LoadingScreen.JSNum.num a, LoadingScreen.JSNum.num b => decide (a ≥ b)
  | _, _ => false

/-- The expression `a || b` on numbers: `b` when `a` is 0 or NaN. -/
def jsOr : LoadingScreen.JSNum → LoadingScreen.JSNum → LoadingScreen.JSNum
  | LoadingScreen.JSNum.num a, b => if a = 0 then b else LoadingScreen.JSNum.num a
  | LoadingScreen.JSNum.nan, b => b

/-- The text of a number in a template literal. -/
def numberText : LoadingScreen.JSNum → List Char
  | LoadingScreen.JSNum.num v => (toString v).data
  | LoadingScreen.JSNum.nan => "NaN".data

/-- The text of a string that may be `undefined` in a template literal. -/
def stringText : Option (List Char) → List Char
  | some s => s
  | none => "undefined".data

/-- Function `formatTime(timeString)`. -/
def formatTime (timeString : List Char) : List Char :=
  let parts := split ':' timeString
  let hours := parts[0]?
  let minutes := parts[1]?
  let hour := parseInt (stringText hours)
  let ampm := if jsGe hour (LoadingScreen.JSNum.num 12) then "PM".data else "AM".data
  let displayHour := jsOr (jsMod hour (LoadingScreen.JSNum.num 12)) (LoadingScreen.JSNum.num 12)
  numberText displayHour ++ ":".data ++ stringText minutes ++ " ".data ++ ampm

/-- The two decimal digits `HH` of an hour. -/
def twoDigits (n : Nat) : List Char :=
  [Char.ofNat ('0'.toNat + n / 10), Char.ofNat ('0'.toNat + n % 10)]

/-- The hour of the 12-hour clock: 12 for 0 and 12, otherwise the hour
modulo 12. -/
def hour12 (hh : Nat) : Nat :=
  if hh % 12 = 0 then 12 else hh % 12

/-- The suffix of the 12-hour clock. -/
def suffix (hh : Nat) : List Char :=
  if hh < 12 then "AM".data else "PM".data

end TimeFormat

/-!
# Initialisation of `script.js`

The `DOMContentLoaded` callback of `script.js`, statement by statement, as far
as it registers listeners, observes elements, writes to them and logs.  A page
is given by the number of elements each selector of the script matches.
-/

namespace ScriptInit

/-- A page: for every selector or id the script looks up, how many elements
match (selectors that are not listed match none). -/
structure Page where
  elements : List (String × Nat)
deriving DecidableEq, Repr

/-- The number of elements `querySelectorAll(selector)` returns. -/
def Page.count (p : Page) (selector : String) : Nat :=
  (p.elements.lookup selector).getD 0

/-- Whether `querySelector(selector)` or `getElementById` finds an element. -/
def Page.has (p : Page) (selector : String) : Bool :=
  decide (0 < p.count selector)

/-- What a statement of the callback does to the page. -/
inductive Effect where
  | listener (target event handler : String)
  | observe (observer target : String)
  | write (target property value : String)
  | call (target method : String)
  | log (message : String)
deriving DecidableEq, Repr

/-- The effects of `collection.forEach(...)`: one round per element. -/
def forEach (p : Page) (selector : String) (effects : List Effect) : List Effect :=
  (List.replicate (p.count selector) effects).flatten

/-- The section `Mobile Navigation Toggle`. -/
def mobileNav (p : Page) : List Effect :=
  if p.has "#nav-toggle" ∧ p.has "#nav-menu" then
    [Effect.listener "#nav-toggle" "click" ""] ++
      (if p.has ".dropdown-toggle" then [Effect.listener ".dropdown-toggle" "click" ""] else []) ++
      forEach p ".nav-link:not([href*=\"html\"])" [Effect.listener ".nav-link" "click" ""] ++
      [Effect.listener "document" "click" ""]
  else []

/-- The section `Smooth scrolling for navigation links`. -/
def smoothScroll (p : Page) : List Effect :=
  forEach p "a[href^=\"#\"]:not([href*=\"html\"])" [Effect.listener "a" "click" ""]

/-- The section `Sticky navbar functionality`: two listeners and a first call of
`updateStickyNavbar`, which writes only when `.sticky-nav` and a hero section
exist. -/
def stickyNavbar (p : Page) : List Effect :=
  [Effect.listener "window" "scroll" "updateStickyNavbar",
    Effect.listener "document" "DOMContentLoaded" "updateStickyNavbar"] ++
    (if p.has ".sticky-nav" ∧
        (p.has ".hero" ∨ p.has ".gallery-hero" ∨ p.has ".services-hero" ∨ p.has ".contact-hero" ∨
          p.has ".testimonial-hero" ∨ p.has ".blog-hero" ∨ p.has ".about-hero") then
      [Effect.call ".sticky-nav" "classList"]
    else [])

/-- The section `Sticky navbar mobile toggle functionality`. -/
def stickyToggle (p : Page) : List Effect :=
  if p.has "#sticky-nav-toggle" ∧ p.has "#sticky-nav-menu" then
    [Effect.listener "#sticky-nav-toggle" "click" "", Effect.listener "document" "click" ""]
  else []

/-- The section `Animate elements on scroll`: service cards and pricing
columns. -/
def scrollAnimations (p : Page) : List Effect :=
  forEach p ".service-card"
      [Effect.write ".service-card" "opacity" "0",
        Effect.write ".service-card" "transform" "translateY(30px)",
        Effect.write ".service-card" "transition" "opacity 0.6s ease, transform 0.6s ease",
        Effect.observe "observer" ".service-card"] ++
    forEach p ".pricing-column" [Effect.observe "observer" ".pricing-column"] ++
    forEach p ".pricing-column" [Effect.observe "pricingObserver" ".pricing-column"]

/-- The section `Form submission handling`. -/
def bookingForm (p : Page) : List Effect :=
  if p.has ".booking-form" then [Effect.listener ".booking-form" "submit" ""] else []

/-- The section `Animate stats when they come into view`. -/
def statsObserver (p : Page) : List Effect :=
  if p.has ".about" then [Effect.observe "statsObserver" ".about"] else []

/-- The sections `Connect gallery items to lightbox` and `Navigation buttons`:
the click listeners of the gallery items, and of each of the three buttons
that exists. -/
def lightboxButtons (p : Page) : List Effect :=
  forEach p ".gallery-item" [Effect.listener ".gallery-item" "click" "openLightbox"] ++
    (if p.has ".lightbox-close" then [Effect.listener ".lightbox-close" "click" "closeLightbox"]
      else []) ++
    (if p.has ".lightbox-prev" then [Effect.listener ".lightbox-prev" "click" "prevImage"]
      else []) ++
    (if p.has ".lightbox-next" then [Effect.listener ".lightbox-next" "click" "nextImage"]
      else [])

/-- The section `Close on overlay click`: the statement
`lightbox.addEventListener('click', ...)`, which no test for `lightbox`
guards; on a page without `#lightbox` it throws. -/
def overlayClick (p : Page) : Except String (List Effect) :=
  if p.has "#lightbox" then Except.ok [Effect.listener "#lightbox" "click" ""]
  else Except.error "TypeError: lightbox is null"

/-- The section `Loading animation for hero`. -/
def heroLoad (_p : Page) : List Effect :=
  [Effect.listener "window" "load" ""]

/-- The section `Ensure video plays`. -/
def heroVideo (p : Page) : List Effect :=
  if p.has ".hero-video" then
    [Effect.listener ".hero-video" "loadeddata" "", Effect.listener ".hero-video" "error" "",
      Effect.call ".hero-video" "play"]
  else []

/-- The section `Gallery item hover effects for gallery page`. -/
def galleryHover (p : Page) : List Effect :=
  forEach p ".gallery-item"
    [Effect.listener ".gallery-item" "mouseenter" "", Effect.listener ".gallery-item" "mouseleave" ""]

/-- The section `Trending styles carousel functionality`: a click listener on
every item, and the first item is made active. -/
def trendingStyles (p : Page) : List Effect :=
  (if 0 < p.count ".style-item" then
      [Effect.listener ".style-item" "click" "", Effect.call ".style-item" "classList.add"]
    else []) ++
    (List.replicate (p.count ".style-item" - 1) (Effect.listener ".style-item" "click" ""))

/-- The section `Enhanced carousel scroll behavior for better UX`. -/
def trendingCarousel (p : Page) : List Effect :=
  if p.has ".trending-carousel" then
    [Effect.listener ".trending-carousel" "mousedown" "",
      Effect.listener ".trending-carousel" "mousemove" "",
      Effect.listener ".trending-carousel" "mouseup" "",
      Effect.listener ".trending-carousel" "mouseleave" "",
      Effect.listener ".trending-carousel" "scroll" "",
      Effect.listener ".trending-carousel" "touchstart" "",
      Effect.listener ".trending-carousel" "touchmove" "",
      Effect.listener ".trending-carousel" "touchend" "",
      Effect.call ".trending-carousel" "setAttribute",
      Effect.listener ".trending-carousel" "keydown" ""]
  else []

/-- The section `Parallax effect for gallery title`. -/
def galleryTitle (p : Page) : List Effect :=
  if p.has ".gallery-title" then [Effect.listener "window" "scroll" ""] else []

/-- The section `Service Cards Click Handler`. -/
def serviceCardClick (p : Page) : List Effect :=
  forEach p ".service-card" [Effect.listener ".service-card" "click" ""]

/-- The section `Modern continuous carousel functionality for haircut page`;
the container is looked up from the track. -/
def haircutCarousel (p : Page) : List Effect :=
  if p.has ".modern-carousel-track" then
    (if p.has ".modern-carousel-container" then
        [Effect.listener ".modern-carousel-container" "mouseenter" "",
          Effect.listener ".modern-carousel-container" "mouseleave" ""]
      else []) ++
      [Effect.listener ".modern-carousel-track" "animationiteration" ""]
  else []

/-- The section `Back to Top Button functionality`. -/
def backToTop (p : Page) : List Effect :=
  if p.has "#back-to-top" then
    [Effect.log "Back to top button found, initializing...",
      Effect.listener "window" "scroll" "toggleBackToTopButton",
      Effect.call "#back-to-top" "classList"]
  else [Effect.log "Back to top button not found on this page"]

/-- What the callback has done when it reaches `Close on overlay click`. -/
def beforeOverlayClick (p : Page) : List Effect :=
  mobileNav p ++ smoothScroll p ++ stickyNavbar p ++ stickyToggle p ++ scrollAnimations p ++
    bookingForm p ++ statsObserver p ++ lightboxButtons p

/-- What the callback does after `Close on overlay click`. -/
def afterOverlayClick (p : Page) : List Effect :=
  heroLoad p ++ heroVideo p ++ galleryHover p ++ trendingStyles p ++ trendingCarousel p ++
    galleryTitle p ++ serviceCardClick p ++ haircutCarousel p ++ backToTop p

/-- The `DOMContentLoaded` callback of `script.js`: the effects it has had
when it returns, or the exception it ends in with the effects up to then. -/
def domContentLoaded (p : Page) : Except (String × List Effect) (List Effect) :=
  match overlayClick p with
  | Except.error err => Except.error (err, beforeOverlayClick p)
  | Except.ok effects => Except.ok (beforeOverlayClick p ++ effects ++ afterOverlayClick p)

/-- The effects a run of the callback has had, returned or thrown. -/
def effectsOf : Except (String × List Effect) (List Effect) → List Effect
  | Except.ok effects => effects
  | Except.error (_, effects) => effects

/-- A home page: navigation, hero with video, trending carousel, service
cards and a back-to-top button, no gallery and no lightbox. -/
def homePage : Page :=
  { elements := [("#nav-toggle", 1), ("#nav-menu", 1), (".hero", 1), (".sticky-nav", 1),
      (".hero-video", 1), (".style-item", 4), (".trending-carousel", 1), (".service-card", 3),
      (".about", 1), ("#back-to-top", 1)] }

/-- A gallery page: the lightbox with its buttons and six gallery items. -/
def galleryPage : Page :=
  { elements := [("#nav-toggle", 1), ("#nav-menu", 1), (".gallery-hero", 1), ("#lightbox", 1),
      (".lightbox-close", 1), (".lightbox-prev", 1), (".lightbox-next", 1),
      (".gallery-item", 6), (".gallery-title", 1), ("#back-to-top", 1)] }

end ScriptInit

namespace LoadingScreen

/-! ## Frame lemmas: what no method ever undoes -/

theorem mem_classAdd_self (c : String) (l : List String) : c ∈ classAdd c l := by
  unfold classAdd
  split <;> simp [*]

theorem mem_classAdd_of_mem {c d : String} {l : List String} (h : d ∈ l) : d ∈ classAdd c l := by
  unfold classAdd
  split <;> simp [*]

theorem mem_classRemove_of_ne {c d : String} {l : List String} (hne : d ≠ c) (h : d ∈ l) :
    d ∈ classRemove c l := by
  unfold classRemove
  simp [List.mem_filter, h, hne]

theorem classAdd_of_mem {c : String} {l : List String} (h : c ∈ l) : classAdd c l = l := by
  simp [classAdd, h]

theorem ext_refl (w : World) : Ext w w :=
  ⟨rfl, fun _ h => h, fun _ h => h, rfl, fun h1 h2 => ⟨h1, h2⟩, fun h => h, fun _ h1 h2 => ⟨_, h1, h2⟩⟩

theorem ext_trans {a b c : World} (h1 : Ext a b) (h2 : Ext b c) : Ext a c where
  now_eq := by rw [h2.now_eq, h1.now_eq]
  timers := fun tm h => h2.timers tm (h1.timers tm h)
  trace := fun en h => h2.trace en (h1.trace en h)
  consts := by
    have e1 := h1.consts
    have e2 := h2.consts
    rw [e2, e1]
  alive := fun ha hb => by
    obtain ⟨x, y⟩ := h1.alive ha hb
    exact h2.alive x y
  present := fun h => h2.present (h1.present h)
  fadeOut := fun e ha hb => by
    obtain ⟨e2, x, y⟩ := h1.fadeOut e ha hb
    exact h2.fadeOut e2 x y

theorem ext_record (a : Action) (w : World) : Ext w (record a w) :=
  ⟨rfl, fun _ h => h, fun _ h => by simp [record, h], rfl, fun h1 h2 => ⟨h1, h2⟩, fun h => h, fun _ h1 h2 => ⟨_, h1, h2⟩⟩

theorem ext_setTimeout (cb : Callback) (d : JSNum) (w : World) : Ext w (setTimeout cb d w) :=
  ⟨rfl, fun _ h => by simp [setTimeout, h], fun _ h => h, rfl, fun h1 h2 => ⟨h1, h2⟩, fun h => h, fun _ h1 h2 => ⟨_, h1, h2⟩⟩

theorem ext_showLoadingScreen (w : World) : Ext w (showLoadingScreen w) := by
  unfold showLoadingScreen
  split
  · exact ext_refl w
  · refine ⟨rfl, fun _ h => h, fun _ h => h, rfl, fun h1 h2 => ⟨h1, ?_⟩, fun h => ?_,
      fun e he hf => ⟨_, by simp only [he, Option.map_some']; rfl, ?_⟩⟩
    · simpa using h2
    · simpa using h
    · exact mem_classRemove_of_ne (by decide) hf

theorem ext_hideLoadingScreen (w : World) : Ext w (hideLoadingScreen w) := by
  unfold hideLoadingScreen
  split
  · exact ext_refl w
  · refine ext_trans ?_ (ext_record _ _)
    refine ext_trans ?_ (ext_setTimeout _ _ _)
    refine ⟨rfl, fun _ h => h, fun _ h => h, rfl, fun h1 h2 => ⟨h1, ?_⟩, fun h => ?_,
      fun e he hf => ⟨_, by simp only [he, Option.map_some']; rfl, ?_⟩⟩
    · simpa using h2
    · simpa using h
    · exact mem_classAdd_of_mem hf

theorem ext_scheduleHideLoadingScreen (w : World) : Ext w (scheduleHideLoadingScreen w) :=
  ext_trans (ext_setTimeout _ _ _) (ext_record _ _)

theorem ext_checkElements (w : World) : Ext w (checkElements w) := by
  unfold checkElements
  dsimp only
  split
  · exact ext_trans (ext_record _ _) (ext_scheduleHideLoadingScreen _)
  · exact ext_trans (ext_record _ _) (ext_setTimeout _ _ _)

theorem ext_observerCallback (entries : List Nat) (w : World) :
    Ext w (observerCallback entries w) := by
  unfold observerCallback
  split
  · split
    · exact ext_scheduleHideLoadingScreen w
    · exact ext_refl w
  · exact ext_refl w

theorem ext_setupLoadingCompletion (w : World) : Ext w (setupLoadingCompletion w) := by
  unfold setupLoadingCompletion checkCriticalElements
  refine ext_trans ?_ (ext_setTimeout _ _ _)
  refine ext_trans ?_ (ext_setTimeout _ _ _)
  exact ⟨rfl, fun _ h => h, fun _ h => h, rfl, fun h1 h2 => ⟨h1, h2⟩, fun h => h, fun _ h1 h2 => ⟨_, h1, h2⟩⟩

theorem ext_setupPerformanceObserver (w : World) : Ext w (setupPerformanceObserver w) := by
  unfold setupPerformanceObserver
  split
  · exact ext_refl w
  · exact ext_record _ _
  · exact ⟨rfl, fun _ h => h, fun _ h => h, rfl, fun h1 h2 => ⟨h1, h2⟩, fun h => h, fun _ h1 h2 => ⟨_, h1, h2⟩⟩

theorem ext_setupLoadingScreen (w : World) : Ext w (setupLoadingScreen w) := by
  have h0 : Ext w { w with ctl := { w.ctl with loadingScreen := w.overlay.isSome } } :=
    ⟨rfl, fun _ h => h, fun _ h => h, rfl, fun _ h2 => ⟨h2, h2⟩, fun h => h, fun _ h1 h2 => ⟨_, h1, h2⟩⟩
  unfold setupLoadingScreen
  dsimp only
  split
  · exact ext_trans h0 (ext_record _ _)
  · exact ext_trans h0 (ext_trans (ext_showLoadingScreen _) (ext_trans
      (ext_setupLoadingCompletion _) (ext_trans (ext_setupPerformanceObserver _)
        (ext_record _ _))))

theorem ext_iterate (f : World → World) (hf : ∀ w, Ext w (f w)) (n : Nat) (w : World) :
    Ext w (Nat.iterate f n w) := by
  induction n generalizing w with
  | zero => exact ext_refl w
  | succ n ih => exact ext_trans (hf w) (ih (f w))

theorem ext_deliver (e : Event) (w : World) : Ext w (deliver e w) := by
  cases e with
  | load => exact ext_iterate _ ext_scheduleHideLoadingScreen _ _
  | domContentLoaded =>
    refine ext_trans ?_ (ext_iterate _ ext_setupLoadingScreen _ _)
    exact ⟨rfl, fun _ h => h, fun _ h => h, rfl, fun h1 h2 => ⟨h1, h2⟩, fun h => h, fun _ h1 h2 => ⟨_, h1, h2⟩⟩
  | navigationEntries entries => exact ext_iterate _ (ext_observerCallback entries) _ _
  | forceHide => exact ext_hideLoadingScreen w
  | forceShow => exact ext_showLoadingScreen w
  | domChange r => exact ⟨rfl, fun _ h => h, fun _ h => h, rfl, fun h1 h2 => ⟨h1, h2⟩, fun h => h, fun _ h1 h2 => ⟨_, h1, h2⟩⟩

theorem ext_fadeCallback {w w2 : World} (h : fadeCallback w = Except.ok w2) : Ext w w2 := by
  unfold fadeCallback at h
  split at h
  · cases h
  · cases h
    refine ext_trans ?_ (ext_record _ _)
    refine ⟨rfl, fun _ h => h, fun _ h => h, rfl, fun h1 h2 => ⟨h1, ?_⟩, fun h => ?_,
      fun e he hf => ⟨_, by simp only [he, Option.map_some']; rfl, ?_⟩⟩
    · simpa using h2
    · simpa using h
    · exact mem_classAdd_of_mem hf

theorem ext_runCallback {cb : Callback} {w w2 : World} (h : runCallback cb w = Except.ok w2) :
    Ext w w2 := by
  cases cb with
  | timeoutFallback => cases h; exact ext_scheduleHideLoadingScreen w
  | checkElements => cases h; exact ext_checkElements w
  | hide => cases h; exact ext_hideLoadingScreen w
  | detach => exact ext_fadeCallback h

/-! ## The timer queue -/

theorem earliest_mem {ts : List Timer} {u : Timer} (h : earliest ts = some u) : u ∈ ts := by
  induction ts generalizing u with
  | nil => cases h
  | cons t ts ih =>
    unfold earliest at h
    split at h
    · cases h; simp
    · next v hv =>
      split at h
      · cases h; simp
      · cases h; simp [ih hv]

theorem earliest_le {ts : List Timer} {u : Timer} (h : earliest ts = some u) :
    ∀ t ∈ ts, u.due ≤ t.due := by
  induction ts generalizing u with
  | nil => cases h
  | cons t ts ih =>
    unfold earliest at h
    split at h
    · next hn =>
      cases h
      intro x hx
      cases ts with
      | nil => simp at hx; subst hx; exact le_refl _
      | cons a l =>
        exfalso
        unfold earliest at hn
        split at hn
        · cases hn
        · split at hn <;> cases hn
    · next v hv =>
      have hv2 := ih hv
      split at h
      · next hle =>
        cases h
        intro x hx
        rcases List.mem_cons.1 hx with rfl | hx
        · exact le_refl _
        · exact le_trans hle (hv2 x hx)
      · next hle =>
        cases h
        intro x hx
        rcases List.mem_cons.1 hx with rfl | hx
        · omega
        · exact hv2 x hx

/-- What a timer turn does: it takes the earliest timer `u` out of the queue,
moves the clock to its due time and runs its callback. -/
theorem step_timer_inv {w w2 : World} (h : step Step.timer w = some w2) :
    ∃ u, earliest w.timers = some u ∧
      (runCallback u.cb { w with now := max w.now u.due, timers := w.timers.erase u }
          = Except.ok w2 ∨
        ((∃ msg, runCallback u.cb { w with now := max w.now u.due, timers := w.timers.erase u }
          = Except.error msg) ∧
          w2 = record Action.uncaught
            { w with now := max w.now u.due, timers := w.timers.erase u })) := by
  simp only [step] at h
  split at h
  · cases h
  · next u hu =>
    refine ⟨u, hu, ?_⟩
    split at h
    · next w3 h3 => cases h; exact Or.inl h3
    · next msg h3 => cases h; exact Or.inr ⟨⟨msg, h3⟩, rfl⟩

theorem step_event_inv {t : Nat} {e : Event} {w w2 : World}
    (h : step (Step.event t e) w = some w2) :
    w.now ≤ t ∧ (∀ tm ∈ w.timers, t ≤ tm.due) ∧ w2 = deliver e { w with now := t } := by
  simp only [step] at h
  split at h
  · next hc => cases h; exact ⟨hc.1, hc.2, rfl⟩
  · cases h

/-- An invariant of single turns is an invariant of runs. -/
theorem run_induction (P : World → Prop)
    (hstep : ∀ s w w2, P w → step s w = some w2 → P w2)
    {steps : List Step} {w w2 : World} (h0 : P w) (hrun : run steps w = some w2) : P w2 := by
  induction steps generalizing w with
  | nil => cases hrun; exact h0
  | cons s ss ih =>
    unfold run at hrun
    cases hs : step s w with
    | none => rw [hs] at hrun; cases hrun
    | some w1 =>
      rw [hs] at hrun
      exact ih (hstep s w w1 h0 hs) hrun

/-! ## The forced timeout -/

theorem hideDone_ext {T : Nat} {w w2 : World} (h : Ext w w2) (hd : hideDone T w) :
    hideDone T w2 := by
  obtain ⟨en, hen, ha, ht⟩ := hd
  exact ⟨en, h.trace en hen, ha, ht⟩

theorem detachDone_ext {T : Nat} {w w2 : World} (h : Ext w w2) (hd : detachDone T w) :
    detachDone T w2 := by
  obtain ⟨en, hen, ha, ht⟩ := hd
  exact ⟨en, h.trace en hen, ha, ht⟩

theorem hidePending_ext {T : Nat} {w w2 : World} (h : Ext w w2) (hd : hidePending T w) :
    hidePending T w2 := by
  obtain ⟨hn, tm, htm, hc⟩ := hd
  exact ⟨by rw [h.now_eq]; exact hn, tm, h.timers tm htm, hc⟩

theorem fadePending_ext {T : Nat} {w w2 : World} (h : Ext w w2) (hd : fadePending T w) :
    fadePending T w2 := by
  obtain ⟨hn, tm, htm, hc⟩ := hd
  exact ⟨by rw [h.now_eq]; exact hn, tm, h.timers tm htm, hc⟩

theorem timeoutInv_ext {T F : Nat} {w w2 : World} (h : Ext w w2) (hi : TimeoutInv T F w) :
    TimeoutInv T F w2 where
  holds := (h.alive hi.holds hi.present).1
  present := (h.alive hi.holds hi.present).2
  noStart := by rw [h.consts]; exact hi.noStart
  fade := by rw [h.consts]; exact hi.fade
  hide := hi.hide.imp (hideDone_ext h) (hidePending_ext h)
  detach := hi.detach.imp (detachDone_ext h)
    (Or.imp (fadePending_ext h) (hidePending_ext h))

/-- With no `startTime` the computed delay is NaN, whatever the clock reads. -/
theorem remainingTime_of_noStart (c : Controller) (now : Nat) (h : c.startTime = none) :
    remainingTime c now = JSNum.nan := by
  simp [remainingTime, h, toNumber, JSNum.sub, mathMax]

theorem mem_timers_scheduleHide (w : World) (h : w.ctl.startTime = none) :
    (⟨w.now, Callback.hide⟩ : Timer) ∈ (scheduleHideLoadingScreen w).timers := by
  simp [scheduleHideLoadingScreen, record, setTimeout, remainingTime_of_noStart _ _ h, timerDelay]

theorem hideLoadingScreen_entry (w : World) (h : w.ctl.loadingScreen = true) :
    ∃ en ∈ (hideLoadingScreen w).trace, en.act = Action.fadeOut ∧ en.time = w.now := by
  refine ⟨⟨w.now, Action.fadeOut, w.overlay.map fun e =>
    { e with classList := classAdd "fade-out" e.classList }, w.bodyOverflow⟩, ?_, rfl, rfl⟩
  simp [hideLoadingScreen, record, setTimeout, h]

theorem hideLoadingScreen_timer (w : World) (h : w.ctl.loadingScreen = true) :
    (⟨w.now + w.ctl.fadeOutDuration, Callback.detach⟩ : Timer) ∈ (hideLoadingScreen w).timers := by
  simp [hideLoadingScreen, record, setTimeout, h, timerDelay]

theorem fadeCallback_ok (w : World) (h : w.ctl.loadingScreen = true) :
    fadeCallback w = Except.ok (record Action.detached
      { w with
        overlay := w.overlay.map fun e =>
          { e with display := "none", classList := classAdd "hidden" e.classList }
        bodyOverflow := "" }) := by
  simp [fadeCallback, h]

theorem fadeCallback_entry (w : World) (h : w.ctl.loadingScreen = true)
    (hp : w.overlay.isSome = true) :
    ∃ w2, fadeCallback w = Except.ok w2 ∧
      ∃ en ∈ w2.trace, en.act = Action.detached ∧ en.time = w.now ∧ en.isDetached := by
  refine ⟨_, fadeCallback_ok w h, ?_⟩
  obtain ⟨e, he⟩ := Option.isSome_iff_exists.1 hp
  refine ⟨⟨w.now, Action.detached, some
    { e with display := "none", classList := classAdd "hidden" e.classList }, ""⟩,
    by simp [record, he], rfl, rfl, rfl, ?_⟩
  exact ⟨_, rfl, rfl, mem_classAdd_self _ _⟩

/-- A controller that holds its overlay runs every callback without
throwing. -/
theorem runCallback_ok (cb : Callback) (w : World) (h : w.ctl.loadingScreen = true) :
    ∃ w2, runCallback cb w = Except.ok w2 := by
  cases cb with
  | timeoutFallback => exact ⟨_, rfl⟩
  | checkElements => exact ⟨_, rfl⟩
  | hide => exact ⟨_, rfl⟩
  | detach => exact ⟨_, fadeCallback_ok w h⟩

theorem timeoutInv_step {T F : Nat} (s : Step) (w w2 : World) (hi : TimeoutInv T F w)
    (hs : step s w = some w2) : TimeoutInv T F w2 := by
  cases s with
  | event t e =>
    obtain ⟨hnow, hdue, rfl⟩ := step_event_inv hs
    refine timeoutInv_ext (ext_deliver e _) ?_
    refine ⟨hi.holds, hi.present, hi.noStart, hi.fade, ?_, ?_⟩
    · refine hi.hide.imp (fun h => h) ?_
      rintro ⟨_, tm, htm, hc, hd⟩
      exact ⟨le_trans (hdue tm htm) hd, tm, htm, hc, hd⟩
    · refine hi.detach.imp (fun h => h) (Or.imp ?_ ?_)
      · rintro ⟨_, tm, htm, hc, hd⟩
        exact ⟨le_trans (hdue tm htm) hd, tm, htm, hc, hd⟩
      · rintro ⟨_, tm, htm, hc, hd⟩
        exact ⟨le_trans (hdue tm htm) hd, tm, htm, hc, hd⟩
  | timer =>
    obtain ⟨u, hu, hcb⟩ := step_timer_inv hs
    have hmin := earliest_le hu
    -- `w1` is the world in which the callback of `u` starts
    generalize hw1 : ({ w with now := max w.now u.due, timers := w.timers.erase u } : World) = w1
      at hcb
    have h1holds : w1.ctl.loadingScreen = true := by rw [← hw1]; exact hi.holds
    have h1present : w1.overlay.isSome = true := by rw [← hw1]; exact hi.present
    have h1start : w1.ctl.startTime = none := by rw [← hw1]; exact hi.noStart
    have h1fade : w1.ctl.fadeOutDuration = F := by rw [← hw1]; exact hi.fade
    have h1trace : w1.trace = w.trace := by rw [← hw1]
    have h1now : w1.now = max w.now u.due := by rw [← hw1]
    have h1timers : w1.timers = w.timers.erase u := by rw [← hw1]
    -- the clock stays below the bound of any pending timer
    have nowH : ∀ {B : Nat}, hidePending B w → w1.now ≤ B := by
      rintro B ⟨hn, tm, htm, _, hd⟩
      rw [h1now]; exact max_le hn (le_trans (hmin tm htm) hd)
    have nowF : ∀ {B : Nat}, fadePending B w → w1.now ≤ B := by
      rintro B ⟨hn, tm, htm, _, hd⟩
      rw [h1now]; exact max_le hn (le_trans (hmin tm htm) hd)
    -- a pending timer with another callback than `u` is still pending
    have keepH : ∀ {B : Nat}, hidePending B w → u.cb ≠ Callback.timeoutFallback →
        u.cb ≠ Callback.hide → hidePending B w1 := by
      intro B h n1 n2
      have hb := nowH h
      obtain ⟨_, tm, htm, hc, hd⟩ := h
      refine ⟨hb, tm, ?_, hc, hd⟩
      rw [h1timers]
      refine (List.mem_erase_of_ne ?_).2 htm
      rintro rfl
      rcases hc with hc | hc
      · exact n1 hc
      · exact n2 hc
    have keepF : ∀ {B : Nat}, fadePending B w → u.cb ≠ Callback.detach → fadePending B w1 := by
      intro B h n1
      have hb := nowF h
      obtain ⟨_, tm, htm, hc, hd⟩ := h
      refine ⟨hb, tm, ?_, hc, hd⟩
      rw [h1timers]
      refine (List.mem_erase_of_ne ?_).2 htm
      rintro rfl
      exact n1 hc
    have doneH : ∀ {B : Nat}, hideDone B w → hideDone B w1 := by
      rintro B ⟨en, hen, h⟩
      exact ⟨en, by rw [h1trace]; exact hen, h⟩
    have doneD : ∀ {B : Nat}, detachDone B w → detachDone B w1 := by
      rintro B ⟨en, hen, h⟩
      exact ⟨en, by rw [h1trace]; exact hen, h⟩
    rcases hcb with hok | ⟨⟨msg, herr⟩, _⟩
    swap
    · obtain ⟨w3, h3⟩ := runCallback_ok u.cb w1 h1holds
      rw [h3] at herr; cases herr
    have hext := ext_runCallback hok
    refine ⟨(hext.alive h1holds h1present).1, (hext.alive h1holds h1present).2,
      by rw [hext.consts]; exact h1start, by rw [hext.consts]; exact h1fade, ?_, ?_⟩
    · -- the hide
      rcases hi.hide with hd | hp
      · exact Or.inl (hideDone_ext hext (doneH hd))
      · have hb := nowH hp
        cases hc : u.cb with
        | timeoutFallback =>
          rw [hc] at hok; cases hok
          exact Or.inr ⟨hb, _, mem_timers_scheduleHide w1 h1start, Or.inr rfl, hb⟩
        | hide =>
          rw [hc] at hok; cases hok
          obtain ⟨en, hen, ha, ht⟩ := hideLoadingScreen_entry w1 h1holds
          exact Or.inl ⟨en, hen, ha, by rw [ht]; exact hb⟩
        | checkElements =>
          exact Or.inr (hidePending_ext hext (keepH hp (by simp [hc]) (by simp [hc])))
        | detach =>
          exact Or.inr (hidePending_ext hext (keepH hp (by simp [hc]) (by simp [hc])))
    · -- the detach
      rcases hi.detach with hd | hf | hp
      · exact Or.inl (detachDone_ext hext (doneD hd))
      · have hb := nowF hf
        cases hc : u.cb with
        | detach =>
          rw [hc] at hok
          obtain ⟨w3, h3, en, hen, ha, ht, hdet⟩ := fadeCallback_entry w1 h1holds h1present
          have : w3 = w2 := by
            have := h3.symm.trans hok
            cases this; rfl
          subst this
          exact Or.inl ⟨en, hen, ha, by rw [ht]; exact hb, hdet⟩
        | timeoutFallback =>
          exact Or.inr (Or.inl (fadePending_ext hext (keepF hf (by simp [hc]))))
        | hide =>
          exact Or.inr (Or.inl (fadePending_ext hext (keepF hf (by simp [hc]))))
        | checkElements =>
          exact Or.inr (Or.inl (fadePending_ext hext (keepF hf (by simp [hc]))))
      · have hb := nowH hp
        cases hc : u.cb with
        | timeoutFallback =>
          rw [hc] at hok; cases hok
          exact Or.inr (Or.inr ⟨hb, _, mem_timers_scheduleHide w1 h1start, Or.inr rfl, hb⟩)
        | hide =>
          rw [hc] at hok; cases hok
          refine Or.inr (Or.inl ⟨?_, _, hideLoadingScreen_timer w1 h1holds, rfl, ?_⟩)
          · rw [(ext_hideLoadingScreen w1).now_eq]; omega
          · show w1.now + w1.ctl.fadeOutDuration ≤ T + F
            rw [h1fade]; omega
        | checkElements =>
          exact Or.inr (Or.inr (hidePending_ext hext (keepH hp (by simp [hc]) (by simp [hc]))))
        | detach =>
          exact Or.inr (Or.inr (hidePending_ext hext (keepH hp (by simp [hc]) (by simp [hc]))))

/-- Right after `setupLoadingScreen` on a page with the overlay, the timeout
fallback is pending and due `maxLoadingTime` ahead. -/
theorem timeoutInv_setup (cfg : Config) (w : World) (e : Element)
    (hc : w.ctl = Controller.new cfg) (ho : w.overlay = some e) :
    TimeoutInv (w.now + cfg.maxLoadingTime) cfg.fadeOutDuration (setupLoadingScreen w) := by
  have hx := ext_setupLoadingScreen w
  have hpend : hidePending (w.now + cfg.maxLoadingTime) (setupLoadingScreen w) := by
    refine ⟨by rw [hx.now_eq]; omega, ⟨w.now + cfg.maxLoadingTime, Callback.timeoutFallback⟩,
      ?_, Or.inl rfl, le_refl _⟩
    simp [setupLoadingScreen, ho, record, setupPerformanceObserver, setupLoadingCompletion,
      checkCriticalElements, setTimeout, showLoadingScreen, hc, Controller.new, timerDelay]
    cases w.perfObserver <;> simp [record]
  refine ⟨?_, ?_, ?_, ?_, Or.inr hpend, Or.inr (Or.inr hpend)⟩
  · rw [hx.consts]
    simp [setupLoadingScreen, ho, record, setupPerformanceObserver, setupLoadingCompletion,
      checkCriticalElements, setTimeout, showLoadingScreen]
    cases w.perfObserver <;> simp [record]
  · exact hx.present (by simp [ho])
  · rw [hx.consts, hc]; rfl
  · rw [hx.consts, hc]; rfl

/-- The constants of the controller never change. -/
theorem step_consts {s : Step} {w w2 : World} (hs : step s w = some w2) :
    w2.ctl = { w.ctl with loadingScreen := w2.ctl.loadingScreen } := by
  cases s with
  | event t e =>
    obtain ⟨_, _, rfl⟩ := step_event_inv hs
    exact (ext_deliver e _).consts
  | timer =>
    obtain ⟨u, _, hok | ⟨_, rfl⟩⟩ := step_timer_inv hs
    · exact (ext_runCallback hok).consts
    · exact (ext_record _ _).consts

theorem run_startTime {steps : List Step} {w w2 : World} (hrun : run steps w = some w2) :
    w2.ctl.startTime = w.ctl.startTime := by
  refine run_induction (fun x => x.ctl.startTime = w.ctl.startTime) ?_ rfl hrun
  intro s a b ha hs
  rw [step_consts hs]
  exact ha

theorem construct_startTime (cfg : Config) (p : Page) (t0 : Nat) :
    (construct cfg p t0).ctl.startTime = none := by
  unfold construct init
  split
  · rfl
  · rw [(ext_setupLoadingScreen _).consts]
    rfl

/-! ## The minimum display time, the forced timeout and the completion formula -/

/-- C1 (the minimum display time), evaluated on the code: the about-us
controller is constructed at clock reading 1000 on a page with the overlay, the
`load` event arrives 100 ms later, and the body of `hideLoadingScreen` runs at
1100, which is 1400 ms before `minLoadingTime` has elapsed. -/
theorem hide_runs_before_minLoadingTime :
    (run [Step.event 1100 Event.load, Step.timer] (construct aboutUsConfig plainPage 1000)).map
        hideTimes = some [1100] ∧
      1100 < 1000 + aboutUsConfig.minLoadingTime := by
  decide

/-- C2 (the forced timeout): on a page with the overlay, whatever happens
after `setupLoadingScreen`, once the clock has passed `maxLoadingTime` after
the setup the body of `hideLoadingScreen` has run at a clock reading no later
than that, and once it has passed `maxLoadingTime + fadeOutDuration` a fade
callback has run no later than that and left display `none`, class `hidden`
and body overflow `''`. -/
theorem forced_timeout (cfg : Config) (w0 : World) (e : Element)
    (hc : w0.ctl = Controller.new cfg) (ho : w0.overlay = some e)
    (steps : List Step) (w : World) (hrun : run steps (setupLoadingScreen w0) = some w) :
    (w0.now + cfg.maxLoadingTime < w.now → hideDone (w0.now + cfg.maxLoadingTime) w) ∧
      (w0.now + cfg.maxLoadingTime + cfg.fadeOutDuration < w.now →
        detachDone (w0.now + cfg.maxLoadingTime + cfg.fadeOutDuration) w) := by
  have hi : TimeoutInv (w0.now + cfg.maxLoadingTime) cfg.fadeOutDuration w :=
    run_induction _ timeoutInv_step (timeoutInv_setup cfg w0 e hc ho) hrun
  constructor
  · intro hlt
    rcases hi.hide with h | ⟨hn, _⟩
    · exact h
    · omega
  · intro hlt
    rcases hi.detach with h | ⟨hn, _⟩ | ⟨hn, _⟩
    · exact h
    · omega
    · omega

/-- The forced timeout on the about-us page when only the timeout fallback
fires: the run ends at clock reading 5600, the hide ran by 5000 and the detach
by 5500. -/
theorem forced_timeout_witness :
    run (List.replicate 55 Step.timer) (setupLoadingScreen timeoutOnlyStart)
        = some timeoutOnlyEnd ∧
      timeoutOnlyEnd.now = 5600 ∧ hideTimes timeoutOnlyEnd = [5000] ∧
      hideDone 5000 timeoutOnlyEnd ∧ detachDone 5500 timeoutOnlyEnd := by
  have hrun : run (List.replicate 55 Step.timer) (setupLoadingScreen timeoutOnlyStart)
      = some timeoutOnlyEnd := by decide
  have hnow : timeoutOnlyEnd.now = 5600 := by decide
  have h := forced_timeout aboutUsConfig timeoutOnlyStart freshOverlay rfl rfl _ _ hrun
  exact ⟨hrun, hnow, by decide, h.1 (by rw [hnow]; decide), h.2 (by rw [hnow]; decide)⟩

/-- C3 (early readiness is held back), evaluated on the code for the
scenario of the specification (minimum 1500, maximum 5000, selectors `a` and `b`, `b`
added at 800, `load` at 2000): the body of `hideLoadingScreen` runs at 800,
2000 and 5000, and not at 1500. -/
theorem early_readiness_scenario :
    (run scenarioSteps (construct scenarioConfig scenarioPage 0)).map hideTimes
        = some [800, 2000, 5000] ∧
      (run (scenarioSteps.take 6) (construct scenarioConfig scenarioPage 0)).map hideTimes
        = some [800] := by
  decide

/-- C4 (late readiness is not delayed), evaluated on the code: a controller
constructed at clock reading `t0` calls `scheduleHideLoadingScreen` at least
`minLoadingTime` later.  The delay the specification states for that call is
0; the delay the code computes and passes to `setTimeout` is NaN, because
`this.startTime` was never assigned.  The timer is due at once all the same,
by the rule of `setTimeout` for a NaN delay. -/
theorem late_readiness_passes_nan (cfg : Config) (p : Page) (t0 : Nat) (steps : List Step)
    (w : World) (hrun : run steps (construct cfg p t0) = some w)
    (hlate : t0 + cfg.minLoadingTime ≤ w.now) :
    delayAsSpecified w.ctl t0 w.now = JSNum.num 0 ∧
      remainingTime w.ctl w.now = JSNum.nan ∧
      (scheduleHideLoadingScreen w).trace
        = w.trace ++ [⟨w.now, Action.scheduled JSNum.nan, w.overlay, w.bodyOverflow⟩] ∧
      (scheduleHideLoadingScreen w).timers = w.timers ++ [⟨w.now, Callback.hide⟩] := by
  have hs : w.ctl.startTime = none := by
    rw [run_startTime hrun]; exact construct_startTime cfg p t0
  have hmin : w.ctl.minLoadingTime = cfg.minLoadingTime := by
    have h0 : (construct cfg p t0).ctl.minLoadingTime = cfg.minLoadingTime := by
      unfold construct init
      split
      · rfl
      · rw [(ext_setupLoadingScreen _).consts]
        rfl
    refine run_induction (fun x => x.ctl.minLoadingTime = cfg.minLoadingTime) ?_ h0 hrun
    intro s a b ha hst
    rw [step_consts hst]
    exact ha
  have hnan := remainingTime_of_noStart w.ctl w.now hs
  refine ⟨?_, hnan, ?_, ?_⟩
  · have hmax : max (0 : Int) ((w.ctl.minLoadingTime : Int) - ((w.now : Int) - (t0 : Int))) = 0 := by
      apply max_eq_left
      rw [hmin]
      omega
    simp only [delayAsSpecified, JSNum.sub, mathMax, hmax]
  · simp only [scheduleHideLoadingScreen, record, setTimeout, hnan]
  · simp only [scheduleHideLoadingScreen, record, setTimeout, hnan, timerDelay, Nat.add_zero]

/-- The about-us controller (minimum 1500) constructed at 1000 and called at
2500: the specification's delay is 0, the delay passed to `setTimeout` is
NaN. -/
theorem late_readiness_passes_nan_witness :
    (run (List.replicate 11 Step.timer) (construct aboutUsConfig plainPage 1000) = some lateWorld ∧
        lateWorld.now = 2500 ∧ 1000 + aboutUsConfig.minLoadingTime ≤ lateWorld.now) ∧
      delayAsSpecified lateWorld.ctl 1000 lateWorld.now = JSNum.num 0 ∧
      remainingTime lateWorld.ctl lateWorld.now = JSNum.nan ∧
      (scheduleHideLoadingScreen lateWorld).trace
        = lateWorld.trace ++
          [⟨lateWorld.now, Action.scheduled JSNum.nan, lateWorld.overlay, lateWorld.bodyOverflow⟩] ∧
      (scheduleHideLoadingScreen lateWorld).timers
        = lateWorld.timers ++ [⟨lateWorld.now, Callback.hide⟩] :=
  ⟨⟨by decide, by decide, by decide⟩,
    late_readiness_passes_nan aboutUsConfig plainPage 1000 (List.replicate 11 Step.timer)
      lateWorld (by decide) (by decide)⟩

/-- C5 (the completion formula), evaluated on the code: no controller ever
holds a `startTime` (the constructor assigns none and no method does), so at
every clock reading `scheduleHideLoadingScreen` computes NaN, not a number
between 0 and `minLoadingTime`. -/
theorem startTime_never_recorded (cfg : Config) (p : Page) (t0 : Nat) (steps : List Step)
    (w : World) (hrun : run steps (construct cfg p t0) = some w) (now : Nat) :
    w.ctl.startTime = none ∧ remainingTime w.ctl now = JSNum.nan := by
  have h : w.ctl.startTime = none := by
    rw [run_startTime hrun]; exact construct_startTime cfg p t0
  exact ⟨h, remainingTime_of_noStart _ _ h⟩

/-- The index controller after the `load` event, 400 ms after its
construction: no `startTime`, the delay computed is NaN, and that is the delay
the call passed to `setTimeout`. -/
theorem startTime_never_recorded_witness :
    indexLoadedWorld.ctl.startTime = none ∧
      remainingTime indexLoadedWorld.ctl 400 = JSNum.nan ∧
      indexLoadedWorld.trace.map Entry.act
        = [Action.initialized, Action.scheduled JSNum.nan] :=
  ⟨(startTime_never_recorded indexConfig plainPage 0 [Step.event 400 Event.load]
      indexLoadedWorld (by decide) 400).1,
    (startTime_never_recorded indexConfig plainPage 0 [Step.event 400 Event.load]
      indexLoadedWorld (by decide) 400).2, by decide⟩

/-! ## Hiding a hidden overlay, and the way back from fading out -/

/-- C7 (hiding a hidden overlay), the counterexample: the overlay is hidden
and the body scroll is locked by the open lightbox; a late `hideLoadingScreen`
with its fade callback leaves the overlay as it was but resets the body
overflow from `hidden` to `''`. -/
theorem hide_when_hidden_resets_overflow :
    lightboxOpenWorld.overlay = some hiddenOverlay ∧
      isHidden hiddenOverlay ∧ "fade-out" ∈ hiddenOverlay.classList ∧
      lightboxOpenWorld.bodyOverflow = "hidden" ∧
      (hideThenFade lightboxOpenWorld).toOption.map World.bodyOverflow = some "" ∧
      (hideThenFade lightboxOpenWorld).toOption.map World.bodyOverflow
        ≠ some lightboxOpenWorld.bodyOverflow := by
  refine ⟨rfl, ⟨rfl, by decide⟩, by decide, rfl, by decide, by decide⟩

/-- C7 as amended: on a hidden overlay (display `none`, classes `hidden` and
`fade-out`), `hideLoadingScreen` and its fade callback leave the element
exactly as it was (display, opacity, visibility and class list), do not throw,
and set the body overflow to `''`; so nothing observable changes when the body
overflow was `''` before. -/
theorem hide_when_hidden (w : World) (e : Element) (hl : w.ctl.loadingScreen = true)
    (he : w.overlay = some e) (hd : e.display = "none") (hh : "hidden" ∈ e.classList)
    (hf : "fade-out" ∈ e.classList) :
    (hideLoadingScreen w).overlay = some e ∧
      (hideLoadingScreen w).bodyOverflow = w.bodyOverflow ∧
      ∃ w2, hideThenFade w = Except.ok w2 ∧ w2.overlay = some e ∧ w2.bodyOverflow = "" ∧
        (w.bodyOverflow = "" → w2.bodyOverflow = w.bodyOverflow) := by
  have h1 : (hideLoadingScreen w).overlay = some e := by
    cases e
    simp_all [hideLoadingScreen, record, setTimeout, classAdd_of_mem]
  have h2 : (hideLoadingScreen w).bodyOverflow = w.bodyOverflow := by
    simp [hideLoadingScreen, record, setTimeout, hl]
  have h3 : (hideLoadingScreen w).ctl.loadingScreen = true := by
    rw [(ext_hideLoadingScreen w).consts]
    exact ((ext_hideLoadingScreen w).alive hl (by simp [he])).1
  refine ⟨h1, h2, _, fadeCallback_ok _ h3, ?_, rfl, fun h => h.symm⟩
  cases e
  simp_all [record, classAdd_of_mem]

/-- The hidden about-us overlay with the scroll not locked: a late hide
changes neither the element nor the body overflow. -/
theorem hide_when_hidden_witness :
    (hideLoadingScreen hiddenWorld).overlay = some hiddenOverlay ∧
      (hideLoadingScreen hiddenWorld).bodyOverflow = hiddenWorld.bodyOverflow ∧
      ∃ w2, hideThenFade hiddenWorld = Except.ok w2 ∧ w2.overlay = some hiddenOverlay ∧
        w2.bodyOverflow = "" ∧ (hiddenWorld.bodyOverflow = "" →
          w2.bodyOverflow = hiddenWorld.bodyOverflow) :=
  hide_when_hidden hiddenWorld hiddenOverlay rfl rfl rfl (by decide) (by decide)

/-- Once set, the class `fade-out` stays through every turn of the event
loop. -/
theorem step_fadeOut {s : Step} {w w2 : World} (hs : step s w = some w2)
    (h : ∃ e, w.overlay = some e ∧ "fade-out" ∈ e.classList) :
    ∃ e, w2.overlay = some e ∧ "fade-out" ∈ e.classList := by
  obtain ⟨e, he, hf⟩ := h
  cases s with
  | event t ev =>
    obtain ⟨_, _, rfl⟩ := step_event_inv hs
    exact (ext_deliver ev _).fadeOut e he hf
  | timer =>
    obtain ⟨u, _, hok | ⟨_, rfl⟩⟩ := step_timer_inv hs
    · exact (ext_runCallback hok).fadeOut e he hf
    · exact (ext_record _ _).fadeOut e he hf

/-- C8 (no way back from fading out): from a world in which the overlay is
fading out, no run of watcher firings, timer callbacks, `forceHide()` and
`forceShow()` calls leads to a world in which it is showing;
`forceShow()` during the fade leaves it fading out and leaves the timers as
they are, and a fade callback that runs afterwards hides the overlay. -/
theorem no_return_to_showing (w : World) (e : Element) (he : w.overlay = some e)
    (hf : isFadingOut e) (steps : List Step) (w2 : World) (hrun : run steps w = some w2) :
    (∃ e2, w2.overlay = some e2 ∧ ¬ isShowing e2) ∧
      (∃ e3, (forceShow w).overlay = some e3 ∧ isFadingOut e3) ∧
      (forceShow w).timers = w.timers ∧
      (w.ctl.loadingScreen = true →
        ∃ w4 e4, fadeCallback (forceShow w) = Except.ok w4 ∧ w4.overlay = some e4 ∧
          isHidden e4) := by
  refine ⟨?_, ?_, ?_, ?_⟩
  · have hk : ∃ e2, w2.overlay = some e2 ∧ "fade-out" ∈ e2.classList :=
      run_induction (fun x => ∃ e2, x.overlay = some e2 ∧ "fade-out" ∈ e2.classList)
        (fun s a b ha hs => step_fadeOut hs ha) ⟨e, he, hf.1⟩ hrun
    obtain ⟨e2, h2, hm⟩ := hk
    exact ⟨e2, h2, fun hsh => hsh.1 hm⟩
  · unfold forceShow showLoadingScreen
    split
    · exact ⟨e, he, hf⟩
    · refine ⟨_, by simp only [he, Option.map_some']; rfl, ?_,
        show "flex" ≠ "none" by decide⟩
      exact mem_classRemove_of_ne (by decide) hf.1
  · unfold forceShow showLoadingScreen
    split <;> rfl
  · intro hl
    have h3 : (forceShow w).ctl.loadingScreen = true :=
      ((ext_showLoadingScreen w).alive hl (by simp [he])).1
    obtain ⟨e3, he3⟩ := Option.isSome_iff_exists.1
      ((ext_showLoadingScreen w).present (by simp [he]))
    refine ⟨_, { e3 with display := "none", classList := classAdd "hidden" e3.classList },
      fadeCallback_ok _ h3, ?_, rfl, mem_classAdd_self _ _⟩
    show Option.map _ (forceShow w).overlay = _
    rw [show (forceShow w).overlay = some e3 from he3]
    rfl

/-- The about-us overlay fading out after a `forceHide()`: the `load` event,
its zero-delay timer and a `forceShow()` later it is still not showing. -/
theorem no_return_to_showing_witness :
    (∃ e2, ((run [Step.event 300 Event.load, Step.timer, Step.event 400 Event.forceShow]
        fadingWorld).getD fadingWorld).overlay = some e2 ∧ ¬ isShowing e2) ∧
      (∃ e3, (forceShow fadingWorld).overlay = some e3 ∧ isFadingOut e3) ∧
      (forceShow fadingWorld).timers = fadingWorld.timers ∧
      (fadingWorld.ctl.loadingScreen = true →
        ∃ w4 e4, fadeCallback (forceShow fadingWorld) = Except.ok w4 ∧ w4.overlay = some e4 ∧
          isHidden e4) :=
  no_return_to_showing fadingWorld
    { display := "flex", opacity := "1", visibility := "visible", classList := ["fade-out"] }
    (by decide) ⟨by decide, by decide⟩
    [Step.event 300 Event.load, Step.timer, Step.event 400 Event.forceShow] _ (by decide)

/-! ## A page without the overlay -/

theorem iterate_inv (P : World → Prop) (f : World → World) (hf : ∀ w, P w → P (f w))
    (n : Nat) (w : World) (h : P w) : P (Nat.iterate f n w) := by
  induction n generalizing w with
  | zero => exact h
  | succ n ih => exact ih (f w) (hf w h)

theorem setupLoadingScreen_missing (w : World) (h : w.overlay = none) :
    setupLoadingScreen w =
      record Action.warnMissing { w with ctl := { w.ctl with loadingScreen := false } } := by
  simp [setupLoadingScreen, h]

theorem guards_of_no_element (w : World) (h : w.ctl.loadingScreen = false) :
    showLoadingScreen w = w ∧ hideLoadingScreen w = w ∧ forceShow w = w ∧ forceHide w = w := by
  simp [showLoadingScreen, hideLoadingScreen, forceShow, forceHide, h]

theorem missingInv_setup {b : String} (w : World) (h : MissingInv b w) :
    MissingInv b (setupLoadingScreen w) := by
  rw [setupLoadingScreen_missing w h.overlay]
  refine ⟨h.overlay, rfl, h.timers, h.loadListeners, h.observers, h.bodyOverflow, ?_⟩
  intro en hen
  simp only [record, List.mem_append, List.mem_singleton] at hen
  rcases hen with hen | rfl
  · exact h.noThrow en hen
  · simp

theorem missingInv_step {b : String} (s : Step) (w w2 : World) (h : MissingInv b w)
    (hs : step s w = some w2) : MissingInv b w2 := by
  cases s with
  | timer =>
    obtain ⟨u, hu, _⟩ := step_timer_inv hs
    rw [h.timers] at hu
    cases hu
  | event t e =>
    obtain ⟨_, _, rfl⟩ := step_event_inv hs
    have h1 : MissingInv b { w with now := t } :=
      ⟨h.overlay, h.ctl, h.timers, h.loadListeners, h.observers, h.bodyOverflow, h.noThrow⟩
    cases e with
    | load =>
      have hd : deliver Event.load { w with now := t } = { w with now := t } := by
        show Nat.iterate _ w.loadListeners _ = _
        rw [h.loadListeners]; rfl
      rw [hd]; exact h1
    | domContentLoaded =>
      simp only [deliver]
      refine iterate_inv _ _ missingInv_setup _ _ ?_
      exact ⟨h.overlay, h.ctl, h.timers, h.loadListeners, h.observers, h.bodyOverflow, h.noThrow⟩
    | navigationEntries entries =>
      have hd : deliver (Event.navigationEntries entries) { w with now := t }
          = { w with now := t } := by
        show Nat.iterate _ w.observers _ = _
        rw [h.observers]; rfl
      rw [hd]; exact h1
    | forceHide =>
      simp only [deliver]
      rw [(guards_of_no_element _ h1.ctl).2.2.2]
      exact h1
    | forceShow =>
      simp only [deliver]
      rw [(guards_of_no_element _ h1.ctl).2.2.1]
      exact h1
    | domChange r =>
      exact ⟨h.overlay, h.ctl, h.timers, h.loadListeners, h.observers, h.bodyOverflow, h.noThrow⟩

theorem missingInv_construct (cfg : Config) (p : Page) (t0 : Nat) (hp : p.overlay = none) :
    MissingInv p.bodyOverflow (construct cfg p t0) := by
  have h0 : MissingInv p.bodyOverflow
      { now := t0, overlay := p.overlay, bodyOverflow := p.bodyOverflow, resolved := p.resolved,
        perfObserver := p.perfObserver, ctl := Controller.new cfg, timers := [],
        loadListeners := 0, domListeners := 0, observers := 0, trace := [] } :=
    ⟨hp, rfl, rfl, rfl, rfl, rfl, fun _ h => by cases h⟩
  unfold construct init
  split
  · exact ⟨hp, rfl, rfl, rfl, rfl, rfl, fun _ h => by cases h⟩
  · exact missingInv_setup _ h0

/-- C10 (a missing overlay): on a page without `#loading-screen`, the setup
only warns and records that the controller holds no element; and whatever
happens after the construction of the controller, no load listener, timer,
poll or observer is registered, the body overflow is what the page had, no
callback has thrown, and `showLoadingScreen`, `hideLoadingScreen`,
`forceShow` and `forceHide` return with the world unchanged. -/
theorem missing_overlay_noop (cfg : Config) (p : Page) (t0 : Nat) (hp : p.overlay = none)
    (steps : List Step) (w : World) (hrun : run steps (construct cfg p t0) = some w) :
    setupLoadingScreen w
        = record Action.warnMissing { w with ctl := { w.ctl with loadingScreen := false } } ∧
      w.overlay = none ∧ w.ctl.loadingScreen = false ∧
      w.timers = [] ∧ w.loadListeners = 0 ∧ w.observers = 0 ∧
      w.bodyOverflow = p.bodyOverflow ∧
      (∀ en ∈ w.trace, en.act ≠ Action.uncaught) ∧
      showLoadingScreen w = w ∧ hideLoadingScreen w = w ∧ forceShow w = w ∧ forceHide w = w := by
  have h : MissingInv p.bodyOverflow w :=
    run_induction _ missingInv_step (missingInv_construct cfg p t0 hp) hrun
  have g := guards_of_no_element w h.ctl
  exact ⟨setupLoadingScreen_missing w h.overlay, h.overlay, h.ctl, h.timers, h.loadListeners,
    h.observers, h.bodyOverflow, h.noThrow, g.1, g.2.1, g.2.2.1, g.2.2.2⟩

/-- A page without the overlay, parsed after the script ran: the setup at
`DOMContentLoaded`, the `load` event and the two forced calls leave nothing
registered and the body overflow at `auto`. -/
theorem missing_overlay_noop_witness :
    ((run [Step.event 50 Event.domContentLoaded, Step.event 900 Event.load,
          Step.event 1000 Event.forceHide, Step.event 1100 Event.forceShow]
        (construct aboutUsConfig bareLoadingPage 0)).getD
          (construct aboutUsConfig bareLoadingPage 0)).timers = [] ∧
      ((run [Step.event 50 Event.domContentLoaded, Step.event 900 Event.load,
          Step.event 1000 Event.forceHide, Step.event 1100 Event.forceShow]
        (construct aboutUsConfig bareLoadingPage 0)).getD
          (construct aboutUsConfig bareLoadingPage 0)).bodyOverflow = "auto" := by
  have h := missing_overlay_noop aboutUsConfig bareLoadingPage 0 rfl
    [Step.event 50 Event.domContentLoaded, Step.event 900 Event.load,
      Step.event 1000 Event.forceHide, Step.event 1100 Event.forceShow] _
    (show _ = some ((run [Step.event 50 Event.domContentLoaded, Step.event 900 Event.load,
          Step.event 1000 Event.forceHide, Step.event 1100 Event.forceShow]
        (construct aboutUsConfig bareLoadingPage 0)).getD
          (construct aboutUsConfig bareLoadingPage 0)) by decide)
  exact ⟨h.2.2.2.1, h.2.2.2.2.2.2.1⟩

/-! ## Quiet steps -/

theorem quiet_refl (w : World) : Quiet w w :=
  ⟨ext_refl w, fun _ h => Or.inl h, fun _ h _ => Or.inl h, fun _ h => Or.inl h,
    fun h1 e2 h2 h3 => ⟨h1, e2, h2, h3⟩⟩

theorem quiet_trans {a b c : World} (h1 : Quiet a b) (h2 : Quiet b c) : Quiet a c where
  ext := ext_trans h1.ext h2.ext
  ahead := fun tm htm => by
    rcases h2.ahead tm htm with h | h
    · exact h1.ahead tm h
    · exact Or.inr (by rw [← h1.ext.now_eq]; exact h)
  newDetach := fun tm htm hcb => by
    rcases h2.newDetach tm htm hcb with h | ⟨en, hen, ha, ht⟩
    · rcases h1.newDetach tm h hcb with h | ⟨en, hen, ha, ht⟩
      · exact Or.inl h
      · exact Or.inr ⟨en, h2.ext.trace en hen, ha, ht⟩
    · refine Or.inr ⟨en, hen, ha, ?_⟩
      rw [← ht, h1.ext.consts]
  newEntries := fun en hen => by
    rcases h2.newEntries en hen with h | ⟨x, y, z⟩
    · exact h1.newEntries en h
    · exact Or.inr ⟨x, by rw [y, h1.ext.now_eq], z⟩
  shown := fun hl e2 he2 hd => by
    obtain ⟨hl1, e1, he1, hd1⟩ := h2.shown hl e2 he2 hd
    exact h1.shown hl1 e1 he1 hd1

theorem quiet_record (a : Action) (w : World) (h1 : a ≠ Action.detached)
    (h2 : a ≠ Action.fadeOut) : Quiet w (record a w) := by
  refine ⟨ext_record a w, fun _ h => Or.inl h, fun _ h _ => Or.inl h, ?_,
    fun h1 e2 h2 h3 => ⟨h1, e2, h2, h3⟩⟩
  intro en hen
  simp only [record, List.mem_append, List.mem_singleton] at hen
  rcases hen with hen | rfl
  · exact Or.inl hen
  · exact Or.inr ⟨h1, rfl, fun h => absurd h h2⟩

theorem quiet_setTimeout (cb : Callback) (d : JSNum) (w : World) (h : cb ≠ Callback.detach) :
    Quiet w (setTimeout cb d w) := by
  refine ⟨ext_setTimeout cb d w, ?_, ?_, fun _ h => Or.inl h,
    fun h1 e2 h2 h3 => ⟨h1, e2, h2, h3⟩⟩
  · intro tm htm
    simp only [setTimeout, List.mem_append, List.mem_singleton] at htm
    rcases htm with htm | rfl
    · exact Or.inl htm
    · exact Or.inr (Nat.le_add_right _ _)
  · intro tm htm hcb
    simp only [setTimeout, List.mem_append, List.mem_singleton] at htm
    rcases htm with htm | rfl
    · exact Or.inl htm
    · exact absurd hcb h

theorem showLoadingScreen_eq (w : World) (hl : w.ctl.loadingScreen = true) :
    showLoadingScreen w =
      { w with
        overlay := w.overlay.map fun e =>
          { e with
            display := "flex"
            classList := classRemove "hidden" e.classList
            opacity := "1"
            visibility := "visible" }
        bodyOverflow := "hidden" } := by
  simp [showLoadingScreen, hl]

theorem hideLoadingScreen_eq (w : World) (hl : w.ctl.loadingScreen = true) :
    hideLoadingScreen w =
      { w with
        overlay := w.overlay.map fun e =>
          { e with classList := classAdd "fade-out" e.classList }
        timers := w.timers ++ [⟨w.now + w.ctl.fadeOutDuration, Callback.detach⟩]
        trace := w.trace ++ [⟨w.now, Action.fadeOut,
          w.overlay.map fun e => { e with classList := classAdd "fade-out" e.classList },
          w.bodyOverflow⟩] } := by
  simp [hideLoadingScreen, hl, record, setTimeout, timerDelay]

theorem quiet_showLoadingScreen (w : World) : Quiet w (showLoadingScreen w) := by
  cases hl : w.ctl.loadingScreen with
  | false =>
    have : showLoadingScreen w = w := by simp [showLoadingScreen, hl]
    rw [this]; exact quiet_refl w
  | true =>
    refine ⟨ext_showLoadingScreen w, ?_, ?_, ?_, ?_⟩
    · intro tm htm
      rw [showLoadingScreen_eq w hl] at htm
      exact Or.inl htm
    · intro tm htm _
      rw [showLoadingScreen_eq w hl] at htm
      exact Or.inl htm
    · intro en hen
      rw [showLoadingScreen_eq w hl] at hen
      exact Or.inl hen
    · intro _ e2 he2 hd
      exfalso
      rw [showLoadingScreen_eq w hl] at he2
      cases ho : w.overlay with
      | none => simp [ho] at he2
      | some e =>
        simp only [ho, Option.map_some', Option.some.injEq] at he2
        subst he2
        exact absurd hd (show "flex" ≠ "none" by decide)

theorem quiet_hideLoadingScreen (w : World) : Quiet w (hideLoadingScreen w) := by
  cases hl : w.ctl.loadingScreen with
  | false =>
    have : hideLoadingScreen w = w := by simp [hideLoadingScreen, hl]
    rw [this]; exact quiet_refl w
  | true =>
    refine ⟨ext_hideLoadingScreen w, ?_, ?_, ?_, ?_⟩
    · intro tm htm
      rw [hideLoadingScreen_eq w hl] at htm
      simp only [List.mem_append, List.mem_singleton] at htm
      rcases htm with htm | rfl
      · exact Or.inl htm
      · exact Or.inr (Nat.le_add_right _ _)
    · intro tm htm _
      rw [hideLoadingScreen_eq w hl] at htm ⊢
      simp only [List.mem_append, List.mem_singleton] at htm
      rcases htm with htm | rfl
      · exact Or.inl htm
      · exact Or.inr ⟨_, List.mem_append_right _ (List.mem_singleton.2 rfl), rfl, rfl⟩
    · intro en hen
      rw [hideLoadingScreen_eq w hl] at hen
      simp only [List.mem_append, List.mem_singleton] at hen
      rcases hen with hen | rfl
      · exact Or.inl hen
      · refine Or.inr ⟨by simp, rfl, fun _ e he => ?_⟩
        cases ho : w.overlay with
        | none => simp [ho] at he
        | some e0 =>
          simp only [ho, Option.map_some', Option.some.injEq] at he
          subst he
          exact mem_classAdd_self _ _
    · intro _ e2 he2 hd
      refine ⟨hl, ?_⟩
      rw [hideLoadingScreen_eq w hl] at he2
      cases ho : w.overlay with
      | none => simp [ho] at he2
      | some e0 =>
        simp only [ho, Option.map_some', Option.some.injEq] at he2
        subst he2
        exact ⟨e0, rfl, hd⟩

theorem quiet_scheduleHideLoadingScreen (w : World) : Quiet w (scheduleHideLoadingScreen w) :=
  quiet_trans (quiet_setTimeout _ _ _ (by decide)) (quiet_record _ _ (by simp) (by simp))

theorem quiet_checkElements (w : World) : Quiet w (checkElements w) := by
  unfold checkElements
  dsimp only
  split
  · exact quiet_trans (quiet_record _ _ (by simp) (by simp)) (quiet_scheduleHideLoadingScreen _)
  · exact quiet_trans (quiet_record _ _ (by simp) (by simp))
      (quiet_setTimeout _ _ _ (by decide))

theorem quiet_observerCallback (entries : List Nat) (w : World) :
    Quiet w (observerCallback entries w) := by
  unfold observerCallback
  split
  · split
    · exact quiet_scheduleHideLoadingScreen w
    · exact quiet_refl w
  · exact quiet_refl w

theorem quiet_setupLoadingCompletion (w : World) : Quiet w (setupLoadingCompletion w) := by
  unfold setupLoadingCompletion checkCriticalElements
  refine quiet_trans ?_ (quiet_setTimeout _ _ _ (by decide))
  refine quiet_trans ?_ (quiet_setTimeout _ _ _ (by decide))
  exact ⟨⟨rfl, fun _ h => h, fun _ h => h, rfl, fun h1 h2 => ⟨h1, h2⟩, fun h => h,
    fun _ h1 h2 => ⟨_, h1, h2⟩⟩, fun _ h => Or.inl h, fun _ h _ => Or.inl h, fun _ h => Or.inl h,
    fun h1 e2 h2 h3 => ⟨h1, e2, h2, h3⟩⟩

theorem quiet_setupPerformanceObserver (w : World) : Quiet w (setupPerformanceObserver w) := by
  unfold setupPerformanceObserver
  split
  · exact quiet_refl w
  · exact quiet_record _ _ (by simp) (by simp)
  · exact ⟨⟨rfl, fun _ h => h, fun _ h => h, rfl, fun h1 h2 => ⟨h1, h2⟩, fun h => h,
      fun _ h1 h2 => ⟨_, h1, h2⟩⟩, fun _ h => Or.inl h, fun _ h _ => Or.inl h,
      fun _ h => Or.inl h, fun h1 e2 h2 h3 => ⟨h1, e2, h2, h3⟩⟩

theorem quiet_setupLoadingScreen (w : World) : Quiet w (setupLoadingScreen w) := by
  cases ho : w.overlay with
  | none =>
    rw [setupLoadingScreen_missing w ho]
    refine quiet_trans ?_ (quiet_record _ _ (by simp) (by simp))
    refine ⟨⟨rfl, fun _ h => h, fun _ h => h, rfl, fun _ h2 => ?_, fun h => h,
      fun _ h1 h2 => ⟨_, h1, h2⟩⟩, fun _ h => Or.inl h, fun _ h _ => Or.inl h,
      fun _ h => Or.inl h, fun h1 _ _ _ => ?_⟩
    · simp [ho] at h2
    · cases h1
  | some e =>
    have hs : setupLoadingScreen w = record Action.initialized (setupPerformanceObserver
        (setupLoadingCompletion (showLoadingScreen
          { w with ctl := { w.ctl with loadingScreen := true } }))) := by
      simp [setupLoadingScreen, ho]
    rw [hs]
    refine quiet_trans ?_ (quiet_record _ _ (by simp) (by simp))
    refine quiet_trans ?_ (quiet_setupPerformanceObserver _)
    refine quiet_trans ?_ (quiet_setupLoadingCompletion _)
    rw [showLoadingScreen_eq _ rfl]
    refine ⟨⟨rfl, fun _ h => h, fun _ h => h, rfl, fun _ _ => ⟨rfl, by simp [ho]⟩,
      fun _ => by simp [ho], fun e1 he1 hf => ⟨_, by simp only [he1, Option.map_some']; rfl,
        @mem_classRemove_of_ne "hidden" _ _ (by decide) hf⟩⟩,
      fun _ h => Or.inl h, fun _ h _ => Or.inl h, fun _ h => Or.inl h, fun _ e2 he2 hd => ?_⟩
    exfalso
    simp only [ho, Option.map_some', Option.some.injEq] at he2
    subst he2
    exact absurd hd (show "flex" ≠ "none" by decide)

theorem quiet_iterate (f : World → World) (hf : ∀ w, Quiet w (f w)) (n : Nat) (w : World) :
    Quiet w (Nat.iterate f n w) := by
  induction n generalizing w with
  | zero => exact quiet_refl w
  | succ n ih => exact quiet_trans (hf w) (ih (f w))

theorem quiet_deliver (e : Event) (w : World) : Quiet w (deliver e w) := by
  cases e with
  | load => exact quiet_iterate _ quiet_scheduleHideLoadingScreen _ _
  | domContentLoaded =>
    refine quiet_trans ?_ (quiet_iterate _ quiet_setupLoadingScreen _ _)
    exact ⟨⟨rfl, fun _ h => h, fun _ h => h, rfl, fun h1 h2 => ⟨h1, h2⟩, fun h => h,
      fun _ h1 h2 => ⟨_, h1, h2⟩⟩, fun _ h => Or.inl h, fun _ h _ => Or.inl h,
      fun _ h => Or.inl h, fun h1 e2 h2 h3 => ⟨h1, e2, h2, h3⟩⟩
  | navigationEntries entries => exact quiet_iterate _ (quiet_observerCallback entries) _ _
  | forceHide => exact quiet_hideLoadingScreen w
  | forceShow => exact quiet_showLoadingScreen w
  | domChange r =>
    exact ⟨⟨rfl, fun _ h => h, fun _ h => h, rfl, fun h1 h2 => ⟨h1, h2⟩, fun h => h,
      fun _ h1 h2 => ⟨_, h1, h2⟩⟩, fun _ h => Or.inl h, fun _ h _ => Or.inl h,
      fun _ h => Or.inl h, fun h1 e2 h2 h3 => ⟨h1, e2, h2, h3⟩⟩

theorem quiet_runCallback {cb : Callback} {w w2 : World} (hcb : cb ≠ Callback.detach)
    (h : runCallback cb w = Except.ok w2) : Quiet w w2 := by
  cases cb with
  | timeoutFallback => cases h; exact quiet_scheduleHideLoadingScreen w
  | checkElements => cases h; exact quiet_checkElements w
  | hide => cases h; exact quiet_hideLoadingScreen w
  | detach => exact absurd rfl hcb

/-! ## The hide-and-fade sequence -/

theorem fadeInv_quiet {F : Nat} {w w2 : World} (hq : Quiet w w2) (hi : FadeInv F w) :
    FadeInv F w2 where
  fade := by rw [hq.ext.consts]; exact hi.fade
  ahead := fun tm htm => by
    rw [hq.ext.now_eq]
    rcases hq.ahead tm htm with h | h
    · exact hi.ahead tm h
    · exact h
  timers := fun tm htm hcb => by
    rcases hq.newDetach tm htm hcb with h | ⟨en, hen, ha, ht⟩
    · obtain ⟨en, hen, ha, ht⟩ := hi.timers tm h hcb
      exact ⟨en, hq.ext.trace en hen, ha, ht⟩
    · exact ⟨en, hen, ha, by rw [← hi.fade]; exact ht⟩
  entries := fun en hen ha => by
    rcases hq.newEntries en hen with h | ⟨h, _⟩
    · obtain ⟨en2, hen2, ha2, ht2⟩ := hi.entries en h ha
      exact ⟨en2, hq.ext.trace en2 hen2, ha2, ht2⟩
    · exact absurd ha h
  fading := fun en hen ha => by
    rcases hq.newEntries en hen with h | ⟨_, _, h⟩
    · exact hi.fading en h ha
    · exact h ha
  hidden := fun hl e he hd => by
    obtain ⟨hl1, e1, he1, hd1⟩ := hq.shown hl e he hd
    obtain ⟨en, hen, ha⟩ := hi.hidden hl1 e1 he1 hd1
    exact ⟨en, hq.ext.trace en hen, ha⟩

theorem fadeInv_step {F : Nat} (s : Step) (w w2 : World) (hi : FadeInv F w)
    (hs : step s w = some w2) : FadeInv F w2 := by
  cases s with
  | event t e =>
    obtain ⟨_, hdue, rfl⟩ := step_event_inv hs
    refine fadeInv_quiet (quiet_deliver e _) ?_
    exact ⟨hi.fade, hdue, hi.timers, hi.entries, hi.fading, hi.hidden⟩
  | timer =>
    obtain ⟨u, hu, hcb⟩ := step_timer_inv hs
    have hmem := earliest_mem hu
    have hmin := earliest_le hu
    have hnow : max w.now u.due = u.due := max_eq_right (hi.ahead u hmem)
    have base : FadeInv F { w with now := max w.now u.due, timers := w.timers.erase u } :=
      ⟨hi.fade,
        fun tm htm => by
          rw [hnow]
          exact hmin tm (List.mem_of_mem_erase htm),
        fun tm htm => hi.timers tm (List.mem_of_mem_erase htm),
        hi.entries, hi.fading, hi.hidden⟩
    rcases hcb with hok | ⟨_, rfl⟩
    swap
    · exact fadeInv_quiet (quiet_record _ _ (by simp) (by simp)) base
    by_cases hd : u.cb = Callback.detach
    swap
    · exact fadeInv_quiet (quiet_runCallback hd hok) base
    rw [hd] at hok
    cases hl : w.ctl.loadingScreen with
    | false =>
      simp [runCallback, fadeCallback, hl] at hok
    | true =>
      have hok2 := fadeCallback_ok
        { w with now := max w.now u.due, timers := w.timers.erase u } hl
      have heq := hok2.symm.trans hok
      cases heq
      obtain ⟨en0, hen0, ha0, ht0⟩ := hi.timers u hmem hd
      refine ⟨hi.fade, base.ahead, ?_, ?_, ?_, ?_⟩
      · intro tm htm hcb
        obtain ⟨en, hen, ha, ht⟩ := base.timers tm htm hcb
        exact ⟨en, List.mem_append_left _ hen, ha, ht⟩
      · intro en hen ha
        simp only [record, List.mem_append, List.mem_singleton] at hen
        rcases hen with hen | rfl
        · obtain ⟨en2, hen2, ha2, ht2⟩ := hi.entries en hen ha
          exact ⟨en2, List.mem_append_left _ hen2, ha2, ht2⟩
        · exact ⟨en0, List.mem_append_left _ hen0, ha0, by rw [ht0]; exact hnow.symm⟩
      · intro en hen ha
        simp only [record, List.mem_append, List.mem_singleton] at hen
        rcases hen with hen | rfl
        · exact hi.fading en hen ha
        · cases ha
      · intro _ _ _ _
        exact ⟨_, List.mem_append_right _ (List.mem_singleton.2 rfl), rfl⟩

theorem fadeInv_construct (cfg : Config) (p : Page) (t0 : Nat) :
    FadeInv cfg.fadeOutDuration (construct cfg p t0) := by
  have h0 : FadeInv cfg.fadeOutDuration
      { now := t0, overlay := p.overlay, bodyOverflow := p.bodyOverflow, resolved := p.resolved,
        perfObserver := p.perfObserver, ctl := Controller.new cfg, timers := [],
        loadListeners := 0, domListeners := 0, observers := 0, trace := [] } :=
    ⟨rfl, fun _ h => (by cases h), fun _ h => (by cases h), fun _ h => (by cases h),
      fun _ h => (by cases h), fun h => Bool.noConfusion h⟩
  unfold construct init
  split
  · exact ⟨rfl, fun _ h => (by cases h), fun _ h => (by cases h), fun _ h => (by cases h),
      fun _ h => (by cases h), fun h => Bool.noConfusion h⟩
  · exact fadeInv_quiet (quiet_setupLoadingScreen _) h0

/-- The restart hook keeps the invariant of the hide-and-fade sequence: it
touches neither timers nor trace, and it leaves the overlay displayed. -/
theorem fadeInv_restartLoading {F : Nat} {w : World} {t : Nat} (hi : FadeInv F w)
    (hdue : ∀ tm ∈ w.timers, t ≤ tm.due) :
    FadeInv F (restartLoading { w with now := t }) := by
  have hcases : w.overlay = none ∨ ∃ e, w.overlay = some e := by
    cases w.overlay with
    | none => exact Or.inl rfl
    | some e => exact Or.inr ⟨e, rfl⟩
  rcases hcases with ho | ⟨e, ho⟩
  · have h1 : restartLoading { w with now := t } = { w with now := t } := by
      simp only [restartLoading, ho]
    rw [h1]
    exact ⟨hi.fade, hdue, hi.timers, hi.entries, hi.fading, hi.hidden⟩
  · have h1 : restartLoading { w with now := t } = { w with
        now := t
        overlay := some { e with
          display := "flex"
          opacity := "1"
          classList := classRemove "fade-out" (classRemove "hidden" e.classList) }
        bodyOverflow := "hidden" } := by
      simp only [restartLoading, ho]
    rw [h1]
    refine ⟨hi.fade, hdue, hi.timers, hi.entries, hi.fading, ?_⟩
    intro _ e2 he2 hd
    simp only [Option.some.injEq] at he2
    subst he2
    exact absurd hd (show "flex" ≠ "none" by decide)

theorem fadeInv_turn {F : Nat} (t : Turn) (w w2 : World) (hi : FadeInv F w)
    (ht : turn t w = some w2) : FadeInv F w2 := by
  cases t with
  | step s => exact fadeInv_step s w w2 hi ht
  | restart t =>
    simp only [turn] at ht
    split at ht
    · next hc =>
      cases ht
      exact fadeInv_restartLoading hi hc.2
    · cases ht

/-- An invariant of single turns of the page is an invariant of its runs. -/
theorem runTurns_induction (P : World → Prop)
    (hturn : ∀ t w w2, P w → turn t w = some w2 → P w2)
    {turns : List Turn} {w w2 : World} (h0 : P w) (hrun : runTurns turns w = some w2) :
    P w2 := by
  induction turns generalizing w with
  | nil => cases hrun; exact h0
  | cons t ts ih =>
    unfold runTurns at hrun
    cases ht : turn t w with
    | none => rw [ht] at hrun; cases hrun
    | some w1 =>
      rw [ht] at hrun
      exact ih (hturn t w w1 h0 ht) hrun

/-- A run of the event loop is a run of the page without the restart hook. -/
theorem runTurns_steps (steps : List Step) (w : World) :
    runTurns (steps.map Turn.step) w = run steps w := by
  induction steps generalizing w with
  | nil => rfl
  | cons s ss ih =>
    simp only [List.map_cons, runTurns, run, turn]
    cases step s w with
    | none => rfl
    | some w1 => exact ih w1

/-- C9 (the hide-and-fade sequence), the counterexample to its last clause.
First run, on a page where all critical selectors resolve: the `load` event
at 100 and the poll at 500 each run the hide body; the fade callback of the
first hides the overlay at 600; `forceShow()` at 700 shows it again, with
`fade-out` still set; the fade callback of the second hide hides it at 1000,
300 ms later.  Second run: the hide body runs at 100, the restart hook at 300
clears `fade-out`, and the fade callback at 600 hides the overlay, which has
not been fading out since 300. -/
theorem hidden_without_full_fade :
    clockAndOverlay (run (reshowSteps.take 5) (construct aboutUsConfig readyPage 0))
        = some (600, some { display := "none", opacity := "1", visibility := "visible",
                            classList := ["fade-out", "hidden"] }) ∧
      clockAndOverlay (run (reshowSteps.take 6) (construct aboutUsConfig readyPage 0))
        = some (700, some { display := "flex", opacity := "1", visibility := "visible",
                            classList := ["fade-out"] }) ∧
      clockAndOverlay (run reshowSteps (construct aboutUsConfig readyPage 0))
        = some (1000, some { display := "none", opacity := "1", visibility := "visible",
                             classList := ["fade-out", "hidden"] }) ∧
      aboutUsConfig.fadeOutDuration = 500 ∧
      clockAndOverlay (runTurns (restartTurns.take 2) (construct aboutUsConfig plainPage 0))
        = some (100, some { display := "flex", opacity := "1", visibility := "visible",
                            classList := ["fade-out"] }) ∧
      clockAndOverlay (runTurns (restartTurns.take 3) (construct aboutUsConfig plainPage 0))
        = some (300, some { display := "flex", opacity := "1", visibility := "visible",
                            classList := [] }) ∧
      clockAndOverlay (runTurns (restartTurns.take 4) (construct aboutUsConfig plainPage 0))
        = some (500, some { display := "flex", opacity := "1", visibility := "visible",
                            classList := [] }) ∧
      clockAndOverlay (runTurns restartTurns (construct aboutUsConfig plainPage 0))
        = some (600, some { display := "none", opacity := "1", visibility := "visible",
                            classList := ["hidden"] }) := by
  decide

/-- C9 as amended (the hide-and-fade sequence): in every world a page with a
controller can reach, by turns of the event loop and calls of the restart
hook, in which the controller holds its overlay, `hideLoadingScreen` adds the
class `fade-out` and arms the fade callback `fadeOutDuration` ahead, leaving
display, opacity, visibility, the other classes and the body overflow as they
are; the fade callback, `fadeOutDuration` later, sets display `none`, adds
`hidden` and sets the body overflow to `''`.  Every detach recorded so far and
every pending fade callback comes exactly `fadeOutDuration` after a run of the
hide body that left `fade-out` set, and the overlay has display `none` only
after a detach. -/
theorem hide_and_fade_sequence (cfg : Config) (p : Page) (t0 : Nat) (turns : List Turn)
    (w : World) (hrun : runTurns turns (construct cfg p t0) = some w) (e : Element)
    (hl : w.ctl.loadingScreen = true) (he : w.overlay = some e) :
    ((hideLoadingScreen w).overlay
        = some { e with classList := classAdd "fade-out" e.classList } ∧
      (hideLoadingScreen w).bodyOverflow = w.bodyOverflow ∧
      (hideLoadingScreen w).timers
        = w.timers ++ [⟨w.now + cfg.fadeOutDuration, Callback.detach⟩]) ∧
    (∃ w2, hideThenFade w = Except.ok w2 ∧ w2.now = w.now + cfg.fadeOutDuration ∧
      w2.overlay = some { e with
        display := "none"
        classList := classAdd "hidden" (classAdd "fade-out" e.classList) } ∧
      w2.bodyOverflow = "") ∧
    (∀ en ∈ w.trace, en.act = Action.detached →
      ∃ en2 ∈ w.trace, en2.act = Action.fadeOut ∧ en2.time + cfg.fadeOutDuration = en.time ∧
        ∀ e2, en2.overlay = some e2 → "fade-out" ∈ e2.classList) ∧
    (∀ tm ∈ w.timers, tm.cb = Callback.detach →
      ∃ en2 ∈ w.trace, en2.act = Action.fadeOut ∧ en2.time + cfg.fadeOutDuration = tm.due) ∧
    (e.display = "none" → ∃ en ∈ w.trace, en.act = Action.detached) := by
  have hi : FadeInv cfg.fadeOutDuration w :=
    runTurns_induction _ fadeInv_turn (fadeInv_construct cfg p t0) hrun
  have hfade := hi.fade
  refine ⟨⟨?_, ?_, ?_⟩, ?_, ?_, hi.timers, hi.hidden hl e he⟩
  · rw [hideLoadingScreen_eq w hl]
    simp only [he, Option.map_some']
  · rw [hideLoadingScreen_eq w hl]
  · rw [hideLoadingScreen_eq w hl, hfade]
  · have h3 : ({ hideLoadingScreen w with now := w.now + w.ctl.fadeOutDuration } :
        World).ctl.loadingScreen = true := by
      rw [hideLoadingScreen_eq w hl]; exact hl
    refine ⟨_, fadeCallback_ok _ h3, ?_, ?_, rfl⟩
    · show w.now + w.ctl.fadeOutDuration = _
      rw [hfade]
    · show Option.map _ (hideLoadingScreen w).overlay = _
      rw [hideLoadingScreen_eq w hl]
      simp only [he, Option.map_some']
  · intro en hen ha
    obtain ⟨en2, hen2, ha2, ht2⟩ := hi.entries en hen ha
    exact ⟨en2, hen2, ha2, ht2, hi.fading en2 hen2 ha2⟩

/-- The about-us page after the hide at 100, the restart hook at 300 and the
detach at 600: the detach is recorded 500 ms after the hide, and a further
hide at 600 arms its fade callback for 1100. -/
theorem hide_and_fade_sequence_witness :
    (runTurns restartTurns (construct aboutUsConfig plainPage 0) = some restartedWorld ∧
        restartedWorld.ctl.loadingScreen = true ∧
        restartedWorld.overlay = some restartedOverlay) ∧
      (hideLoadingScreen restartedWorld).timers
        = restartedWorld.timers ++ [⟨600 + 500, Callback.detach⟩] ∧
      (∀ en ∈ restartedWorld.trace, en.act = Action.detached →
        ∃ en2 ∈ restartedWorld.trace, en2.act = Action.fadeOut ∧ en2.time + 500 = en.time ∧
          ∀ e2, en2.overlay = some e2 → "fade-out" ∈ e2.classList) ∧
      hideTimes restartedWorld = [100] := by
  have hrun : runTurns restartTurns (construct aboutUsConfig plainPage 0)
      = some restartedWorld := by decide
  have h := hide_and_fade_sequence aboutUsConfig plainPage 0 restartTurns restartedWorld hrun
    restartedOverlay (by decide) (by decide)
  exact ⟨⟨hrun, by decide, by decide⟩, h.1.2.2, h.2.2.1, by decide⟩

/-! ## Counting the runs of the hide body -/

theorem balanced_refl (w : World) : Balanced w w := rfl

theorem balanced_trans {a b c : World} (h1 : Balanced a b) (h2 : Balanced b c) :
    Balanced a c := by
  unfold Balanced at *
  omega

theorem balanced_of_eq {w1 w2 : World} (ht : w2.trace = w1.trace)
    (hm : w2.timers = w1.timers) : Balanced w1 w2 := by
  unfold Balanced hideRuns pendingHides scheduleCalls
  rw [ht, hm]

theorem balanced_record (a : Action) (w : World) (h1 : a ≠ Action.fadeOut)
    (h2 : a.isScheduled = false) : Balanced w (record a w) := by
  unfold Balanced hideRuns pendingHides scheduleCalls
  simp [record, List.countP_cons, h1, h2]

theorem balanced_setTimeout (cb : Callback) (d : JSNum) (w : World) (h : cb ≠ Callback.hide) :
    Balanced w (setTimeout cb d w) := by
  unfold Balanced hideRuns pendingHides scheduleCalls
  simp [setTimeout, List.countP_cons, h]

theorem balanced_scheduleHideLoadingScreen (w : World) :
    Balanced w (scheduleHideLoadingScreen w) := by
  unfold Balanced hideRuns pendingHides scheduleCalls
  simp [scheduleHideLoadingScreen, record, setTimeout, List.countP_cons, Action.isScheduled]
  omega

theorem balanced_showLoadingScreen (w : World) : Balanced w (showLoadingScreen w) := by
  unfold showLoadingScreen
  split
  · exact balanced_refl w
  · exact balanced_of_eq rfl rfl

theorem balanced_checkElements (w : World) : Balanced w (checkElements w) := by
  unfold checkElements
  dsimp only
  split
  · exact balanced_trans (balanced_record (Action.polled _) _ (by simp) rfl)
      (balanced_scheduleHideLoadingScreen _)
  · exact balanced_trans (balanced_record (Action.polled _) _ (by simp) rfl)
      (balanced_setTimeout _ _ _ (by decide))

theorem balanced_observerCallback (entries : List Nat) (w : World) :
    Balanced w (observerCallback entries w) := by
  unfold observerCallback
  split
  · split
    · exact balanced_scheduleHideLoadingScreen w
    · exact balanced_refl w
  · exact balanced_refl w

theorem balanced_setupLoadingCompletion (w : World) :
    Balanced w (setupLoadingCompletion w) := by
  unfold setupLoadingCompletion checkCriticalElements
  refine balanced_trans ?_ (balanced_setTimeout _ _ _ (by decide))
  refine balanced_trans ?_ (balanced_setTimeout _ _ _ (by decide))
  exact balanced_of_eq rfl rfl

theorem balanced_setupPerformanceObserver (w : World) :
    Balanced w (setupPerformanceObserver w) := by
  unfold setupPerformanceObserver
  split
  · exact balanced_refl w
  · exact balanced_record _ _ (by simp) rfl
  · exact balanced_of_eq rfl rfl

theorem balanced_setupLoadingScreen (w : World) : Balanced w (setupLoadingScreen w) := by
  have h0 : Balanced w { w with ctl := { w.ctl with loadingScreen := w.overlay.isSome } } :=
    balanced_of_eq rfl rfl
  unfold setupLoadingScreen
  dsimp only
  split
  · exact balanced_trans h0 (balanced_record _ _ (by simp) rfl)
  · exact balanced_trans h0 (balanced_trans (balanced_showLoadingScreen _) (balanced_trans
      (balanced_setupLoadingCompletion _) (balanced_trans (balanced_setupPerformanceObserver _)
        (balanced_record _ _ (by simp) rfl))))

theorem balanced_iterate (f : World → World) (hf : ∀ w, Balanced w (f w)) (n : Nat)
    (w : World) : Balanced w (Nat.iterate f n w) := by
  induction n generalizing w with
  | zero => exact balanced_refl w
  | succ n ih => exact balanced_trans (hf w) (ih (f w))

theorem balanced_deliver (e : Event) (w : World) (he : e ≠ Event.forceHide) :
    Balanced w (deliver e w) := by
  cases e with
  | load => exact balanced_iterate _ balanced_scheduleHideLoadingScreen _ _
  | domContentLoaded =>
    refine balanced_trans ?_ (balanced_iterate _ balanced_setupLoadingScreen _ _)
    exact balanced_of_eq rfl rfl
  | navigationEntries entries => exact balanced_iterate _ (balanced_observerCallback entries) _ _
  | forceHide => exact absurd rfl he
  | forceShow => exact balanced_showLoadingScreen w
  | domChange r => exact balanced_of_eq rfl rfl

theorem countP_erase_add (q : Timer → Bool) (l : List Timer) (u : Timer) (hu : u ∈ l) :
    (l.erase u).countP q + (if q u then 1 else 0) = l.countP q := by
  induction l with
  | nil => cases hu
  | cons a l ih =>
    by_cases hau : a = u
    · subst hau
      simp [List.countP_cons]
    · have hmem : u ∈ l := by
        rcases List.mem_cons.1 hu with h | h
        · exact absurd h.symm hau
        · exact h
      rw [List.erase_cons_tail (by simpa using hau)]
      simp only [List.countP_cons]
      have := ih hmem
      omega

theorem countInv_of {w w2 : World} (hi : CountInv w) (hx : Ext w w2) (hb : Balanced w w2) :
    CountInv w2 := by
  refine ⟨(hx.alive hi.holds hi.present).1, (hx.alive hi.holds hi.present).2, ?_⟩
  have := hi.balance
  unfold Balanced at hb
  omega

theorem countInv_step (s : Step) (hs0 : ∀ t, s ≠ Step.event t Event.forceHide) (w w2 : World)
    (hi : CountInv w) (hs : step s w = some w2) : CountInv w2 := by
  cases s with
  | event t e =>
    obtain ⟨_, _, rfl⟩ := step_event_inv hs
    have he : e ≠ Event.forceHide := fun h => hs0 t (by rw [h])
    have h1 : CountInv { w with now := t } := ⟨hi.holds, hi.present, hi.balance⟩
    exact countInv_of h1 (ext_deliver e _) (balanced_deliver e _ he)
  | timer =>
    obtain ⟨u, hu, hcb⟩ := step_timer_inv hs
    have hmem := earliest_mem hu
    have hcount := countP_erase_add (fun tm => decide (tm.cb = Callback.hide)) w.timers u hmem
    generalize hw1 : ({ w with now := max w.now u.due, timers := w.timers.erase u } : World) = w1
      at hcb
    have h1holds : w1.ctl.loadingScreen = true := by rw [← hw1]; exact hi.holds
    have h1present : w1.overlay.isSome = true := by rw [← hw1]; exact hi.present
    have h1runs : hideRuns w1 = hideRuns w := by rw [← hw1]; rfl
    have h1calls : scheduleCalls w1 = scheduleCalls w := by rw [← hw1]; rfl
    have h1pend : pendingHides w1 + (if u.cb = Callback.hide then 1 else 0)
        = pendingHides w := by
      rw [← hw1]; simpa [pendingHides] using hcount
    have hbal := hi.balance
    rcases hcb with hok | ⟨⟨msg, herr⟩, _⟩
    swap
    · obtain ⟨w3, h3⟩ := runCallback_ok u.cb w1 h1holds
      rw [h3] at herr; cases herr
    have hext := ext_runCallback hok
    refine ⟨(hext.alive h1holds h1present).1, (hext.alive h1holds h1present).2, ?_⟩
    cases hc : u.cb with
    | timeoutFallback =>
      rw [hc] at hok h1pend; cases hok
      have hb := balanced_scheduleHideLoadingScreen w1
      unfold Balanced at hb
      simp at h1pend
      omega
    | checkElements =>
      rw [hc] at hok h1pend; cases hok
      have hb := balanced_checkElements w1
      unfold Balanced at hb
      simp at h1pend
      omega
    | hide =>
      rw [hc] at hok h1pend; cases hok
      have e1 : hideRuns (hideLoadingScreen w1) = hideRuns w1 + 1 := by
        rw [hideLoadingScreen_eq w1 h1holds]
        simp [hideRuns, List.countP_cons]
      have e2 : pendingHides (hideLoadingScreen w1) = pendingHides w1 := by
        rw [hideLoadingScreen_eq w1 h1holds]
        simp [pendingHides, List.countP_cons]
      have e3 : scheduleCalls (hideLoadingScreen w1) = scheduleCalls w1 := by
        rw [hideLoadingScreen_eq w1 h1holds]
        simp [scheduleCalls, List.countP_cons, Action.isScheduled]
      simp at h1pend
      omega
    | detach =>
      rw [hc] at hok h1pend
      have heq := (fadeCallback_ok w1 h1holds).symm.trans hok
      cases heq
      have hb : Balanced w1 (record Action.detached
          { w1 with
            overlay := w1.overlay.map fun e =>
              { e with display := "none", classList := classAdd "hidden" e.classList }
            bodyOverflow := "" }) :=
        balanced_trans (balanced_of_eq rfl rfl) (balanced_record _ _ (by simp) rfl)
      unfold Balanced at hb
      simp at h1pend
      omega

/-- An invariant of the turns of a run is an invariant of the run. -/
theorem run_induction_mem (P : World → Prop) {steps : List Step}
    (hstep : ∀ s ∈ steps, ∀ w w2, P w → step s w = some w2 → P w2)
    {w w2 : World} (h0 : P w) (hrun : run steps w = some w2) : P w2 := by
  induction steps generalizing w with
  | nil => cases hrun; exact h0
  | cons s ss ih =>
    unfold run at hrun
    cases hs : step s w with
    | none => rw [hs] at hrun; cases hrun
    | some w1 =>
      rw [hs] at hrun
      exact ih (fun s2 h2 => hstep s2 (List.mem_cons_of_mem _ h2))
        (hstep s (List.mem_cons_self _ _) w w1 h0 hs) hrun

theorem construct_eq_setup (cfg : Config) (p : Page) (t0 : Nat) (hl : p.loading = false) :
    construct cfg p t0 = setupLoadingScreen (initialWorld cfg p t0) := by
  simp [construct, init, hl]

/-- C6 (hidden exactly once), the counterexample: on the about-us page with
every critical selector resolved, the `load` event at 100, the first poll at
500 and the timeout fallback at 5000 each lead to a run of the body of
`hideLoadingScreen`: it runs three times, not once. -/
theorem hide_runs_three_times :
    run threeWatcherSteps (construct aboutUsConfig readyPage 0) = some threeWatcherEnd ∧
      hideTimes threeWatcherEnd = [100, 500, 5000] ∧
      hideRuns threeWatcherEnd = 3 ∧ hideRuns threeWatcherEnd ≠ 1 := by
  decide

/-- C6 as amended: on a page with the overlay, in every run without
`forceHide()`, the body of `hideLoadingScreen` runs once for every watcher
firing (every call of `scheduleHideLoadingScreen`) whose zero-delay timer has
run, and at least once as soon as the clock has passed `maxLoadingTime`. -/
theorem hide_runs_once_per_watcher (cfg : Config) (p : Page) (t0 : Nat) (e : Element)
    (hp : p.overlay = some e) (hl : p.loading = false) (steps : List Step)
    (hfree : ∀ s ∈ steps, s.isForceHide = false) (w : World)
    (hrun : run steps (construct cfg p t0) = some w) :
    hideRuns w + pendingHides w = scheduleCalls w ∧
      hideRuns w = (hideTimes w).length ∧
      (t0 + cfg.maxLoadingTime < w.now → 1 ≤ hideRuns w) := by
  rw [construct_eq_setup cfg p t0 hl] at hrun
  generalize hw0 : initialWorld cfg p t0 = w0 at hrun
  have hc0 : w0.ctl = Controller.new cfg := by rw [← hw0]; rfl
  have ho0 : w0.overlay = some e := by rw [← hw0]; exact hp
  have hn0 : w0.now = t0 := by rw [← hw0]; rfl
  have hstart : CountInv (setupLoadingScreen w0) := by
    have hx := ext_setupLoadingScreen w0
    have hb := balanced_setupLoadingScreen w0
    refine ⟨?_, hx.present (by simp [ho0]), ?_⟩
    · rw [hx.consts]
      simp [setupLoadingScreen, ho0, record, setupPerformanceObserver, setupLoadingCompletion,
        checkCriticalElements, setTimeout, showLoadingScreen]
      cases w0.perfObserver <;> simp [record]
    · unfold Balanced at hb
      have z1 : hideRuns w0 = 0 := by rw [← hw0]; rfl
      have z2 : pendingHides w0 = 0 := by rw [← hw0]; rfl
      have z3 : scheduleCalls w0 = 0 := by rw [← hw0]; rfl
      omega
  have hi : CountInv w :=
    run_induction_mem CountInv
      (fun s hs a b ha hab => countInv_step s
        (fun t h => by have := hfree s hs; rw [h] at this; cases this) a b ha hab)
      hstart hrun
  have ht : TimeoutInv (w0.now + cfg.maxLoadingTime) cfg.fadeOutDuration w :=
    run_induction _ timeoutInv_step (timeoutInv_setup cfg w0 e hc0 ho0) hrun
  refine ⟨hi.balance, ?_, ?_⟩
  · simp [hideRuns, hideTimes, List.countP_eq_length_filter]
  · intro hlt
    rcases ht.hide with ⟨en, hen, ha, _⟩ | ⟨hn, _⟩
    · exact List.countP_pos_iff.2 ⟨en, hen, by simp [ha]⟩
    · omega

/-- The about-us page with every selector resolved: three watchers fire and
the hide body runs three times, once for each. -/
theorem hide_runs_once_per_watcher_witness :
    hideRuns threeWatcherEnd + pendingHides threeWatcherEnd = scheduleCalls threeWatcherEnd ∧
      hideRuns threeWatcherEnd = (hideTimes threeWatcherEnd).length ∧
      1 ≤ hideRuns threeWatcherEnd := by
  have h := hide_runs_once_per_watcher aboutUsConfig readyPage 0 freshOverlay rfl rfl
    threeWatcherSteps (by decide) threeWatcherEnd (by decide)
  exact ⟨h.1, h.2.1, h.2.2 (by decide)⟩

/-! ## The forced calls and the start -/

theorem forcedInv_step {D : Nat} (s : Step) (w w2 : World) (hi : ForcedInv D w)
    (hs : step s w = some w2) : ForcedInv D w2 := by
  cases s with
  | event t e =>
    obtain ⟨_, hdue, rfl⟩ := step_event_inv hs
    have hx := ext_deliver e { w with now := t }
    refine ⟨(hx.alive hi.holds hi.present).1, (hx.alive hi.holds hi.present).2, ?_⟩
    rcases hi.detach with ⟨_, hmem⟩ | ⟨en, hen, h⟩
    · exact Or.inl ⟨by rw [hx.now_eq]; exact hdue _ hmem, hx.timers _ hmem⟩
    · exact Or.inr ⟨en, hx.trace en hen, h⟩
  | timer =>
    obtain ⟨u, hu, hcb⟩ := step_timer_inv hs
    have hmin := earliest_le hu
    generalize hw1 : ({ w with now := max w.now u.due, timers := w.timers.erase u } : World) = w1
      at hcb
    have h1holds : w1.ctl.loadingScreen = true := by rw [← hw1]; exact hi.holds
    have h1present : w1.overlay.isSome = true := by rw [← hw1]; exact hi.present
    have h1trace : w1.trace = w.trace := by rw [← hw1]
    have h1now : w1.now = max w.now u.due := by rw [← hw1]
    have h1timers : w1.timers = w.timers.erase u := by rw [← hw1]
    rcases hcb with hok | ⟨⟨msg, herr⟩, _⟩
    swap
    · obtain ⟨w3, h3⟩ := runCallback_ok u.cb w1 h1holds
      rw [h3] at herr; cases herr
    have hext := ext_runCallback hok
    refine ⟨(hext.alive h1holds h1present).1, (hext.alive h1holds h1present).2, ?_⟩
    rcases hi.detach with ⟨hn, hmem⟩ | ⟨en, hen, h⟩
    · by_cases hu2 : u = ⟨D, Callback.detach⟩
      · subst hu2
        obtain ⟨w3, h3, en, hen, ha, ht, hdet⟩ := fadeCallback_entry w1 h1holds h1present
        have heq : w3 = w2 := by
          have := h3.symm.trans hok
          cases this; rfl
        subst heq
        refine Or.inr ⟨en, hen, ha, ?_, hdet⟩
        rw [ht, h1now]
        exact max_eq_right hn
      · refine Or.inl ⟨?_, hext.timers _ ?_⟩
        · rw [hext.now_eq, h1now]
          exact max_le hn (hmin _ hmem)
        · rw [h1timers]
          exact (List.mem_erase_of_ne (fun h => hu2 h.symm)).2 hmem
    · exact Or.inr ⟨en, hext.trace en (by rw [h1trace]; exact hen), h⟩

/-- C11 (`forceHide()` bypasses the minimum): in whatever world a controller
with its overlay is, and so after whatever time since its start, a call of
`forceHide()` at clock reading `t` runs the hide body at `t`: the class
`fade-out` is set at once (a displayed overlay is fading out), with no timer
in between, and the fade callback is armed for `t + fadeOutDuration`; in every
continuation the overlay is detached exactly at `t + fadeOutDuration`. -/
theorem forceHide_bypasses_minimum (w : World) (e : Element)
    (hl : w.ctl.loadingScreen = true) (he : w.overlay = some e) (t : Nat) (w1 : World)
    (hforce : step (Step.event t Event.forceHide) w = some w1)
    (steps : List Step) (w2 : World) (hrun : run steps w1 = some w2) :
    w1.now = t ∧
      w1.overlay = some { e with classList := classAdd "fade-out" e.classList } ∧
      (e.display ≠ "none" →
        isFadingOut { e with classList := classAdd "fade-out" e.classList }) ∧
      (∃ en ∈ w1.trace, en.act = Action.fadeOut ∧ en.time = t) ∧
      w1.timers = w.timers ++ [⟨t + w.ctl.fadeOutDuration, Callback.detach⟩] ∧
      (t + w.ctl.fadeOutDuration < w2.now →
        ∃ en ∈ w2.trace, en.act = Action.detached ∧ en.time = t + w.ctl.fadeOutDuration ∧
          en.isDetached) := by
  obtain ⟨_, _, rfl⟩ := step_event_inv hforce
  have hl1 : ({ w with now := t } : World).ctl.loadingScreen = true := hl
  have heq : deliver Event.forceHide { w with now := t }
      = hideLoadingScreen { w with now := t } := rfl
  rw [heq, hideLoadingScreen_eq _ hl1] at hrun ⊢
  have h0 : ForcedInv (t + w.ctl.fadeOutDuration)
      { ({ w with now := t } : World) with
        overlay := ({ w with now := t } : World).overlay.map fun e =>
          { e with classList := classAdd "fade-out" e.classList }
        timers := ({ w with now := t } : World).timers ++
          [⟨({ w with now := t } : World).now + ({ w with now := t } : World).ctl.fadeOutDuration,
            Callback.detach⟩]
        trace := ({ w with now := t } : World).trace ++ [⟨({ w with now := t } : World).now,
          Action.fadeOut,
          ({ w with now := t } : World).overlay.map fun e =>
            { e with classList := classAdd "fade-out" e.classList },
          ({ w with now := t } : World).bodyOverflow⟩] } := by
    refine ⟨hl, by simp [he], Or.inl ⟨Nat.le_add_right _ _, ?_⟩⟩
    exact List.mem_append_right _ (List.mem_singleton.2 rfl)
  have hi := run_induction _ forcedInv_step h0 hrun
  refine ⟨rfl, by simp [he], fun hd => ⟨mem_classAdd_self _ _, hd⟩, ?_, rfl, ?_⟩
  · exact ⟨_, List.mem_append_right _ (List.mem_singleton.2 rfl), rfl, rfl⟩
  · intro hlt
    rcases hi.detach with ⟨hn, _⟩ | h
    · omega
    · exact h

/-- The about-us page, `forceHide()` 0 ms after the start: the hide body runs
at 0, the fade callback is armed for 500, and the overlay is detached at
500. -/
theorem forceHide_bypasses_minimum_witness :
    forcedAtStart.now = 0 ∧ hideTimes forcedAtStart = [0] ∧
      forcedAtStart.timers = (construct aboutUsConfig plainPage 0).timers ++
        [⟨0 + 500, Callback.detach⟩] ∧
      ∃ en ∈ forcedAtStartEnd.trace, en.act = Action.detached ∧ en.time = 0 + 500 ∧
        en.isDetached := by
  have h := forceHide_bypasses_minimum (construct aboutUsConfig plainPage 0)
    { display := "flex", opacity := "1", visibility := "visible", classList := [] }
    (by decide) (by decide) 0 forcedAtStart (by decide)
    [Step.timer, Step.timer, Step.timer] forcedAtStartEnd (by decide)
  exact ⟨h.1, by decide, h.2.2.2.2.1, h.2.2.2.2.2 (by decide)⟩

/-- C12 (`forceShow()` after completion), the counterexample: on the hidden
about-us overlay (display `none`, classes `fade-out` and `hidden`)
`forceShow()` sets display `flex` and removes `hidden`, but the class
`fade-out` stays: the overlay is not in the showing state. -/
theorem forceShow_keeps_fadeOut :
    hiddenWorld.overlay = some hiddenOverlay ∧ isHidden hiddenOverlay ∧
      "fade-out" ∈ hiddenOverlay.classList ∧
      (forceShow hiddenWorld).overlay = some (shownElement ["fade-out"]) ∧
      ¬ isShowing (shownElement ["fade-out"]) :=
  ⟨rfl, ⟨rfl, by decide⟩, by decide, by decide, fun h => h.1 (by decide)⟩

/-- C12 as amended: for a controller whose overlay is hidden (display `none`,
classes `hidden` and `fade-out`), `forceShow()` changes nothing but the
overlay and the body overflow (so it arms no watcher and no timer): it does
what `showLoadingScreen()` does at the start, display `flex`, opacity `1`,
visibility `visible`, class `hidden` removed, body overflow `hidden`; the
class `fade-out` stays, so the overlay is displayed and fading out in the
sense of its classes, not showing. -/
theorem forceShow_after_hidden (w : World) (e : Element) (hl : w.ctl.loadingScreen = true)
    (he : w.overlay = some e) (hh : isHidden e) (hf : "fade-out" ∈ e.classList) :
    e.display = "none" ∧
      forceShow w = showLoadingScreen w ∧
      forceShow w =
        { w with
          overlay := some (shownElement (classRemove "hidden" e.classList))
          bodyOverflow := "hidden" } ∧
      "hidden" ∉ classRemove "hidden" e.classList ∧
      "fade-out" ∈ classRemove "hidden" e.classList ∧
      isFadingOut (shownElement (classRemove "hidden" e.classList)) ∧
      ¬ isShowing (shownElement (classRemove "hidden" e.classList)) := by
  have hm : "fade-out" ∈ classRemove "hidden" e.classList :=
    @mem_classRemove_of_ne "hidden" _ _ (by decide) hf
  refine ⟨hh.1, rfl, ?_, ?_, hm, ⟨hm, show "flex" ≠ "none" by decide⟩, fun h => h.1 hm⟩
  · show showLoadingScreen w = _
    rw [showLoadingScreen_eq w hl]
    simp only [he, Option.map_some', shownElement]
  · simp [classRemove]

/-- The hidden about-us overlay: `forceShow()` leaves the pending timeout
fallback alone and the class `fade-out` set. -/
theorem forceShow_after_hidden_witness :
    (forceShow hiddenWorld).timers = [⟨5000, Callback.timeoutFallback⟩] ∧
      (forceShow hiddenWorld).bodyOverflow = "hidden" ∧
      "fade-out" ∈ classRemove "hidden" hiddenOverlay.classList := by
  have h := forceShow_after_hidden hiddenWorld hiddenOverlay rfl rfl ⟨rfl, by decide⟩
    (by decide)
  exact ⟨by rw [h.2.2.1]; rfl, by rw [h.2.2.1], h.2.2.2.2.1⟩

/-- C17 (the start effect): on a page with the overlay, `setupLoadingScreen`
returns at the clock reading of its call with the overlay at display `flex`,
opacity `1`, visibility `visible`, without class `hidden`, the body overflow
at `hidden`, one more `load` listener, and two more timers: the timeout
fallback `maxLoadingTime` ahead and the first structural poll 500 ms ahead;
all it records is its log line (and the warning of a failing observer
registration), so no watcher has fired. -/
theorem start_effect (w : World) (e : Element) (he : w.overlay = some e) :
    (setupLoadingScreen w).now = w.now ∧
      (setupLoadingScreen w).ctl.loadingScreen = true ∧
      (setupLoadingScreen w).overlay
        = some (shownElement (classRemove "hidden" e.classList)) ∧
      "hidden" ∉ classRemove "hidden" e.classList ∧
      (setupLoadingScreen w).bodyOverflow = "hidden" ∧
      (setupLoadingScreen w).loadListeners = w.loadListeners + 1 ∧
      (setupLoadingScreen w).timers = w.timers ++
        [⟨w.now + w.ctl.maxLoadingTime, Callback.timeoutFallback⟩,
          ⟨w.now + 500, Callback.checkElements⟩] ∧
      (∀ en ∈ (setupLoadingScreen w).trace, en ∈ w.trace ∨
        en.act = Action.initialized ∨ en.act = Action.warnObserver) := by
  have hs : setupLoadingScreen w = record Action.initialized (setupPerformanceObserver
      (setupLoadingCompletion (showLoadingScreen
        { w with ctl := { w.ctl with loadingScreen := true } }))) := by
    simp [setupLoadingScreen, he]
  rw [hs, showLoadingScreen_eq _ rfl]
  cases hp : w.perfObserver <;>
    simp [record, setupPerformanceObserver, setupLoadingCompletion, checkCriticalElements,
      setTimeout, timerDelay, he, hp, classRemove, shownElement]
  · intro en hen
    rcases hen with h | h <;> simp [h]
  · intro en hen
    rcases hen with h | h | h <;> simp [h]
  · intro en hen
    rcases hen with h | h <;> simp [h]

/-- The about-us page whose markup hides the overlay: after the setup the
overlay is displayed, the scroll is locked, and the timeout fallback (5000)
and the first poll (500) are the pending timers. -/
theorem start_effect_witness :
    (setupLoadingScreen markupHiddenStart).overlay
        = some (shownElement ["loading-screen"]) ∧
      (setupLoadingScreen markupHiddenStart).bodyOverflow = "hidden" ∧
      (setupLoadingScreen markupHiddenStart).loadListeners = 1 ∧
      (setupLoadingScreen markupHiddenStart).timers =
        [⟨5000, Callback.timeoutFallback⟩, ⟨500, Callback.checkElements⟩] := by
  have h := start_effect markupHiddenStart markupHiddenOverlay rfl
  exact ⟨h.2.2.1, h.2.2.2.2.1, h.2.2.2.2.2.1, h.2.2.2.2.2.2.1⟩

/-! ## The restart hook -/

theorem visInv_of_same {w1 w2 : World} (ho : w2.overlay = w1.overlay) (hc : w2.ctl = w1.ctl)
    (h : visInv w1) : visInv w2 := by
  unfold visInv at *
  rw [ho, hc]; exact h

theorem visInv_showLoadingScreen (w : World) : visInv (showLoadingScreen w) := by
  cases hl : w.ctl.loadingScreen with
  | false =>
    intro h
    have : showLoadingScreen w = w := by simp [showLoadingScreen, hl]
    rw [this, hl] at h; cases h
  | true =>
    rw [showLoadingScreen_eq w hl]
    intro _ e he
    cases ho : w.overlay with
    | none => simp [ho] at he
    | some e0 =>
      simp only [ho, Option.map_some', Option.some.injEq] at he
      subst he; rfl

theorem visInv_hideLoadingScreen (w : World) (h : visInv w) : visInv (hideLoadingScreen w) := by
  cases hl : w.ctl.loadingScreen with
  | false =>
    have : hideLoadingScreen w = w := by simp [hideLoadingScreen, hl]
    rw [this]; exact h
  | true =>
    rw [hideLoadingScreen_eq w hl]
    intro _ e he
    cases ho : w.overlay with
    | none => simp [ho] at he
    | some e0 =>
      simp only [ho, Option.map_some', Option.some.injEq] at he
      subst he
      exact h hl e0 ho

theorem visInv_fadeCallback {w w2 : World} (hok : fadeCallback w = Except.ok w2)
    (h : visInv w) : visInv w2 := by
  cases hl : w.ctl.loadingScreen with
  | false => simp [fadeCallback, hl] at hok
  | true =>
    have heq := (fadeCallback_ok w hl).symm.trans hok
    cases heq
    intro _ e he
    cases ho : w.overlay with
    | none => simp [record, ho] at he
    | some e0 =>
      simp only [record, ho, Option.map_some', Option.some.injEq] at he
      subst he
      exact h hl e0 ho

theorem visInv_scheduleHideLoadingScreen (w : World) (h : visInv w) :
    visInv (scheduleHideLoadingScreen w) :=
  visInv_of_same rfl rfl h

theorem visInv_checkElements (w : World) (h : visInv w) : visInv (checkElements w) := by
  unfold checkElements
  dsimp only
  split
  · exact visInv_of_same rfl rfl h
  · exact visInv_of_same rfl rfl h

theorem visInv_observerCallback (entries : List Nat) (w : World) (h : visInv w) :
    visInv (observerCallback entries w) := by
  unfold observerCallback
  split
  · split
    · exact visInv_of_same rfl rfl h
    · exact h
  · exact h

theorem visInv_setupLoadingScreen (w : World) : visInv (setupLoadingScreen w) := by
  cases ho : w.overlay with
  | none =>
    rw [setupLoadingScreen_missing w ho]
    intro h; cases h
  | some e =>
    have hs : setupLoadingScreen w = record Action.initialized (setupPerformanceObserver
        (setupLoadingCompletion (showLoadingScreen
          { w with ctl := { w.ctl with loadingScreen := true } }))) := by
      simp [setupLoadingScreen, ho]
    rw [hs]
    refine visInv_of_same rfl rfl ?_
    have h1 := visInv_showLoadingScreen { w with ctl := { w.ctl with loadingScreen := true } }
    have h2 : visInv (setupLoadingCompletion (showLoadingScreen
        { w with ctl := { w.ctl with loadingScreen := true } })) :=
      visInv_of_same rfl rfl h1
    unfold setupPerformanceObserver
    split
    · exact h2
    · exact visInv_of_same rfl rfl h2
    · exact visInv_of_same rfl rfl h2

theorem visInv_deliver (e : Event) (w : World) (h : visInv w) : visInv (deliver e w) := by
  cases e with
  | load => exact iterate_inv visInv _ visInv_scheduleHideLoadingScreen _ _ h
  | domContentLoaded =>
    exact iterate_inv visInv _ (fun a _ => visInv_setupLoadingScreen a) _ _
      (visInv_of_same rfl rfl h)
  | navigationEntries entries => exact iterate_inv visInv _ (visInv_observerCallback entries) _ _ h
  | forceHide => exact visInv_hideLoadingScreen w h
  | forceShow => exact visInv_showLoadingScreen w
  | domChange r => exact visInv_of_same rfl rfl h

theorem visInv_step (s : Step) (w w2 : World) (h : visInv w) (hs : step s w = some w2) :
    visInv w2 := by
  cases s with
  | event t e =>
    obtain ⟨_, _, rfl⟩ := step_event_inv hs
    exact visInv_deliver e _ (visInv_of_same rfl rfl h)
  | timer =>
    obtain ⟨u, _, hcb⟩ := step_timer_inv hs
    have h1 : visInv { w with now := max w.now u.due, timers := w.timers.erase u } :=
      visInv_of_same rfl rfl h
    rcases hcb with hok | ⟨_, rfl⟩
    · cases hc : u.cb with
      | timeoutFallback => rw [hc] at hok; cases hok; exact visInv_scheduleHideLoadingScreen _ h1
      | checkElements => rw [hc] at hok; cases hok; exact visInv_checkElements _ h1
      | hide => rw [hc] at hok; cases hok; exact visInv_hideLoadingScreen _ h1
      | detach => rw [hc] at hok; exact visInv_fadeCallback hok h1
    · exact visInv_of_same rfl rfl h1

theorem visInv_construct (cfg : Config) (p : Page) (t0 : Nat) : visInv (construct cfg p t0) := by
  unfold construct init
  split
  · intro h; cases h
  · exact visInv_setupLoadingScreen _

/-- Why the restart hook is compared with `forceShow()` on a controller that
was constructed on a parsed document, as every script of the site constructs
it (inside its `DOMContentLoaded` listener): were a controller constructed
while the document is being parsed, it would hold no element until
`DOMContentLoaded` and `forceShow()` would return at its guard, while the
restart hook looks the overlay up itself and shows it. -/
theorem restart_differs_before_setup :
    (construct aboutUsConfig parsingPage 0).overlay = some markupHiddenOverlay ∧
      (restartAsSpecified (construct aboutUsConfig parsingPage 0)).overlay
        = some markupHiddenOverlay ∧
      (restartAsSpecified (construct aboutUsConfig parsingPage 0)).bodyOverflow = "" ∧
      (restartLoading (construct aboutUsConfig parsingPage 0)).overlay
        = some { display := "flex", opacity := "1", visibility := "",
                 classList := ["loading-screen"] } ∧
      (restartLoading (construct aboutUsConfig parsingPage 0)).bodyOverflow = "hidden" ∧
      restartLoading (construct aboutUsConfig parsingPage 0)
        ≠ restartAsSpecified (construct aboutUsConfig parsingPage 0) := by
  decide

/-- C13 (the restart hook equals `forceShow()` plus clearing `fade-out`): a
script constructs its controller inside its `DOMContentLoaded` listener, on a
parsed document.  On a page with the overlay, in every world the page can
reach from there, the restart hook yields exactly the world that `forceShow()`
on the controller followed by clearing `fade-out` yields: the overlay with
display `flex`, opacity `1`, visibility `visible`, its class list without
`hidden` and `fade-out`, the body overflow `hidden`, and nothing else
changed. -/
theorem restart_eq_forceShow_clear (cfg : Config) (p : Page) (t0 : Nat) (steps : List Step)
    (w : World) (e0 : Element) (hp : p.loading = false) (ho : p.overlay = some e0)
    (hrun : run steps (construct cfg p t0) = some w) :
    ∃ e, w.overlay = some e ∧
      restartLoading w = restartAsSpecified w ∧
      (restartLoading w).overlay = some
        (shownElement (classRemove "fade-out" (classRemove "hidden" e.classList))) ∧
      (restartLoading w).bodyOverflow = "hidden" := by
  have hrun2 : run steps (setupLoadingScreen (initialWorld cfg p t0)) = some w := by
    rw [← construct_eq_setup cfg p t0 hp]
    exact hrun
  have hi : TimeoutInv (t0 + cfg.maxLoadingTime) cfg.fadeOutDuration w :=
    run_induction _ timeoutInv_step
      (timeoutInv_setup cfg (initialWorld cfg p t0) e0 rfl ho) hrun2
  have hl : w.ctl.loadingScreen = true := hi.holds
  obtain ⟨e, he⟩ := Option.isSome_iff_exists.1 hi.present
  have hv : e.visibility = "visible" :=
    run_induction visInv visInv_step (visInv_construct cfg p t0) hrun hl e he
  have h1 : restartLoading w = { w with
      overlay := some (shownElement (classRemove "fade-out" (classRemove "hidden" e.classList)))
      bodyOverflow := "hidden" } := by
    simp [restartLoading, he, shownElement, hv]
  refine ⟨e, he, ?_, by rw [h1], by rw [h1]⟩
  rw [h1]
  show _ = clearFadeOut (showLoadingScreen w)
  rw [showLoadingScreen_eq w hl]
  simp [clearFadeOut, he, shownElement]

/-- The about-us page shown again after its overlay was hidden: the restart
hook and `forceShow()` with `fade-out` cleared give the same world, with no
class left on the overlay. -/
theorem restart_eq_forceShow_clear_witness :
    (plainPage.loading = false ∧ plainPage.overlay = some freshOverlay ∧
        run [Step.event 100 Event.load, Step.timer, Step.timer, Step.timer, Step.timer,
          Step.event 650 Event.forceShow] (construct aboutUsConfig plainPage 0)
          = some reshownWorld ∧
        reshownWorld.overlay = some (shownElement ["fade-out"])) ∧
      ∃ e, reshownWorld.overlay = some e ∧
        restartLoading reshownWorld = restartAsSpecified reshownWorld ∧
        (restartLoading reshownWorld).overlay = some
          (shownElement (classRemove "fade-out" (classRemove "hidden" e.classList))) ∧
        (restartLoading reshownWorld).bodyOverflow = "hidden" :=
  ⟨⟨rfl, rfl, by decide, by decide⟩,
    restart_eq_forceShow_clear aboutUsConfig plainPage 0
      [Step.event 100 Event.load, Step.timer, Step.timer, Step.timer, Step.timer,
        Step.event 650 Event.forceShow] reshownWorld freshOverlay rfl rfl (by decide)⟩

/-! ## The structural poll -/

theorem pollSame_refl (w : World) : PollSame w w := ⟨rfl, rfl, rfl⟩

theorem pollSame_trans {a b c : World} (h1 : PollSame a b) (h2 : PollSame b c) :
    PollSame a c :=
  ⟨h2.log.trans h1.log, h2.timers.trans h1.timers, h2.dom.trans h1.dom⟩

theorem pollSame_record (a : Action) (w : World) (h : ∀ b, a ≠ Action.polled b) :
    PollSame w (record a w) := by
  refine ⟨?_, rfl, rfl⟩
  cases a <;> simp [pollLog, record, List.filterMap_append] at h ⊢

theorem pollSame_setTimeout (cb : Callback) (d : JSNum) (w : World)
    (h : cb ≠ Callback.checkElements) : PollSame w (setTimeout cb d w) := by
  refine ⟨rfl, ?_, rfl⟩
  simp [pollTimers, setTimeout, List.filter_append, h]

theorem pollSame_showLoadingScreen (w : World) : PollSame w (showLoadingScreen w) := by
  unfold showLoadingScreen
  split
  · exact pollSame_refl w
  · exact ⟨rfl, rfl, rfl⟩

theorem pollSame_hideLoadingScreen (w : World) : PollSame w (hideLoadingScreen w) := by
  unfold hideLoadingScreen
  split
  · exact pollSame_refl w
  · refine pollSame_trans ?_ (pollSame_record Action.fadeOut _ (by simp))
    refine pollSame_trans ?_ (pollSame_setTimeout _ _ _ (by decide))
    exact ⟨rfl, rfl, rfl⟩

theorem pollSame_scheduleHideLoadingScreen (w : World) :
    PollSame w (scheduleHideLoadingScreen w) :=
  pollSame_trans (pollSame_setTimeout _ _ _ (by decide)) (pollSame_record _ _ (by simp))

theorem pollSame_observerCallback (entries : List Nat) (w : World) :
    PollSame w (observerCallback entries w) := by
  unfold observerCallback
  split
  · split
    · exact pollSame_scheduleHideLoadingScreen w
    · exact pollSame_refl w
  · exact pollSame_refl w

theorem pollSame_fadeCallback {w w2 : World} (h : fadeCallback w = Except.ok w2) :
    PollSame w w2 := by
  unfold fadeCallback at h
  split at h
  · cases h
  · cases h
    refine pollSame_trans ?_ (pollSame_record Action.detached _ (by simp))
    exact ⟨rfl, rfl, rfl⟩

theorem pollSame_iterate (f : World → World) (hf : ∀ w, PollSame w (f w)) (n : Nat)
    (w : World) : PollSame w (Nat.iterate f n w) := by
  induction n generalizing w with
  | zero => exact pollSame_refl w
  | succ n ih => exact pollSame_trans (hf w) (ih (f w))

theorem pollSame_deliver (e : Event) (w : World) (hd : w.domListeners = 0) :
    PollSame w (deliver e w) := by
  cases e with
  | load => exact pollSame_iterate _ pollSame_scheduleHideLoadingScreen _ _
  | domContentLoaded =>
    show PollSame w (Nat.iterate setupLoadingScreen w.domListeners _)
    rw [hd]
    exact ⟨rfl, rfl, hd.symm⟩
  | navigationEntries entries => exact pollSame_iterate _ (pollSame_observerCallback entries) _ _
  | forceHide => exact pollSame_hideLoadingScreen w
  | forceShow => exact pollSame_showLoadingScreen w
  | domChange r => exact ⟨rfl, rfl, rfl⟩

theorem filter_erase_of_neg (q : Timer → Bool) (l : List Timer) (u : Timer) (hq : q u = false) :
    (l.erase u).filter q = l.filter q := by
  induction l with
  | nil => rfl
  | cons a l ih =>
    by_cases hau : a = u
    · subst hau
      simp [hq]
    · rw [List.erase_cons_tail (by simpa using hau)]
      simp only [List.filter_cons, ih]

theorem filter_erase_of_pos (q : Timer → Bool) (l : List Timer) (u : Timer) (hq : q u = true) :
    (l.erase u).filter q = (l.filter q).erase u := by
  induction l with
  | nil => rfl
  | cons a l ih =>
    by_cases hau : a = u
    · subst hau
      simp [hq]
    · rw [List.erase_cons_tail (by simpa using hau)]
      by_cases hqa : q a = true
      · simp only [List.filter_cons, hqa, if_true]
        rw [List.erase_cons_tail (by simpa using hau), ih]
      · simp only [List.filter_cons, hqa, ih]
        simp

theorem failedPolls_succ (c k : Nat) :
    failedPolls c (k + 1) = failedPolls c k ++ [(c + 500 + 100 * k, false)] := by
  simp [failedPolls, List.range_succ]

/-- What one structural poll does: it records the `allLoaded` it computes,
and then either calls `scheduleHideLoadingScreen` (every critical selector
resolves) or arms itself again 100 ms ahead (some selector does not). -/
theorem checkElements_eq (w : World) :
    ((∀ s ∈ w.ctl.criticalElements, s ∈ w.resolved) →
        checkElements w = scheduleHideLoadingScreen (record (Action.polled true) w)) ∧
      (¬ (∀ s ∈ w.ctl.criticalElements, s ∈ w.resolved) →
        checkElements w
          = setTimeout Callback.checkElements (JSNum.num 100)
              (record (Action.polled false) w)) := by
  constructor
  · intro h
    have : (w.ctl.criticalElements.all fun selector => decide (selector ∈ w.resolved)) = true := by
      simpa [List.all_eq_true] using h
    simp [checkElements, this]
  · intro h
    have : (w.ctl.criticalElements.all fun selector => decide (selector ∈ w.resolved))
        = false := by
      rw [Bool.eq_false_iff]
      intro hall
      exact h (by simpa [List.all_eq_true] using hall)
    simp [checkElements, this]

theorem pollLog_record_polled (b : Bool) (w : World) :
    pollLog (record (Action.polled b) w) = pollLog w ++ [(w.now, b)] := by
  simp [pollLog, record, List.filterMap_append]

theorem pollSame_runCallback {cb : Callback} {w w2 : World}
    (hcb : cb ≠ Callback.checkElements) (h : runCallback cb w = Except.ok w2) :
    PollSame w w2 := by
  cases cb with
  | timeoutFallback => cases h; exact pollSame_scheduleHideLoadingScreen w
  | checkElements => exact absurd rfl hcb
  | hide => cases h; exact pollSame_hideLoadingScreen w
  | detach => exact pollSame_fadeCallback h

/-- A turn of the event loop that does not run the structural poll leaves it
alone. -/
theorem pollSame_step_other {w w2 : World} {u : Timer} (hu : u.cb ≠ Callback.checkElements)
    (hcb : runCallback u.cb { w with now := max w.now u.due, timers := w.timers.erase u }
          = Except.ok w2 ∨
        ((∃ msg, runCallback u.cb { w with now := max w.now u.due, timers := w.timers.erase u }
          = Except.error msg) ∧
          w2 = record Action.uncaught
            { w with now := max w.now u.due, timers := w.timers.erase u })) :
    PollSame w w2 := by
  have h1 : PollSame w { w with now := max w.now u.due, timers := w.timers.erase u } :=
    ⟨rfl, filter_erase_of_neg _ _ _ (by simp [hu]), rfl⟩
  rcases hcb with hok | ⟨_, rfl⟩
  · exact pollSame_trans h1 (pollSame_runCallback hu hok)
  · exact pollSame_trans h1 (pollSame_record Action.uncaught _ (by simp))

theorem pollInv_step {F c : Nat} (s : Step) (w w2 : World) (hf : FadeInv F w)
    (hi : PollInv c w) (hs : step s w = some w2) : PollInv c w2 := by
  cases s with
  | event t e =>
    obtain ⟨_, _, rfl⟩ := step_event_inv hs
    have hp := pollSame_deliver e { w with now := t } hi.dom
    refine ⟨hp.dom.trans hi.dom, ?_⟩
    rw [hp.log, hp.timers]
    exact hi.state
  | timer =>
    obtain ⟨u, hu, hcb⟩ := step_timer_inv hs
    have hmem := earliest_mem hu
    have hnow : max w.now u.due = u.due := max_eq_right (hf.ahead u hmem)
    by_cases hc : u.cb = Callback.checkElements
    swap
    · have hp := pollSame_step_other hc hcb
      refine ⟨hp.dom.trans hi.dom, ?_⟩
      rw [hp.log, hp.timers]
      exact hi.state
    have hq : u ∈ pollTimers w := List.mem_filter.2 ⟨hmem, by simp [hc]⟩
    rcases hi.state with ⟨k, hlog, htim⟩ | ⟨k, hlog, htim⟩
    swap
    · rw [htim] at hq; cases hq
    rw [htim] at hq
    have hu2 : u = ⟨c + 500 + 100 * k, Callback.checkElements⟩ := List.mem_singleton.1 hq
    generalize hw1 : ({ w with now := max w.now u.due, timers := w.timers.erase u } : World) = w1
      at hcb
    have h1now : w1.now = c + 500 + 100 * k := by
      rw [← hw1]
      show max w.now u.due = _
      rw [hnow, hu2]
    have h1log : pollLog w1 = failedPolls c k := by rw [← hw1]; exact hlog
    have h1dom : w1.domListeners = 0 := by rw [← hw1]; exact hi.dom
    have h1tim : pollTimers w1 = [] := by
      rw [← hw1]
      show (w.timers.erase u).filter _ = []
      rw [filter_erase_of_pos _ _ _ (by simp [hc])]
      show (pollTimers w).erase u = []
      rw [htim, hu2]; simp
    have hok : checkElements w1 = w2 := by
      rcases hcb with hok | ⟨⟨msg, herr⟩, _⟩
      · rw [hc] at hok; cases hok; rfl
      · rw [hc] at herr; cases herr
    subst hok
    by_cases hall : ∀ s ∈ w1.ctl.criticalElements, s ∈ w1.resolved
    · rw [(checkElements_eq w1).1 hall]
      have hp := pollSame_scheduleHideLoadingScreen (record (Action.polled true) w1)
      refine ⟨hp.dom.trans h1dom, Or.inr ⟨k, ?_, ?_⟩⟩
      · rw [hp.log, pollLog_record_polled, h1log, h1now]
      · rw [hp.timers]; exact h1tim
    · rw [(checkElements_eq w1).2 hall]
      refine ⟨h1dom, Or.inl ⟨k + 1, ?_, ?_⟩⟩
      · show pollLog (record (Action.polled false) w1) = _
        rw [pollLog_record_polled, h1log, h1now, failedPolls_succ]
      · show (w1.timers ++ [_]).filter _ = _
        rw [List.filter_append]
        show pollTimers w1 ++ _ = _
        rw [h1tim]
        simp [record, timerDelay, h1now]
        omega

theorem pollDone_step {L : List (Nat × Bool)} (s : Step) (w w2 : World) (hi : PollDone L w)
    (hs : step s w = some w2) : PollDone L w2 := by
  cases s with
  | event t e =>
    obtain ⟨_, _, rfl⟩ := step_event_inv hs
    have hp := pollSame_deliver e { w with now := t } hi.dom
    exact ⟨hp.dom.trans hi.dom, hp.log.trans hi.log, hp.timers.trans hi.timers⟩
  | timer =>
    obtain ⟨u, hu, hcb⟩ := step_timer_inv hs
    have hmem := earliest_mem hu
    have hc : u.cb ≠ Callback.checkElements := by
      intro hc
      have hq : u ∈ pollTimers w := List.mem_filter.2 ⟨hmem, by simp [hc]⟩
      rw [hi.timers] at hq; cases hq
    have hp := pollSame_step_other hc hcb
    exact ⟨hp.dom.trans hi.dom, hp.log.trans hi.log, hp.timers.trans hi.timers⟩

theorem pollInv_construct (cfg : Config) (p : Page) (t0 : Nat) (e : Element)
    (hp : p.overlay = some e) (hl : p.loading = false) :
    PollInv t0 (construct cfg p t0) := by
  rw [construct_eq_setup cfg p t0 hl]
  have hs : setupLoadingScreen (initialWorld cfg p t0) = record Action.initialized
      (setupPerformanceObserver (setupLoadingCompletion (showLoadingScreen
        { initialWorld cfg p t0 with
          ctl := { (initialWorld cfg p t0).ctl with loadingScreen := true } }))) := by
    simp [setupLoadingScreen, initialWorld, hp]
  rw [hs, showLoadingScreen_eq _ rfl]
  refine ⟨?_, Or.inl ⟨0, ?_, ?_⟩⟩
  · cases hpo : p.perfObserver <;>
      simp [record, setupPerformanceObserver, setupLoadingCompletion, checkCriticalElements,
        setTimeout, initialWorld, hpo]
  · cases hpo : p.perfObserver <;>
      simp [pollLog, record, setupPerformanceObserver, setupLoadingCompletion,
        checkCriticalElements, setTimeout, initialWorld, hpo, failedPolls]
  · cases hpo : p.perfObserver <;>
      simp [pollTimers, record, setupPerformanceObserver, setupLoadingCompletion,
        checkCriticalElements, setTimeout, initialWorld, hpo, timerDelay]

theorem run_append (a b : List Step) (w : World) :
    run (a ++ b) w = (run a w).bind (run b) := by
  induction a generalizing w with
  | nil => rfl
  | cons s ss ih =>
    simp only [List.cons_append, run]
    cases step s w with
    | none => rfl
    | some w1 => exact ih w1

/-- The poll invariant along every run of a controller set up at its
construction on a page with the overlay. -/
theorem pollInv_run (cfg : Config) (p : Page) (t0 : Nat) (e : Element)
    (hp : p.overlay = some e) (hl : p.loading = false) {steps : List Step} {w : World}
    (hrun : run steps (construct cfg p t0) = some w) :
    PollInv t0 w ∧ w.ctl.criticalElements = cfg.criticalElements := by
  have h := run_induction (fun x => FadeInv cfg.fadeOutDuration x ∧ PollInv t0 x)
    (fun s a b hab hs => ⟨fadeInv_step s a b hab.1 hs, pollInv_step s a b hab.1 hab.2 hs⟩)
    ⟨fadeInv_construct cfg p t0, pollInv_construct cfg p t0 e hp hl⟩ hrun
  refine ⟨h.2, ?_⟩
  have hc : w.ctl.criticalElements = (construct cfg p t0).ctl.criticalElements := by
    refine run_induction (fun x => x.ctl.criticalElements
      = (construct cfg p t0).ctl.criticalElements) ?_ rfl hrun
    intro s a b ha hs
    rw [step_consts hs]
    exact ha
  rw [hc, construct_eq_setup cfg p t0 hl, (ext_setupLoadingScreen _).consts]
  rfl

theorem failedPolls_getElem? (c k i : Nat) (x : Nat × Bool)
    (h : (failedPolls c k)[i]? = some x) : x = (c + 500 + 100 * i, false) ∧ i < k := by
  simp only [failedPolls, List.getElem?_map, Option.map_eq_some'] at h
  obtain ⟨j, hj, rfl⟩ := h
  have hj2 := List.getElem?_eq_some.1 hj
  obtain ⟨hlt, hval⟩ := hj2
  simp only [List.length_range] at hlt
  simp only [List.getElem_range] at hval
  subst hval
  exact ⟨rfl, hlt⟩

theorem failedPolls_no_success (c k t : Nat) : (t, true) ∉ failedPolls c k := by
  simp [failedPolls]

theorem failedPolls_length (c k : Nat) : (failedPolls c k).length = k := by
  simp [failedPolls]

/-- C14 (the schedule and the trigger of the structural poll): after
`checkCriticalElements()` at the set-up of the controller (clock reading
`t0`), poll number `i` takes place at `t0 + 500 + 100 * i`; all polls so far
found some selector unresolved, except that the last one may have found all
resolved.  A poll calls `scheduleHideLoadingScreen` when every critical
selector resolves at that moment (always so for an empty list) and calls it
not, arming itself again, when some selector does not. -/
theorem poll_schedule_and_trigger (cfg : Config) (p : Page) (t0 : Nat) (e : Element)
    (hp : p.overlay = some e) (hl : p.loading = false) (steps : List Step) (w : World)
    (hrun : run steps (construct cfg p t0) = some w) :
    (∃ k, pollLog w = failedPolls t0 k ∨
        pollLog w = failedPolls t0 k ++ [(t0 + 500 + 100 * k, true)]) ∧
      (∀ i x, (pollLog w)[i]? = some x → x.1 = t0 + 500 + 100 * i) ∧
      ((∀ s ∈ cfg.criticalElements, s ∈ w.resolved) →
        checkElements w = scheduleHideLoadingScreen (record (Action.polled true) w) ∧
          scheduleCalls (checkElements w) = scheduleCalls w + 1) ∧
      (¬ (∀ s ∈ cfg.criticalElements, s ∈ w.resolved) →
        checkElements w
            = setTimeout Callback.checkElements (JSNum.num 100)
                (record (Action.polled false) w) ∧
          scheduleCalls (checkElements w) = scheduleCalls w) ∧
      (cfg.criticalElements = [] →
        checkElements w = scheduleHideLoadingScreen (record (Action.polled true) w)) := by
  obtain ⟨hi, hcrit⟩ := pollInv_run cfg p t0 e hp hl hrun
  have hce := checkElements_eq w
  rw [hcrit] at hce
  refine ⟨?_, ?_, ?_, ?_, ?_⟩
  · rcases hi.state with ⟨k, hlog, _⟩ | ⟨k, hlog, _⟩
    · exact ⟨k, Or.inl hlog⟩
    · exact ⟨k, Or.inr hlog⟩
  · intro i x hx
    rcases hi.state with ⟨k, hlog, _⟩ | ⟨k, hlog, _⟩
    · rw [hlog] at hx
      rw [(failedPolls_getElem? _ _ _ _ hx).1]
    · rw [hlog] at hx
      by_cases hik : i < k
      · rw [List.getElem?_append_left (by rw [failedPolls_length]; exact hik)] at hx
        rw [(failedPolls_getElem? _ _ _ _ hx).1]
      · rw [List.getElem?_append_right (by rw [failedPolls_length]; omega),
          failedPolls_length] at hx
        have hik2 : i - k = 0 := by
          by_contra hne
          have : 1 ≤ i - k := Nat.one_le_iff_ne_zero.2 hne
          rw [List.getElem?_eq_none (by simpa using this)] at hx
          cases hx
        rw [hik2] at hx
        simp only [List.getElem?_cons_zero, Option.some.injEq] at hx
        subst hx
        have : i = k := by omega
        rw [this]
  · intro hall
    refine ⟨hce.1 hall, ?_⟩
    rw [hce.1 hall]
    have hb := balanced_scheduleHideLoadingScreen (record (Action.polled true) w)
    simp [scheduleCalls, scheduleHideLoadingScreen, record, setTimeout, List.countP_cons,
      Action.isScheduled]
  · intro hall
    refine ⟨hce.2 hall, ?_⟩
    rw [hce.2 hall]
    simp [scheduleCalls, record, setTimeout, List.countP_cons, Action.isScheduled]
  · intro hnil
    refine (hce.1 ?_)
    rw [hnil]
    intro s hs
    cases hs

/-- The scenario with the selectors `a` and `b`: the polls took place at 500,
600, 700 and 800, the first three failing, the one at 800 succeeding. -/
theorem poll_schedule_and_trigger_witness :
    pollLog scenarioPolled = [(500, false), (600, false), (700, false), (800, true)] ∧
      ∀ i x, (pollLog scenarioPolled)[i]? = some x → x.1 = 0 + 500 + 100 * i := by
  have h := poll_schedule_and_trigger scenarioConfig scenarioPage 0 freshOverlay rfl rfl
    (scenarioSteps.take 6) scenarioPolled (by decide)
  exact ⟨by decide, h.2.1⟩

/-- C15 (the structural poll stops on readiness, and only then): once a poll
has found every critical selector resolved, it was poll number `k` after `k`
failing ones, the number of polls is `k + 1` for good and no poll is pending
in any continuation; as long as no poll has succeeded, exactly one poll is
pending, whatever the state of the overlay.  A poll that finds all selectors
resolved arms no poll; a poll that finds one unresolved arms the next one
100 ms ahead. -/
theorem poll_stops_on_readiness (cfg : Config) (p : Page) (t0 : Nat) (e : Element)
    (hp : p.overlay = some e) (hl : p.loading = false) (steps : List Step) (w : World)
    (hrun : run steps (construct cfg p t0) = some w) (steps2 : List Step) (w2 : World)
    (hrun2 : run steps2 w = some w2) :
    ((∃ x ∈ pollLog w, x.2 = true) →
        ∃ k, pollLog w = failedPolls t0 k ++ [(t0 + 500 + 100 * k, true)] ∧
          (pollLog w).length = k + 1 ∧ pollTimers w = [] ∧
          pollLog w2 = pollLog w ∧ pollTimers w2 = []) ∧
      ((∀ x ∈ pollLog w, x.2 = false) →
        ∃ k, pollLog w = failedPolls t0 k ∧ (pollLog w).length = k ∧
          pollTimers w = [⟨t0 + 500 + 100 * k, Callback.checkElements⟩]) ∧
      ((∀ s ∈ cfg.criticalElements, s ∈ w.resolved) →
        pollTimers (checkElements w) = pollTimers w) ∧
      (¬ (∀ s ∈ cfg.criticalElements, s ∈ w.resolved) →
        pollTimers (checkElements w)
          = pollTimers w ++ [⟨w.now + 100, Callback.checkElements⟩]) := by
  obtain ⟨hi, hcrit⟩ := pollInv_run cfg p t0 e hp hl hrun
  have hce := checkElements_eq w
  rw [hcrit] at hce
  refine ⟨?_, ?_, ?_, ?_⟩
  · rintro ⟨⟨t, b⟩, ht, hb⟩
    rcases hi.state with ⟨k, hlog, _⟩ | ⟨k, hlog, htim⟩
    · rw [hlog] at ht
      simp only at hb
      subst hb
      exact absurd ht (failedPolls_no_success _ _ _)
    · have hd : PollDone (pollLog w) w2 :=
        run_induction _ pollDone_step ⟨hi.dom, rfl, htim⟩ hrun2
      refine ⟨k, hlog, ?_, htim, hd.log, hd.timers⟩
      rw [hlog, List.length_append, failedPolls_length]
      rfl
  · intro hno
    rcases hi.state with ⟨k, hlog, htim⟩ | ⟨k, hlog, _⟩
    · exact ⟨k, hlog, by rw [hlog, failedPolls_length], htim⟩
    · have := hno (t0 + 500 + 100 * k, true) (by rw [hlog]; simp)
      cases this
  · intro hall
    rw [hce.1 hall]
    exact (pollSame_scheduleHideLoadingScreen (record (Action.polled true) w)).timers
  · intro hall
    rw [hce.2 hall]
    simp [pollTimers, setTimeout, record, List.filter_append, timerDelay]

/-- The scenario, where the poll at 800 succeeds: four polls for good, none
pending at the end; and the about-us page with unresolved selectors, where
the poll goes on at 700 although the overlay is hidden. -/
theorem poll_stops_on_readiness_witness :
    ((pollLog scenarioPolled).length = 3 + 1 ∧ pollLog scenarioEnd = pollLog scenarioPolled ∧
        pollTimers scenarioEnd = []) ∧
      (hiddenStillPolling.overlay = some hiddenOverlay ∧
        pollTimers hiddenStillPolling = [⟨700, Callback.checkElements⟩]) := by
  have h1 := poll_stops_on_readiness scenarioConfig scenarioPage 0 freshOverlay rfl rfl
    (scenarioSteps.take 6) scenarioPolled (by decide) (scenarioSteps.drop 6) scenarioEnd
    (by decide)
  have h2 := poll_stops_on_readiness aboutUsConfig plainPage 0 freshOverlay rfl rfl
    [Step.event 100 Event.load, Step.timer, Step.timer, Step.timer, Step.timer]
    hiddenStillPolling (by decide) [] hiddenStillPolling rfl
  obtain ⟨k, hk, hlen, _, hlog2, htim2⟩ := h1.1 (by decide)
  obtain ⟨k2, hk2, hlen2, htim⟩ := h2.2.1 (by decide)
  have hk3 : k = 3 := by
    have : (pollLog scenarioPolled).length = 4 := by decide
    omega
  have hk4 : k2 = 2 := by
    have : (pollLog hiddenStillPolling).length = 2 := by decide
    omega
  subst hk3
  subst hk4
  exact ⟨⟨hlen, hlog2, htim2⟩, by decide, htim⟩

/-! ## The navigation-timing watcher -/

theorem forget_forget (w : World) : forget (forget w) = forget w := by
  cases h : w.perfObserver <;> simp [forget, h]

theorem forget_record (a : Action) (w : World) : forget (record a w) = forget w := rfl

theorem forget_setTimeout (cb : Callback) (d : JSNum) (w : World) :
    forget (setTimeout cb d w) = setTimeout cb d (forget w) := rfl

theorem forget_showLoadingScreen (w : World) :
    forget (showLoadingScreen w) = showLoadingScreen (forget w) := by
  unfold showLoadingScreen
  show forget (if w.ctl.loadingScreen = false then _ else _)
    = if w.ctl.loadingScreen = false then _ else _
  split <;> rfl

theorem forget_hideLoadingScreen (w : World) :
    forget (hideLoadingScreen w) = forget (hideLoadingScreen (forget w)) := by
  unfold hideLoadingScreen
  show forget (if w.ctl.loadingScreen = false then _ else _)
    = forget (if w.ctl.loadingScreen = false then _ else _)
  split
  · exact (forget_forget w).symm
  · cases h : w.perfObserver <;> simp [forget, record, setTimeout, h]

theorem forget_scheduleHideLoadingScreen (w : World) :
    forget (scheduleHideLoadingScreen w) = forget (scheduleHideLoadingScreen (forget w)) := by
  cases h : w.perfObserver <;> simp [forget, scheduleHideLoadingScreen, record, setTimeout, h]

theorem forget_checkElements (w : World) :
    forget (checkElements w) = forget (checkElements (forget w)) := by
  unfold checkElements
  dsimp only
  show forget (if (w.ctl.criticalElements.all fun s => decide (s ∈ w.resolved)) = true
      then _ else _)
    = forget (if (w.ctl.criticalElements.all fun s => decide (s ∈ w.resolved)) = true
      then _ else _)
  split
  · rw [forget_scheduleHideLoadingScreen]
    conv_rhs => rw [forget_scheduleHideLoadingScreen]
    rw [forget_record, forget_record, forget_forget]
  · rw [forget_setTimeout, forget_setTimeout, forget_record, forget_record, forget_forget]

theorem forget_observerCallback (entries : List Nat) (w : World) :
    forget (observerCallback entries w) = forget (observerCallback entries (forget w)) := by
  unfold observerCallback
  split
  · split
    · exact forget_scheduleHideLoadingScreen w
    · exact (forget_forget w).symm
  · exact (forget_forget w).symm

theorem forget_setupLoadingCompletion (w : World) :
    forget (setupLoadingCompletion w) = setupLoadingCompletion (forget w) := rfl

theorem forget_setupPerformanceObserver (w : World) :
    forget (setupPerformanceObserver w) = forget (setupPerformanceObserver (forget w)) := by
  cases h : w.perfObserver <;> simp [forget, setupPerformanceObserver, record, h]

theorem forget_setupLoadingScreen (w : World) :
    forget (setupLoadingScreen w) = forget (setupLoadingScreen (forget w)) := by
  cases ho : w.overlay with
  | none =>
    rw [setupLoadingScreen_missing w ho, setupLoadingScreen_missing (forget w) ho,
      forget_record, forget_record]
    cases h : w.perfObserver <;> simp [forget, h]
  | some e =>
    have hs : ∀ v : World, v.overlay = some e →
        setupLoadingScreen v = record Action.initialized (setupPerformanceObserver
          (setupLoadingCompletion (showLoadingScreen
            { v with ctl := { v.ctl with loadingScreen := true } }))) := by
      intro v hv
      simp [setupLoadingScreen, hv]
    rw [hs w ho, hs (forget w) ho, forget_record, forget_record,
      forget_setupPerformanceObserver]
    conv_rhs => rw [forget_setupPerformanceObserver]
    rw [forget_setupLoadingCompletion, forget_setupLoadingCompletion,
      forget_showLoadingScreen, forget_showLoadingScreen]
    congr 3
    cases h : w.perfObserver <;> simp [forget, h]

theorem forget_iterate (f : World → World) (hf : ∀ w, forget (f w) = forget (f (forget w)))
    (n : Nat) (a b : World) (hab : forget a = forget b) :
    forget (Nat.iterate f n a) = forget (Nat.iterate f n b) := by
  induction n generalizing a b with
  | zero => exact hab
  | succ n ih =>
    refine ih (f a) (f b) ?_
    rw [hf a, hf b, hab]

theorem forget_deliver (e : Event) (w : World) :
    forget (deliver e w) = forget (deliver e (forget w)) := by
  cases e with
  | load =>
    exact forget_iterate _ forget_scheduleHideLoadingScreen _ _ _ (forget_forget w).symm
  | domContentLoaded =>
    refine forget_iterate _ forget_setupLoadingScreen _ _ _ ?_
    cases h : w.perfObserver <;> simp [forget, h]
  | navigationEntries entries =>
    exact forget_iterate _ (forget_observerCallback entries) _ _ _ (forget_forget w).symm
  | forceHide => exact forget_hideLoadingScreen w
  | forceShow =>
    show forget (showLoadingScreen w) = forget (showLoadingScreen (forget w))
    rw [forget_showLoadingScreen, forget_showLoadingScreen, forget_forget]
  | domChange r =>
    cases h : w.perfObserver <;> simp [forget, deliver, h]

theorem forget_runCallback (cb : Callback) (w : World) :
    (match runCallback cb w with
      | Except.ok w2 => forget w2
      | Except.error _ => forget (record Action.uncaught w))
    = (match runCallback cb (forget w) with
      | Except.ok w2 => forget w2
      | Except.error _ => forget (record Action.uncaught (forget w))) := by
  cases cb with
  | timeoutFallback => exact forget_scheduleHideLoadingScreen w
  | checkElements => exact forget_checkElements w
  | hide => exact forget_hideLoadingScreen w
  | detach =>
    cases hl : w.ctl.loadingScreen with
    | false =>
      have h1 : fadeCallback w = Except.error "TypeError: this.loadingScreen is null" := by
        simp [fadeCallback, hl]
      have h2 : fadeCallback (forget w)
          = Except.error "TypeError: this.loadingScreen is null" := by
        simp [fadeCallback, forget, hl]
      simp only [runCallback, h1, h2]
      rw [forget_record, forget_record, forget_forget]
    | true =>
      have h1 := fadeCallback_ok w hl
      have h2 := fadeCallback_ok (forget w) hl
      simp only [runCallback, h1, h2]
      rw [forget_record, forget_record]
      cases h : w.perfObserver <;> simp [forget, h]

theorem forget_step (s : Step) (w : World) :
    (step s w).map forget = (step s (forget w)).map forget := by
  cases s with
  | event t e =>
    simp only [step]
    show Option.map forget (if w.now ≤ t ∧ ∀ tm ∈ w.timers, t ≤ tm.due then _ else _)
      = Option.map forget (if w.now ≤ t ∧ ∀ tm ∈ w.timers, t ≤ tm.due then _ else _)
    split
    · exact congrArg some (forget_deliver e { w with now := t })
    · rfl
  | timer =>
    simp only [step]
    show Option.map forget (match earliest w.timers with
        | none => none
        | some tm => _)
      = Option.map forget (match earliest w.timers with
        | none => none
        | some tm => _)
    cases earliest w.timers with
    | none => rfl
    | some tm =>
      have h := forget_runCallback tm.cb
        { w with now := max w.now tm.due, timers := w.timers.erase tm }
      show Option.map forget (match runCallback tm.cb
          { w with now := max w.now tm.due, timers := w.timers.erase tm } with
        | Except.ok w2 => some w2
        | Except.error _ => some (record Action.uncaught
            { w with now := max w.now tm.due, timers := w.timers.erase tm }))
        = Option.map forget (match runCallback tm.cb
          (forget { w with now := max w.now tm.due, timers := w.timers.erase tm }) with
        | Except.ok w2 => some w2
        | Except.error _ => some (record Action.uncaught
            (forget { w with now := max w.now tm.due, timers := w.timers.erase tm })))
      generalize ({ w with now := max w.now tm.due, timers := w.timers.erase tm } : World)
        = w1 at h ⊢
      cases h1 : runCallback tm.cb w1 <;> cases h2 : runCallback tm.cb (forget w1) <;>
        simp only [h1, h2] at h ⊢ <;> exact congrArg some h

/-- Two worlds that differ only in what `forget` drops go through the same
worlds, up to what `forget` drops, in every run. -/
theorem forget_run (steps : List Step) (a b : World) (hab : forget a = forget b) :
    (run steps a).map forget = (run steps b).map forget := by
  induction steps generalizing a b with
  | nil => exact congrArg some hab
  | cons s ss ih =>
    have hs : (step s a).map forget = (step s b).map forget := by
      rw [forget_step s a, forget_step s b, hab]
    simp only [run]
    cases ha : step s a with
    | none =>
      cases hb : step s b with
      | none => rfl
      | some b1 => rw [ha, hb] at hs; cases hs
    | some a1 =>
      cases hb : step s b with
      | none => rw [ha, hb] at hs; cases hs
      | some b1 =>
        rw [ha, hb] at hs
        exact ih a1 b1 (Option.some.inj hs)

/-- C16 (the navigation-timing watcher is best-effort): when creating or
registering the observer throws, `setupPerformanceObserver` only records the
warning; the setup has registered the `load` listener, the timeout and the
poll and no observer; and every run goes through the same worlds (clock,
overlay, body overflow, timers, listeners, observers) as on the page without
the facility.  When registering works, one observer is registered, and its
callback calls `scheduleHideLoadingScreen` when the entry list has a last
entry with a non-zero `loadEventEnd`, and does nothing otherwise. -/
theorem observer_is_best_effort (w : World) (e : Element) (he : w.overlay = some e)
    (ht : w.perfObserver = ObserverSupport.throws) (steps : List Step) (v : World)
    (entries : List Nat) :
    setupPerformanceObserver w = record Action.warnObserver w ∧
      (setupLoadingScreen w).loadListeners = w.loadListeners + 1 ∧
      (setupLoadingScreen w).timers = w.timers ++
        [⟨w.now + w.ctl.maxLoadingTime, Callback.timeoutFallback⟩,
          ⟨w.now + 500, Callback.checkElements⟩] ∧
      (setupLoadingScreen w).observers = w.observers ∧
      (run steps (setupLoadingScreen w)).map forget
        = (run steps (setupLoadingScreen
            { w with perfObserver := ObserverSupport.absent })).map forget ∧
      (v.perfObserver = ObserverSupport.available →
        setupPerformanceObserver v = { v with observers := v.observers + 1 }) ∧
      ((∃ x, entries.getLast? = some x ∧ x ≠ 0) →
        observerCallback entries v = scheduleHideLoadingScreen v ∧
          scheduleCalls (observerCallback entries v) = scheduleCalls v + 1) ∧
      (¬ (∃ x, entries.getLast? = some x ∧ x ≠ 0) → observerCallback entries v = v) := by
  have hs : setupLoadingScreen w = record Action.initialized (setupPerformanceObserver
      (setupLoadingCompletion (showLoadingScreen
        { w with ctl := { w.ctl with loadingScreen := true } }))) := by
    simp [setupLoadingScreen, he]
  refine ⟨by simp [setupPerformanceObserver, ht], ?_, ?_, ?_, ?_, ?_, ?_, ?_⟩
  · rw [hs, showLoadingScreen_eq _ rfl]
    simp [record, setupPerformanceObserver, setupLoadingCompletion, checkCriticalElements,
      setTimeout, ht]
  · rw [hs, showLoadingScreen_eq _ rfl]
    simp [record, setupPerformanceObserver, setupLoadingCompletion, checkCriticalElements,
      setTimeout, timerDelay, ht]
  · rw [hs, showLoadingScreen_eq _ rfl]
    simp [record, setupPerformanceObserver, setupLoadingCompletion, checkCriticalElements,
      setTimeout, ht]
  · refine forget_run steps _ _ ?_
    rw [forget_setupLoadingScreen w,
      forget_setupLoadingScreen { w with perfObserver := ObserverSupport.absent }]
    congr 2
    simp [forget, ht]
  · intro hv
    simp [setupPerformanceObserver, hv]
  · rintro ⟨x, hx, hx0⟩
    have h1 : observerCallback entries v = scheduleHideLoadingScreen v := by
      simp [observerCallback, hx, hx0]
    refine ⟨h1, ?_⟩
    rw [h1]
    simp [scheduleCalls, scheduleHideLoadingScreen, record, setTimeout, List.countP_cons,
      Action.isScheduled]
  · intro hno
    unfold observerCallback
    split
    · next x hx =>
      split
      · next hx0 => exact absurd ⟨x, hx, hx0⟩ hno
      · rfl
    · rfl

/-- The about-us page on which registering the observer throws: the setup
leaves the timeout fallback and the poll pending and no observer registered,
and after 55 timer turns the world is, up to the log, the one of the page
without the facility: the hide ran at 5000. -/
theorem observer_is_best_effort_witness :
    (setupLoadingScreen throwingStart).timers
        = [⟨5000, Callback.timeoutFallback⟩, ⟨500, Callback.checkElements⟩] ∧
      (setupLoadingScreen throwingStart).observers = 0 ∧
      forget throwingEnd = forget timeoutOnlyEnd ∧
      hideTimes throwingEnd = [5000] ∧
      observerCallback [0, 1234] throwingEnd = scheduleHideLoadingScreen throwingEnd ∧
      observerCallback [1234, 0] throwingEnd = throwingEnd := by
  have h := observer_is_best_effort throwingStart freshOverlay rfl rfl
    (List.replicate 55 Step.timer) throwingEnd [0, 1234]
  have h1 : (setupLoadingScreen throwingStart).timers
      = [⟨5000, Callback.timeoutFallback⟩, ⟨500, Callback.checkElements⟩] := h.2.2.1
  have h2 : (setupLoadingScreen throwingStart).observers = 0 := h.2.2.2.1
  have h3 : forget throwingEnd = forget timeoutOnlyEnd := by
    have hr1 : run (List.replicate 55 Step.timer) (setupLoadingScreen throwingStart)
        = some throwingEnd := by decide
    have hr2 : run (List.replicate 55 Step.timer) (setupLoadingScreen timeoutOnlyStart)
        = some timeoutOnlyEnd := by decide
    have hw : ({ throwingStart with perfObserver := ObserverSupport.absent } : World)
        = timeoutOnlyStart := rfl
    have hf := h.2.2.2.2.1
    rw [hw, hr1, hr2] at hf
    exact Option.some.inj hf
  have h4 : hideTimes throwingEnd = [5000] := by decide
  have h5 := (h.2.2.2.2.2.2.1 ⟨1234, rfl, by decide⟩).1
  have h6 : observerCallback [1234, 0] throwingEnd = throwingEnd := by decide
  exact ⟨h1, h2, h3, h4, h5, h6⟩

/-! ## The ten classes and the one parameterised controller -/

theorem iterate_congr (f g : World → World) (h : ∀ w, f w = g w) (n : Nat) (w : World) :
    Nat.iterate f n w = Nat.iterate g n w := by
  induction n generalizing w with
  | zero => rfl
  | succ n ih =>
    show Nat.iterate f n (f w) = Nat.iterate g n (g w)
    rw [h w]; exact ih (g w)

theorem runCallbackWith_eq {m : Methods} {sel : List String} (hm : Agrees m sel)
    (cb : Callback) (w : World) (hw : w.ctl.criticalElements = sel) :
    runCallbackWith m cb w = runCallback cb w := by
  cases cb with
  | timeoutFallback => exact congrArg Except.ok (hm.scheduleHideLoadingScreen w)
  | checkElements => exact congrArg Except.ok (hm.checkElements w hw)
  | hide => exact congrArg Except.ok (hm.hideLoadingScreen w)
  | detach => exact hm.fadeCallback w

theorem deliverWith_eq {m : Methods} {sel : List String} (hm : Agrees m sel)
    (e : Event) (w : World) : deliverWith m e w = deliver e w := by
  cases e with
  | load => exact iterate_congr _ _ hm.scheduleHideLoadingScreen _ _
  | domContentLoaded => exact iterate_congr _ _ hm.setupLoadingScreen _ _
  | navigationEntries entries => exact iterate_congr _ _ (hm.observerCallback entries) _ _
  | forceHide => exact hm.forceHide w
  | forceShow => exact hm.forceShow w
  | domChange r => rfl

theorem stepWith_eq {m : Methods} {sel : List String} (hm : Agrees m sel)
    (s : Step) (w : World) (hw : w.ctl.criticalElements = sel) :
    stepWith m s w = step s w := by
  cases s with
  | event t e =>
    simp only [stepWith, step, deliverWith_eq hm]
  | timer =>
    simp only [stepWith, step]
    cases earliest w.timers with
    | none => rfl
    | some tm =>
      simp only [runCallbackWith_eq hm tm.cb
        { w with now := max w.now tm.due, timers := w.timers.erase tm } hw]

theorem runWith_eq {m : Methods} {sel : List String} (hm : Agrees m sel)
    (steps : List Step) (w : World) (hw : w.ctl.criticalElements = sel) :
    runWith m steps w = run steps w := by
  induction steps generalizing w with
  | nil => rfl
  | cons s ss ih =>
    simp only [runWith, run, stepWith_eq hm s w hw]
    cases hs : step s w with
    | none => rfl
    | some w1 =>
      refine ih w1 ?_
      rw [step_consts hs]
      exact hw

theorem construct_criticalElements (cfg : Config) (p : Page) (t0 : Nat) :
    (construct cfg p t0).ctl.criticalElements = cfg.criticalElements := by
  unfold construct init
  split
  · rfl
  · rw [(ext_setupLoadingScreen _).consts]
    rfl

theorem agrees_aboutUs : Agrees AboutUsLoadingScreen.methods AboutUsLoadingScreen.criticalElements where
  scheduleHideLoadingScreen := fun _ => rfl
  checkElements := fun w hw => by
    show AboutUsLoadingScreen.checkElements w = checkElements w
    unfold AboutUsLoadingScreen.checkElements checkElements
    rw [hw]
    rfl
  hideLoadingScreen := fun _ => rfl
  fadeCallback := fun _ => rfl
  setupLoadingScreen := fun _ => rfl
  observerCallback := fun _ _ => rfl
  forceHide := fun _ => rfl
  forceShow := fun _ => rfl

theorem agrees_blog : Agrees BlogLoadingScreen.methods BlogLoadingScreen.criticalElements where
  scheduleHideLoadingScreen := fun _ => rfl
  checkElements := fun w hw => by
    show BlogLoadingScreen.checkElements w = checkElements w
    unfold BlogLoadingScreen.checkElements checkElements
    rw [hw]
    rfl
  hideLoadingScreen := fun _ => rfl
  fadeCallback := fun _ => rfl
  setupLoadingScreen := fun _ => rfl
  observerCallback := fun _ _ => rfl
  forceHide := fun _ => rfl
  forceShow := fun _ => rfl

theorem agrees_bookNow : Agrees BookNowLoadingScreen.methods BookNowLoadingScreen.criticalElements where
  scheduleHideLoadingScreen := fun _ => rfl
  checkElements := fun w hw => by
    show BookNowLoadingScreen.checkElements w = checkElements w
    unfold BookNowLoadingScreen.checkElements checkElements
    rw [hw]
    rfl
  hideLoadingScreen := fun _ => rfl
  fadeCallback := fun _ => rfl
  setupLoadingScreen := fun _ => rfl
  observerCallback := fun _ _ => rfl
  forceHide := fun _ => rfl
  forceShow := fun _ => rfl

theorem agrees_contact : Agrees ContactLoadingScreen.methods ContactLoadingScreen.criticalElements where
  scheduleHideLoadingScreen := fun _ => rfl
  checkElements := fun w hw => by
    show ContactLoadingScreen.checkElements w = checkElements w
    unfold ContactLoadingScreen.checkElements checkElements
    rw [hw]
    rfl
  hideLoadingScreen := fun _ => rfl
  fadeCallback := fun _ => rfl
  setupLoadingScreen := fun _ => rfl
  observerCallback := fun _ _ => rfl
  forceHide := fun _ => rfl
  forceShow := fun _ => rfl

theorem agrees_gallery : Agrees GalleryLoadingScreen.methods GalleryLoadingScreen.criticalElements where
  scheduleHideLoadingScreen := fun _ => rfl
  checkElements := fun w hw => by
    show GalleryLoadingScreen.checkElements w = checkElements w
    unfold GalleryLoadingScreen.checkElements checkElements
    rw [hw]
    rfl
  hideLoadingScreen := fun _ => rfl
  fadeCallback := fun _ => rfl
  setupLoadingScreen := fun _ => rfl
  observerCallback := fun _ _ => rfl
  forceHide := fun _ => rfl
  forceShow := fun _ => rfl

theorem agrees_haircut : Agrees HaircutLoadingScreen.methods HaircutLoadingScreen.criticalElements where
  scheduleHideLoadingScreen := fun _ => rfl
  checkElements := fun w hw => by
    show HaircutLoadingScreen.checkElements w = checkElements w
    unfold HaircutLoadingScreen.checkElements checkElements
    rw [hw]
    rfl
  hideLoadingScreen := fun _ => rfl
  fadeCallback := fun _ => rfl
  setupLoadingScreen := fun _ => rfl
  observerCallback := fun _ _ => rfl
  forceHide := fun _ => rfl
  forceShow := fun _ => rfl

theorem agrees_index : Agrees IndexLoadingScreen.methods IndexLoadingScreen.criticalElements where
  scheduleHideLoadingScreen := fun _ => rfl
  checkElements := fun w hw => by
    show IndexLoadingScreen.checkElements w = checkElements w
    unfold IndexLoadingScreen.checkElements checkElements
    rw [hw]
    rfl
  hideLoadingScreen := fun _ => rfl
  fadeCallback := fun _ => rfl
  setupLoadingScreen := fun _ => rfl
  observerCallback := fun _ _ => rfl
  forceHide := fun _ => rfl
  forceShow := fun _ => rfl

theorem agrees_services : Agrees ServicesLoadingScreen.methods ServicesLoadingScreen.criticalElements where
  scheduleHideLoadingScreen := fun _ => rfl
  checkElements := fun w hw => by
    show ServicesLoadingScreen.checkElements w = checkElements w
    unfold ServicesLoadingScreen.checkElements checkElements
    rw [hw]
    rfl
  hideLoadingScreen := fun _ => rfl
  fadeCallback := fun _ => rfl
  setupLoadingScreen := fun _ => rfl
  observerCallback := fun _ _ => rfl
  forceHide := fun _ => rfl
  forceShow := fun _ => rfl

theorem agrees_styling : Agrees StylingLoadingScreen.methods StylingLoadingScreen.criticalElements where
  scheduleHideLoadingScreen := fun _ => rfl
  checkElements := fun w hw => by
    show StylingLoadingScreen.checkElements w = checkElements w
    unfold StylingLoadingScreen.checkElements checkElements
    rw [hw]
    rfl
  hideLoadingScreen := fun _ => rfl
  fadeCallback := fun _ => rfl
  setupLoadingScreen := fun _ => rfl
  observerCallback := fun _ _ => rfl
  forceHide := fun _ => rfl
  forceShow := fun _ => rfl

theorem agrees_testimonial : Agrees TestimonialLoadingScreen.methods TestimonialLoadingScreen.criticalElements where
  scheduleHideLoadingScreen := fun _ => rfl
  checkElements := fun w hw => by
    show TestimonialLoadingScreen.checkElements w = checkElements w
    unfold TestimonialLoadingScreen.checkElements checkElements
    rw [hw]
    rfl
  hideLoadingScreen := fun _ => rfl
  fadeCallback := fun _ => rfl
  setupLoadingScreen := fun _ => rfl
  observerCallback := fun _ _ => rfl
  forceHide := fun _ => rfl
  forceShow := fun _ => rfl

theorem agrees_methods (c : PageClass) : Agrees c.methods c.config.criticalElements := by
  cases c
  · exact agrees_aboutUs
  · exact agrees_blog
  · exact agrees_bookNow
  · exact agrees_contact
  · exact agrees_gallery
  · exact agrees_haircut
  · exact agrees_index
  · exact agrees_services
  · exact agrees_styling
  · exact agrees_testimonial

theorem construct_eq_generic (c : PageClass) (p : Page) (t0 : Nat) :
    c.construct p t0 = construct c.config p t0 := by
  cases c <;> rfl

/-- C18 (the ten page controllers are one parameterised controller): for
each of the ten classes, embedded from its own script, for every page, clock
reading and sequence of turns of the event loop, the run of the class is the
run of the one parameterised controller at the configuration values of the
class (its three durations and its selector list): the same worlds, hence the
same overlay states, timers and records.  So what a class does depends on its
script only through these values (the log texts are not part of the world);
the about-us and index values are the configurations used above. -/
theorem controllers_are_one (c : PageClass) (p : Page) (t0 : Nat) (steps : List Step) :
    c.construct p t0 = construct c.config p t0 ∧
      runWith c.methods steps (c.construct p t0) = run steps (construct c.config p t0) ∧
      PageClass.aboutUs.config = aboutUsConfig ∧ PageClass.index.config = indexConfig := by
  refine ⟨construct_eq_generic c p t0, ?_, rfl, rfl⟩
  rw [construct_eq_generic c p t0]
  exact runWith_eq (agrees_methods c) steps _ (construct_criticalElements _ p t0)

/-- C19 (the per-page defaults): the constructor of `IndexLoadingScreen`
assigns `minLoadingTime` 2000 and `maxLoadingTime` 6000, the constructors of
the nine other classes assign 1500 and 5000, all ten assign `fadeOutDuration`
500, and in every class `minLoadingTime` is at most `maxLoadingTime`. -/
theorem per_page_defaults (c : PageClass) :
    c.new.minLoadingTime = (if c = PageClass.index then 2000 else 1500) ∧
      c.new.maxLoadingTime = (if c = PageClass.index then 6000 else 5000) ∧
      c.new.fadeOutDuration = 500 ∧
      c.new.minLoadingTime ≤ c.new.maxLoadingTime ∧
      c.new.loadingScreen = false ∧ c.new.startTime = none := by
  cases c <;> decide

end LoadingScreen

namespace BlogPagination

/-! ## Blog pagination: what `showPage` shows -/

theorem not_mem_classRemove_self (c : String) (l : List String) :
    c ∉ LoadingScreen.classRemove c l := by
  simp [LoadingScreen.classRemove]

theorem mem_toggle_iff (c : String) (force : Bool) (l : List String) :
    c ∈ toggle c force l ↔ force = true := by
  cases force
  · simp [toggle, not_mem_classRemove_self]
  · simp [toggle, LoadingScreen.mem_classAdd_self]

theorem strictEquals_iff (a : LoadingScreen.JSNum) (page : Int) :
    strictEquals a page = true ↔ a = LoadingScreen.JSNum.num page := by
  cases a <;> simp [strictEquals]

theorem showLoop_length (endIndex : Int) (fuel i : Nat) (posts : List (List String)) :
    (showLoop endIndex fuel i posts).length = posts.length := by
  induction fuel generalizing i posts with
  | zero => rfl
  | succ k ih =>
    simp only [showLoop]
    split
    · rw [ih, List.length_modify]
    · rfl

/-- The loop removes `hidden` from the posts at the indices from `i` up to
`i + fuel`, as far as they exist, and from no other. -/
theorem showLoop_getElem? (fuel i : Nat) (posts : List (List String)) (j : Nat) :
    (showLoop ((i + fuel : Nat) : Int) fuel i posts)[j]? =
      if i ≤ j ∧ j < i + fuel then (posts[j]?).map (LoadingScreen.classRemove "hidden")
      else posts[j]? := by
  induction fuel generalizing i posts with
  | zero =>
    have h0 : ¬ (i ≤ j ∧ j < i + 0) := by omega
    rw [if_neg h0]
    rfl
  | succ k ih =>
    simp only [showLoop]
    by_cases hi : i < posts.length
    · have hc : ((i : Int) < ((i + (k + 1) : Nat) : Int)) ∧ i < posts.length :=
        ⟨by omega, hi⟩
      rw [if_pos hc]
      have he : i + (k + 1) = (i + 1) + k := by omega
      rw [he, ih, List.getElem?_modify]
      by_cases hij : i = j
      · subst hij
        have h1 : ¬ (i + 1 ≤ i ∧ i < i + 1 + k) := by omega
        have h2 : i ≤ i ∧ i < i + 1 + k := ⟨le_refl _, by omega⟩
        rw [if_neg h1, if_pos h2]
        simp
      · by_cases hr : i ≤ j ∧ j < i + 1 + k
        · have h1 : i + 1 ≤ j ∧ j < i + 1 + k := ⟨by omega, hr.2⟩
          rw [if_pos h1, if_pos hr]
          simp [hij]
        · have h1 : ¬ (i + 1 ≤ j ∧ j < i + 1 + k) := by omega
          rw [if_neg h1, if_neg hr]
          simp [hij]
    · have hc : ¬ (((i : Int) < ((i + (k + 1) : Nat) : Int)) ∧ i < posts.length) :=
        fun h => hi h.2
      rw [if_neg hc]
      split
      · rename_i hr
        have : posts[j]? = none := List.getElem?_eq_none (by omega)
        simp [this]
      · rfl

/-- From page 1 on `showPage` returns, and this is the state it returns. -/
theorem showPage_of_pos (s : Pagination) (p : Nat) (hp : 1 ≤ p) :
    showPage p s = Except.ok
      { posts := showLoop ((4 * (p - 1) + 4 : Nat) : Int) 4 (4 * (p - 1))
          (s.posts.map (LoadingScreen.classAdd "hidden"))
        buttons := s.buttons.map fun btn =>
          { btn with classList := toggle "active" (strictEquals btn.dataPage p) btn.classList }
        currentPage := p } := by
  obtain ⟨k, rfl⟩ : ∃ k, p = k + 1 := ⟨p - 1, by omega⟩
  have h0 : ¬ (((k + 1 : Nat) : Int) - 1) * ((postsPerPage : Nat) : Int) < 0 := by
    simp only [postsPerPage]; push_cast; omega
  have h1 : ((((k + 1 : Nat) : Int) - 1) * ((postsPerPage : Nat) : Int)).toNat = 4 * k := by
    simp only [postsPerPage]; push_cast; omega
  have h2 : (((k + 1 : Nat) : Int) - 1) * ((postsPerPage : Nat) : Int) + ((postsPerPage : Nat) : Int)
      = ((4 * k + 4 : Nat) : Int) := by
    simp only [postsPerPage]; push_cast; omega
  simp only [showPage, if_neg h0, h1, h2]
  rfl

/-- After `showPage(p)` the post at index `i` lacks `hidden` exactly when `i`
lies in the window of page `p`. -/
theorem showPage_post (s : Pagination) (p : Nat) (hp : 1 ≤ p) (s2 : Pagination)
    (h : showPage p s = Except.ok s2) (i : Nat) (c : List String) (hc : s2.posts[i]? = some c) :
    "hidden" ∉ c ↔ 4 * (p - 1) ≤ i ∧ i < min (4 * p) s.posts.length := by
  rw [showPage_of_pos s p hp] at h
  injection h with h
  subst h
  simp only at hc
  rw [showLoop_getElem?] at hc
  have hlen : i < s.posts.length := by
    by_contra hlt
    have hn : (s.posts.map (LoadingScreen.classAdd "hidden"))[i]? = none :=
      List.getElem?_eq_none (by simp; omega)
    rw [hn] at hc
    split at hc <;> simp at hc
  have hget : (s.posts.map (LoadingScreen.classAdd "hidden"))[i]? =
      some (LoadingScreen.classAdd "hidden" (s.posts.get ⟨i, hlen⟩)) := by
    simp [List.getElem?_eq_getElem hlen]
  rw [hget] at hc
  by_cases hw : 4 * (p - 1) ≤ i ∧ i < 4 * (p - 1) + 4
  · rw [if_pos hw] at hc
    simp only [Option.map_some', Option.some.injEq] at hc
    subst hc
    constructor
    · intro _
      exact ⟨hw.1, by omega⟩
    · intro _
      exact not_mem_classRemove_self _ _
  · rw [if_neg hw] at hc
    simp only [Option.some.injEq] at hc
    subst hc
    constructor
    · intro hnot
      exact absurd (LoadingScreen.mem_classAdd_self _ _) hnot
    · intro hwin
      exact absurd ⟨hwin.1, by omega⟩ hw

/-- Every post is visible on the page `i / 4 + 1` and on no other page. -/
theorem visibleOn_iff (s : Pagination) (q i : Nat) (hq : 1 ≤ q) (hi : i < s.posts.length) :
    visibleOn s q i ↔ 4 * (q - 1) ≤ i ∧ i < min (4 * q) s.posts.length := by
  have hlen : i < (showLoop ((4 * (q - 1) + 4 : Nat) : Int) 4 (4 * (q - 1))
      (s.posts.map (LoadingScreen.classAdd "hidden"))).length := by
    rw [showLoop_length, List.length_map]
    exact hi
  constructor
  · rintro ⟨s2, c, h, hc, hn⟩
    exact (showPage_post s q hq s2 h i c hc).1 hn
  · intro hw
    refine ⟨_, _, showPage_of_pos s q hq, List.getElem?_eq_getElem hlen, ?_⟩
    exact (showPage_post s q hq _ (showPage_of_pos s q hq) i _
      (List.getElem?_eq_getElem hlen)).2 hw

/-- Claim C20: blog pagination shows exactly one page of four posts.  For
every page `p` with `1 ≤ p ≤ totalPages` (the ceiling of `n / 4` for the `n`
posts, which this forces to be at least one) `showPage(p)` returns; it keeps
the posts; the post at index `i` lacks `hidden` exactly when
`4 * (p - 1) ≤ i < min (4 * p) n`, a window that holds at least one post;
`currentPage` is `p`; a page button is `active` exactly when its `data-page`
parses to `p`; and every post is visible on exactly one page in
`1..totalPages`. -/
theorem showPage_shows_one_page (s : Pagination) (p : Nat) (hp1 : 1 ≤ p)
    (hp2 : p ≤ totalPages s) :
    (4 * (totalPages s - 1) < s.posts.length ∧ s.posts.length ≤ 4 * totalPages s) ∧
      ∃ s2, showPage p s = Except.ok s2 ∧
        s2.posts.length = s.posts.length ∧
        (∀ (i : Nat) (c : List String), s2.posts[i]? = some c →
          ("hidden" ∉ c ↔ 4 * (p - 1) ≤ i ∧ i < min (4 * p) s.posts.length)) ∧
        (∃ i, 4 * (p - 1) ≤ i ∧ i < min (4 * p) s.posts.length) ∧
        s2.currentPage = p ∧
        s2.buttons.length = s.buttons.length ∧
        (∀ (j : Nat) (btn btn2 : PageButton), s.buttons[j]? = some btn → s2.buttons[j]? = some btn2 →
          btn2.dataPage = btn.dataPage ∧
            ("active" ∈ btn2.classList ↔ btn.dataPage = LoadingScreen.JSNum.num p)) ∧
        ∀ i, i < s.posts.length →
          ∃! q, 1 ≤ q ∧ q ≤ totalPages s ∧ visibleOn s q i := by
  have ht : totalPages s = (s.posts.length + 3) / 4 := rfl
  refine ⟨by omega, _, showPage_of_pos s p hp1, ?_, ?_, ?_, rfl, ?_, ?_, ?_⟩
  · simp only [showLoop_length, List.length_map]
  · intro i c hc
    exact showPage_post s p hp1 _ (showPage_of_pos s p hp1) i c hc
  · exact ⟨4 * (p - 1), le_refl _, by omega⟩
  · simp only [List.length_map]
  · intro j btn btn2 hb hb2
    simp only [List.getElem?_map, hb, Option.map_some', Option.some.injEq] at hb2
    subst hb2
    refine ⟨rfl, ?_⟩
    simp only [mem_toggle_iff]
    exact strictEquals_iff _ _
  · intro i hi
    refine ⟨i / 4 + 1, ⟨by omega, by omega, ?_⟩, ?_⟩
    · exact (visibleOn_iff s _ i (by omega) hi).2 ⟨by omega, by omega⟩
    · rintro q ⟨hq1, _, hv⟩
      have hw := (visibleOn_iff s q i hq1 hi).1 hv
      omega

/-- Claim C20, witness: page 2 of six posts shows the posts 4 and 5. -/
theorem showPage_shows_one_page_witness :
    (1 ≤ 2 ∧ 2 ≤ totalPages sixPosts) ∧
      (4 * (totalPages sixPosts - 1) < sixPosts.posts.length ∧
        sixPosts.posts.length ≤ 4 * totalPages sixPosts) ∧
      ∃ s2, showPage (2 : Nat) sixPosts = Except.ok s2 ∧
        s2.posts.length = sixPosts.posts.length ∧
        (∀ (i : Nat) (c : List String), s2.posts[i]? = some c →
          ("hidden" ∉ c ↔ 4 * (2 - 1) ≤ i ∧ i < min (4 * 2) sixPosts.posts.length)) ∧
        (∃ i, 4 * (2 - 1) ≤ i ∧ i < min (4 * 2) sixPosts.posts.length) ∧
        s2.currentPage = (2 : Nat) ∧
        s2.buttons.length = sixPosts.buttons.length ∧
        (∀ (j : Nat) (btn btn2 : PageButton), sixPosts.buttons[j]? = some btn → s2.buttons[j]? = some btn2 →
          btn2.dataPage = btn.dataPage ∧
            ("active" ∈ btn2.classList ↔ btn.dataPage = LoadingScreen.JSNum.num (2 : Nat))) ∧
        ∀ i, i < sixPosts.posts.length →
          ∃! q, 1 ≤ q ∧ q ≤ totalPages sixPosts ∧ visibleOn sixPosts q i :=
  ⟨⟨by decide, by decide⟩, showPage_shows_one_page sixPosts 2 (by decide) (by decide)⟩

end BlogPagination

namespace PhoneFormatting

/-! ## Phone formatting -/

theorem filter_isDigit_take {d : List Char} (h : d.filter Char.isDigit = d) (n : Nat) :
    (d.take n).filter Char.isDigit = d.take n := by
  rw [List.filter_eq_self] at h ⊢
  intro c hc
  exact h c (List.mem_of_mem_take hc)

theorem filter_isDigit_drop {d : List Char} (h : d.filter Char.isDigit = d) (n : Nat) :
    (d.drop n).filter Char.isDigit = d.drop n := by
  rw [List.filter_eq_self] at h ⊢
  intro c hc
  exact h c (List.mem_of_mem_drop hc)

/-- The three slices of the handler as prefixes of suffixes. -/
theorem slice_eq (d : List Char) :
    slice d 0 3 = d.take 3 ∧ slice d 3 6 = (d.drop 3).take 3 ∧
      slice d 6 10 = (d.drop 6).take 4 ∧ sliceFrom d 3 = d.drop 3 :=
  ⟨rfl, List.drop_take 6 3 d, List.drop_take 10 6 d, rfl⟩

/-- Claim C21: phone formatting as the user types.  With `d` the digits of the
field value in their order, the handler leaves `d` when it has at most three
characters, `(` + `d[0..3)` + `) ` + `d[3..]` when it has four to six, and
`(` + `d[0..3)` + `) ` + `d[3..6)` + `-` + `d[6..10)` when it has seven or
more; the digits of the new value are the first `min |d| 10` digits of the old
one in their order. -/
theorem phone_formatting (fieldValue : List Char) :
    inputHandler fieldValue =
        (if (fieldValue.filter Char.isDigit).length ≤ 3 then fieldValue.filter Char.isDigit
        else if (fieldValue.filter Char.isDigit).length ≤ 6 then
          [ '(' ] ++ (fieldValue.filter Char.isDigit).take 3 ++ [ ')', ' ' ] ++
            (fieldValue.filter Char.isDigit).drop 3
        else
          [ '(' ] ++ (fieldValue.filter Char.isDigit).take 3 ++ [ ')', ' ' ] ++
            ((fieldValue.filter Char.isDigit).drop 3).take 3 ++ [ '-' ] ++
            ((fieldValue.filter Char.isDigit).drop 6).take 4) ∧
      (inputHandler fieldValue).filter Char.isDigit = (fieldValue.filter Char.isDigit).take 10 ∧
      ((inputHandler fieldValue).filter Char.isDigit).length
        = min (fieldValue.filter Char.isDigit).length 10 := by
  have hform : inputHandler fieldValue =
      (if (fieldValue.filter Char.isDigit).length ≤ 3 then fieldValue.filter Char.isDigit
        else if (fieldValue.filter Char.isDigit).length ≤ 6 then
          [ '(' ] ++ (fieldValue.filter Char.isDigit).take 3 ++ [ ')', ' ' ] ++
            (fieldValue.filter Char.isDigit).drop 3
        else
          [ '(' ] ++ (fieldValue.filter Char.isDigit).take 3 ++ [ ')', ' ' ] ++
            ((fieldValue.filter Char.isDigit).drop 3).take 3 ++ [ '-' ] ++
            ((fieldValue.filter Char.isDigit).drop 6).take 4) := by
    simp only [inputHandler, removeNonDigits]
    obtain ⟨h1, h2, h3, h4⟩ := slice_eq (fieldValue.filter Char.isDigit)
    rw [h1, h2, h3, h4]
  have hd : (fieldValue.filter Char.isDigit).filter Char.isDigit
      = fieldValue.filter Char.isDigit := by
    simp [List.filter_filter]
  have key : (inputHandler fieldValue).filter Char.isDigit
      = (fieldValue.filter Char.isDigit).take 10 := by
    rw [hform]
    generalize fieldValue.filter Char.isDigit = d at hd
    have hp : [ '(' ].filter Char.isDigit = [] := by decide
    have hq : [ ')', ' ' ].filter Char.isDigit = [] := by decide
    have hr : [ '-' ].filter Char.isDigit = [] := by decide
    by_cases h3 : d.length ≤ 3
    · rw [if_pos h3, hd, List.take_of_length_le (by omega)]
    · rw [if_neg h3]
      by_cases h6 : d.length ≤ 6
      · rw [if_pos h6]
        simp only [List.filter_append, hp, hq, filter_isDigit_take hd, filter_isDigit_drop hd,
          List.nil_append, List.append_nil]
        rw [List.take_append_drop, List.take_of_length_le (by omega)]
      · rw [if_neg h6]
        simp only [List.filter_append, hp, hq, hr, filter_isDigit_take hd,
          filter_isDigit_take (filter_isDigit_drop hd _), List.nil_append, List.append_nil]
        rw [List.take_add d 3 7, List.take_add (d.drop 3) 3 4, List.drop_drop, List.append_assoc]
  refine ⟨hform, key, ?_⟩
  rw [key, List.length_take]
  omega

/-- Sample runs of the handler: the digits of `+1 (555) 123-4567 ext. 89` give
`(155) 512-3456`. -/
theorem phone_formatting_example :
    inputHandler "+1 (555) 123-4567 ext. 89".data = "(155) 512-3456".data ∧
      inputHandler "12a".data = "12".data ∧ inputHandler "1234".data = "(123) 4".data := by
  decide

end PhoneFormatting

namespace BookingForm

/-! ## Booking form: the submit handler -/

/-- The only declaration of `showNotification` is out of the handler's reach. -/
theorem showNotification_unresolved :
    resolves "showNotification" Scope.submitHandler = false ∧
      resolves "showNotification" Scope.domContentLoaded = true := by
  decide

/-- Claim C22 (actual behaviour): the submit handler throws in every form
state and shows no notification.  `showNotification` is declared inside the
`DOMContentLoaded` callback only, so the name does not resolve in the handler:
whatever the fields, the services, the date and the time are, the handler
ends in an exception with the page unchanged; when the four fields it reads
exist, the exception is the ReferenceError. -/
theorem submit_handler_throws (today : String) (p : Page) (name phone email requests : String) :
    (∃ err, submitHandler today p = Except.error (err, p)) ∧
      submitHandler today
          { p with customerName := some name, customerPhone := some phone,
                   customerEmail := some email, specialRequests := some requests } =
        Except.error ("ReferenceError: showNotification is not defined",
          { p with customerName := some name, customerPhone := some phone,
                   customerEmail := some email, specialRequests := some requests }) ∧
      submitHandler today filledForm =
        Except.error ("ReferenceError: showNotification is not defined", filledForm) := by
  have hres : resolves "showNotification" Scope.submitHandler = false := by decide
  have hcall : ∀ (m t : String) (q : Page), callShowNotification Scope.submitHandler m t q
      = Except.error ("ReferenceError: showNotification is not defined", q) := by
    intro m t q
    simp [callShowNotification, hres]
  have hgen : ∀ q : Page, ∃ err, submitHandler today q = Except.error (err, q) := by
    intro q
    rcases q with ⟨n, ph, em, rq, a, b, c, d, e, f, g, h, i, j, k⟩
    cases n with
    | none => exact ⟨_, rfl⟩
    | some n =>
      cases ph with
      | none => exact ⟨_, rfl⟩
      | some ph =>
        cases em with
        | none => exact ⟨_, rfl⟩
        | some em =>
          simp only [submitHandler, valueOf, hcall, bind, Except.bind]
          split
          · exact ⟨_, rfl⟩
          · split
            · exact ⟨_, rfl⟩
            · split
              · exact ⟨_, rfl⟩
              · cases rq with
                | none => exact ⟨_, rfl⟩
                | some rq => exact ⟨_, rfl⟩
  refine ⟨hgen p, ?_, ?_⟩
  · simp only [submitHandler, valueOf, hcall, bind, Except.bind]
    split
    · rfl
    · split
      · rfl
      · split <;> rfl
  · simp only [submitHandler, valueOf, hcall, bind, Except.bind, filledForm]
    split
    · rfl
    · split
      · rfl
      · split <;> rfl

end BookingForm

namespace HaircutCarousel

/-! ## Haircut carousel: hovering does not stop the auto-scroll -/

/-- The argument the handler passes converts to handle 0. -/
theorem toInt32_func (name : String) : toInt32 (toNumber (Value.func name)) = 0 := rfl

/-- Without an interval under handle 0 the handler changes nothing. -/
theorem mouseenterHandler_eq (c : Carousel) (h : ∀ t ∈ c.intervals, 0 < t.1) :
    mouseenterHandler c = c := by
  have hf : c.intervals.filter
      (fun t => decide ((t.1 : Int) ≠ toInt32 (toNumber (Value.func "autoScroll"))))
      = c.intervals := by
    rw [List.filter_eq_self]
    intro t ht
    have := h t ht
    simp only [toInt32_func, decide_eq_true_eq]
    omega
  simp only [mouseenterHandler, clearInterval, hf]

theorem step_mouseenter {h : Nat} {c : Carousel} (hr : Running h c) :
    step c Event.mouseenter = c := by
  have hpos : ∀ t ∈ c.intervals, 0 < t.1 := by
    intro t ht
    rw [hr.intervals, List.mem_singleton] at ht
    rw [ht]
    exact hr.handle
  simp only [step, hr.listeners, Function.iterate_succ, Function.iterate_zero, Function.comp,
    id, mouseenterHandler_eq c hpos]

theorem step_elapse {h : Nat} {c : Carousel} (hr : Running h c) :
    step c Event.elapse = autoScroll c := by
  simp only [step, hr.intervals, List.foldl_cons, List.foldl_nil]

theorem running_autoScroll {h : Nat} {c : Carousel} (hr : Running h c) :
    Running h (autoScroll c) :=
  ⟨hr.handle, hr.intervals, hr.listeners⟩

theorem running_step {h : Nat} {c : Carousel} (hr : Running h c) (e : Event) :
    Running h (step c e) := by
  cases e
  · rw [step_mouseenter hr]
    exact hr
  · rw [step_elapse hr]
    exact running_autoScroll hr

theorem run_snoc (events : List Event) (e : Event) (c : Carousel) :
    run (events ++ [e]) c = step (run events c) e := by
  simp [run, List.foldl_append]

theorem running_run {h : Nat} {c : Carousel} (hr : Running h c) (events : List Event) :
    Running h (run events c) ∧
      (run events c).autoScrollCalls = c.autoScrollCalls + events.count Event.elapse ∧
      (run events c).totalItems = c.totalItems := by
  induction events using List.reverseRecOn with
  | nil => exact ⟨hr, rfl, rfl⟩
  | append_singleton l e ih =>
    obtain ⟨h1, h2, h3⟩ := ih
    rw [run_snoc]
    refine ⟨running_step h1 e, ?_, ?_⟩
    · cases e
      · rw [step_mouseenter h1, h2]
        simp [List.count_append, List.count_singleton]
      · rw [step_elapse h1]
        simp only [autoScroll, h2, List.count_append, List.count_singleton]
        simp
        omega
    · cases e
      · rw [step_mouseenter h1, h3]
      · rw [step_elapse h1]
        exact h3

theorem running_init {p : Page} {lastHandle : Nat} {c : Carousel}
    (hinit : initHaircutCarousel p lastHandle = some c) (hc : p.hasContainer = true) :
    Running (lastHandle + 1) c ∧ c.autoScrollCalls = 0 ∧ c.currentIndex = 0 ∧
      c.totalItems = p.totalItems ∧ 0 < p.totalItems := by
  simp only [initHaircutCarousel, hc, if_true] at hinit
  split at hinit
  · cases hinit
  · split at hinit
    · cases hinit
    · rename_i h0
      injection hinit with hinit
      subst hinit
      exact ⟨⟨Nat.succ_pos _, rfl, rfl⟩, rfl, rfl, rfl, Nat.pos_of_ne_zero h0⟩

/-- Claim C23 (actual behaviour): hovering does not pause the haircut
carousel.  The handler passes the function `autoScroll` to `clearInterval`,
not the handle of the interval, which the script has dropped; the function
converts to handle 0, which no interval has.  So on every page with track,
items and container, after any events and a `mouseenter` the interval is
still active: the next 3000 ms call `autoScroll` once more and move
`currentIndex` on, and over any run `autoScroll` has been called once per
3000 ms, whatever the pointer did. -/
theorem hover_does_not_pause (p : Page) (lastHandle : Nat) (c : Carousel) (events : List Event)
    (hinit : initHaircutCarousel p lastHandle = some c) (hc : p.hasContainer = true) :
    (step (run events c) Event.mouseenter).intervals
        = [(lastHandle + 1, Callback.autoScroll)] ∧
      (step (step (run events c) Event.mouseenter) Event.elapse).autoScrollCalls
        = (run events c).autoScrollCalls + 1 ∧
      (step (step (run events c) Event.mouseenter) Event.elapse).currentIndex
        = (if 2 * ((run events c).currentIndex + 1) ≥ p.totalItems then 0
          else (run events c).currentIndex + 1) ∧
      (run events c).autoScrollCalls = events.count Event.elapse := by
  obtain ⟨hr, hcalls, _, htot, _⟩ := running_init hinit hc
  obtain ⟨hrun, hcount, htot2⟩ := running_run hr events
  rw [step_mouseenter hrun, step_elapse hrun]
  refine ⟨hrun.intervals, rfl, ?_, ?_⟩
  · simp only [autoScroll, htot2, htot]
  · rw [hcount, hcalls, Nat.zero_add]

/-- Claim C23, witness: on a page with six items 3000 ms pass, the pointer
enters the container, and 3000 ms pass again; `autoScroll` runs a second time
and the index moves from 1 to 2. -/
theorem hover_does_not_pause_witness :
    (initHaircutCarousel sixItems 0 = some sixItemsStart ∧ sixItems.hasContainer = true) ∧
      (step (run [Event.elapse] sixItemsStart) Event.mouseenter).intervals
        = [(0 + 1, Callback.autoScroll)] ∧
      (step (step (run [Event.elapse] sixItemsStart) Event.mouseenter) Event.elapse).autoScrollCalls
        = (run [Event.elapse] sixItemsStart).autoScrollCalls + 1 ∧
      (step (step (run [Event.elapse] sixItemsStart) Event.mouseenter) Event.elapse).currentIndex
        = (if 2 * ((run [Event.elapse] sixItemsStart).currentIndex + 1) ≥ sixItems.totalItems
          then 0 else (run [Event.elapse] sixItemsStart).currentIndex + 1) ∧
      (run [Event.elapse] sixItemsStart).autoScrollCalls = [Event.elapse].count Event.elapse :=
  ⟨⟨by decide, by decide⟩,
    hover_does_not_pause sixItems 0 sixItemsStart [Event.elapse] (by decide) (by decide)⟩

/-- The run of the witness in numbers: the index is 1 before the pointer
enters and 2 after the next 3000 ms. -/
theorem hover_run_values :
    (run [Event.elapse] sixItemsStart).currentIndex = 1 ∧
      (run [Event.elapse, Event.mouseenter, Event.elapse] sixItemsStart).currentIndex = 2 ∧
      (run [Event.elapse, Event.mouseenter, Event.elapse] sixItemsStart).autoScrollCalls = 2 := by
  decide

end HaircutCarousel

namespace BlogPagination

/-! ## Blog pagination: the previous and next buttons stay in range -/

/-- From page 1 on `showPage` returns, keeps the posts and stands on the page
asked for. -/
theorem showPage_int (s : Pagination) (q : Int) (hq : 1 ≤ q) :
    ∃ s2, showPage q s = Except.ok s2 ∧ s2.posts.length = s.posts.length ∧ s2.currentPage = q := by
  obtain ⟨p, rfl⟩ : ∃ p : Nat, q = p := ⟨q.toNat, by omega⟩
  have hp : 1 ≤ p := by omega
  refine ⟨_, showPage_of_pos s p hp, ?_, rfl⟩
  simp only [showLoop_length, List.length_map]

theorem totalPages_eq (s : Pagination) : totalPages s = (s.posts.length + 3) / 4 := rfl

theorem inRange_handler {n : Nat} {s : Pagination} (h : InRange n s) (c : Click) :
    ∃ s2, handler c s = Except.ok s2 ∧ InRange n s2 := by
  have ht : totalPages s = (n + 3) / 4 := by rw [totalPages_eq, h.posts]
  cases c
  · simp only [handler, prevHandler]
    split
    · rename_i hgt
      obtain ⟨s2, h1, h2, h3⟩ := showPage_int s (s.currentPage - 1) (by omega)
      refine ⟨s2, h1, ⟨h2.trans h.posts, by omega, ?_⟩⟩
      have := h.high
      omega
    · exact ⟨s, rfl, h⟩
  · simp only [handler, nextHandler]
    split
    · rename_i hlt
      obtain ⟨s2, h1, h2, h3⟩ := showPage_int s (s.currentPage + 1) (by have := h.low; omega)
      refine ⟨s2, h1, ⟨h2.trans h.posts, by have := h.low; omega, ?_⟩⟩
      rw [ht] at hlt
      omega
    · exact ⟨s, rfl, h⟩

theorem inRange_clicks {n : Nat} {s : Pagination} (h : InRange n s) (cs : List Click) :
    InRange n (clicks cs s) := by
  induction cs generalizing s with
  | nil => exact h
  | cons c cs ih =>
    obtain ⟨s2, h1, h2⟩ := inRange_handler h c
    simp only [clicks, List.foldl_cons, h1, after]
    exact ih h2

/-- Claim C24: pagination stays in range under prev/next.  With `n ≥ 1` posts
and both buttons present `initBlogPagination` shows page 1; after every
sequence of clicks on the previous and next buttons `currentPage` lies
between 1 and the ceiling of `n / 4`, the posts are all there, and the
listener of either button returns without throwing; a next click at the last
page and a prev click at page 1 return the pagination as it is. -/
theorem pagination_stays_in_range (posts : List (List String)) (buttons : List PageButton)
    (cs : List Click) (hn : 1 ≤ posts.length) :
    ∃ s0, initBlogPagination posts true true buttons = some (Except.ok s0) ∧
      s0.currentPage = 1 ∧
      1 ≤ (clicks cs s0).currentPage ∧
      (clicks cs s0).currentPage ≤ ((posts.length + 3) / 4 : Nat) ∧
      (clicks cs s0).posts.length = posts.length ∧
      (∀ c, ∃ s2, handler c (clicks cs s0) = Except.ok s2) ∧
      ((clicks cs s0).currentPage = ((posts.length + 3) / 4 : Nat) →
        nextHandler (clicks cs s0) = Except.ok (clicks cs s0)) ∧
      ((clicks cs s0).currentPage = 1 →
        prevHandler (clicks cs s0) = Except.ok (clicks cs s0)) := by
  obtain ⟨s0, h1, h2, h3⟩ :=
    showPage_int { posts := posts, buttons := buttons, currentPage := 1 } 1 (le_refl _)
  have hinit : initBlogPagination posts true true buttons = some (Except.ok s0) := by
    have h0 : ¬ (posts.length = 0 ∨ true = false ∨ true = false) := by
      simp only [Bool.true_eq_false, or_false]
      omega
    simp only [initBlogPagination, if_neg h0, h1]
  have hr0 : InRange posts.length s0 := ⟨h2, by omega, by omega⟩
  have hr := inRange_clicks hr0 cs
  refine ⟨s0, hinit, h3, hr.low, hr.high, hr.posts, ?_, ?_, ?_⟩
  · intro c
    obtain ⟨s2, hs, _⟩ := inRange_handler hr c
    exact ⟨s2, hs⟩
  · intro hlast
    have hnot : ¬ (clicks cs s0).currentPage < totalPages (clicks cs s0) := by
      rw [totalPages_eq, hr.posts]
      omega
    simp only [nextHandler, if_neg hnot]
  · intro hfirst
    have hnot : ¬ (clicks cs s0).currentPage > 1 := by omega
    simp only [prevHandler, if_neg hnot]

/-- Claim C24, witness: six posts, two pages; previous, next, next, next from
page 1 end on page 2. -/
theorem pagination_stays_in_range_witness :
    1 ≤ sixRows.length ∧
      ∃ s0, initBlogPagination sixRows true true [] = some (Except.ok s0) ∧
        s0.currentPage = 1 ∧
        1 ≤ (clicks [Click.prev, Click.next, Click.next, Click.next] s0).currentPage ∧
        (clicks [Click.prev, Click.next, Click.next, Click.next] s0).currentPage
          ≤ ((sixRows.length + 3) / 4 : Nat) ∧
        (clicks [Click.prev, Click.next, Click.next, Click.next] s0).posts.length
          = sixRows.length ∧
        (∀ c, ∃ s2, handler c (clicks [Click.prev, Click.next, Click.next, Click.next] s0)
          = Except.ok s2) ∧
        ((clicks [Click.prev, Click.next, Click.next, Click.next] s0).currentPage
            = ((sixRows.length + 3) / 4 : Nat) →
          nextHandler (clicks [Click.prev, Click.next, Click.next, Click.next] s0)
            = Except.ok (clicks [Click.prev, Click.next, Click.next, Click.next] s0)) ∧
        ((clicks [Click.prev, Click.next, Click.next, Click.next] s0).currentPage = 1 →
          prevHandler (clicks [Click.prev, Click.next, Click.next, Click.next] s0)
            = Except.ok (clicks [Click.prev, Click.next, Click.next, Click.next] s0)) :=
  ⟨by decide, pagination_stays_in_range sixRows []
    [Click.prev, Click.next, Click.next, Click.next] (by decide)⟩

end BlogPagination

namespace ServiceSelection

/-! ## Service selection: the running total and the selection -/

/-- An integer of magnitude up to 2^53 is a double. -/
theorem roundToDouble_of_le {x : Int} (h : x.natAbs ≤ 2 ^ 53) : roundToDouble x = x := by
  simp only [roundToDouble, if_pos h]

theorem natAbs_intSum_le (l : List Entry) : (intSum l).natAbs ≤ absSum l := by
  induction l with
  | nil => simp [intSum, absSum]
  | cons e l ih =>
    simp only [intSum, absSum, List.map_cons, List.sum_cons] at ih ⊢
    exact Nat.le_trans (Int.natAbs_add_le _ _) (Nat.add_le_add_left ih _)

theorem sumPrices_foldl (l : List Entry) (t : Int)
    (h : ∀ e ∈ l, e.price ≠ LoadingScreen.JSNum.nan) (hb : t.natAbs + absSum l ≤ 2 ^ 53) :
    l.foldl (fun total service => addDouble total service.price)
        (LoadingScreen.JSNum.num t) = LoadingScreen.JSNum.num (t + intSum l) := by
  induction l generalizing t with
  | nil => simp [intSum]
  | cons e l ih =>
    have he : e.price ≠ LoadingScreen.JSNum.nan := h e (List.mem_cons_self _ _)
    obtain ⟨n, p⟩ := e
    cases p with
    | nan => exact absurd rfl he
    | num v =>
      have hsplit : absSum (⟨n, LoadingScreen.JSNum.num v⟩ :: l) = v.natAbs + absSum l := by
        simp [absSum, priceValue]
      rw [hsplit] at hb
      have hle : (t + v).natAbs ≤ t.natAbs + v.natAbs := Int.natAbs_add_le _ _
      have hadd : addDouble (LoadingScreen.JSNum.num t) (LoadingScreen.JSNum.num v)
          = LoadingScreen.JSNum.num (t + v) := by
        simp only [addDouble]
        rw [roundToDouble_of_le (by omega)]
      simp only [List.foldl_cons, hadd]
      rw [ih (t + v) (fun e he => h e (List.mem_cons_of_mem _ he)) (by omega)]
      simp only [intSum, List.map_cons, List.sum_cons, priceValue]
      congr 1
      omega

/-- With prices that are numbers of bounded magnitude the sum of the price
fields, added as doubles, is the integer sum. -/
theorem sumPrices_eq (l : List Entry) (h : ∀ e ∈ l, e.price ≠ LoadingScreen.JSNum.nan)
    (hb : absSum l ≤ 2 ^ 53) :
    sumPrices l = LoadingScreen.JSNum.num (intSum l) := by
  rw [sumPrices, sumPrices_foldl l 0 h (by simpa using hb), Int.zero_add]

theorem intSum_append (l : List Entry) (e : Entry) :
    intSum (l ++ [e]) = intSum l + priceValue e.price := by
  simp [intSum]

/-- Removing the one entry of a name lowers the integer sum by its price. -/
theorem intSum_filter (l : List Entry) (e : Entry) (hmem : e ∈ l)
    (hnd : (l.map Entry.name).Nodup) :
    intSum (l.filter fun service => decide (service.name ≠ e.name))
      = intSum l - priceValue e.price := by
  induction l with
  | nil => cases hmem
  | cons x l ih =>
    rw [List.map_cons, List.nodup_cons] at hnd
    obtain ⟨hx, hl⟩ := hnd
    by_cases hxe : x = e
    · subst hxe
      have hrest : (l.filter fun service => decide (service.name ≠ x.name)) = l := by
        rw [List.filter_eq_self]
        intro y hy
        simp only [decide_eq_true_eq]
        intro hname
        exact hx (List.mem_map.2 ⟨y, hy, hname⟩)
      have hhead : decide (x.name ≠ x.name) = false := by simp
      rw [List.filter_cons, hhead]
      simp only [Bool.false_eq_true, if_false]
      rw [hrest]
      simp only [intSum, List.map_cons, List.sum_cons]
      omega
    · have hmem2 : e ∈ l := by
        rcases List.mem_cons.1 hmem with h | h
        · exact absurd h.symm hxe
        · exact h
      have hne : x.name ≠ e.name := by
        intro hname
        exact hx (List.mem_map.2 ⟨e, hmem2, hname.symm⟩)
      have hhead : decide (x.name ≠ e.name) = true := by simp [hne]
      rw [List.filter_cons, hhead]
      simp only [if_true]
      have := ih hmem2 hl
      simp only [intSum, List.map_cons, List.sum_cons] at this ⊢
      omega

theorem absSum_append (l : List Entry) (e : Entry) :
    absSum (l ++ [e]) = absSum l + (priceValue e.price).natAbs := by
  simp [absSum]

/-- Removing the one entry of a name lowers the sum of the absolute prices by
its absolute price. -/
theorem absSum_filter (l : List Entry) (e : Entry) (hmem : e ∈ l)
    (hnd : (l.map Entry.name).Nodup) :
    absSum (l.filter fun service => decide (service.name ≠ e.name))
      + (priceValue e.price).natAbs = absSum l := by
  induction l with
  | nil => cases hmem
  | cons x l ih =>
    rw [List.map_cons, List.nodup_cons] at hnd
    obtain ⟨hx, hl⟩ := hnd
    by_cases hxe : x = e
    · subst hxe
      have hrest : (l.filter fun service => decide (service.name ≠ x.name)) = l := by
        rw [List.filter_eq_self]
        intro y hy
        simp only [decide_eq_true_eq]
        intro hname
        exact hx (List.mem_map.2 ⟨y, hy, hname⟩)
      have hhead : decide (x.name ≠ x.name) = false := by simp
      rw [List.filter_cons, hhead]
      simp only [Bool.false_eq_true, if_false]
      rw [hrest]
      simp only [absSum, List.map_cons, List.sum_cons]
      omega
    · have hmem2 : e ∈ l := by
        rcases List.mem_cons.1 hmem with h | h
        · exact absurd h.symm hxe
        · exact h
      have hne : x.name ≠ e.name := by
        intro hname
        exact hx (List.mem_map.2 ⟨e, hmem2, hname.symm⟩)
      have hhead : decide (x.name ≠ e.name) = true := by simp [hne]
      rw [List.filter_cons, hhead]
      simp only [if_true]
      have := ih hmem2 hl
      simp only [absSum, List.map_cons, List.sum_cons] at this ⊢
      omega

/-- Flipping a checkbox moves its absolute price into or out of the sum over
the checked checkboxes. -/
theorem checkedAbs_modify (l : List Checkbox) (i : Nat) (o : Checkbox) (ho : l[i]? = some o) :
    (o.checked = false →
        checkedAbs (l.modify Checkbox.flip i) = checkedAbs l + (priceValue o.dataPrice).natAbs) ∧
      (o.checked = true →
        checkedAbs (l.modify Checkbox.flip i) + (priceValue o.dataPrice).natAbs
          = checkedAbs l) := by
  induction l generalizing i with
  | nil => cases ho
  | cons x l ih =>
    cases i with
    | zero =>
      simp only [List.getElem?_cons_zero, Option.some.injEq] at ho
      subst ho
      rw [List.modify_zero_cons]
      constructor
      · intro hc
        simp only [checkedAbs, List.map_cons, List.sum_cons, Checkbox.flip, hc]
        simp
        omega
      · intro hc
        simp only [checkedAbs, List.map_cons, List.sum_cons, Checkbox.flip, hc]
        simp
        omega
    | succ n =>
      simp only [List.getElem?_cons_succ] at ho
      obtain ⟨h1, h2⟩ := ih n ho
      rw [List.modify_succ_cons]
      constructor
      · intro hc
        have := h1 hc
        simp only [checkedAbs, List.map_cons, List.sum_cons] at this ⊢
        omega
      · intro hc
        have := h2 hc
        simp only [checkedAbs, List.map_cons, List.sum_cons] at this ⊢
        omega

theorem priceBound_modify (l : List Checkbox) (i : Nat) :
    priceBound (l.modify Checkbox.flip i) = priceBound l := by
  induction l generalizing i with
  | nil => simp
  | cons x l ih =>
    cases i with
    | zero =>
      rw [List.modify_zero_cons]
      simp only [priceBound, List.map_cons, List.sum_cons, Checkbox.flip]
    | succ n =>
      rw [List.modify_succ_cons]
      have := ih n
      simp only [priceBound, List.map_cons, List.sum_cons] at this ⊢
      omega

theorem checkedAbs_le (l : List Checkbox) : checkedAbs l ≤ priceBound l := by
  induction l with
  | nil => simp [checkedAbs, priceBound]
  | cons x l ih =>
    simp only [checkedAbs, priceBound, List.map_cons, List.sum_cons] at ih ⊢
    by_cases hx : x.checked = true
    · rw [if_pos hx]
      omega
    · rw [if_neg hx]
      omega

theorem updateBookingSummary_fields (s : Selection) :
    (updateBookingSummary s).serviceOptions = s.serviceOptions ∧
      (updateBookingSummary s).selectedServices = s.selectedServices ∧
      (updateBookingSummary s).totalPrice = s.totalPrice :=
  ⟨rfl, rfl, rfl⟩

theorem consistent_updateBookingSummary {s : Selection} (h : Consistent s) :
    Consistent (updateBookingSummary s) :=
  ⟨h.distinct, h.numeric, h.checkedIn, h.inChecked, h.nodup, h.total, h.linkAbs, h.bound⟩

theorem getElem?_modify_ne (l : List Checkbox) {i j : Nat} (hij : i ≠ j) :
    (l.modify Checkbox.flip i)[j]? = l[j]? := by
  rw [List.getElem?_modify]
  cases l[j]? <;> simp [hij]

theorem getElem?_modify_self (l : List Checkbox) {i : Nat} {o : Checkbox} (ho : l[i]? = some o) :
    (l.modify Checkbox.flip i)[i]? = some o.flip := by
  rw [List.getElem?_modify, ho]
  simp

theorem getElem?_modify_flip (l : List Checkbox) (i j : Nat) (a : Checkbox)
    (h : (l.modify Checkbox.flip i)[j]? = some a) :
    (i = j ∧ ∃ o, l[j]? = some o ∧ a = o.flip) ∨ (i ≠ j ∧ l[j]? = some a) := by
  by_cases hij : i = j
  · subst hij
    cases ho : l[i]? with
    | none =>
      rw [List.getElem?_modify, ho] at h
      cases h
    | some o =>
      rw [getElem?_modify_self l ho] at h
      injection h with h
      exact Or.inl ⟨rfl, o, rfl, h.symm⟩
  · rw [getElem?_modify_ne l hij] at h
    exact Or.inr ⟨hij, h⟩

/-- Checking a box that was unchecked keeps the selection consistent. -/
theorem consistent_check {s : Selection} (h : Consistent s) {i : Nat} {o : Checkbox}
    (ho : s.serviceOptions[i]? = some o) (hc : o.checked = false) :
    Consistent { s with
      serviceOptions := s.serviceOptions.modify Checkbox.flip i
      selectedServices := s.selectedServices ++ [⟨o.value, o.dataPrice⟩]
      totalPrice := addDouble s.totalPrice o.dataPrice } := by
  have hfresh : ∀ e ∈ s.selectedServices, e.name ≠ o.value := by
    intro e he hname
    obtain ⟨j, a, hja, hca, rfl⟩ := h.inChecked e he
    have hji : j = i := h.distinct j i a o hja ho hname
    subst hji
    rw [ho] at hja
    injection hja with hja
    subst hja
    rw [hc] at hca
    cases hca
  have hlink : absSum (s.selectedServices ++ [⟨o.value, o.dataPrice⟩])
      = checkedAbs (s.serviceOptions.modify Checkbox.flip i) := by
    rw [absSum_append, (checkedAbs_modify _ i o ho).1 hc, h.linkAbs]
  have hbound : priceBound (s.serviceOptions.modify Checkbox.flip i) ≤ 2 ^ 53 := by
    rw [priceBound_modify]
    exact h.bound
  refine ⟨?_, ?_, ?_, ?_, ?_, ?_, hlink, hbound⟩
  · intro j k a b hja hkb hab
    simp only at hja hkb
    have va : ∃ a0, s.serviceOptions[j]? = some a0 ∧ a0.value = a.value := by
      rcases getElem?_modify_flip _ i j a hja with ⟨_, o1, h1, rfl⟩ | ⟨_, h1⟩
      · exact ⟨o1, h1, rfl⟩
      · exact ⟨a, h1, rfl⟩
    have vb : ∃ b0, s.serviceOptions[k]? = some b0 ∧ b0.value = b.value := by
      rcases getElem?_modify_flip _ i k b hkb with ⟨_, o1, h1, rfl⟩ | ⟨_, h1⟩
      · exact ⟨o1, h1, rfl⟩
      · exact ⟨b, h1, rfl⟩
    obtain ⟨a0, ha0, hva⟩ := va
    obtain ⟨b0, hb0, hvb⟩ := vb
    exact h.distinct j k a0 b0 ha0 hb0 (by rw [hva, hvb, hab])
  · intro j a hja
    simp only at hja
    rcases getElem?_modify_flip _ i j a hja with ⟨_, o1, h1, rfl⟩ | ⟨_, h1⟩
    · exact h.numeric j o1 h1
    · exact h.numeric j a h1
  · intro j a hja hca
    simp only at hja ⊢
    rcases getElem?_modify_flip _ i j a hja with ⟨hij, o1, h1, rfl⟩ | ⟨_, h1⟩
    · subst hij
      rw [ho] at h1
      injection h1 with h1
      subst h1
      exact List.mem_append_right _ (List.mem_singleton.2 rfl)
    · exact List.mem_append_left _ (h.checkedIn j a h1 hca)
  · intro e he
    simp only at he ⊢
    rcases List.mem_append.1 he with he | he
    · obtain ⟨j, a, hja, hca, rfl⟩ := h.inChecked e he
      have hji : i ≠ j := by
        intro hij
        subst hij
        rw [ho] at hja
        injection hja with hja
        subst hja
        rw [hc] at hca
        cases hca
      exact ⟨j, a, by rw [getElem?_modify_ne _ hji]; exact hja, hca, rfl⟩
    · rw [List.mem_singleton] at he
      subst he
      refine ⟨i, o.flip, getElem?_modify_self _ ho, ?_, rfl⟩
      simp [Checkbox.flip, hc]
  · simp only [List.map_append, List.map_cons, List.map_nil]
    rw [List.nodup_append]
    refine ⟨h.nodup, List.nodup_singleton _, ?_⟩
    intro x hx hx2
    rw [List.mem_singleton] at hx2
    obtain ⟨e, he, hname⟩ := List.mem_map.1 hx
    exact hfresh e he (hname.trans hx2)
  · simp only
    have hsmall : (intSum (s.selectedServices ++ [⟨o.value, o.dataPrice⟩])).natAbs ≤ 2 ^ 53 :=
      Nat.le_trans (natAbs_intSum_le _)
        (Nat.le_trans (Nat.le_of_eq hlink) (Nat.le_trans (checkedAbs_le _) hbound))
    rw [h.total]
    rw [intSum_append] at hsmall ⊢
    have hnum := h.numeric i o ho
    cases hp : o.dataPrice with
    | nan => exact absurd hp hnum
    | num v =>
      rw [hp] at hsmall
      simp only [priceValue] at hsmall ⊢
      simp only [addDouble]
      rw [roundToDouble_of_le hsmall]

/-- Unchecking a box that was checked keeps the selection consistent. -/
theorem consistent_uncheck {s : Selection} (h : Consistent s) {i : Nat} {o : Checkbox}
    (ho : s.serviceOptions[i]? = some o) (hc : o.checked = true) :
    Consistent { s with
      serviceOptions := s.serviceOptions.modify Checkbox.flip i
      selectedServices := s.selectedServices.filter fun service => decide (service.name ≠ o.value)
      totalPrice := subDouble s.totalPrice o.dataPrice } := by
  have hmem0 := h.checkedIn i o ho hc
  have habs := absSum_filter s.selectedServices ⟨o.value, o.dataPrice⟩ hmem0 h.nodup
  simp only at habs
  have hlink : absSum (s.selectedServices.filter fun service => decide (service.name ≠ o.value))
      = checkedAbs (s.serviceOptions.modify Checkbox.flip i) := by
    have h2 := (checkedAbs_modify _ i o ho).2 hc
    have h3 := h.linkAbs
    omega
  have hbound : priceBound (s.serviceOptions.modify Checkbox.flip i) ≤ 2 ^ 53 := by
    rw [priceBound_modify]
    exact h.bound
  refine ⟨?_, ?_, ?_, ?_, ?_, ?_, hlink, hbound⟩
  · intro j k a b hja hkb hab
    simp only at hja hkb
    have va : ∃ a0, s.serviceOptions[j]? = some a0 ∧ a0.value = a.value := by
      rcases getElem?_modify_flip _ i j a hja with ⟨_, o1, h1, rfl⟩ | ⟨_, h1⟩
      · exact ⟨o1, h1, rfl⟩
      · exact ⟨a, h1, rfl⟩
    have vb : ∃ b0, s.serviceOptions[k]? = some b0 ∧ b0.value = b.value := by
      rcases getElem?_modify_flip _ i k b hkb with ⟨_, o1, h1, rfl⟩ | ⟨_, h1⟩
      · exact ⟨o1, h1, rfl⟩
      · exact ⟨b, h1, rfl⟩
    obtain ⟨a0, ha0, hva⟩ := va
    obtain ⟨b0, hb0, hvb⟩ := vb
    exact h.distinct j k a0 b0 ha0 hb0 (by rw [hva, hvb, hab])
  · intro j a hja
    simp only at hja
    rcases getElem?_modify_flip _ i j a hja with ⟨_, o1, h1, rfl⟩ | ⟨_, h1⟩
    · exact h.numeric j o1 h1
    · exact h.numeric j a h1
  · intro j a hja hca
    simp only at hja ⊢
    rcases getElem?_modify_flip _ i j a hja with ⟨hij, o1, h1, rfl⟩ | ⟨hij, h1⟩
    · subst hij
      rw [ho] at h1
      injection h1 with h1
      subst h1
      simp [Checkbox.flip, hc] at hca
    · rw [List.mem_filter]
      refine ⟨h.checkedIn j a h1 hca, ?_⟩
      simp only [decide_eq_true_eq]
      intro hname
      exact hij (h.distinct j i a o h1 ho hname).symm
  · intro e he
    simp only at he ⊢
    rw [List.mem_filter] at he
    obtain ⟨he, hname⟩ := he
    simp only [decide_eq_true_eq] at hname
    obtain ⟨j, a, hja, hca, rfl⟩ := h.inChecked e he
    have hji : i ≠ j := by
      intro hij
      subst hij
      rw [ho] at hja
      injection hja with hja
      subst hja
      exact hname rfl
    exact ⟨j, a, by rw [getElem?_modify_ne _ hji]; exact hja, hca, rfl⟩
  · exact List.Nodup.sublist (List.Sublist.map _ (List.filter_sublist _)) h.nodup
  · simp only
    have hsum := intSum_filter s.selectedServices ⟨o.value, o.dataPrice⟩ hmem0 h.nodup
    simp only at hsum
    have hsmall : (intSum (s.selectedServices.filter
        fun service => decide (service.name ≠ o.value))).natAbs ≤ 2 ^ 53 :=
      Nat.le_trans (natAbs_intSum_le _)
        (Nat.le_trans (Nat.le_of_eq hlink) (Nat.le_trans (checkedAbs_le _) hbound))
    rw [h.total]
    rw [hsum] at hsmall ⊢
    have hnum := h.numeric i o ho
    cases hp : o.dataPrice with
    | nan => exact absurd hp hnum
    | num v =>
      rw [hp] at hsmall
      simp only [priceValue] at hsmall ⊢
      simp only [subDouble]
      rw [roundToDouble_of_le hsmall]

/-- Every `change` event keeps the selection consistent. -/
theorem consistent_change {s : Selection} (h : Consistent s) (i : Nat) :
    Consistent (change s i) := by
  simp only [change]
  cases ho : s.serviceOptions[i]? with
  | none => exact h
  | some o =>
    simp only [changeHandler]
    cases hc : o.checked with
    | false =>
      have hf : o.flip.checked = true := by simp [Checkbox.flip, hc]
      rw [if_pos hf]
      exact consistent_updateBookingSummary (@consistent_check s h i o ho hc)
    | true =>
      have hf : ¬ o.flip.checked = true := by simp [Checkbox.flip, hc]
      rw [if_neg hf]
      exact consistent_updateBookingSummary (@consistent_uncheck s h i o ho hc)

theorem consistent_changes {s : Selection} (h : Consistent s) (events : List Nat) :
    Consistent (changes events s) := by
  induction events generalizing s with
  | nil => exact h
  | cons i l ih => exact ih (consistent_change h i)

theorem change_values (s : Selection) (i : Nat) :
    (change s i).serviceOptions.map Checkbox.value = s.serviceOptions.map Checkbox.value ∧
      (change s i).serviceOptions.map Checkbox.dataPrice
        = s.serviceOptions.map Checkbox.dataPrice := by
  simp only [change]
  cases ho : s.serviceOptions[i]? with
  | none => exact ⟨rfl, rfl⟩
  | some o =>
    have hopts : (changeHandler o.flip
        { s with serviceOptions := s.serviceOptions.modify Checkbox.flip i }).serviceOptions
        = s.serviceOptions.modify Checkbox.flip i := by
      simp only [changeHandler]
      split <;> rfl
    simp only [hopts]
    constructor
    · apply List.ext_getElem?
      intro j
      simp only [List.getElem?_map, List.getElem?_modify]
      cases s.serviceOptions[j]? with
      | none => rfl
      | some a => by_cases hij : i = j <;> simp [hij, Checkbox.flip]
    · apply List.ext_getElem?
      intro j
      simp only [List.getElem?_map, List.getElem?_modify]
      cases s.serviceOptions[j]? with
      | none => rfl
      | some a => by_cases hij : i = j <;> simp [hij, Checkbox.flip]

theorem changes_values (events : List Nat) (s : Selection) :
    (changes events s).serviceOptions.map Checkbox.value = s.serviceOptions.map Checkbox.value ∧
      (changes events s).serviceOptions.map Checkbox.dataPrice
        = s.serviceOptions.map Checkbox.dataPrice := by
  induction events generalizing s with
  | nil => exact ⟨rfl, rfl⟩
  | cons i l ih =>
    obtain ⟨h1, h2⟩ := ih (s := change s i)
    obtain ⟨h3, h4⟩ := change_values s i
    exact ⟨h1.trans h3, h2.trans h4⟩

/-- A fresh selection over unchecked boxes with distinct values and prices
that are numbers is consistent. -/
theorem consistent_init (options : List Checkbox) (span1 span2 span3 : Option String)
    (hd : (options.map Checkbox.value).Nodup) (hu : ∀ o ∈ options, o.checked = false)
    (hp : ∀ o ∈ options, o.dataPrice ≠ LoadingScreen.JSNum.nan)
    (hb : priceBound options ≤ 2 ^ 53) :
    Consistent
      { serviceOptions := options, selectedServices := [],
        totalPrice := LoadingScreen.JSNum.num 0, selectedDateTime := none,
        selectedServicesSpan := span1, selectedDateTimeSpan := span2,
        totalPriceSpan := span3 } := by
  have hzero : checkedAbs options = 0 := by
    have hall : ∀ l : List Checkbox, (∀ o ∈ l, o.checked = false) → checkedAbs l = 0 := by
      intro l
      induction l with
      | nil => intro _; rfl
      | cons x l ih =>
        intro hl
        have hx := hl x (List.mem_cons_self _ _)
        have := ih (fun o ho => hl o (List.mem_cons_of_mem _ ho))
        simp only [checkedAbs, List.map_cons, List.sum_cons, hx] at this ⊢
        simpa using this
    exact hall options hu
  refine ⟨?_, ?_, ?_, ?_, List.nodup_nil, rfl, by rw [hzero]; rfl, hb⟩
  · intro j k a b hja hkb hab
    simp only at hja hkb
    by_contra hjk
    have hlt : j < k ∨ k < j := by omega
    have hj : (options.map Checkbox.value)[j]? = some a.value := by
      rw [List.getElem?_map, hja]; rfl
    have hk : (options.map Checkbox.value)[k]? = some b.value := by
      rw [List.getElem?_map, hkb]; rfl
    have hklen : k < (options.map Checkbox.value).length :=
      (List.getElem?_eq_some.1 hk).1
    have hjlen : j < (options.map Checkbox.value).length :=
      (List.getElem?_eq_some.1 hj).1
    rcases hlt with hlt | hlt
    · exact List.nodup_iff_getElem?_ne_getElem?.1 hd j k hlt hklen (by rw [hj, hk, hab])
    · exact List.nodup_iff_getElem?_ne_getElem?.1 hd k j hlt hjlen (by rw [hj, hk, hab])
  · intro j a hja
    exact hp a (List.getElem?_mem hja)
  · intro j a hja hca
    have := hu a (List.getElem?_mem hja)
    rw [this] at hca
    cases hca
  · intro e he
    cases he

/-- Claim C25 as stated fails on four pages.  Two checkboxes with the same
value: after checking both and unchecking the first the selection is empty,
the second box is still checked and the total is its price, 70.  A checkbox
that is checked when the script starts: unchecking it leaves an empty
selection and the total -50.  A checkbox without a usable price: after
checking and unchecking it the selection is empty and the total is NaN.  Two
services with the prices 2^53 and 1: after checking both the total is the
double 2^53, and after unchecking the first the selection holds the second
service, whose price is 1, and the total is 0. -/
theorem total_drifts_from_selection :
    ((initServiceSelection twinOptions none none none).map (changes [0, 1, 0])).map
        (fun s => (s.selectedServices, s.totalPrice, s.serviceOptions.map Checkbox.checked))
        = some ([], LoadingScreen.JSNum.num 70, [false, true]) ∧
      ((initServiceSelection restoredOptions none none none).map (changes [0])).map
        (fun s => (s.selectedServices, s.totalPrice, s.serviceOptions.map Checkbox.checked))
        = some ([], LoadingScreen.JSNum.num (-50), [false]) ∧
      ((initServiceSelection unpricedOptions none none none).map (changes [0, 0])).map
        (fun s => (s.selectedServices, s.totalPrice, s.serviceOptions.map Checkbox.checked))
        = some ([], LoadingScreen.JSNum.nan, [false]) ∧
      sumPrices [] = LoadingScreen.JSNum.num 0 ∧
      ((initServiceSelection largeOptions none none none).map (changes [0, 1])).map
        (fun s => (s.selectedServices.map Entry.price, s.totalPrice))
        = some ([LoadingScreen.JSNum.num 9007199254740992, LoadingScreen.JSNum.num 1],
            LoadingScreen.JSNum.num 9007199254740992) ∧
      ((initServiceSelection largeOptions none none none).map (changes [0, 1, 0])).map
        (fun s => (s.selectedServices, s.totalPrice, s.serviceOptions.map Checkbox.checked))
        = some ([⟨"royal-shave", LoadingScreen.JSNum.num 1⟩], LoadingScreen.JSNum.num 0,
            [false, true]) ∧
      sumPrices [⟨"royal-shave", LoadingScreen.JSNum.num 1⟩] = LoadingScreen.JSNum.num 1 := by
  decide

/-- Claim C25, amended: on a page whose service checkboxes have pairwise
distinct values and prices that parse to numbers whose absolute values sum to
at most 2^53, and are all unchecked when `initServiceSelection` runs, after
every sequence of `change` events `totalPrice` is the sum of the `price`
fields of the entries in `selectedServices` (as `reduce` adds them, and as
integers), a checkbox is checked exactly when its entry (its value with its
price) is in `selectedServices`, every entry belongs to a checked checkbox,
and the checkboxes keep their values and prices. -/
theorem total_matches_selection (options : List Checkbox) (span1 span2 span3 : Option String)
    (events : List Nat) (hne : options ≠ [])
    (hd : (options.map Checkbox.value).Nodup) (hu : ∀ o ∈ options, o.checked = false)
    (hp : ∀ o ∈ options, o.dataPrice ≠ LoadingScreen.JSNum.nan)
    (hb : priceBound options ≤ 2 ^ 53) :
    ∃ s0, initServiceSelection options span1 span2 span3 = some s0 ∧
      (changes events s0).totalPrice = sumPrices (changes events s0).selectedServices ∧
      (changes events s0).totalPrice
        = LoadingScreen.JSNum.num (intSum (changes events s0).selectedServices) ∧
      (∀ o ∈ (changes events s0).serviceOptions,
        o.checked = true ↔ (⟨o.value, o.dataPrice⟩ : Entry) ∈ (changes events s0).selectedServices) ∧
      (∀ e ∈ (changes events s0).selectedServices,
        ∃ o ∈ (changes events s0).serviceOptions, o.checked = true ∧ e = ⟨o.value, o.dataPrice⟩) ∧
      (changes events s0).serviceOptions.map Checkbox.value = options.map Checkbox.value ∧
      (changes events s0).serviceOptions.map Checkbox.dataPrice
        = options.map Checkbox.dataPrice := by
  have hlen : ¬ options.length = 0 := fun h => hne (List.length_eq_zero.1 h)
  refine ⟨{ serviceOptions := options, selectedServices := [],
            totalPrice := LoadingScreen.JSNum.num 0, selectedDateTime := none,
            selectedServicesSpan := span1, selectedDateTimeSpan := span2,
            totalPriceSpan := span3 },
    by simp only [initServiceSelection, if_neg hlen], ?_⟩
  have hc := consistent_changes (consistent_init options span1 span2 span3 hd hu hp hb) events
  have hv := changes_values events
    { serviceOptions := options, selectedServices := [],
      totalPrice := LoadingScreen.JSNum.num 0, selectedDateTime := none,
      selectedServicesSpan := span1, selectedDateTimeSpan := span2, totalPriceSpan := span3 }
  generalize changes events _ = s at hc hv ⊢
  have hnum : ∀ e ∈ s.selectedServices, e.price ≠ LoadingScreen.JSNum.nan := by
    intro e he
    obtain ⟨j, a, hja, _, rfl⟩ := hc.inChecked e he
    exact hc.numeric j a hja
  have habs : absSum s.selectedServices ≤ 2 ^ 53 :=
    Nat.le_trans (Nat.le_of_eq hc.linkAbs) (Nat.le_trans (checkedAbs_le _) hc.bound)
  refine ⟨?_, hc.total, ?_, ?_, hv.1, hv.2⟩
  · rw [hc.total, sumPrices_eq _ hnum habs]
  · intro o ho
    obtain ⟨k, hk⟩ := List.getElem?_of_mem ho
    constructor
    · exact hc.checkedIn k o hk
    · intro hmem
      obtain ⟨j, a, hja, hca, hea⟩ := hc.inChecked _ hmem
      injection hea with hval _
      have hjk : k = j := hc.distinct k j o a hk hja hval
      subst hjk
      rw [hk] at hja
      injection hja with hja
      rw [hja]
      exact hca
  · intro e he
    obtain ⟨j, a, hja, hca, hea⟩ := hc.inChecked e he
    exact ⟨a, List.getElem?_mem hja, hca, hea⟩

/-- Claim C25, amended, witness: three services; after checking the first,
the third and the second and unchecking the first the rule holds. -/
theorem total_matches_selection_witness :
    (threeOptions ≠ [] ∧ (threeOptions.map Checkbox.value).Nodup ∧
        (∀ o ∈ threeOptions, o.checked = false) ∧
        (∀ o ∈ threeOptions, o.dataPrice ≠ LoadingScreen.JSNum.nan) ∧
        priceBound threeOptions ≤ 2 ^ 53) ∧
      ∃ s0, initServiceSelection threeOptions none none none = some s0 ∧
        (changes [0, 2, 1, 0] s0).totalPrice
          = sumPrices (changes [0, 2, 1, 0] s0).selectedServices ∧
        (changes [0, 2, 1, 0] s0).totalPrice
          = LoadingScreen.JSNum.num (intSum (changes [0, 2, 1, 0] s0).selectedServices) ∧
        (∀ o ∈ (changes [0, 2, 1, 0] s0).serviceOptions,
          o.checked = true ↔
            (⟨o.value, o.dataPrice⟩ : Entry) ∈ (changes [0, 2, 1, 0] s0).selectedServices) ∧
        (∀ e ∈ (changes [0, 2, 1, 0] s0).selectedServices,
          ∃ o ∈ (changes [0, 2, 1, 0] s0).serviceOptions,
            o.checked = true ∧ e = ⟨o.value, o.dataPrice⟩) ∧
        (changes [0, 2, 1, 0] s0).serviceOptions.map Checkbox.value
          = threeOptions.map Checkbox.value ∧
        (changes [0, 2, 1, 0] s0).serviceOptions.map Checkbox.dataPrice
          = threeOptions.map Checkbox.dataPrice :=
  ⟨⟨by decide, by decide, by decide, by decide, by decide⟩,
    total_matches_selection threeOptions none none none [0, 2, 1, 0]
      (by decide) (by decide) (by decide) (by decide) (by decide)⟩

end ServiceSelection

namespace Lightbox

/-! ## Lightbox: navigation is a cyclic walk -/

/-- Function `updateLightboxImage` touches neither the index nor the images,
whether it returns or throws. -/
theorem after_updateLightboxImage (s : State) :
    (after (updateLightboxImage s)).currentImageIndex = s.currentImageIndex ∧
      (after (updateLightboxImage s)).images = s.images := by
  simp only [updateLightboxImage]
  cases imageAt s.images s.currentImageIndex with
  | none => exact ⟨rfl, rfl⟩
  | some image =>
    cases h1 : s.lightboxLoading with
    | none => exact ⟨rfl, rfl⟩
    | some c1 =>
      cases h2 : s.lightboxImage with
      | none => exact ⟨rfl, rfl⟩
      | some c2 =>
        cases h3 : s.currentNumber with
        | none => exact ⟨rfl, rfl⟩
        | some c3 =>
          cases h4 : s.totalNumber with
          | none => exact ⟨rfl, rfl⟩
          | some c4 => exact ⟨rfl, rfl⟩

/-- From an index `i` within `n ≥ 1` images `nextImage` goes to
`(i + 1) mod n`. -/
theorem after_nextImage (s : State) (i : Nat) (hi : s.currentImageIndex = LoadingScreen.JSNum.num i)
    (hlt : i < s.images.length) :
    (after (nextImage s)).currentImageIndex
        = LoadingScreen.JSNum.num (((i + 1) % s.images.length : Nat) : Int) ∧
      (after (nextImage s)).images = s.images := by
  simp only [nextImage]
  refine ⟨?_, (after_updateLightboxImage _).2⟩
  rw [(after_updateLightboxImage _).1]
  simp only [hi, LoadingScreen.JSNum.add, jsMod]
  have hn : ¬ ((s.images.length : Nat) : Int) = 0 := by omega
  rw [if_neg hn]
  congr 1

/-- From an index `i` within `n ≥ 1` images `prevImage` goes to
`(i - 1 + n) mod n`. -/
theorem after_prevImage (s : State) (i : Nat) (hi : s.currentImageIndex = LoadingScreen.JSNum.num i)
    (hlt : i < s.images.length) :
    (after (prevImage s)).currentImageIndex
        = LoadingScreen.JSNum.num (((i + s.images.length - 1) % s.images.length : Nat) : Int) ∧
      (after (prevImage s)).images = s.images := by
  simp only [prevImage]
  refine ⟨?_, (after_updateLightboxImage _).2⟩
  rw [(after_updateLightboxImage _).1]
  simp only [hi, LoadingScreen.JSNum.add, LoadingScreen.JSNum.sub, jsMod]
  have hn : ¬ ((s.images.length : Nat) : Int) = 0 := by omega
  rw [if_neg hn]
  congr 1
  have hcast : ((i : Int) - 1 + (s.images.length : Nat)) = ((i + s.images.length - 1 : Nat) : Int) := by
    omega
  rw [hcast]
  rfl

theorem succ_mod_eq (i n : Nat) (h : i < n) :
    (i + 1) % n = if i + 1 = n then 0 else i + 1 := by
  split
  · rename_i he
    rw [he, Nat.mod_self]
  · exact Nat.mod_eq_of_lt (by omega)

theorem pred_mod_eq (i n : Nat) (h : i < n) :
    (i + n - 1) % n = if i = 0 then n - 1 else i - 1 := by
  split
  · rename_i he
    subst he
    rw [Nat.zero_add]
    exact Nat.mod_eq_of_lt (by omega)
  · have he : i + n - 1 = (i - 1) + n := by omega
    rw [he, Nat.add_mod_right]
    exact Nat.mod_eq_of_lt (by omega)

/-- After `k` calls of `nextImage` the index is `(i + k) mod n`. -/
theorem iterate_nextImage (k : Nat) (s : State) (i : Nat)
    (hi : s.currentImageIndex = LoadingScreen.JSNum.num i) (hlt : i < s.images.length) :
    (Nat.iterate (fun x => after (nextImage x)) k s).currentImageIndex
        = LoadingScreen.JSNum.num (((i + k) % s.images.length : Nat) : Int) ∧
      (Nat.iterate (fun x => after (nextImage x)) k s).images = s.images := by
  induction k generalizing s i with
  | zero =>
    simp only [Function.iterate_zero, id, Nat.add_zero]
    rw [Nat.mod_eq_of_lt hlt]
    exact ⟨hi, trivial⟩
  | succ k ih =>
    obtain ⟨h1, h2⟩ := after_nextImage s i hi hlt
    rw [Function.iterate_succ_apply]
    have hlt2 : (i + 1) % s.images.length < (after (nextImage s)).images.length := by
      rw [h2]
      exact Nat.mod_lt _ (by omega)
    obtain ⟨h3, h4⟩ := ih (after (nextImage s)) ((i + 1) % s.images.length) h1 hlt2
    rw [h3, h4, h2]
    refine ⟨?_, rfl⟩
    congr 2
    rw [Nat.mod_add_mod]
    congr 1
    omega

/-- Claim C26: lightbox navigation is a cyclic walk.  With `n ≥ 1` images and
the index `i` in `[0, n)`, `nextImage()` leaves the index `(i + 1) mod n` and
`prevImage()` leaves `(i - 1 + n) mod n`, whether or not the redraw that
follows throws; both lie in `[0, n)`; `prevImage` after `nextImage` and
`nextImage` after `prevImage` give `i` back, and so do `n` calls of
`nextImage`. -/
theorem lightbox_cyclic_walk (s : State) (i : Nat)
    (hi : s.currentImageIndex = LoadingScreen.JSNum.num i) (hlt : i < s.images.length) :
    (after (nextImage s)).currentImageIndex
        = LoadingScreen.JSNum.num (((i : Int) + 1) % (s.images.length : Nat)) ∧
      (after (prevImage s)).currentImageIndex
        = LoadingScreen.JSNum.num (((i : Int) - 1 + (s.images.length : Nat))
            % (s.images.length : Nat)) ∧
      (0 ≤ ((i : Int) + 1) % (s.images.length : Nat) ∧
        ((i : Int) + 1) % (s.images.length : Nat) < (s.images.length : Nat)) ∧
      (0 ≤ ((i : Int) - 1 + (s.images.length : Nat)) % (s.images.length : Nat) ∧
        ((i : Int) - 1 + (s.images.length : Nat)) % (s.images.length : Nat)
          < (s.images.length : Nat)) ∧
      (after (prevImage (after (nextImage s)))).currentImageIndex = LoadingScreen.JSNum.num i ∧
      (after (nextImage (after (prevImage s)))).currentImageIndex = LoadingScreen.JSNum.num i ∧
      (Nat.iterate (fun x => after (nextImage x)) s.images.length s).currentImageIndex
        = LoadingScreen.JSNum.num i := by
  have hn : (0 : Int) < (s.images.length : Nat) := by omega
  obtain ⟨hnext, hnimg⟩ := after_nextImage s i hi hlt
  obtain ⟨hprev, hpimg⟩ := after_prevImage s i hi hlt
  have hnlt : (i + 1) % s.images.length < s.images.length := Nat.mod_lt _ (by omega)
  have hplt : (i + s.images.length - 1) % s.images.length < s.images.length :=
    Nat.mod_lt _ (by omega)
  have c1 : ((i : Int) + 1) % (s.images.length : Nat)
      = (((i + 1) % s.images.length : Nat) : Int) := by
    push_cast
    rfl
  have c2 : ((i : Int) - 1 + (s.images.length : Nat)) % (s.images.length : Nat)
      = (((i + s.images.length - 1) % s.images.length : Nat) : Int) := by
    have : ((i : Int) - 1 + (s.images.length : Nat)) = ((i + s.images.length - 1 : Nat) : Int) := by
      omega
    rw [this]
    rfl
  refine ⟨by rw [c1]; exact hnext, by rw [c2]; exact hprev,
    ⟨Int.emod_nonneg _ (by omega), Int.emod_lt_of_pos _ hn⟩,
    ⟨Int.emod_nonneg _ (by omega), Int.emod_lt_of_pos _ hn⟩, ?_, ?_, ?_⟩
  · obtain ⟨h, _⟩ := after_prevImage (after (nextImage s)) ((i + 1) % s.images.length) hnext
      (by rw [hnimg]; exact hnlt)
    rw [h, hnimg]
    congr 2
    rw [succ_mod_eq i _ hlt]
    split
    · rename_i he
      rw [Nat.zero_add]
      have : s.images.length - 1 = i := by omega
      rw [this]
      exact Nat.mod_eq_of_lt hlt
    · have he : i + 1 + s.images.length - 1 = i + s.images.length := by omega
      rw [he, Nat.add_mod_right]
      exact Nat.mod_eq_of_lt hlt
  · obtain ⟨h, _⟩ := after_nextImage (after (prevImage s))
      ((i + s.images.length - 1) % s.images.length) hprev (by rw [hpimg]; exact hplt)
    rw [h, hpimg]
    congr 2
    rw [pred_mod_eq i _ hlt]
    split
    · rename_i he
      subst he
      have : s.images.length - 1 + 1 = s.images.length := by omega
      rw [this, Nat.mod_self]
    · have he : i - 1 + 1 = i := by omega
      rw [he]
      exact Nat.mod_eq_of_lt hlt
  · rw [(iterate_nextImage s.images.length s i hi hlt).1, Nat.add_mod_right,
      Nat.mod_eq_of_lt hlt]

/-- Claim C26, witness: three images, the lightbox on the last one; next
wraps to the first, previous goes to the second, and each undoes the other. -/
theorem lightbox_cyclic_walk_witness :
    (onLastImage.currentImageIndex = LoadingScreen.JSNum.num (2 : Nat) ∧
        2 < onLastImage.images.length) ∧
      (after (nextImage onLastImage)).currentImageIndex = LoadingScreen.JSNum.num 0 ∧
      (after (prevImage onLastImage)).currentImageIndex = LoadingScreen.JSNum.num 1 ∧
      (after (prevImage (after (nextImage onLastImage)))).currentImageIndex
        = LoadingScreen.JSNum.num 2 ∧
      (after (nextImage (after (prevImage onLastImage)))).currentImageIndex
        = LoadingScreen.JSNum.num 2 ∧
      (Nat.iterate (fun x => after (nextImage x)) 3 onLastImage).currentImageIndex
        = LoadingScreen.JSNum.num 2 :=
  have h := lightbox_cyclic_walk onLastImage 2 rfl (by decide)
  ⟨⟨rfl, by decide⟩, h.1, h.2.1, h.2.2.2.2.1, h.2.2.2.2.2.1, h.2.2.2.2.2.2⟩

end Lightbox

namespace TimeFormat

/-! ## Time formatting: the 12-hour clock -/

theorem split_of_not_mem (sep : Char) (a : List Char) (h : sep ∉ a) : split sep a = [a] := by
  induction a with
  | nil => rfl
  | cons c cs ih =>
    have hc : ¬ c = sep := fun he => h (he ▸ List.mem_cons_self _ _)
    have hcs : sep ∉ cs := fun hm => h (List.mem_cons_of_mem _ hm)
    simp only [split, if_neg hc, ih hcs]

theorem split_append_sep (sep : Char) (a b : List Char) (h : sep ∉ a) :
    split sep (a ++ sep :: b) = a :: split sep b := by
  induction a with
  | nil => simp only [List.nil_append, split, if_true]
  | cons c cs ih =>
    have hc : ¬ c = sep := fun he => h (he ▸ List.mem_cons_self _ _)
    have hcs : sep ∉ cs := fun hm => h (List.mem_cons_of_mem _ hm)
    rw [List.cons_append]
    simp only [split, if_neg hc]
    rw [ih hcs]

/-- A text of the form `a:b` with no further colon splits into `a` and `b`. -/
theorem split_colon (a b : List Char) (ha : ':' ∉ a) (hb : ':' ∉ b) :
    split ':' (a ++ ':' :: b) = [a, b] := by
  rw [split_append_sep _ _ _ ha, split_of_not_mem _ _ hb]

/-- The facts about the 24 hours that are settled by evaluation: what
`parseInt` reads from the two digits, what the handler computes from that
number, and that neither the digits nor the display hour nor the suffix hold
a colon. -/
theorem hours_table : ∀ hh < 24,
    parseInt (twoDigits hh) = LoadingScreen.JSNum.num hh ∧ ':' ∉ twoDigits hh ∧
      ':' ∉ (toString (hour12 hh)).data ∧ ':' ∉ suffix hh ∧ (suffix hh).length = 2 ∧
      (if jsGe (LoadingScreen.JSNum.num hh) (LoadingScreen.JSNum.num 12) then "PM".data
        else "AM".data) = suffix hh ∧
      numberText (jsOr (jsMod (LoadingScreen.JSNum.num hh) (LoadingScreen.JSNum.num 12))
        (LoadingScreen.JSNum.num 12)) = (toString (hour12 hh)).data := by
  decide

/-- The display hour and the suffix together determine the hour. -/
theorem hour12_suffix_injective : ∀ a < 24, ∀ b < 24,
    (toString (hour12 a)).data = (toString (hour12 b)).data → suffix a = suffix b → a = b := by
  decide

/-- What `formatTime` returns for the hour `hh` and the minutes text `mm`. -/
theorem formatTime_eq (hh : Nat) (mm : List Char) (hh23 : hh ≤ 23) (hmm : ':' ∉ mm) :
    formatTime (twoDigits hh ++ ':' :: mm)
      = (toString (hour12 hh)).data ++ ':' :: (mm ++ ' ' :: suffix hh) := by
  obtain ⟨hparse, hcolon, _, _, _, hsuf, htext⟩ := hours_table hh (by omega)
  simp only [formatTime, split_colon _ _ hcolon hmm]
  simp only [List.getElem?_cons_zero, List.getElem?_cons_succ, stringText, hparse, hsuf, htext]
  simp

/-- Claim C27: 12-hour time conversion.  For the time string `HH:MM` with
`0 ≤ HH ≤ 23` (two digits, then a colon, then a minutes text without colon)
`formatTime` returns `h:MM` and a blank and `AM` or `PM`, with the minutes
text unchanged, `AM` exactly when `HH < 12`, `h = 12` when `HH` is 0 or 12 and
`h = HH mod 12` otherwise, so `1 ≤ h ≤ 12`; and two such time strings with the
same result have the same hour and the same minutes text. -/
theorem formatTime_twelve_hour (hh : Nat) (mm : List Char) (hh23 : hh ≤ 23) (hmm : ':' ∉ mm) :
    formatTime (twoDigits hh ++ ':' :: mm)
        = (toString (hour12 hh)).data ++ ":".data ++ mm ++ " ".data ++ suffix hh ∧
      (suffix hh = "AM".data ↔ hh < 12) ∧ (suffix hh = "PM".data ↔ 12 ≤ hh) ∧
      hour12 hh = (if hh = 0 ∨ hh = 12 then 12 else hh % 12) ∧
      1 ≤ hour12 hh ∧ hour12 hh ≤ 12 ∧
      ∀ (hh2 : Nat) (mm2 : List Char), hh2 ≤ 23 → ':' ∉ mm2 →
        formatTime (twoDigits hh2 ++ ':' :: mm2) = formatTime (twoDigits hh ++ ':' :: mm) →
        hh2 = hh ∧ mm2 = mm := by
  have hAP : "AM".data ≠ "PM".data := by decide
  refine ⟨?_, ?_, ?_, ?_, ?_, ?_, ?_⟩
  · rw [formatTime_eq hh mm hh23 hmm]
    simp
  · simp only [suffix]
    split
    · rename_i h; exact ⟨fun _ => h, fun _ => rfl⟩
    · rename_i h; exact ⟨fun he => absurd he.symm hAP, fun hl => absurd hl h⟩
  · simp only [suffix]
    split
    · rename_i h; exact ⟨fun he => absurd he hAP, fun hl => by omega⟩
    · rename_i h; exact ⟨fun _ => by omega, fun _ => rfl⟩
  · simp only [hour12]
    split <;> split <;> omega
  · simp only [hour12]
    split <;> omega
  · simp only [hour12]
    split <;> omega
  · intro hh2 mm2 h2 hmm2 heq
    rw [formatTime_eq hh mm hh23 hmm, formatTime_eq hh2 mm2 h2 hmm2] at heq
    obtain ⟨_, _, hc1, hs1, hl1, _, _⟩ := hours_table hh (by omega)
    obtain ⟨_, _, hc2, hs2, hl2, _, _⟩ := hours_table hh2 (by omega)
    have hr1 : ':' ∉ mm ++ ' ' :: suffix hh := by
      simp only [List.mem_append, List.mem_cons, not_or]
      exact ⟨hmm, by decide, hs1⟩
    have hr2 : ':' ∉ mm2 ++ ' ' :: suffix hh2 := by
      simp only [List.mem_append, List.mem_cons, not_or]
      exact ⟨hmm2, by decide, hs2⟩
    have hsplit := congrArg (split ':') heq
    rw [split_colon _ _ hc2 hr2, split_colon _ _ hc1 hr1] at hsplit
    injection hsplit with hhead htail
    injection htail with htail _
    have hlen : mm2.length = mm.length := by
      have := congrArg List.length htail
      simp only [List.length_append, List.length_cons, hl1, hl2] at this
      omega
    obtain ⟨hm, hrest⟩ := List.append_inj htail hlen
    injection hrest with _ hsuf
    exact ⟨hour12_suffix_injective hh2 (by omega) hh (by omega) hhead hsuf, hm⟩

/-- Claim C27, witness: `14:30` becomes `2:30 PM`. -/
theorem formatTime_twelve_hour_witness :
    (14 ≤ 23 ∧ ':' ∉ "30".data) ∧
      formatTime (twoDigits 14 ++ ':' :: "30".data)
        = (toString (hour12 14)).data ++ ":".data ++ "30".data ++ " ".data ++ suffix 14 ∧
      (suffix 14 = "AM".data ↔ 14 < 12) ∧ (suffix 14 = "PM".data ↔ 12 ≤ 14) ∧
      hour12 14 = (if 14 = 0 ∨ 14 = 12 then 12 else 14 % 12) ∧
      1 ≤ hour12 14 ∧ hour12 14 ≤ 12 ∧
      ∀ (hh2 : Nat) (mm2 : List Char), hh2 ≤ 23 → ':' ∉ mm2 →
        formatTime (twoDigits hh2 ++ ':' :: mm2) = formatTime (twoDigits 14 ++ ':' :: "30".data) →
        hh2 = 14 ∧ mm2 = "30".data :=
  ⟨⟨by decide, by decide⟩, formatTime_twelve_hour 14 "30".data (by decide) (by decide)⟩

/-- Sample values of `formatTime`. -/
theorem formatTime_samples :
    formatTime "14:30".data = "2:30 PM".data ∧ formatTime "00:05".data = "12:05 AM".data ∧
      formatTime "12:00".data = "12:00 PM".data ∧ formatTime "09:15".data = "9:15 AM".data ∧
      twoDigits 14 ++ ':' :: "30".data = "14:30".data := by
  decide

end TimeFormat

namespace ScriptInit

/-! ## Initialisation of `script.js`: a page without lightbox -/

theorem mem_forEach {p : Page} {selector : String} {effects : List Effect} {e : Effect}
    (h : e ∈ forEach p selector effects) : e ∈ effects := by
  simp only [forEach, List.mem_flatten, List.mem_replicate] at h
  obtain ⟨l, ⟨_, rfl⟩, he⟩ := h
  exact he

/-- Up to `Close on overlay click` the callback logs nothing and touches
neither the hero video nor the trending carousel, and it registers no
listener with `toggleBackToTopButton`. -/
theorem beforeOverlayClick_free (p : Page) (e : Effect) (h : e ∈ beforeOverlayClick p) :
    (∀ m, e ≠ Effect.log m) ∧
      (∀ ev hd, e ≠ Effect.listener ".hero-video" ev hd) ∧
      (∀ m, e ≠ Effect.call ".hero-video" m) ∧
      (∀ ev hd, e ≠ Effect.listener ".trending-carousel" ev hd) ∧
      (∀ t ev, e ≠ Effect.listener t ev "toggleBackToTopButton") := by
  simp only [beforeOverlayClick, List.mem_append] at h
  rcases h with ((((((h | h) | h) | h) | h) | h) | h) | h
  · simp only [mobileNav] at h
    split at h
    · simp only [List.mem_append, List.mem_singleton] at h
      rcases h with ((h | h) | h) | h
      · subst h; simp
      · split at h
        · rw [List.mem_singleton] at h; subst h; simp
        · cases h
      · have := mem_forEach h
        rw [List.mem_singleton] at this; subst this; simp
      · subst h; simp
    · cases h
  · have := mem_forEach h
    rw [List.mem_singleton] at this; subst this; simp
  · simp only [stickyNavbar, List.mem_append, List.mem_cons, List.mem_singleton,
      List.not_mem_nil, or_false] at h
    rcases h with (h | h) | h
    · subst h; simp
    · subst h; simp
    · split at h
      · rw [List.mem_singleton] at h; subst h; simp
      · cases h
  · simp only [stickyToggle] at h
    split at h
    · simp only [List.mem_cons, List.mem_singleton, List.not_mem_nil, or_false] at h
      rcases h with h | h <;> subst h <;> simp
    · cases h
  · simp only [scrollAnimations, List.mem_append] at h
    rcases h with (h | h) | h
    · have := mem_forEach h
      simp only [List.mem_cons, List.mem_singleton, List.not_mem_nil, or_false] at this
      rcases this with h | h | h | h <;> subst h <;> simp
    · have := mem_forEach h
      rw [List.mem_singleton] at this; subst this; simp
    · have := mem_forEach h
      rw [List.mem_singleton] at this; subst this; simp
  · simp only [bookingForm] at h
    split at h
    · rw [List.mem_singleton] at h; subst h; simp
    · cases h
  · simp only [statsObserver] at h
    split at h
    · rw [List.mem_singleton] at h; subst h; simp
    · cases h
  · simp only [lightboxButtons, List.mem_append] at h
    rcases h with ((h | h) | h) | h
    · have := mem_forEach h
      rw [List.mem_singleton] at this; subst this; simp
    · split at h
      · rw [List.mem_singleton] at h; subst h; simp
      · cases h
    · split at h
      · rw [List.mem_singleton] at h; subst h; simp
      · cases h
    · split at h
      · rw [List.mem_singleton] at h; subst h; simp
      · cases h

/-- On a page with `#lightbox` the callback returns, with the sections after
`Close on overlay click` among its effects. -/
theorem init_completes_with_lightbox (p : Page) (h : p.has "#lightbox" = true) :
    domContentLoaded p = Except.ok
      (beforeOverlayClick p ++ [Effect.listener "#lightbox" "click" ""] ++ afterOverlayClick p) := by
  simp only [domContentLoaded, overlayClick, h, if_true]

/-- Claim C28 (actual behaviour): on a page without `#lightbox` the
`DOMContentLoaded` callback of `script.js` does not run to completion.  The
statement `lightbox.addEventListener('click', ...)` throws a TypeError, and
what the callback has done by then holds no log line, no listener or call on
the hero video, no listener on the trending carousel and no listener with
`toggleBackToTopButton`: the hero video, the trending carousel and the
back-to-top button, which logs one of its two lines on every page it is
reached on, are never set up. -/
theorem init_aborts_without_lightbox (p : Page) (h : p.has "#lightbox" = false) :
    domContentLoaded p = Except.error ("TypeError: lightbox is null", beforeOverlayClick p) ∧
      (∀ m, Effect.log m ∉ effectsOf (domContentLoaded p)) ∧
      (∀ ev hd, Effect.listener ".hero-video" ev hd ∉ effectsOf (domContentLoaded p)) ∧
      (∀ m, Effect.call ".hero-video" m ∉ effectsOf (domContentLoaded p)) ∧
      (∀ ev hd, Effect.listener ".trending-carousel" ev hd ∉ effectsOf (domContentLoaded p)) ∧
      (∀ t ev, Effect.listener t ev "toggleBackToTopButton" ∉ effectsOf (domContentLoaded p)) ∧
      (∃ m, Effect.log m ∈ backToTop p) := by
  have hrun : domContentLoaded p
      = Except.error ("TypeError: lightbox is null", beforeOverlayClick p) := by
    simp [domContentLoaded, overlayClick, h]
  have heff : effectsOf (domContentLoaded p) = beforeOverlayClick p := by
    rw [hrun]
    rfl
  rw [heff]
  refine ⟨hrun, ?_, ?_, ?_, ?_, ?_, ?_⟩
  · exact fun m hm => (beforeOverlayClick_free p _ hm).1 m rfl
  · exact fun ev hd hm => (beforeOverlayClick_free p _ hm).2.1 ev hd rfl
  · exact fun m hm => (beforeOverlayClick_free p _ hm).2.2.1 m rfl
  · exact fun ev hd hm => (beforeOverlayClick_free p _ hm).2.2.2.1 ev hd rfl
  · exact fun t ev hm => (beforeOverlayClick_free p _ hm).2.2.2.2 t ev rfl
  · simp only [backToTop]
    split
    · exact ⟨_, List.mem_cons_self _ _⟩
    · exact ⟨_, List.mem_cons_self _ _⟩

/-- Claim C28, witness: the home page has hero video, trending carousel and
back-to-top button but no lightbox; the callback throws before it reaches
them. -/
theorem init_aborts_without_lightbox_witness :
    (homePage.has "#lightbox" = false ∧ homePage.has ".hero-video" = true ∧
        homePage.has ".trending-carousel" = true ∧ homePage.has "#back-to-top" = true) ∧
      domContentLoaded homePage
        = Except.error ("TypeError: lightbox is null", beforeOverlayClick homePage) ∧
      (∀ m, Effect.log m ∉ effectsOf (domContentLoaded homePage)) ∧
      (∀ ev hd, Effect.listener ".hero-video" ev hd ∉ effectsOf (domContentLoaded homePage)) ∧
      (∀ m, Effect.call ".hero-video" m ∉ effectsOf (domContentLoaded homePage)) ∧
      (∀ ev hd,
        Effect.listener ".trending-carousel" ev hd ∉ effectsOf (domContentLoaded homePage)) ∧
      (∀ t ev,
        Effect.listener t ev "toggleBackToTopButton" ∉ effectsOf (domContentLoaded homePage)) ∧
      (∃ m, Effect.log m ∈ backToTop homePage) :=
  ⟨⟨by decide, by decide, by decide, by decide⟩,
    init_aborts_without_lightbox homePage (by decide)⟩

/-- The gallery page, which has the lightbox, is set up to the end: the
callback returns and its last effects are those of the back-to-top button. -/
theorem galleryPage_completes :
    (domContentLoaded galleryPage).toOption.map (fun effects => effects.drop 28)
      = some [Effect.log "Back to top button found, initializing...",
          Effect.listener "window" "scroll" "toggleBackToTopButton",
          Effect.call "#back-to-top" "classList"] := by
  decide

end ScriptInit
